import Mathlib

/-!
# Initialisation and queue life cycle of the NVMe miniport driver (nvmeInit.c)

A shallow embedding of the routines of `nvmeInit.c` whose behaviour the
specification describes, followed by the theorems that settle each statement
of the specification against the embedded code.

Conventions of the embedding

* C integers are natural numbers; where the C type truncates (a cast, an
  assignment to a narrower variable, an increment of a narrow field) the
  truncation is written out with `USHORT`, `UCHAR` or `ULONG`.
* Tables that the driver reaches through a pointer (`pCoreTbl`, `pMsiMsgTbl`,
  `pSubQueueInfo`, the command entries of a queue, a completion ring) are
  lists; `p + i` is index `i` of the list.  A store outside the list is
  dropped and a load outside the list yields the zeroed entry, so every
  theorem that relies on such an access states the bound as a hypothesis.
* Services of the platform (pool and contiguous allocation, address
  translation, NUMA and MSI queries) are explicit arguments.
-/

namespace NvmeInit

/-! ## Machine integers and build constants -/

/-- Truncation to the 8-bit `UCHAR`. -/
def UCHAR (x : Nat) : Nat := x % 256

/-- Truncation to the 16-bit `USHORT`. -/
def USHORT (x : Nat) : Nat := x % 65536

/-- Truncation to the 32-bit `ULONG`. -/
def ULONG (x : Nat) : Nat := x % 4294967296

/-- The C operator `!` on an integer. -/
def lnot (x : Nat) : Nat := if x = 0 then 1 else 0

/-- Host page size of the Windows x86/x64 builds. -/
def PAGE_SIZE : Nat := 4096

/-- Value of `sizeof(NVMe_COMMAND)`, a submission queue entry. -/
def sizeof_NVMe_COMMAND : Nat := 64

/-- Value of `sizeof(NVMe_COMPLETION_QUEUE_ENTRY)`. -/
def sizeof_NVMe_COMPLETION_QUEUE_ENTRY : Nat := 16

/-- Value of `sizeof(KAFFINITY) * 8`, the width of an affinity mask, on the
64-bit build. -/
def MaxNumCoresInGroup : Nat := 64

/-- Modelled from the spec: PAGE_ALIGN_BUF_PTR is a macro of a header that is
not among the sources; it rounds an address up to the next multiple of the
page size (an aligned address is kept). -/
def PAGE_ALIGN_BUF_PTR (p : Nat) : Nat :=
  if p % PAGE_SIZE = 0 then p else (p / PAGE_SIZE + 1) * PAGE_SIZE

/-- Status codes of the storage port that the routines return. -/
inductive STOR_STATUS where
  | STOR_STATUS_SUCCESS
  | STOR_STATUS_UNSUCCESSFUL
  | STOR_STATUS_INVALID_PARAMETER
  | STOR_STATUS_INSUFFICIENT_RESOURCES
  deriving DecidableEq, Repr

open STOR_STATUS

/-- Interrupt kinds recorded in the resource mapping table. -/
inductive INT_TYPE where
  | INT_TYPE_NONE
  | INT_TYPE_INTX
  | INT_TYPE_MSI
  | INT_TYPE_MSIX
  deriving DecidableEq, Repr

open INT_TYPE

/-- States of the start state machine. -/
inductive DRIVER_STATE where
  | NVMeWaitOnRDY
  | NVMeWaitOnIdentifyCtrl
  | NVMeWaitOnIdentifyNS
  | NVMeWaitOnSetFeatures
  | NVMeWaitOnSetupQueues
  | NVMeWaitOnAER
  | NVMeWaitOnIoCQ
  | NVMeWaitOnIoSQ
  | NVMeWaitOnLearnMapping
  | NVMeWaitOnReSetupQueues
  | NVMeStartComplete
  | NVMeShutdown
  | NVMeStateFailed
  deriving DecidableEq, Repr

open DRIVER_STATE

/-! ## Data model -/

/-- Processor group and affinity mask of a NUMA node. -/
structure GROUP_AFFINITY where
  Mask : Nat := 0
  Group : Nat := 0
  deriving DecidableEq, Repr

/-- One entry of the NUMA node table. -/
structure NUMA_NODE_TBL where
  GroupAffinity : GROUP_AFFINITY := {}
  NumCores : Nat := 0
  FirstCoreNum : Nat := 0
  LastCoreNum : Nat := 0
  deriving DecidableEq, Repr

/-- One entry of the core table. -/
structure CORE_TBL where
  CoreNum : Nat := 0
  NumaNode : Nat := 0
  Group : Nat := 0
  SubQueue : Nat := 0
  CplQueue : Nat := 0
  MsiMsgID : Nat := 0
  deriving DecidableEq, Repr

/-- One entry of the MSI message table. -/
structure MSI_MESSAGE_TBL where
  MsgID : Nat := 0
  Addr : Nat := 0
  Data : Nat := 0
  CoreNum : Nat := 0
  CplQueueNum : Nat := 0
  Shared : Bool := false
  deriving DecidableEq, Repr

/-- Answer of the platform to a query for one MSI message. -/
structure MESSAGE_INTERRUPT_INFORMATION where
  MessageId : Nat := 0
  MessageAddress : Nat := 0
  MessageData : Nat := 0
  deriving DecidableEq, Repr

/-- The resource mapping table: topology, interrupt kind and the three
cross-reference tables. -/
structure RES_MAPPING_TBL where
  InterruptType : INT_TYPE := INT_TYPE_NONE
  NumMsiMsgGranted : Nat := 0
  NumNumaNodes : Nat := 0
  NumActiveCores : Nat := 0
  pNumaNodeTbl : List NUMA_NODE_TBL := []
  pMsiMsgTbl : List MSI_MESSAGE_TBL := []
  pCoreTbl : List CORE_TBL := []
  deriving DecidableEq, Repr

/-- The command information handed to the caller of NVMeGetCmdEntry. -/
structure CMD_INFO where
  CmdID : Nat := 0
  pPRPList : Nat := 0
  prpListPhyAddr : Nat := 0
  deriving DecidableEq, Repr

/-- One command slot.  The list linkage of the slot is carried by the free
list of its queue. -/
structure CMD_ENTRY where
  Pending : Bool := false
  Context : Nat := 0
  CmdInfo : CMD_INFO := {}
  deriving DecidableEq, Repr

/-- Bookkeeping of one submission queue.  `CmdEntries` is the content of the
array at `pCmdEntry`; `FreeQList` lists, head first, the indices of the
command slots linked into the free list. -/
structure SUB_QUEUE_INFO where
  SubQEntries : Nat := 0
  SubQueueID : Nat := 0
  FreeSubQEntries : Nat := 0
  pSubTDBL : Nat := 0
  Requests : Nat := 0
  SubQTailPtr : Nat := 0
  SubQHeadPtr : Nat := 0
  Shared : Bool := false
  CplQueueID : Nat := 0
  pQueueAlloc : Nat := 0
  QueueAllocSize : Nat := 0
  pSubQStart : Nat := 0
  SubQStart : Nat := 0
  NumPRPListOnePage : Nat := 0
  pPRPListAlloc : Nat := 0
  PRPListAllocSize : Nat := 0
  pPRPListStart : Nat := 0
  PRPListStart : Nat := 0
  pCmdEntry : Nat := 0
  CmdEntries : List CMD_ENTRY := []
  FreeQList : List Nat := []
  deriving DecidableEq, Repr

/-- The fields of a completion queue entry that the driver reads. -/
structure NVMe_COMPLETION_QUEUE_ENTRY where
  DW0 : Nat := 0
  SQHD : Nat := 0
  SQID : Nat := 0
  CID : Nat := 0
  P : Nat := 0
  SC : Nat := 0
  SCT : Nat := 0
  deriving DecidableEq, Repr

/-- Bookkeeping of one completion queue.  `Ring` is the content of the ring at
`pCplQStart`, which the controller writes. -/
structure CPL_QUEUE_INFO where
  CplQueueID : Nat := 0
  CplQEntries : Nat := 0
  pCplHDBL : Nat := 0
  Completions : Nat := 0
  CurPhaseTag : Nat := 0
  CplQHeadPtr : Nat := 0
  Shared : Bool := false
  MsiMsgID : Nat := 0
  pCplQStart : Nat := 0
  CplQStart : Nat := 0
  Ring : List NVMe_COMPLETION_QUEUE_ENTRY := []
  deriving DecidableEq, Repr

/-- The queue set and its counters. -/
structure QUEUE_INFO where
  NumSubIoQAllocFromAdapter : Nat := 0
  NumCplIoQAllocFromAdapter : Nat := 0
  NumSubIoQAllocated : Nat := 0
  NumCplIoQAllocated : Nat := 0
  NumSubIoQCreated : Nat := 0
  NumCplIoQCreated : Nat := 0
  NumIoQEntriesAllocated : Nat := 0
  NumAdQEntriesAllocated : Nat := 0
  pSubQueueInfo : List SUB_QUEUE_INFO := []
  pCplQueueInfo : List CPL_QUEUE_INFO := []
  deriving DecidableEq, Repr


/-- Visibility verdict of NVMeSetFeaturesCompletion for a namespace. -/
inductive NS_VISBILITY where
  | IGNORED
  | VISIBLE
  | HIDDEN
  deriving DecidableEq, Repr

/-- Slot status of a namespace entry; the zeroed entry is FREE. -/
inductive LUN_SLOT_STATUS where
  | FREE
  | ONLINE
  deriving DecidableEq, Repr

/-- The fields of a namespace entry (LUN extension) that the initialisation
code writes. -/
structure NVME_LUN_EXTENSION where
  namespaceId : Nat := 0
  NSZE : Nat := 0
  slotStatus : LUN_SLOT_STATUS := LUN_SLOT_STATUS.FREE
  ReadOnly : Bool := false
  deriving DecidableEq, Repr

/-- First LBA range entry as found in the data buffer of the state machine
(`RangeType` is the field `Type`). -/
structure LBA_RANGE_TYPE_ENTRY where
  RangeType : Nat := 0
  Overwriteable : Nat := 0
  Hidden : Nat := 0
  NLB : Nat := 0
  deriving DecidableEq, Repr

/-- Bookkeeping of the start state machine (`pAE->DriverState`).
`pDataBuffer` is the content of the scratch data buffer, read as an LBA range
entry. -/
structure START_STATE where
  NextDriverState : DRIVER_STATE := NVMeWaitOnRDY
  StateChkCount : Nat := 0
  DriverErrorStatus : Nat := 0
  TtlLbaRangeExamined : Nat := 0
  IdentifyNamespaceFetched : Nat := 0
  VisibleNamespacesExamined : Nat := 0
  NumAERsIssued : Nat := 0
  InterruptCoalescingSet : Bool := false
  ConfigLbaRangeNeeded : Bool := false
  CurrentNsid : Nat := 0
  pDataBuffer : LBA_RANGE_TYPE_ENTRY := {}
  deriving DecidableEq, Repr

/-- Tunables loaded from the registry. -/
structure INIT_INFO where
  Namespaces : Nat := 0
  MaxTxSize : Nat := 0
  AdQEntries : Nat := 0
  IoQEntries : Nat := 0
  IntCoalescingTime : Nat := 0
  IntCoalescingEntry : Nat := 0
  deriving DecidableEq, Repr

/-- The fields of the Identify Controller data that the code reads. -/
structure ADMIN_IDENTIFY_CONTROLLER where
  NN : Nat := 0
  UAERL : Nat := 0
  deriving DecidableEq, Repr

/-- Addresses of the buffers that the embedding represents by their content
(the tables are lists and the scratch data buffer is the range entry read
from it); 0 is NULL.  `pLunExtensionTable_0` is the pointer
`pLunExtensionTable[0]`.  Only NVMeFreeBuffers reads these addresses. -/
structure BUFFER_POINTERS where
  pDataBuffer : Nat := 0
  pSrbExt : Nat := 0
  pLunExtensionTable_0 : Nat := 0
  pMsiMsgTbl : Nat := 0
  pCoreTbl : Nat := 0
  pNumaNodeTbl : Nat := 0
  pSubQueueInfo : Nat := 0
  pCplQueueInfo : Nat := 0
  deriving DecidableEq, Repr

/-- The device extension.  `CAP_DSTRD` is the doorbell stride field of the
capability register as the code reads it from the mapped registers;
`pCtrlRegister` is the address at which the controller registers are mapped,
0 for NULL. -/
structure NVME_DEVICE_EXTENSION where
  ResMapTbl : RES_MAPPING_TBL := {}
  QueueInfo : QUEUE_INFO := {}
  DriverState : START_STATE := {}
  InitInfo : INIT_INFO := {}
  controllerIdentifyData : ADMIN_IDENTIFY_CONTROLLER := {}
  pLunExtensionTable : List NVME_LUN_EXTENSION := []
  visibleLuns : Nat := 0
  PRPListSize : Nat := 0
  LearningCores : Nat := 0
  ntldrDump : Bool := false
  CAP_DSTRD : Nat := 0
  pCtrlRegister : Nat := 0
  uSecCrtlTimeout : Nat := 0
  LunExtSize : Nat := 0
  Pointers : BUFFER_POINTERS := {}
  deriving DecidableEq, Repr

/-- The fields of a submission entry that the completion handlers read. -/
structure NVMe_COMMAND where
  OPC : Nat := 0
  NSID : Nat := 0
  CDW10 : Nat := 0
  CDW11 : Nat := 0
  deriving DecidableEq, Repr

/-! ## Platform services -/

/-- The services of the storage port that the embedded routines call.
Allocation services are indexed by the number of calls made before, so that
successive calls may return different results. -/
structure Platform where
  /-- Result of StorPortGetHighestNodeNumber. -/
  HighestNodeNumber : Nat
  /-- Result of StorPortGetNodeAffinity for a node, `none` for a failure status. -/
  NodeAffinity : Nat → Option GROUP_AFFINITY
  /-- Result of StorPortGetMSIInfo for a message id, `none` for a failure status. -/
  MSIInfo : Nat → Option MESSAGE_INTERRUPT_INFORMATION
  /-- Result of StorPortGetPhysicalAddress, 0 when the translation fails. -/
  PhysicalAddress : Nat → Nat
  /-- Whether the i-th call of StorPortAllocatePool succeeds. -/
  AllocatePool : Nat → Bool
  /-- Address returned by the i-th contiguous allocation, 0 when it fails. -/
  AllocateContiguous : Nat → Nat

/-- Embedding of NVMeGetPhysAddr: the translation of the platform. -/
def NVMeGetPhysAddr (pf : Platform) (pVirtAddr : Nat) : Nat :=
  pf.PhysicalAddress pVirtAddr

/-- Embedding of NVMeAllocateMem: the address of the buffer, 0 for NULL, and
the advanced call count.  `calls` counts the contiguous allocations made so
far. -/
def NVMeAllocateMem (pf : Platform) (calls : Nat) (_Size _Node : Nat) : Nat × Nat :=
  (pf.AllocateContiguous calls, calls + 1)

/-- Embedding of NVMeAllocatePool: whether a zeroed buffer was obtained, and
the advanced call count. -/
def NVMeAllocatePool (pf : Platform) (calls : Nat) (_Size : Nat) : Bool × Nat :=
  (pf.AllocatePool calls, calls + 1)

/-! ## Access to the tables -/

/-- Load of entry `i` of a table; the zeroed entry outside the table. -/
def load {α : Type} (dflt : α) (tbl : List α) (i : Nat) : α := tbl.getD i dflt

/-- Store to entry `i` of a table: the entry is replaced by `f` of its old
content; a store outside the table is dropped. -/
def store {α : Type} (dflt : α) (tbl : List α) (i : Nat) (f : α → α) : List α :=
  tbl.set i (f (tbl.getD i dflt))

/-- The submission queue structure `pQI->pSubQueueInfo + QueueID`. -/
def subQ (pAE : NVME_DEVICE_EXTENSION) (QueueID : Nat) : SUB_QUEUE_INFO :=
  load {} pAE.QueueInfo.pSubQueueInfo QueueID

/-- The completion queue structure `pQI->pCplQueueInfo + QueueID`. -/
def cplQ (pAE : NVME_DEVICE_EXTENSION) (QueueID : Nat) : CPL_QUEUE_INFO :=
  load {} pAE.QueueInfo.pCplQueueInfo QueueID

/-- The core table entry `pRMT->pCoreTbl + Core`. -/
def coreT (pAE : NVME_DEVICE_EXTENSION) (Core : Nat) : CORE_TBL :=
  load {} pAE.ResMapTbl.pCoreTbl Core

/-- Update of the submission queue structure `QueueID`. -/
def setSubQ (pAE : NVME_DEVICE_EXTENSION) (QueueID : Nat)
    (f : SUB_QUEUE_INFO → SUB_QUEUE_INFO) : NVME_DEVICE_EXTENSION :=
  { pAE with QueueInfo :=
      { pAE.QueueInfo with pSubQueueInfo := store {} pAE.QueueInfo.pSubQueueInfo QueueID f } }

/-- Update of the completion queue structure `QueueID`. -/
def setCplQ (pAE : NVME_DEVICE_EXTENSION) (QueueID : Nat)
    (f : CPL_QUEUE_INFO → CPL_QUEUE_INFO) : NVME_DEVICE_EXTENSION :=
  { pAE with QueueInfo :=
      { pAE.QueueInfo with pCplQueueInfo := store {} pAE.QueueInfo.pCplQueueInfo QueueID f } }

/-- Update of the core table entry `Core`. -/
def setCore (pAE : NVME_DEVICE_EXTENSION) (Core : Nat)
    (f : CORE_TBL → CORE_TBL) : NVME_DEVICE_EXTENSION :=
  { pAE with ResMapTbl :=
      { pAE.ResMapTbl with pCoreTbl := store {} pAE.ResMapTbl.pCoreTbl Core f } }

/-! ## Completion harvest and command slots -/

/-- Embedding of NVMeGetCplEntry.  The result is the status, the value stored
through `pCplEntry` (the address of the harvested entry; `none` when nothing
is stored) and the updated completion queue structure.  `pCplEntry` is the
address of the caller's buffer, 0 for NULL. -/
def NVMeGetCplEntry (pAE : NVME_DEVICE_EXTENSION) (pCQI : CPL_QUEUE_INFO) (pCplEntry : Nat) :
    STOR_STATUS × Option Nat × CPL_QUEUE_INFO :=
  if pCQI.CplQueueID > pAE.QueueInfo.NumCplIoQCreated ∨ pCplEntry = 0 then
    (STOR_STATUS_INVALID_PARAMETER, none, pCQI)
  else
    let pCQE := pCQI.pCplQStart + pCQI.CplQHeadPtr * sizeof_NVMe_COMPLETION_QUEUE_ENTRY
    let CQE := load {} pCQI.Ring pCQI.CplQHeadPtr
    if pCQI.CurPhaseTag ≠ CQE.P then
      let q1 := { pCQI with CplQHeadPtr := USHORT (pCQI.CplQHeadPtr + 1),
                            Completions := ULONG (pCQI.Completions + 1) }
      let q2 := if q1.CplQHeadPtr = q1.CplQEntries then
                  { q1 with CplQHeadPtr := 0, CurPhaseTag := lnot q1.CurPhaseTag }
                else q1
      (STOR_STATUS_SUCCESS, some pCQE, q2)
    else
      (STOR_STATUS_UNSUCCESSFUL, none, pCQI)

/-- The list primitive RemoveHeadList of the platform on the free list: the
removed head and the remaining list; on an empty list the list head itself is
returned (`none`) and the list is left as it is. -/
def RemoveHeadList : List Nat → Option Nat × List Nat
  | [] => (none, [])
  | e :: rest => (some e, rest)

/-- The list primitive InsertTailList of the platform on the free list. -/
def InsertTailList (l : List Nat) (e : Nat) : List Nat := l ++ [e]

/-- Embedding of NVMeGetCmdEntry.  The result is the status, the value stored
through `pCmdInfo` (the command slot whose CmdInfo is handed out, named by its
index in the command entry array; `none` when nothing is stored) and the
updated device extension.  `pCmdInfo` is the address of the caller's buffer,
0 for NULL. -/
def NVMeGetCmdEntry (pAE : NVME_DEVICE_EXTENSION) (QueueID Context pCmdInfo : Nat) :
    STOR_STATUS × Option Nat × NVME_DEVICE_EXTENSION :=
  if QueueID > pAE.QueueInfo.NumSubIoQCreated ∨ pCmdInfo = 0 then
    (STOR_STATUS_INVALID_PARAMETER, none, pAE)
  else
    let pSQI := subQ pAE QueueID
    match RemoveHeadList pSQI.FreeQList with
    | (none, _) => (STOR_STATUS_INSUFFICIENT_RESOURCES, none, pAE)
    | (some pCmdEntry, rest) =>
      (STOR_STATUS_SUCCESS, some pCmdEntry,
        setSubQ pAE QueueID (fun q =>
          { q with FreeQList := rest,
                   CmdEntries := store {} q.CmdEntries pCmdEntry
                     (fun c => { c with Context := Context, Pending := true }) }))

/-- Embedding of NVMeMapCore2Queue for the core number `Number` of the
processor: the status and the pair stored through `pSubQueue` and
`pCplQueue` (`none` when nothing is stored). -/
def NVMeMapCore2Queue (pAE : NVME_DEVICE_EXTENSION) (Number : Nat) :
    STOR_STATUS × Option (Nat × Nat) :=
  if Number ≥ pAE.ResMapTbl.NumActiveCores then
    (STOR_STATUS_UNSUCCESSFUL, none)
  else if pAE.LearningCores = pAE.ResMapTbl.NumActiveCores then
    let pCT := coreT pAE Number
    (STOR_STATUS_SUCCESS, some (pCT.SubQueue, pCT.CplQueue))
  else
    (STOR_STATUS_SUCCESS,
      some (USHORT (USHORT pAE.LearningCores + 1), USHORT (USHORT pAE.LearningCores + 1)))

/-! ## Loops with an early return -/

/-- Outcome of a loop body: `ret` leaves the enclosing routine with a result,
`next` goes on with the next iteration. -/
inductive Flow (R S : Type) where
  | ret : R → Flow R S
  | next : S → Flow R S

/-- A `for` loop over the given values of its counter whose body may return
from the enclosing routine. -/
def forLoop {R S : Type} (body : S → Nat → Flow R S) : List Nat → S → Flow R S
  | [], s => Flow.next s
  | i :: rest, s =>
    match body s i with
    | Flow.ret r => Flow.ret r
    | Flow.next s1 => forLoop body rest s1

/-! ## Topology discovery -/

/-- The loop of NVMeActiveProcessorCount, `while (Mask) { Count++; Mask &= (Mask - 1); }`,
unrolled at most `fuel` times. -/
def NVMeActiveProcessorCount.loop : Nat → Nat → Nat → Nat
  | 0, _, Count => Count
  | fuel + 1, Mask, Count =>
    if Mask = 0 then Count
    else NVMeActiveProcessorCount.loop fuel (Mask &&& (Mask - 1)) (USHORT (Count + 1))

/-- Embedding of NVMeActiveProcessorCount.  Every iteration decreases `Mask`,
so `Mask` iterations exhaust the loop. -/
def NVMeActiveProcessorCount (Mask : Nat) : Nat :=
  NVMeActiveProcessorCount.loop Mask Mask 0

/-- First loop of NVMeEnumNumaCores, one node: affinity and core count. -/
def NVMeEnumNumaCores.count (pf : Platform) (pRMT : RES_MAPPING_TBL) (Node : Nat) :
    Flow RES_MAPPING_TBL RES_MAPPING_TBL :=
  match pf.NodeAffinity Node with
  | none => Flow.ret pRMT
  | some GroupAffinity =>
    let NumCores := NVMeActiveProcessorCount GroupAffinity.Mask
    Flow.next
      { pRMT with
        NumActiveCores := pRMT.NumActiveCores + NumCores,
        pNumaNodeTbl := store {} pRMT.pNumaNodeTbl Node
          (fun n => { n with NumCores := NumCores, GroupAffinity := GroupAffinity }) }

/-- Second loop of NVMeEnumNumaCores, one bit of the mask of node `Node`.  The
state is the mapping table, FirstCoreFound and TotalCores. -/
def NVMeEnumNumaCores.bit (Node BaseCoreNum : Nat) (st : RES_MAPPING_TBL × Bool × Nat)
    (Bit : Nat) : RES_MAPPING_TBL × Bool × Nat :=
  let pRMT := st.1
  let FirstCoreFound := st.2.1
  let TotalCores := st.2.2
  let pNNT := load {} pRMT.pNumaNodeTbl Node
  if ((pNNT.GroupAffinity.Mask >>> Bit) &&& 1) = 1 then
    let Core := USHORT (BaseCoreNum + Bit)
    let tbl := store {} pRMT.pCoreTbl Core
      (fun c => { c with CoreNum := Core, NumaNode := USHORT Node,
                         Group := pNNT.GroupAffinity.Group })
    let nodes1 := if FirstCoreFound = false then
        store {} pRMT.pNumaNodeTbl Node (fun n => { n with FirstCoreNum := Core })
      else pRMT.pNumaNodeTbl
    let nodes2 := store {} nodes1 Node (fun n => { n with LastCoreNum := Core })
    ({ pRMT with pCoreTbl := tbl, pNumaNodeTbl := nodes2 }, true, TotalCores + 1)
  else st

/-- Second loop of NVMeEnumNumaCores, one node.  The state is the mapping
table and TotalCores. -/
def NVMeEnumNumaCores.node (st : RES_MAPPING_TBL × Nat) (Node : Nat) : RES_MAPPING_TBL × Nat :=
  let pRMT := st.1
  let pNNT := load {} pRMT.pNumaNodeTbl Node
  let BaseCoreNum := USHORT (pNNT.GroupAffinity.Group * MaxNumCoresInGroup)
  let nodes := store {} pRMT.pNumaNodeTbl Node
    (fun n => { n with FirstCoreNum := BaseCoreNum, LastCoreNum := BaseCoreNum })
  let pRMT1 := { pRMT with pNumaNodeTbl := nodes }
  let r := (List.range MaxNumCoresInGroup).foldl (NVMeEnumNumaCores.bit Node BaseCoreNum)
    (pRMT1, false, st.2)
  (r.1, r.2.2)

/-- Embedding of NVMeEnumNumaCores.  `pool` counts the pool allocations made
so far; the result is the return value, the device extension and the advanced
count.  The two tables come zeroed from the pool. -/
def NVMeEnumNumaCores (pf : Platform) (pool : Nat) (pAE : NVME_DEVICE_EXTENSION) :
    Bool × NVME_DEVICE_EXTENSION × Nat :=
  let pRMT := pAE.ResMapTbl
  let Node := pf.HighestNodeNumber
  let pRMT1 := { pRMT with NumNumaNodes := Node + 1 }
  let a1 := NVMeAllocatePool pf pool pRMT1.NumNumaNodes
  if a1.1 = false then
    (false, { pAE with ResMapTbl := { pRMT1 with pNumaNodeTbl := [] } }, a1.2)
  else
    let pRMT2 := { pRMT1 with pNumaNodeTbl := List.replicate pRMT1.NumNumaNodes {} }
    match forLoop (NVMeEnumNumaCores.count pf) (List.range pRMT2.NumNumaNodes) pRMT2 with
    | Flow.ret pRMT3 => (false, { pAE with ResMapTbl := pRMT3 }, a1.2)
    | Flow.next pRMT3 =>
      let a2 := NVMeAllocatePool pf a1.2 pRMT3.NumActiveCores
      if a2.1 = false then
        (false, { pAE with ResMapTbl := { pRMT3 with pCoreTbl := [] } }, a2.2)
      else
        let pRMT4 := { pRMT3 with pCoreTbl := List.replicate pRMT3.NumActiveCores {} }
        let r := (List.range pRMT4.NumNumaNodes).foldl NVMeEnumNumaCores.node (pRMT4, 0)
        if r.2 > r.1.NumActiveCores then
          (false, { pAE with ResMapTbl := r.1 }, a2.2)
        else
          (true, { pAE with ResMapTbl := r.1 }, a2.2)

/-! ## Interrupt resource mapping -/

/-- Marker of a shared resource; a constant of a header that is not among
the sources. -/
def RESOURCE_SHARED : Nat := 65535

/-- Body of the probing loop of NVMeEnumMsiMessages for a message the
platform grants: the message is recorded when the reported id is the id asked
for. -/
def NVMeEnumMsiMessages.record (pRMT : RES_MAPPING_TBL) (MsgID : Nat)
    (MII : MESSAGE_INTERRUPT_INFORMATION) : RES_MAPPING_TBL :=
  let msgs := store {} pRMT.pMsiMsgTbl MsgID
    (fun m => { m with MsgID := MII.MessageId, Addr := MII.MessageAddress,
                       Data := MII.MessageData })
  if MsgID = MII.MessageId then { pRMT with pMsiMsgTbl := msgs } else pRMT

/-- The probing loop of NVMeEnumMsiMessages, `for (MsgID = 0; MsgID <=
NumActiveCores; MsgID++)`, with `left` iterations left to run from `MsgID`.
The result is the value of `MsgID` on leaving the loop and the mapping
table. -/
def NVMeEnumMsiMessages.loop (pf : Platform) : Nat → Nat → RES_MAPPING_TBL → Nat × RES_MAPPING_TBL
  | 0, MsgID, pRMT => (MsgID, pRMT)
  | left + 1, MsgID, pRMT =>
    match pf.MSIInfo MsgID with
    | some MII =>
      NVMeEnumMsiMessages.loop pf left (MsgID + 1) (NVMeEnumMsiMessages.record pRMT MsgID MII)
    | none =>
      (MsgID, if MsgID = 0 then { pRMT with InterruptType := INT_TYPE_INTX } else pRMT)

/-- The store `pRMT->pMsiMsgTbl->CoreNum = RESOURCE_SHARED; ->Shared = TRUE`. -/
def markShared (pRMT : RES_MAPPING_TBL) : RES_MAPPING_TBL :=
  let msgs := store {} pRMT.pMsiMsgTbl 0
    (fun m => { m with CoreNum := RESOURCE_SHARED, Shared := true })
  { pRMT with pMsiMsgTbl := msgs }

/-- The classification at the end of NVMeEnumMsiMessages, by the number of
granted messages. -/
def NVMeEnumMsiMessages.classify (pRMT : RES_MAPPING_TBL) : RES_MAPPING_TBL :=
  if pRMT.NumMsiMsgGranted > 1 then
    if pRMT.NumMsiMsgGranted > pRMT.NumActiveCores then
      if (load {} pRMT.pMsiMsgTbl 1).Addr = (load {} pRMT.pMsiMsgTbl 0).Addr then
        { pRMT with InterruptType := INT_TYPE_MSI }
      else pRMT
    else
      markShared { pRMT with InterruptType := INT_TYPE_MSI }
  else if pRMT.NumMsiMsgGranted = 1 then
    markShared { pRMT with InterruptType := INT_TYPE_MSI }
  else
    markShared pRMT

/-- Embedding of NVMeEnumMsiMessages (it always returns TRUE). -/
def NVMeEnumMsiMessages (pf : Platform) (pAE : NVME_DEVICE_EXTENSION) :
    Bool × NVME_DEVICE_EXTENSION :=
  let pRMT : RES_MAPPING_TBL := { pAE.ResMapTbl with InterruptType := INT_TYPE_MSIX }
  let r := NVMeEnumMsiMessages.loop pf (pRMT.NumActiveCores + 1) 0 pRMT
  let pRMT1 : RES_MAPPING_TBL := { r.2 with NumMsiMsgGranted := r.1 }
  (true, { pAE with ResMapTbl := NVMeEnumMsiMessages.classify pRMT1 })

/-- One iteration of the loop of NVMeMsiMapCores for the core `Core`. -/
def NVMeMsiMapCores.body (pRMT : RES_MAPPING_TBL) (Core : Nat) : RES_MAPPING_TBL :=
  let pCT := load {} pRMT.pCoreTbl Core
  let cores := store {} pRMT.pCoreTbl Core (fun c => { c with MsiMsgID := c.CplQueue })
  let msgs := store {} pRMT.pMsiMsgTbl pCT.CplQueue
    (fun m => { m with CoreNum := Core, CplQueueNum := pCT.CplQueue })
  { pRMT with pCoreTbl := cores, pMsiMsgTbl := msgs }

/-- The loop of NVMeMsiMapCores, `for (Core = 0; Core < NumActiveCores; Core++)`
with the 8-bit counter `UCHAR Core`, run for at most `fuel` evaluations of its
condition; `none` when the fuel does not suffice. -/
def NVMeMsiMapCores.loop : Nat → Nat → RES_MAPPING_TBL → Option RES_MAPPING_TBL
  | 0, _, _ => none
  | fuel + 1, Core, pRMT =>
    if Core < pRMT.NumActiveCores then
      NVMeMsiMapCores.loop fuel (UCHAR (Core + 1)) (NVMeMsiMapCores.body pRMT Core)
    else some pRMT

/-- Embedding of NVMeMsiMapCores with `fuel` evaluations of the loop
condition; `none` when the routine has not returned by then. -/
def NVMeMsiMapCores (fuel : Nat) (pAE : NVME_DEVICE_EXTENSION) : Option NVME_DEVICE_EXTENSION :=
  if pAE.ResMapTbl.NumMsiMsgGranted ≤ pAE.ResMapTbl.NumActiveCores then some pAE
  else (NVMeMsiMapCores.loop fuel 0 pAE.ResMapTbl).map (fun t => { pAE with ResMapTbl := t })

/-! ## Queue memory builder -/

/-- One iteration of the loop of NVMeInitFreeQ for the command slot `Entry`.
The state is the submission queue structure and CurPRPList.  (With
NumPRPListOnePage = 0 the remainder of the C code traps; here `Entry % 0` is
`Entry`, so no theorem below is stated for that case.) -/
def NVMeInitFreeQ.body (pf : Platform) (pAE : NVME_DEVICE_EXTENSION)
    (st : SUB_QUEUE_INFO × Nat) (Entry : Nat) : SUB_QUEUE_INFO × Nat :=
  let pSQI := st.1
  let CurPRPList := st.2
  let p0 := CurPRPList + pAE.PRPListSize
  let pPRPList := if Entry ≠ 0 ∧ Entry % pSQI.NumPRPListOnePage = 0 then PAGE_ALIGN_BUF_PTR p0 else p0
  let prpListPhyAddr := pf.PhysicalAddress pPRPList
  let entries := store {} pSQI.CmdEntries Entry (fun c =>
    { c with CmdInfo := { CmdID := Entry, pPRPList := pPRPList, prpListPhyAddr := prpListPhyAddr } })
  ({ pSQI with CmdEntries := entries, FreeQList := InsertTailList pSQI.FreeQList Entry }, pPRPList)

/-- Embedding of NVMeInitFreeQ: the loop `for (Entry = 0; Entry <
pSQI->SubQEntries; Entry++)` started with CurPRPList = pPRPListStart. -/
def NVMeInitFreeQ (pf : Platform) (pSQI : SUB_QUEUE_INFO) (pAE : NVME_DEVICE_EXTENSION) :
    SUB_QUEUE_INFO :=
  ((List.range pSQI.SubQEntries).foldl (NVMeInitFreeQ.body pf pAE) (pSQI, pSQI.pPRPListStart)).1

/-- Embedding of NVMeAllocQueues.  `szCmdEntry` is `sizeof(CMD_ENTRY)`, whose
declaration is not among the sources; `calls` counts the contiguous
allocations made so far.  (With PRPListSize = 0 or PRPListSize > PAGE_SIZE
the divisions of the C code trap; the theorems below assume neither.) -/
def NVMeAllocQueues (pf : Platform) (szCmdEntry calls : Nat) (pAE : NVME_DEVICE_EXTENSION)
    (QueueID QEntries NumaNode : Nat) : STOR_STATUS × NVME_DEVICE_EXTENSION × Nat :=
  if QueueID > pAE.ResMapTbl.NumActiveCores then
    (STOR_STATUS_INVALID_PARAMETER, pAE, calls)
  else
    let SysPageSizeInSubEntries := PAGE_SIZE / sizeof_NVMe_COMMAND
    let QEntries :=
      if QEntries % SysPageSizeInSubEntries ≠ 0 then
        ULONG (QEntries + SysPageSizeInSubEntries) &&& (4294967295 - (SysPageSizeInSubEntries - 1))
      else QEntries
    let SizeQueueEntry := ULONG (QEntries *
      (sizeof_NVMe_COMMAND + sizeof_NVMe_COMPLETION_QUEUE_ENTRY + szCmdEntry))
    let a1 := NVMeAllocateMem pf calls (ULONG (SizeQueueEntry + PAGE_SIZE)) NumaNode
    let pAE1 := setSubQ pAE QueueID (fun q => { q with pQueueAlloc := a1.1 })
    if a1.1 = 0 then
      (STOR_STATUS_INSUFFICIENT_RESOURCES, pAE1, a1.2)
    else
      let NumPRPListOnePage := PAGE_SIZE / pAE.PRPListSize
      let NumPageToAlloc :=
        if QEntries % NumPRPListOnePage ≠ 0 then QEntries / NumPRPListOnePage + 1
        else QEntries / NumPRPListOnePage
      let a2 := NVMeAllocateMem pf a1.2 (ULONG ((NumPageToAlloc + 1) * PAGE_SIZE)) NumaNode
      let pAE2 := setSubQ pAE1 QueueID (fun q =>
        { q with QueueAllocSize := ULONG (SizeQueueEntry + PAGE_SIZE),
                 NumPRPListOnePage := NumPRPListOnePage,
                 pPRPListAlloc := a2.1 })
      if a2.1 = 0 then
        (STOR_STATUS_INSUFFICIENT_RESOURCES, pAE2, a2.2)
      else
        let pAE3 := setSubQ pAE2 QueueID (fun q =>
          { q with PRPListAllocSize := ULONG ((NumPageToAlloc + 1) * PAGE_SIZE) })
        let pQI := pAE3.QueueInfo
        let pQI1 : QUEUE_INFO :=
          if QueueID ≠ 0 then { pQI with NumIoQEntriesAllocated := USHORT QEntries }
          else { pQI with NumAdQEntriesAllocated := USHORT QEntries }
        (STOR_STATUS_SUCCESS, { pAE3 with QueueInfo := pQI1 }, a2.2)

/-- Value of `sizeof(NVMe_QUEUE_Y_DOORBELL)`, one 32-bit doorbell register. -/
def sizeof_NVMe_QUEUE_Y_DOORBELL : Nat := 4

/-- First part of NVMeInitSubQueue: the static fields, the doorbell, the
shared flag, the page-aligned start of the ring, the `memset` of the queue
allocation (which clears the command entries and the completion ring that lie
in it) and the translation of the ring start. -/
def NVMeInitSubQueue.ring (pf : Platform) (pAE : NVME_DEVICE_EXTENSION) (QueueID : Nat) :
    NVME_DEVICE_EXTENSION :=
  let pQI := pAE.QueueInfo
  let pRMT := pAE.ResMapTbl
  let SubQEntries := if QueueID ≠ 0 then pQI.NumIoQEntriesAllocated else pQI.NumAdQEntriesAllocated
  let dbIndex := ULONG (2 * QueueID * (4 <<< pAE.CAP_DSTRD)) / sizeof_NVMe_QUEUE_Y_DOORBELL
  let pAE1 := setSubQ pAE QueueID (fun q =>
    { q with SubQEntries := SubQEntries,
             SubQueueID := QueueID,
             FreeSubQEntries := SubQEntries,
             pSubTDBL := dbIndex,
             Requests := 0,
             SubQTailPtr := 0,
             SubQHeadPtr := 0,
             Shared := if QueueID = 0 ∨ pQI.NumSubIoQAllocated < pRMT.NumActiveCores
                          ∨ pAE.ntldrDump = true then true else q.Shared,
             CplQueueID := QueueID,
             pSubQStart := PAGE_ALIGN_BUF_PTR q.pQueueAlloc,
             CmdEntries := List.replicate q.CmdEntries.length {},
             SubQStart := NVMeGetPhysAddr pf (PAGE_ALIGN_BUF_PTR q.pQueueAlloc) })
  setCplQ pAE1 QueueID (fun c => { c with Ring := List.replicate c.Ring.length {} })

/-- Second part of NVMeInitSubQueue: the page-aligned start of the PRP list
pool and its translation. -/
def NVMeInitSubQueue.prp (pf : Platform) (pAE : NVME_DEVICE_EXTENSION) (QueueID : Nat) :
    NVME_DEVICE_EXTENSION :=
  setSubQ pAE QueueID (fun q =>
    { q with pPRPListStart := PAGE_ALIGN_BUF_PTR q.pPRPListAlloc,
             PRPListStart := NVMeGetPhysAddr pf (PAGE_ALIGN_BUF_PTR q.pPRPListAlloc) })

/-- Embedding of NVMeInitSubQueue. -/
def NVMeInitSubQueue (pf : Platform) (pAE : NVME_DEVICE_EXTENSION) (QueueID : Nat) :
    STOR_STATUS × NVME_DEVICE_EXTENSION :=
  if QueueID > pAE.ResMapTbl.NumActiveCores then
    (STOR_STATUS_INVALID_PARAMETER, pAE)
  else
    let pAE2 := NVMeInitSubQueue.ring pf pAE QueueID
    if (subQ pAE2 QueueID).SubQStart = 0 then
      (STOR_STATUS_INSUFFICIENT_RESOURCES, pAE2)
    else
      let pAE3 := NVMeInitSubQueue.prp pf pAE2 QueueID
      if (subQ pAE3 QueueID).PRPListStart = 0 then
        (STOR_STATUS_INSUFFICIENT_RESOURCES, pAE3)
      else
        (STOR_STATUS_SUCCESS, setSubQ pAE3 QueueID (fun q => { q with FreeQList := [] }))

/-- Embedding of NVMeInitCplQueue.  The ring of CplQEntries entries starts
at pCplQStart; the `memset` clears it. -/
def NVMeInitCplQueue (pf : Platform) (pAE : NVME_DEVICE_EXTENSION) (QueueID : Nat) :
    STOR_STATUS × NVME_DEVICE_EXTENSION :=
  let pQI := pAE.QueueInfo
  let pRMT := pAE.ResMapTbl
  if QueueID > pRMT.NumActiveCores then
    (STOR_STATUS_INVALID_PARAMETER, pAE)
  else
    let pSQI := subQ pAE QueueID
    let dbIndex := ULONG ((2 * QueueID + 1) * (4 <<< pAE.CAP_DSTRD)) / sizeof_NVMe_QUEUE_Y_DOORBELL
    let queueSize := ULONG (pSQI.SubQEntries * sizeof_NVMe_COMMAND)
    let pCplQStart := PAGE_ALIGN_BUF_PTR (pSQI.pSubQStart + queueSize)
    let pAE1 := setCplQ pAE QueueID (fun c =>
      { c with CplQueueID := QueueID,
               CplQEntries := pSQI.SubQEntries,
               pCplHDBL := dbIndex,
               Completions := 0,
               CurPhaseTag := 0,
               CplQHeadPtr := 0,
               Shared := if QueueID = 0 ∨ pQI.NumCplIoQAllocated < pRMT.NumActiveCores
                            ∨ pAE.ntldrDump = true then true else c.Shared,
               MsiMsgID :=
                 if pRMT.InterruptType = INT_TYPE_MSI ∨ pRMT.InterruptType = INT_TYPE_MSIX then
                   if pRMT.NumMsiMsgGranted ≤ pRMT.NumActiveCores then 0
                   else if QueueID ≠ 0 then (coreT pAE (QueueID - 1)).MsiMsgID
                   else c.MsiMsgID
                 else c.MsiMsgID,
               Ring := List.replicate pSQI.SubQEntries {},
               pCplQStart := pCplQStart,
               CplQStart := NVMeGetPhysAddr pf pCplQStart })
    if (cplQ pAE1 QueueID).CplQStart = 0 then
      (STOR_STATUS_INSUFFICIENT_RESOURCES, pAE1)
    else
      (STOR_STATUS_SUCCESS, pAE1)

/-- First part of NVMeInitCmdEntries: the start of the command entries
behind the completion ring and the `memset` that leaves SubQEntries zeroed
command entries there. -/
def NVMeInitCmdEntries.clear (pAE : NVME_DEVICE_EXTENSION) (QueueID : Nat) :
    NVME_DEVICE_EXTENSION :=
  let pCQI := cplQ pAE QueueID
  setSubQ pAE QueueID (fun q =>
    { q with pCmdEntry := pCQI.pCplQStart + q.SubQEntries * sizeof_NVMe_COMPLETION_QUEUE_ENTRY,
             CmdEntries := List.replicate q.SubQEntries {} })

/-- Embedding of NVMeInitCmdEntries. -/
def NVMeInitCmdEntries (pf : Platform) (pAE : NVME_DEVICE_EXTENSION) (QueueID : Nat) :
    STOR_STATUS × NVME_DEVICE_EXTENSION :=
  if QueueID > pAE.ResMapTbl.NumActiveCores then
    (STOR_STATUS_INVALID_PARAMETER, pAE)
  else
    let pAE1 := NVMeInitCmdEntries.clear pAE QueueID
    (STOR_STATUS_SUCCESS, setSubQ pAE1 QueueID (fun q => NVMeInitFreeQ pf q pAE1))

/-! ## Completion of Set Features and Get Features -/

/-- Opcode of the admin command Set Features. -/
def ADMIN_SET_FEATURES : Nat := 9

/-- Opcode of the admin command Get Features. -/
def ADMIN_GET_FEATURES : Nat := 10

/-- Feature identifier LBA Range Type. -/
def LBA_RANGE_TYPE : Nat := 3

/-- Feature identifier Number of Queues. -/
def NUMBER_OF_QUEUES : Nat := 7

/-- Feature identifier Interrupt Coalescing. -/
def INTERRUPT_COALESCING : Nat := 8

/-- Modelled from the spec: the bit positions of the failure points of the
start state machine are declared in a header that is not among the sources;
they are numbered here in the order in which the specification lists them. -/
def START_STATE_IDENTIFY_CTRL_FAILURE : Nat := 0

/-- Modelled from the spec: failure point of Identify Namespace. -/
def START_STATE_IDENTIFY_NS_FAILURE : Nat := 1

/-- Modelled from the spec: failure point of Set Features, Interrupt Coalescing. -/
def START_STATE_INT_COALESCING_FAILURE : Nat := 2

/-- Modelled from the spec: failure point of Set Features, Number of Queues. -/
def START_STATE_QUEUE_ALLOC_FAILURE : Nat := 3

/-- Modelled from the spec: failure point of the LBA range examination. -/
def START_STATE_LBA_RANGE_CHK_FAILURE : Nat := 4

/-- Modelled from the spec: NVMeDriverFatalError is defined in a file that is
not among the sources; the machine collapses to the single failed leaf whose
mask is the bitwise OR of the failure bits reported. -/
def NVMeDriverFatalError (pAE : NVME_DEVICE_EXTENSION) (ErrorNum : Nat) : NVME_DEVICE_EXTENSION :=
  { pAE with DriverState :=
      { pAE.DriverState with
        DriverErrorStatus := pAE.DriverState.DriverErrorStatus ||| ErrorNum,
        NextDriverState := NVMeStateFailed } }

/-- The macro GET_WORD_0: the low 16-bit word of a double word. -/
def GET_WORD_0 (dw : Nat) : Nat := dw % 65536

/-- The macro GET_WORD_1: the high 16-bit word of a double word. -/
def GET_WORD_1 (dw : Nat) : Nat := (dw / 65536) % 65536

/-- The LBA range branch of NVMeSetFeaturesCompletion for a completion with
status code 0. -/
def NVMeSetFeaturesCompletion.lbaRange (pAE : NVME_DEVICE_EXTENSION) (pNVMeCmd : NVMe_COMMAND) :
    NVME_DEVICE_EXTENSION :=
  let lunId := pAE.DriverState.VisibleNamespacesExamined
  let pLbaRangeTypeEntry := pAE.DriverState.pDataBuffer
  let NUM := pNVMeCmd.CDW11 % 64
  let pAE1 : NVME_DEVICE_EXTENSION :=
    if pNVMeCmd.OPC = ADMIN_GET_FEATURES then
      let visibility :=
        if NUM = 0 then
          (if pLbaRangeTypeEntry.Hidden ≠ 0 then NS_VISBILITY.HIDDEN else NS_VISBILITY.VISIBLE)
        else NS_VISBILITY.IGNORED
      let luns1 :=
        if NUM = 0 then
          store {} pAE.pLunExtensionTable lunId (fun l =>
            { l with ReadOnly := if pLbaRangeTypeEntry.Overwriteable ≠ 0 then false else true })
        else pAE.pLunExtensionTable
      let ds1 := { pAE.DriverState with
        ConfigLbaRangeNeeded := false,
        TtlLbaRangeExamined := pAE.DriverState.TtlLbaRangeExamined + 1 }
      if visibility = NS_VISBILITY.VISIBLE then
        { pAE with
          pLunExtensionTable := store {} luns1 lunId (fun l =>
            { l with slotStatus := LUN_SLOT_STATUS.ONLINE }),
          DriverState := { ds1 with
            VisibleNamespacesExamined := ds1.VisibleNamespacesExamined + 1 } }
      else
        { pAE with
          pLunExtensionTable := store {} luns1 lunId (fun _ => {}),
          DriverState := ds1 }
    else pAE
  let ds := { pAE1.DriverState with StateChkCount := 0 }
  if ds.TtlLbaRangeExamined = pAE1.controllerIdentifyData.NN then
    { pAE1 with
      visibleLuns := ds.VisibleNamespacesExamined,
      DriverState := { ds with NextDriverState := NVMeWaitOnSetupQueues } }
  else if ds.ConfigLbaRangeNeeded = true then
    { pAE1 with DriverState := { ds with NextDriverState := NVMeWaitOnSetFeatures } }
  else
    { pAE1 with DriverState := { ds with NextDriverState := NVMeWaitOnIdentifyNS } }

/-- Embedding of NVMeSetFeaturesCompletion.  FID is the low byte of CDW10,
NUM the low six bits of CDW11. -/
def NVMeSetFeaturesCompletion (pAE : NVME_DEVICE_EXTENSION) (pNVMeCmd : NVMe_COMMAND)
    (pCplEntry : NVMe_COMPLETION_QUEUE_ENTRY) : NVME_DEVICE_EXTENSION :=
  let FID := pNVMeCmd.CDW10 % 256
  if pAE.DriverState.InterruptCoalescingSet = false ∧ pNVMeCmd.OPC = ADMIN_SET_FEATURES
      ∧ FID = INTERRUPT_COALESCING then
    if pCplEntry.SC ≠ 0 then
      NVMeDriverFatalError pAE (1 <<< START_STATE_INT_COALESCING_FAILURE)
    else
      { pAE with DriverState := { pAE.DriverState with
          InterruptCoalescingSet := true,
          StateChkCount := 0,
          NextDriverState := NVMeWaitOnSetFeatures } }
  else if pNVMeCmd.OPC = ADMIN_SET_FEATURES ∧ FID = NUMBER_OF_QUEUES then
    if pCplEntry.SC ≠ 0 then
      NVMeDriverFatalError pAE (1 <<< START_STATE_QUEUE_ALLOC_FAILURE)
    else
      { pAE with
        QueueInfo := { pAE.QueueInfo with
          NumSubIoQAllocFromAdapter := GET_WORD_0 pCplEntry.DW0 + 1,
          NumCplIoQAllocFromAdapter := GET_WORD_1 pCplEntry.DW0 + 1 },
        DriverState := { pAE.DriverState with
          StateChkCount := 0,
          NextDriverState := NVMeWaitOnSetFeatures } }
  else if pAE.DriverState.TtlLbaRangeExamined < pAE.DriverState.IdentifyNamespaceFetched
      ∧ FID = LBA_RANGE_TYPE then
    if pCplEntry.SC ≠ 0 then
      NVMeDriverFatalError pAE (1 <<< START_STATE_LBA_RANGE_CHK_FAILURE)
    else
      NVMeSetFeaturesCompletion.lbaRange pAE pNVMeCmd
  else pAE

/-! ## Allocation of the IO queues -/

/-- The fall-back loop of NVMeAllocIoQueues, `for (Core = 1; Core <
pRMT->NumActiveCores; Core++)`: every core it visits is mapped to queue 1
(the buffers it releases are handed back to the platform, which leaves the
device extension as it is), then one queue pair is marked as allocated. -/
def NVMeAllocIoQueues.fallBack (pAE : NVME_DEVICE_EXTENSION) : NVME_DEVICE_EXTENSION :=
  let pAE1 := (List.range' 1 (pAE.ResMapTbl.NumActiveCores - 1)).foldl
    (fun s Core => setCore s Core (fun c => { c with SubQueue := 1, CplQueue := 1 })) pAE
  { pAE1 with QueueInfo :=
      { pAE1.QueueInfo with NumSubIoQAllocated := 1, NumCplIoQAllocated := 1 } }

/-- The queue id that NVMeAllocIoQueues gives the next core: it cycles
through 1 .. (USHORT)NumSubIoQAllocFromAdapter. -/
def NVMeAllocIoQueues.nextQueue (pAE : NVME_DEVICE_EXTENSION) (QueueID : Nat) : Nat :=
  if QueueID + 1 > USHORT pAE.QueueInfo.NumSubIoQAllocFromAdapter then 1 else QueueID + 1

/-- The statement `pQI->NumSubIoQAllocated = ++pQI->NumCplIoQAllocated`. -/
def NVMeAllocIoQueues.counted (pAE : NVME_DEVICE_EXTENSION) : NVME_DEVICE_EXTENSION :=
  let n := pAE.QueueInfo.NumCplIoQAllocated + 1
  { pAE with QueueInfo :=
      { pAE.QueueInfo with NumCplIoQAllocated := n, NumSubIoQAllocated := n } }

/-- The statement `pCT->SubQueue = pCT->CplQueue = QueueID` for the core
table entry of `Core`. -/
def NVMeAllocIoQueues.assign (pAE : NVME_DEVICE_EXTENSION) (Core QueueID : Nat) :
    NVME_DEVICE_EXTENSION :=
  setCore pAE Core (fun c => { c with SubQueue := QueueID, CplQueue := QueueID })

/-- The body of the inner loop of NVMeAllocIoQueues for the core `Core` of
node `Node`.  The state is the device extension, the count of contiguous
allocations and QueueID.  (The shift `Mask >> Core` is undefined in C for
Core ≥ 64; here it yields 0.) -/
def NVMeAllocIoQueues.core (pf : Platform) (szCmdEntry Node : Nat) (pNNT : NUMA_NODE_TBL)
    (st : NVME_DEVICE_EXTENSION × Nat × Nat) (Core : Nat) :
    Flow (Bool × NVME_DEVICE_EXTENSION × Nat) (NVME_DEVICE_EXTENSION × Nat × Nat) :=
  let pAE := st.1
  let calls := st.2.1
  if ((pNNT.GroupAffinity.Mask >>> Core) &&& 1) = 0 then Flow.next st
  else
    let QueueID := NVMeAllocIoQueues.nextQueue pAE st.2.2
    if pAE.QueueInfo.NumSubIoQAllocated < QueueID then
      let QEntries := pAE.InitInfo.IoQEntries
      let r := NVMeAllocQueues pf szCmdEntry calls pAE QueueID QEntries (USHORT Node)
      if r.1 = STOR_STATUS_SUCCESS then
        Flow.next
          (NVMeAllocIoQueues.assign (NVMeAllocIoQueues.counted r.2.1) Core QueueID, r.2.2, QueueID)
      else if Core = pNNT.FirstCoreNum ∧ Node = 0 then
        Flow.ret (false, r.2.1, r.2.2)
      else
        Flow.ret (true, NVMeAllocIoQueues.fallBack r.2.1, r.2.2)
    else
      Flow.next (NVMeAllocIoQueues.assign pAE Core QueueID, calls, QueueID)

/-- The body of the outer loop of NVMeAllocIoQueues for the node `Node`: the
cores FirstCoreNum .. LastCoreNum with QueueID restarted at 0.  The state is
the device extension and the count of contiguous allocations. -/
def NVMeAllocIoQueues.node (pf : Platform) (szCmdEntry : Nat)
    (st : NVME_DEVICE_EXTENSION × Nat) (Node : Nat) :
    Flow (Bool × NVME_DEVICE_EXTENSION × Nat) (NVME_DEVICE_EXTENSION × Nat) :=
  let pNNT := load {} st.1.ResMapTbl.pNumaNodeTbl Node
  match forLoop (NVMeAllocIoQueues.core pf szCmdEntry Node pNNT)
      (List.range' pNNT.FirstCoreNum (pNNT.LastCoreNum + 1 - pNNT.FirstCoreNum))
      (st.1, st.2, 0) with
  | Flow.ret r => Flow.ret r
  | Flow.next s => Flow.next (s.1, s.2.1)

/-- Embedding of NVMeAllocIoQueues: the return value, the device extension
and the advanced count of contiguous allocations. -/
def NVMeAllocIoQueues (pf : Platform) (szCmdEntry calls : Nat) (pAE : NVME_DEVICE_EXTENSION) :
    Bool × NVME_DEVICE_EXTENSION × Nat :=
  let pAE0 := { pAE with QueueInfo :=
    { pAE.QueueInfo with NumSubIoQAllocated := 0, NumCplIoQAllocated := 0 } }
  match forLoop (NVMeAllocIoQueues.node pf szCmdEntry) (List.range pAE0.ResMapTbl.NumNumaNodes)
      (pAE0, calls) with
  | Flow.ret r => r
  | Flow.next s => (true, s.1, s.2)

/-! ## Sequences of calls and derived quantities -/

/-- A sequence of calls of NVMeGetCmdEntry, each with its QueueID, Context and
pCmdInfo, run one after the other on the device extension. -/
def runGetCmdEntry (pAE : NVME_DEVICE_EXTENSION) : List (Nat × Nat × Nat) → NVME_DEVICE_EXTENSION
  | [] => pAE
  | c :: rest => runGetCmdEntry (NVMeGetCmdEntry pAE c.1 c.2.1 c.2.2).2.2 rest

/-- Number of command slots of a submission queue that are marked Pending. -/
def pendingSlots (q : SUB_QUEUE_INFO) : Nat := q.CmdEntries.countP (fun c => c.Pending)

/-- Number of command slots of a submission queue that are on its free list. -/
def freeSlots (q : SUB_QUEUE_INFO) : Nat := q.FreeQList.length

/-- The device extension after NVMeInitSubQueue and then NVMeInitCmdEntries
on queue `QueueID`. -/
def initQueue (pf : Platform) (pAE : NVME_DEVICE_EXTENSION) (QueueID : Nat) :
    NVME_DEVICE_EXTENSION :=
  (NVMeInitCmdEntries pf (NVMeInitSubQueue pf pAE QueueID).2 QueueID).2

/-- The invariant of a submission queue: as many command entries as
SubQEntries, a duplicate-free free list of existing slots that are not
pending, and free plus pending slots adding up to SubQEntries. -/
def QueueInv (q : SUB_QUEUE_INFO) : Prop :=
  q.CmdEntries.length = q.SubQEntries ∧
  q.FreeQList.Nodup ∧
  (∀ e ∈ q.FreeQList, e < q.CmdEntries.length ∧ (load {} q.CmdEntries e).Pending = false) ∧
  freeSlots q + pendingSlots q = q.SubQEntries

/-- Whether the byte range [p, p + size) lies within one host page. -/
def withinOnePage (p size : Nat) : Bool := p / PAGE_SIZE == (p + size - 1) / PAGE_SIZE

/-- The queue pair `QueueID` taken through NVMeAllocQueues, NVMeInitSubQueue,
NVMeInitCplQueue and NVMeInitCmdEntries, the order in which the driver builds
a queue; the statuses of the four steps and the final device extension. -/
def buildQueue (pf : Platform) (szCmdEntry calls : Nat) (pAE : NVME_DEVICE_EXTENSION)
    (QueueID QEntries NumaNode : Nat) : List STOR_STATUS × NVME_DEVICE_EXTENSION :=
  let r1 := NVMeAllocQueues pf szCmdEntry calls pAE QueueID QEntries NumaNode
  let r2 := NVMeInitSubQueue pf r1.2.1 QueueID
  let r3 := NVMeInitCplQueue pf r2.2 QueueID
  let r4 := NVMeInitCmdEntries pf r3.2 QueueID
  ([r1.1, r2.1, r3.1, r4.1], r4.2)

/-- State of the inner loop of NVMeAllocIoQueues on a single node of `n`
cores with a grant of `k` queue pairs, before the core `c` is visited: the
cores below `c` are mapped round robin, min(c, k) pairs are allocated and
QueueID is the queue of core `c - 1`. -/
def RoundRobinInv (n k c : Nat) (st : NVME_DEVICE_EXTENSION × Nat × Nat) : Prop :=
  st.1.ResMapTbl.NumActiveCores = n ∧
  st.1.ResMapTbl.pCoreTbl.length = n ∧
  st.1.QueueInfo.NumSubIoQAllocFromAdapter = k ∧
  st.1.QueueInfo.NumSubIoQAllocated = min c k ∧
  st.1.QueueInfo.NumCplIoQAllocated = min c k ∧
  st.2.2 = (if c = 0 then 0 else (c - 1) % k + 1) ∧
  ∀ j, j < c → (coreT st.1 j).SubQueue = j % k + 1 ∧ (coreT st.1 j).CplQueue = j % k + 1

/-- State of the loop of NVMeMsiMapCores on the mapping table `t0`, before the
core `c` is visited: the table sizes and the queue ids of the cores are those
of `t0`, and every core below `c` has its message id and its message entry
written. -/
def MsiMapInv (t0 : RES_MAPPING_TBL) (c : Nat) (t : RES_MAPPING_TBL) : Prop :=
  t.NumActiveCores = t0.NumActiveCores ∧
  t.pCoreTbl.length = t0.pCoreTbl.length ∧
  t.pMsiMsgTbl.length = t0.pMsiMsgTbl.length ∧
  (∀ j, (load {} t.pCoreTbl j).CplQueue = (load {} t0.pCoreTbl j).CplQueue) ∧
  (∀ j, j < c → (load {} t.pCoreTbl j).MsiMsgID = (load {} t0.pCoreTbl j).CplQueue) ∧
  (∀ j, j < c → (load {} t.pMsiMsgTbl (load {} t0.pCoreTbl j).CplQueue).CplQueueNum
      = (load {} t0.pCoreTbl j).CplQueue) ∧
  (∀ j, j < c →
    (∀ i, i < t0.NumActiveCores → i ≠ j →
      (load {} t0.pCoreTbl i).CplQueue ≠ (load {} t0.pCoreTbl j).CplQueue) →
    (load {} t.pMsiMsgTbl (load {} t0.pCoreTbl j).CplQueue).CoreNum = j)

/-- Closed form of the PRP list address of slot `e` when the list size `S`
divides the page size, `N` lists fill a page and the pool starts at the
page-aligned address `start`: slot `e = N * q + r` has its list at `start +
(r + 1) * S` in the first block and at `start + PAGE_SIZE * (q + 1) + r * S`
in the later blocks. -/
def prpListGood (start S N e a : Nat) : Prop :=
  ∃ q r, e = N * q + r ∧ r < N ∧
    a = if q = 0 then start + (r + 1) * S else start + PAGE_SIZE * (q + 1) + r * S

/-! ## Completion callback of the start state machine -/

/-- Opcode of the admin command Delete IO Submission Queue. -/
def ADMIN_DELETE_IO_SUBMISSION_QUEUE : Nat := 0

/-- Opcode of the admin command Delete IO Completion Queue. -/
def ADMIN_DELETE_IO_COMPLETION_QUEUE : Nat := 4

/-- Modelled from the spec: failure point of the Asynchronous Event Requests
(the bit positions follow the order in which the specification lists the
failure points). -/
def START_STATE_AER_FAILURE : Nat := 5

/-- Modelled from the spec: failure point of Create IO Completion Queue. -/
def START_STATE_CPLQ_CREATE_FAILURE : Nat := 6

/-- Modelled from the spec: failure point of Create IO Submission Queue. -/
def START_STATE_SUBQ_CREATE_FAILURE : Nat := 7

/-- Modelled from the spec: failure point of Delete IO Completion Queue. -/
def FATAL_CPLQ_DELETE_FAILURE : Nat := 8

/-- Modelled from the spec: failure point of Delete IO Submission Queue. -/
def FATAL_SUBQ_DELETE_FAILURE : Nat := 9

/-- Modelled from the spec: failure point of an unknown state. -/
def START_STATE_UNKNOWN_STATE_FAILURE : Nat := 10

/-- Modelled from the spec: NVMeCallArbiter is defined in a file that is not
among the sources.  Completions re-enter the state machine through the
completion callback and the arbiter only requests the next run of the
machine, so it leaves the device extension as the callback hands it over. -/
def NVMeCallArbiter (pAE : NVME_DEVICE_EXTENSION) : NVME_DEVICE_EXTENSION := pAE

/-- The test `(pCplEntry->DW3.SF.SC == 0) && (pCplEntry->DW3.SF.SCT == 0)`. -/
def cplSucceeded (pCplEntry : NVMe_COMPLETION_QUEUE_ENTRY) : Bool :=
  pCplEntry.SC == 0 && pCplEntry.SCT == 0

/-- The statement `x--` on a 32-bit counter. -/
def decr (x : Nat) : Nat := ULONG (x + 4294967295)

/-- Embedding of NVMeDeleteQueueCallback.  The submission entry and the
completion entry are those of the SRB extension handed to the callback; the
counters of created queues are 32-bit, as the casts `(USHORT)` on them in
this file show. -/
def NVMeDeleteQueueCallback (pAE : NVME_DEVICE_EXTENSION) (pNVMeCmd : NVMe_COMMAND)
    (pCplEntry : NVMe_COMPLETION_QUEUE_ENTRY) : Bool × NVME_DEVICE_EXTENSION :=
  let pQI := pAE.QueueInfo
  if pNVMeCmd.OPC = ADMIN_DELETE_IO_COMPLETION_QUEUE then
    if pCplEntry.SC = 0 then
      let pAE1 := setCplQ pAE pQI.NumCplIoQCreated (fun c =>
        { c with CurPhaseTag := 0, CplQHeadPtr := 0 })
      (true, { pAE1 with QueueInfo :=
        { pAE1.QueueInfo with NumCplIoQCreated := decr pQI.NumCplIoQCreated } })
    else
      (true, NVMeDriverFatalError pAE (1 <<< FATAL_CPLQ_DELETE_FAILURE))
  else if pNVMeCmd.OPC = ADMIN_DELETE_IO_SUBMISSION_QUEUE then
    if pCplEntry.SC = 0 then
      let pAE1 := setSubQ pAE pQI.NumSubIoQCreated (fun q =>
        { q with SubQTailPtr := 0, SubQHeadPtr := 0 })
      (true, { pAE1 with QueueInfo :=
        { pAE1.QueueInfo with NumSubIoQCreated := decr pQI.NumSubIoQCreated } })
    else
      (true, NVMeDriverFatalError pAE (1 <<< FATAL_SUBQ_DELETE_FAILURE))
  else
    (true, pAE)

/-- Case NVMeWaitOnIdentifyCtrl of NVMeInitCallback. -/
def NVMeInitCallback.identifyCtrl (pAE : NVME_DEVICE_EXTENSION)
    (pCplEntry : NVMe_COMPLETION_QUEUE_ENTRY) : NVME_DEVICE_EXTENSION :=
  if cplSucceeded pCplEntry = true then
    { pAE with DriverState := { pAE.DriverState with
        NextDriverState := NVMeWaitOnIdentifyNS,
        StateChkCount := 0 } }
  else
    NVMeDriverFatalError pAE (1 <<< START_STATE_IDENTIFY_CTRL_FAILURE)

/-- Case NVMeWaitOnIdentifyNS of NVMeInitCallback.  The namespace entry is
`pLunExtensionTable[VisibleNamespacesExamined]`. -/
def NVMeInitCallback.identifyNS (pAE : NVME_DEVICE_EXTENSION)
    (pCplEntry : NVMe_COMPLETION_QUEUE_ENTRY) : NVME_DEVICE_EXTENSION :=
  if cplSucceeded pCplEntry = true then
    let lunId := pAE.DriverState.VisibleNamespacesExamined
    let fetched := pAE.DriverState.IdentifyNamespaceFetched + 1
    let luns := store {} pAE.pLunExtensionTable lunId (fun l => { l with namespaceId := fetched })
    { pAE with
      pLunExtensionTable := luns,
      DriverState := { pAE.DriverState with
        IdentifyNamespaceFetched := fetched,
        StateChkCount := 0,
        NextDriverState := NVMeWaitOnSetFeatures,
        CurrentNsid := (load {} luns lunId).namespaceId } }
  else
    NVMeDriverFatalError pAE (1 <<< START_STATE_IDENTIFY_NS_FAILURE)

/-- Case NVMeWaitOnAER of NVMeInitCallback. -/
def NVMeInitCallback.aer (pAE : NVME_DEVICE_EXTENSION)
    (pCplEntry : NVMe_COMPLETION_QUEUE_ENTRY) : NVME_DEVICE_EXTENSION :=
  if cplSucceeded pCplEntry = true then
    { pAE with DriverState := { pAE.DriverState with
        NextDriverState := NVMeWaitOnIoCQ,
        StateChkCount := 0 } }
  else
    NVMeDriverFatalError pAE (1 <<< START_STATE_AER_FAILURE)

/-- Case NVMeWaitOnIoCQ of NVMeInitCallback. -/
def NVMeInitCallback.ioCQ (pAE : NVME_DEVICE_EXTENSION)
    (pCplEntry : NVMe_COMPLETION_QUEUE_ENTRY) : NVME_DEVICE_EXTENSION :=
  if cplSucceeded pCplEntry = true then
    let created := ULONG (pAE.QueueInfo.NumCplIoQCreated + 1)
    { pAE with
      QueueInfo := { pAE.QueueInfo with NumCplIoQCreated := created },
      DriverState := { pAE.DriverState with
        StateChkCount := 0,
        NextDriverState :=
          if pAE.QueueInfo.NumCplIoQAllocated = created then NVMeWaitOnIoSQ
          else NVMeWaitOnIoCQ } }
  else
    NVMeDriverFatalError pAE (1 <<< START_STATE_CPLQ_CREATE_FAILURE)

/-- Case NVMeWaitOnIoSQ of NVMeInitCallback. -/
def NVMeInitCallback.ioSQ (pAE : NVME_DEVICE_EXTENSION)
    (pCplEntry : NVMe_COMPLETION_QUEUE_ENTRY) : NVME_DEVICE_EXTENSION :=
  if cplSucceeded pCplEntry = true then
    let created := ULONG (pAE.QueueInfo.NumSubIoQCreated + 1)
    { pAE with
      QueueInfo := { pAE.QueueInfo with NumSubIoQCreated := created },
      DriverState := { pAE.DriverState with
        StateChkCount := 0,
        NextDriverState :=
          if pAE.QueueInfo.NumSubIoQAllocated = created then
            (if pAE.LearningCores < pAE.ResMapTbl.NumActiveCores then NVMeWaitOnLearnMapping
             else NVMeStartComplete)
          else NVMeWaitOnIoSQ } }
  else
    NVMeDriverFatalError pAE (1 <<< START_STATE_SUBQ_CREATE_FAILURE)

/-- Case NVMeWaitOnLearnMapping of NVMeInitCallback. -/
def NVMeInitCallback.learnMapping (pAE : NVME_DEVICE_EXTENSION)
    (pCplEntry : NVMe_COMPLETION_QUEUE_ENTRY) : NVME_DEVICE_EXTENSION :=
  if cplSucceeded pCplEntry = true then
    { pAE with DriverState := { pAE.DriverState with
        StateChkCount := 0,
        NextDriverState :=
          if pAE.LearningCores < pAE.ResMapTbl.NumActiveCores then NVMeWaitOnLearnMapping
          else NVMeWaitOnReSetupQueues } }
  else
    { pAE with
      LearningCores := pAE.ResMapTbl.NumActiveCores,
      DriverState := { pAE.DriverState with NextDriverState := NVMeStartComplete } }

/-- Case NVMeWaitOnReSetupQueues of NVMeInitCallback. -/
def NVMeInitCallback.reSetupQueues (pAE : NVME_DEVICE_EXTENSION) (pNVMeCmd : NVMe_COMMAND)
    (pCplEntry : NVMe_COMPLETION_QUEUE_ENTRY) : NVME_DEVICE_EXTENSION :=
  let r := NVMeDeleteQueueCallback pAE pNVMeCmd pCplEntry
  if r.1 = true then
    { r.2 with DriverState := { r.2.DriverState with
        NextDriverState :=
          if 0 = r.2.QueueInfo.NumCplIoQCreated then NVMeWaitOnIoCQ
          else NVMeWaitOnReSetupQueues } }
  else r.2

/-- The `switch (pAE->DriverState.NextDriverState)` of NVMeInitCallback (the
build flag CHATHAM2 is not defined). -/
def NVMeInitCallback.dispatch (pAE : NVME_DEVICE_EXTENSION) (pNVMeCmd : NVMe_COMMAND)
    (pCplEntry : NVMe_COMPLETION_QUEUE_ENTRY) : NVME_DEVICE_EXTENSION :=
  match pAE.DriverState.NextDriverState with
  | NVMeWaitOnIdentifyCtrl => NVMeInitCallback.identifyCtrl pAE pCplEntry
  | NVMeWaitOnIdentifyNS => NVMeInitCallback.identifyNS pAE pCplEntry
  | NVMeWaitOnSetFeatures => NVMeSetFeaturesCompletion pAE pNVMeCmd pCplEntry
  | NVMeWaitOnAER => NVMeInitCallback.aer pAE pCplEntry
  | NVMeWaitOnIoCQ => NVMeInitCallback.ioCQ pAE pCplEntry
  | NVMeWaitOnIoSQ => NVMeInitCallback.ioSQ pAE pCplEntry
  | NVMeWaitOnLearnMapping => NVMeInitCallback.learnMapping pAE pCplEntry
  | NVMeWaitOnReSetupQueues => NVMeInitCallback.reSetupQueues pAE pNVMeCmd pCplEntry
  | _ => NVMeDriverFatalError pAE (1 <<< START_STATE_UNKNOWN_STATE_FAILURE)

/-- Embedding of NVMeInitCallback: the return value, always TRUE, and the
device extension.  The submission entry and the completion entry are those
of the SRB extension handed to the callback. -/
def NVMeInitCallback (pAE : NVME_DEVICE_EXTENSION) (pNVMeCmd : NVMe_COMMAND)
    (pCplEntry : NVMe_COMPLETION_QUEUE_ENTRY) : Bool × NVME_DEVICE_EXTENSION :=
  (true, NVMeCallArbiter (NVMeInitCallback.dispatch pAE pNVMeCmd pCplEntry))

/-! ## Asynchronous event requests -/

/-- The statement `pAE->DriverState.NumAERsIssued++`. -/
def NVMeIssueAERs.counted (pAE : NVME_DEVICE_EXTENSION) : NVME_DEVICE_EXTENSION :=
  { pAE with DriverState :=
      { pAE.DriverState with NumAERsIssued := pAE.DriverState.NumAERsIssued + 1 } }

/-- The loop `for ( ; NumCmdToIssue > 0; NumCmdToIssue--)` of NVMeIssueAERs.
The state is the device extension, the count of pool allocations made so far
and CmdIssued; the result is the return value, the device extension and the
advanced count of pool allocations. -/
def NVMeIssueAERs.loop (pf : Platform)
    (ProcessIo : NVME_DEVICE_EXTENSION → Bool × NVME_DEVICE_EXTENSION) (szSrbExt : Nat) :
    Nat → NVME_DEVICE_EXTENSION × Nat × Nat → Nat × NVME_DEVICE_EXTENSION × Nat
  | 0, st => (st.2.2, st.1, st.2.1)
  | n + 1, st =>
    let a := NVMeAllocatePool pf st.2.1 szSrbExt
    if a.1 = false then (st.2.2, st.1, a.2)
    else
      let r := ProcessIo st.1
      if r.1 = false then (st.2.2, r.2, a.2)
      else
        NVMeIssueAERs.loop pf ProcessIo szSrbExt n
          (NVMeIssueAERs.counted r.2, a.2, UCHAR (st.2.2 + 1))

/-- Embedding of NVMeIssueAERs: the return value, the device extension and
the advanced count of pool allocations.  `ProcessIo` stands for the call
`ProcessIo(pAE, pNVMeSrbExt, NVME_QUEUE_TYPE_ADMIN, FALSE)` of a routine that
is defined outside this file: its verdict and the device extension it
leaves.  `szSrbExt` is `sizeof(NVME_SRB_EXTENSION)`.  NumCmds, NumCmdToIssue
and CmdIssued are UCHAR; the difference `UAERL + 1 - NumAERsIssued` is taken
in the wider type and truncated when it is assigned to NumCmdToIssue. -/
def NVMeIssueAERs (pf : Platform)
    (ProcessIo : NVME_DEVICE_EXTENSION → Bool × NVME_DEVICE_EXTENSION) (szSrbExt pool : Nat)
    (pAE : NVME_DEVICE_EXTENSION) (NumCmds : Nat) : Nat × NVME_DEVICE_EXTENSION × Nat :=
  let NumCmds := UCHAR NumCmds
  let issued := pAE.DriverState.NumAERsIssued
  let limit := pAE.controllerIdentifyData.UAERL + 1
  let NumCmdToIssue :=
    if UCHAR (NumCmds + issued) > limit then UCHAR (limit + (256 - issued % 256))
    else NumCmds
  if NumCmdToIssue = 0 then (0, pAE, pool)
  else NVMeIssueAERs.loop pf ProcessIo szSrbExt NumCmdToIssue (pAE, pool, 0)

/-! ## Derived quantities of the queue memory -/

/-- The least multiple of `m` that is not below `n`, for a positive `m`. -/
def leastMultiple (m n : Nat) : Nat := (n + (m - 1)) / m * m

/-- The device extension after NVMeInitSubQueue, NVMeInitCplQueue and
NVMeInitCmdEntries on queue `QueueID`, in that order. -/
def layoutQueue (pf : Platform) (pAE : NVME_DEVICE_EXTENSION) (QueueID : Nat) :
    NVME_DEVICE_EXTENSION :=
  (NVMeInitCmdEntries pf
    (NVMeInitCplQueue pf (NVMeInitSubQueue pf pAE QueueID).2 QueueID).2 QueueID).2

/-- The byte ranges [a, a + la) and [b, b + lb) have no byte in common. -/
def rangesDisjoint (a la b lb : Nat) : Prop :=
  ∀ x, ¬ (a ≤ x ∧ x < a + la ∧ b ≤ x ∧ x < b + lb)

/-- The byte range [a, a + la) lies inside the byte range [b, b + lb). -/
def rangeInside (a la b lb : Nat) : Prop := b ≤ a ∧ a + la ≤ b + lb

/-! ## Tunables from the registry -/

/-- The six keys that NVMeFetchRegistry reads, by the names of its label
arrays, in the order of the reads. -/
inductive REGISTRY_KEY where
  | NAMESPACES
  | MAXTXSIZE
  | ADQUEUEENTRY
  | IOQUEUEENTRY
  | INTCOALESCINGTIME
  | INTCOALESCINGENTRY
  deriving DecidableEq, Repr

open REGISTRY_KEY

/-- Outcome of one StorPortRegistryRead: the return value, the content of the
buffer after the call and the length written back through `pLen`. -/
structure REGISTRY_READ where
  Ret : Bool := false
  Data : Nat := 0
  Len : Nat := 0
  deriving DecidableEq, Repr

/-- The key-value service of the platform. -/
structure Registry where
  /-- StorPortAllocateRegistryBuffer for the length passed in: whether a
  buffer is returned, and the length written back. -/
  AllocateRegistryBuffer : Nat → Bool × Nat
  /-- StorPortRegistryRead for a key, with the length passed in through `pLen`
  and the buffer zeroed before the call. -/
  RegistryRead : REGISTRY_KEY → Nat → REGISTRY_READ

/-- The constants of the registry code, which are declared in a header that
is not among the sources: the value that marks a missing key and the bounds
of the six tunables. -/
structure REGISTRY_LIMITS where
  REGISTRY_KEY_NOT_FOUND : Nat
  MIN_NAMESPACES : Nat
  MAX_NAMESPACES : Nat
  MIN_TX_SIZE : Nat
  MAX_TX_SIZE : Nat
  MIN_AD_QUEUE_ENTRIES : Nat
  MAX_AD_QUEUE_ENTRIES : Nat
  MIN_IO_QUEUE_ENTRIES : Nat
  MAX_IO_QUEUE_ENTRIES : Nat
  MIN_INT_COALESCING_TIME : Nat
  MAX_INT_COALESCING_TIME : Nat
  MIN_INT_COALESCING_ENTRY : Nat
  MAX_INT_COALESCING_ENTRY : Nat
  deriving DecidableEq, Repr

/-- Modelled from the spec: RANGE_CHK is a macro of a header that is not among
the sources; it is the range check of a tunable, true when the value lies
between the two bounds, both included. -/
def RANGE_CHK (data min max : Int) : Bool := decide (min ≤ data ∧ data ≤ max)

/-- A 32-bit value read as the signed `LONG`. -/
def LONG (x : Nat) : Int :=
  if ULONG x < 2147483648 then (ULONG x : Int) else (ULONG x : Int) - 4294967296

/-- Embedding of NVMeReadRegistry for the key `pLabel`, with `Len` the length
passed in through `pLen`: the return value, the buffer read as a ULONG and
the length left in `*pLen`. -/
def NVMeReadRegistry (reg : Registry) (lim : REGISTRY_LIMITS) (pLabel : REGISTRY_KEY)
    (Len : Nat) : Bool × Nat × Nat :=
  let a := reg.RegistryRead pLabel Len
  let pBuffer := ULONG a.Data
  let Len1 := ULONG a.Len
  if a.Ret = false ∨ Len1 = 0 then (false, pBuffer, Len1)
  else if pBuffer = lim.REGISTRY_KEY_NOT_FOUND then (false, pBuffer, Len1)
  else (true, pBuffer, Len1)

/-- Embedding of NVMeFetchRegistry (the build flag CHATHAM2 is not defined):
the return value and the device extension.  The buffer is zeroed before each
read; IntCoalescingTime and IntCoalescingEntry are range-checked as `LONG`,
the other four tunables as `ULONG`. -/
def NVMeFetchRegistry (reg : Registry) (lim : REGISTRY_LIMITS) (pAE : NVME_DEVICE_EXTENSION) :
    Bool × NVME_DEVICE_EXTENSION :=
  let a := reg.AllocateRegistryBuffer 4
  if a.1 = false then (false, pAE)
  else
    let i0 := pAE.InitInfo
    let r1 := NVMeReadRegistry reg lim NAMESPACES (ULONG a.2)
    let i1 : INIT_INFO :=
      if r1.1 = true ∧ RANGE_CHK r1.2.1 lim.MIN_NAMESPACES lim.MAX_NAMESPACES = true then
        { i0 with Namespaces := r1.2.1 }
      else i0
    let r2 := NVMeReadRegistry reg lim MAXTXSIZE r1.2.2
    let i2 : INIT_INFO :=
      if r2.1 = true ∧ RANGE_CHK r2.2.1 lim.MIN_TX_SIZE lim.MAX_TX_SIZE = true then
        { i1 with MaxTxSize := r2.2.1 }
      else i1
    let r3 := NVMeReadRegistry reg lim ADQUEUEENTRY r2.2.2
    let i3 : INIT_INFO :=
      if r3.1 = true
          ∧ RANGE_CHK r3.2.1 lim.MIN_AD_QUEUE_ENTRIES lim.MAX_AD_QUEUE_ENTRIES = true then
        { i2 with AdQEntries := r3.2.1 }
      else i2
    let r4 := NVMeReadRegistry reg lim IOQUEUEENTRY r3.2.2
    let i4 : INIT_INFO :=
      if r4.1 = true
          ∧ RANGE_CHK r4.2.1 lim.MIN_IO_QUEUE_ENTRIES lim.MAX_IO_QUEUE_ENTRIES = true then
        { i3 with IoQEntries := r4.2.1 }
      else i3
    let r5 := NVMeReadRegistry reg lim INTCOALESCINGTIME r4.2.2
    let i5 : INIT_INFO :=
      if r5.1 = true ∧ RANGE_CHK (LONG r5.2.1) lim.MIN_INT_COALESCING_TIME
          lim.MAX_INT_COALESCING_TIME = true then
        { i4 with IntCoalescingTime := r5.2.1 }
      else i4
    let r6 := NVMeReadRegistry reg lim INTCOALESCINGENTRY r5.2.2
    let i6 : INIT_INFO :=
      if r6.1 = true ∧ RANGE_CHK (LONG r6.2.1) lim.MIN_INT_COALESCING_ENTRY
          lim.MAX_INT_COALESCING_ENTRY = true then
        { i5 with IntCoalescingEntry := r6.2.1 }
      else i5
    (true, { pAE with InitInfo := i6 })

/-- The length left in `*pLen` by the read of `key` when `Len` is passed in. -/
def lenAfter (reg : Registry) (key : REGISTRY_KEY) (Len : Nat) : Nat :=
  ULONG (reg.RegistryRead key Len).Len

/-- The length that NVMeFetchRegistry passes to the read of `key`: the one
left by the allocation of the buffer for the first key and the one left by
the read before for each later key. -/
def lenBefore (reg : Registry) : REGISTRY_KEY → Nat
  | NAMESPACES => ULONG (reg.AllocateRegistryBuffer 4).2
  | MAXTXSIZE => lenAfter reg NAMESPACES (ULONG (reg.AllocateRegistryBuffer 4).2)
  | ADQUEUEENTRY =>
    lenAfter reg MAXTXSIZE (lenAfter reg NAMESPACES (ULONG (reg.AllocateRegistryBuffer 4).2))
  | IOQUEUEENTRY =>
    lenAfter reg ADQUEUEENTRY (lenAfter reg MAXTXSIZE
      (lenAfter reg NAMESPACES (ULONG (reg.AllocateRegistryBuffer 4).2)))
  | INTCOALESCINGTIME =>
    lenAfter reg IOQUEUEENTRY (lenAfter reg ADQUEUEENTRY (lenAfter reg MAXTXSIZE
      (lenAfter reg NAMESPACES (ULONG (reg.AllocateRegistryBuffer 4).2))))
  | INTCOALESCINGENTRY =>
    lenAfter reg INTCOALESCINGTIME (lenAfter reg IOQUEUEENTRY (lenAfter reg ADQUEUEENTRY
      (lenAfter reg MAXTXSIZE (lenAfter reg NAMESPACES (ULONG (reg.AllocateRegistryBuffer 4).2)))))

/-- The answer of the platform to the read of `key` that NVMeFetchRegistry
makes. -/
def answerOf (reg : Registry) (key : REGISTRY_KEY) : REGISTRY_READ :=
  reg.RegistryRead key (lenBefore reg key)

/-- The value read for `key`: the buffer after the read, as a ULONG. -/
def valueRead (reg : Registry) (key : REGISTRY_KEY) : Nat := ULONG (answerOf reg key).Data

/-- The lower bound of the tunable of `key`. -/
def minOf (lim : REGISTRY_LIMITS) : REGISTRY_KEY → Nat
  | NAMESPACES => lim.MIN_NAMESPACES
  | MAXTXSIZE => lim.MIN_TX_SIZE
  | ADQUEUEENTRY => lim.MIN_AD_QUEUE_ENTRIES
  | IOQUEUEENTRY => lim.MIN_IO_QUEUE_ENTRIES
  | INTCOALESCINGTIME => lim.MIN_INT_COALESCING_TIME
  | INTCOALESCINGENTRY => lim.MIN_INT_COALESCING_ENTRY

/-- The upper bound of the tunable of `key`. -/
def maxOf (lim : REGISTRY_LIMITS) : REGISTRY_KEY → Nat
  | NAMESPACES => lim.MAX_NAMESPACES
  | MAXTXSIZE => lim.MAX_TX_SIZE
  | ADQUEUEENTRY => lim.MAX_AD_QUEUE_ENTRIES
  | IOQUEUEENTRY => lim.MAX_IO_QUEUE_ENTRIES
  | INTCOALESCINGTIME => lim.MAX_INT_COALESCING_TIME
  | INTCOALESCINGENTRY => lim.MAX_INT_COALESCING_ENTRY

/-- The condition under which the specification has a tunable take the value
read: the registry buffer is there, the platform read of `key` succeeds with
a length that is not zero, the value is not REGISTRY_KEY_NOT_FOUND and it
lies within the bounds of the tunable. -/
def accepted (reg : Registry) (lim : REGISTRY_LIMITS) (key : REGISTRY_KEY) : Bool :=
  (reg.AllocateRegistryBuffer 4).1 && (answerOf reg key).Ret
    && decide (ULONG (answerOf reg key).Len ≠ 0)
    && decide (valueRead reg key ≠ lim.REGISTRY_KEY_NOT_FOUND)
    && decide (minOf lim key ≤ valueRead reg key ∧ valueRead reg key ≤ maxOf lim key)

/-! ## Orderly shutdown -/

/-- The controller registers that the shutdown path reads and writes. -/
inductive CTRL_REGISTER where
  | CC
  | CSTS
  deriving DecidableEq, Repr

/-- What the shutdown path does to the controller and to the platform: a
register read with the value read, a register write with the value written,
a stall, the release of a contiguous buffer and the release of a pool
buffer. -/
inductive HW_EVENT where
  | ReadRegister (reg : CTRL_REGISTER) (value : Nat)
  | WriteRegister (reg : CTRL_REGISTER) (value : Nat)
  | Stall (us : Nat)
  | FreeContiguous (p size : Nat)
  | FreePool (p : Nat)
  deriving DecidableEq, Repr

/-- Whether an event is a register read. -/
def isRead : HW_EVENT → Bool
  | HW_EVENT.ReadRegister _ _ => true
  | _ => false

/-- Whether an event is a register read or a register write. -/
def isRegisterAccess : HW_EVENT → Bool
  | HW_EVENT.ReadRegister _ _ => true
  | HW_EVENT.WriteRegister _ _ => true
  | _ => false

/-- Whether an event is the release of a buffer. -/
def isFree : HW_EVENT → Bool
  | HW_EVENT.FreeContiguous _ _ => true
  | HW_EVENT.FreePool _ => true
  | _ => false

/-- The controller as the driver observes it: the value that the register
read number `i` of a run returns when it is made on register `reg`. -/
structure Controller where
  ReadRegisterUlong : Nat → CTRL_REGISTER → Nat

/-- The call StorPortReadRegisterUlong on register `reg` after the events
`log`: the value read and the extended log. -/
def StorPortReadRegisterUlong (ctl : Controller) (log : List HW_EVENT) (reg : CTRL_REGISTER) :
    Nat × List HW_EVENT :=
  (ULONG (ctl.ReadRegisterUlong (log.countP isRead) reg),
   log ++ [HW_EVENT.ReadRegister reg (ULONG (ctl.ReadRegisterUlong (log.countP isRead) reg))])

/-- Modelled from the spec: the bit fields of the controller registers are
declared in a header that is not among the sources; the layout is the
standardized one that the specification refers to by name.  CSTS.RDY is bit
0 of the controller status. -/
def CSTS_RDY (v : Nat) : Nat := v % 2

/-- Modelled from the spec: CSTS.SHST is the field of bits 3:2 of the
controller status. -/
def CSTS_SHST (v : Nat) : Nat := (v / 4) % 4

/-- Modelled from the spec: the controller configuration with the field EN,
bit 0, set to `en`. -/
def CC_set_EN (v en : Nat) : Nat := v - v % 2 + en % 2

/-- Modelled from the spec: the controller configuration with the field SHN,
bits 15:14, set to `shn`. -/
def CC_set_SHN (v shn : Nat) : Nat := v - ((v / 16384) % 4) * 16384 + (shn % 4) * 16384

/-- Modelled from the spec: NVMeDetectPendingCmds is defined in a file that
is not among the sources; it reports whether any command slot of any
submission queue is pending, and changes nothing. -/
def NVMeDetectPendingCmds (pAE : NVME_DEVICE_EXTENSION) : Bool :=
  pAE.QueueInfo.pSubQueueInfo.any (fun q => q.CmdEntries.any (fun c => c.Pending))

/-- Embedding of NVMeResetAdapter after the events `log`: the return value,
the device extension and the extended log. -/
def NVMeResetAdapter (ctl : Controller) (pAE : NVME_DEVICE_EXTENSION) (log : List HW_EVENT) :
    Bool × NVME_DEVICE_EXTENSION × List HW_EVENT :=
  if pAE.pCtrlRegister = 0 then (false, pAE, log)
  else
    let r := StorPortReadRegisterUlong ctl log CTRL_REGISTER.CC
    (true,
     { pAE with DriverState := { pAE.DriverState with NextDriverState := NVMeWaitOnRDY } },
     r.2 ++ [HW_EVENT.WriteRegister CTRL_REGISTER.CC (CC_set_EN r.1 0)])

/-- Embedding of NVMeFreeNonContiguousBuffers (the build flag COMPLETE_IN_DPC
is not defined): the releases it makes, in order. -/
def NVMeFreeNonContiguousBuffers (pAE : NVME_DEVICE_EXTENSION) : List HW_EVENT :=
  (if pAE.Pointers.pSrbExt ≠ 0 then [HW_EVENT.FreePool pAE.Pointers.pSrbExt] else [])
  ++ (if pAE.Pointers.pMsiMsgTbl ≠ 0 then [HW_EVENT.FreePool pAE.Pointers.pMsiMsgTbl] else [])
  ++ (if pAE.Pointers.pCoreTbl ≠ 0 then [HW_EVENT.FreePool pAE.Pointers.pCoreTbl] else [])
  ++ (if pAE.Pointers.pNumaNodeTbl ≠ 0 then [HW_EVENT.FreePool pAE.Pointers.pNumaNodeTbl] else [])
  ++ (if pAE.Pointers.pSubQueueInfo ≠ 0 then [HW_EVENT.FreePool pAE.Pointers.pSubQueueInfo]
      else [])
  ++ (if pAE.Pointers.pCplQueueInfo ≠ 0 then [HW_EVENT.FreePool pAE.Pointers.pCplQueueInfo]
      else [])

/-- The body of the loop of NVMeFreeBuffers for queue `QueueID` (the build
flag DUMB_DRIVER is not defined): the releases of the queue allocation and
of the PRP list allocation that are not NULL. -/
def NVMeFreeBuffers.queue (pAE : NVME_DEVICE_EXTENSION) (QueueID : Nat) : List HW_EVENT :=
  (if (subQ pAE QueueID).pQueueAlloc ≠ 0 then
     [HW_EVENT.FreeContiguous (subQ pAE QueueID).pQueueAlloc (subQ pAE QueueID).QueueAllocSize]
   else [])
  ++ (if (subQ pAE QueueID).pPRPListAlloc ≠ 0 then
     [HW_EVENT.FreeContiguous (subQ pAE QueueID).pPRPListAlloc
       (subQ pAE QueueID).PRPListAllocSize]
   else [])

/-- The loop `for (QueueID = 0; QueueID <= pRMT->NumActiveCores; QueueID++)`
of NVMeFreeBuffers with its counter `USHORT QueueID`; `none` when the fuel
runs out before the loop is left. -/
def NVMeFreeBuffers.loop (pAE : NVME_DEVICE_EXTENSION) :
    Nat → Nat → List HW_EVENT → Option (List HW_EVENT)
  | 0, _, _ => none
  | fuel + 1, QueueID, log =>
    if QueueID ≤ pAE.ResMapTbl.NumActiveCores then
      NVMeFreeBuffers.loop pAE fuel (USHORT (QueueID + 1)) (log ++ NVMeFreeBuffers.queue pAE QueueID)
    else some log

/-- Embedding of NVMeFreeBuffers after the events `log`: the extended log,
`none` when the fuel does not suffice for its loop. -/
def NVMeFreeBuffers (fuel : Nat) (pAE : NVME_DEVICE_EXTENSION) (log : List HW_EVENT) :
    Option (List HW_EVENT) :=
  let log1 := log ++
    (if pAE.Pointers.pDataBuffer ≠ 0 then
       [HW_EVENT.FreeContiguous pAE.Pointers.pDataBuffer PAGE_SIZE] else [])
  let log2 := log1 ++
    (if pAE.Pointers.pLunExtensionTable_0 ≠ 0 then
       [HW_EVENT.FreeContiguous pAE.Pointers.pLunExtensionTable_0 pAE.LunExtSize] else [])
  let log3 :=
    if pAE.Pointers.pSubQueueInfo ≠ 0 then NVMeFreeBuffers.loop pAE fuel 0 log2 else some log2
  log3.map (fun l => l ++ NVMeFreeNonContiguousBuffers pAE)

/-- The first poll loop of NVMeNormalShutdown, with `n` polls left: it reads
CSTS until RDY is 0, stalling after each other read. -/
def NVMeNormalShutdown.waitRDY (ctl : Controller) (us : Nat) :
    Nat → List HW_EVENT → List HW_EVENT
  | 0, log => log
  | n + 1, log =>
    if CSTS_RDY (StorPortReadRegisterUlong ctl log CTRL_REGISTER.CSTS).1 = 0 then
      (StorPortReadRegisterUlong ctl log CTRL_REGISTER.CSTS).2
    else
      NVMeNormalShutdown.waitRDY ctl us n
        ((StorPortReadRegisterUlong ctl log CTRL_REGISTER.CSTS).2 ++ [HW_EVENT.Stall us])

/-- The second poll loop of NVMeNormalShutdown, with `n` polls left: it reads
CSTS until SHST is 2, stalling after each other read; whether SHST was read
as 2, and the extended log. -/
def NVMeNormalShutdown.waitSHST (ctl : Controller) (us : Nat) :
    Nat → List HW_EVENT → Bool × List HW_EVENT
  | 0, log => (false, log)
  | n + 1, log =>
    if CSTS_SHST (StorPortReadRegisterUlong ctl log CTRL_REGISTER.CSTS).1 = 2 then
      (true, (StorPortReadRegisterUlong ctl log CTRL_REGISTER.CSTS).2)
    else
      NVMeNormalShutdown.waitSHST ctl us n
        ((StorPortReadRegisterUlong ctl log CTRL_REGISTER.CSTS).2 ++ [HW_EVENT.Stall us])

/-- The part of NVMeNormalShutdown between the test of the register mapping
and the second poll loop: the first poll loop, then the read of CC and the
write of CC with SHN set to 1 (normal shutdown). -/
def NVMeNormalShutdown.notify (ctl : Controller) (us PollMax : Nat) (log : List HW_EVENT) :
    List HW_EVENT :=
  let log1 := NVMeNormalShutdown.waitRDY ctl us PollMax log
  let r := StorPortReadRegisterUlong ctl log1 CTRL_REGISTER.CC
  r.2 ++ [HW_EVENT.WriteRegister CTRL_REGISTER.CC (CC_set_SHN r.1 1)]

/-- Embedding of NVMeNormalShutdown: the return value, the device extension
and the events of the run, `none` when the fuel does not suffice for the loop
of NVMeFreeBuffers.  `DBG` is the build flag of that name and
`MAX_STATE_STALL_us` the constant of that name, which is declared in a
header that is not among the sources. -/
def NVMeNormalShutdown (DBG : Bool) (MAX_STATE_STALL_us : Nat) (ctl : Controller) (fuel : Nat)
    (pAE : NVME_DEVICE_EXTENSION) : Option (Bool × NVME_DEVICE_EXTENSION × List HW_EVENT) :=
  let PollMax := ULONG pAE.uSecCrtlTimeout / MAX_STATE_STALL_us
  if NVMeDetectPendingCmds pAE = true then some (false, pAE, [])
  else
    let r := NVMeResetAdapter ctl pAE []
    if r.2.1.pCtrlRegister = 0 then some (false, r.2.1, r.2.2)
    else
      let log2 := NVMeNormalShutdown.notify ctl MAX_STATE_STALL_us PollMax r.2.2
      let w := NVMeNormalShutdown.waitSHST ctl MAX_STATE_STALL_us PollMax log2
      if w.1 = true then
        (NVMeFreeBuffers fuel r.2.1 w.2).map (fun l => (true, r.2.1, l))
      else if DBG = true then
        (NVMeFreeBuffers fuel r.2.1 w.2).map (fun l => (true, r.2.1, l))
      else some (false, r.2.1, w.2)

/-- The releases of all buffers of the device extension that are not NULL,
in the order of NVMeFreeBuffers: the scratch data buffer, the namespace
entries, for every queue 0 .. NumActiveCores its queue allocation and its PRP
list allocation, then the pool buffers. -/
def allBuffers (pAE : NVME_DEVICE_EXTENSION) : List HW_EVENT :=
  (if pAE.Pointers.pDataBuffer ≠ 0 then
     [HW_EVENT.FreeContiguous pAE.Pointers.pDataBuffer PAGE_SIZE] else [])
  ++ (if pAE.Pointers.pLunExtensionTable_0 ≠ 0 then
     [HW_EVENT.FreeContiguous pAE.Pointers.pLunExtensionTable_0 pAE.LunExtSize] else [])
  ++ (if pAE.Pointers.pSubQueueInfo ≠ 0 then
     ((List.range (pAE.ResMapTbl.NumActiveCores + 1)).map (NVMeFreeBuffers.queue pAE)).flatten
     else [])
  ++ NVMeFreeNonContiguousBuffers pAE
/-! ## Deletion of the completion queues -/

/-- Embedding of NVMeDeleteCplQueues: the return value and the submission
entry handed to ProcessIo (`none` when no command is issued).  `ProcessIo`
stands for the verdict of the call `ProcessIo(pAE, pNVMeSrbExt,
NVME_QUEUE_TYPE_ADMIN, FALSE)` of a routine defined outside this file.
CDW10 holds the queue identifier QID in its low word. -/
def NVMeDeleteCplQueues (ProcessIo : NVMe_COMMAND → Bool) (pAE : NVME_DEVICE_EXTENSION) :
    Bool × Option NVMe_COMMAND :=
  let QueueID := USHORT pAE.QueueInfo.NumCplIoQCreated
  if QueueID > 0 then
    let pDeleteCpl : NVMe_COMMAND := { OPC := ADMIN_DELETE_IO_COMPLETION_QUEUE, CDW10 := QueueID }
    if ProcessIo pDeleteCpl = false then (false, some pDeleteCpl)
    else (true, some pDeleteCpl)
  else (true, none)

/-- One round of the deletion of the completion queues: NVMeDeleteCplQueues
issues its command, the controller completes it with the entry `cpl` and
NVMeInitCallback handles the completion.  Without a command there is no
completion and the device extension stays as it is. -/
def deleteCplRound (cpl : NVMe_COMPLETION_QUEUE_ENTRY) (pAE : NVME_DEVICE_EXTENSION) :
    NVME_DEVICE_EXTENSION :=
  match NVMeDeleteCplQueues (fun _ => true) pAE with
  | (true, some cmd) => (NVMeInitCallback pAE cmd cpl).2
  | _ => pAE

/-- The device extension after `k` rounds of `deleteCplRound`. -/
def deleteCplRounds (cpl : NVMe_COMPLETION_QUEUE_ENTRY) : Nat → NVME_DEVICE_EXTENSION →
    NVME_DEVICE_EXTENSION
  | 0, pAE => pAE
  | k + 1, pAE => deleteCplRounds cpl k (deleteCplRound cpl pAE)

/-! ## Order of the free list -/

/-- State of a queue of `n` slots from which the slots 0 .. j - 1 have been
handed out in this order: the free list holds j .. n - 1, every slot carries
its index as CmdID, and the queue may be used (`Q` is inside the table and not
above the `c` created queues). -/
def HandedOut (Q n c j : Nat) (s : NVME_DEVICE_EXTENSION) : Prop :=
  (subQ s Q).FreeQList = List.range' j (n - j) ∧
  (∀ i, i < n → (load {} (subQ s Q).CmdEntries i).CmdInfo.CmdID = i) ∧
  (subQ s Q).CmdEntries.length = n ∧
  s.QueueInfo.NumSubIoQCreated = c ∧
  Q < s.QueueInfo.pSubQueueInfo.length


/-! ## Number of set bits -/

/-- The number of set bits among the 64 bits of `Mask`, as the specification
uses it: the count of the bit positions below 64 at which `Mask` has a 1. -/
def popcount (Mask : Nat) : Nat := (List.range 64).countP (fun b => Mask.testBit b)

/-- The mapping table `t1` has the core counts of `t`: the same number of
active cores and of NUMA nodes, a node table of the same length, and for every
node the same NumCores and GroupAffinity. -/
def SameCounts (t t1 : RES_MAPPING_TBL) : Prop :=
  t1.NumActiveCores = t.NumActiveCores ∧
  t1.NumNumaNodes = t.NumNumaNodes ∧
  t1.pNumaNodeTbl.length = t.pNumaNodeTbl.length ∧
  ∀ j, (load {} t1.pNumaNodeTbl j).NumCores = (load {} t.pNumaNodeTbl j).NumCores ∧
       (load {} t1.pNumaNodeTbl j).GroupAffinity = (load {} t.pNumaNodeTbl j).GroupAffinity

/-! ## Concrete inputs used by the witnesses and evaluations -/

/-- A completion queue of two entries whose head is at the last entry, used
to exercise the wrap of NVMeGetCplEntry. -/
def cplQueueAtLast : CPL_QUEUE_INFO :=
  { CplQueueID := 1, CplQEntries := 2, CplQHeadPtr := 1, CurPhaseTag := 0, pCplQStart := 8192,
    Ring := [{ P := 1 }, { P := 1, CID := 7 }] }

/-- A device extension with the admin queue and one IO queue whose free list
holds the slots 1 and 2 of three; slot 0 is in flight. -/
def oneQueueDevice : NVME_DEVICE_EXTENSION :=
  { QueueInfo :=
      { NumSubIoQCreated := 1,
        pSubQueueInfo :=
          [ {},
            { SubQEntries := 3,
              CmdEntries := [{ Pending := true, Context := 5 }, { CmdInfo := { CmdID := 1 } },
                             { CmdInfo := { CmdID := 2 } }],
              FreeQList := [1, 2] } ] } }

/-- A device extension of four cores, `learned` of them learned, whose core 2 is
stored as paired with queue 3. -/
def fourCoreDevice (learned : Nat) : NVME_DEVICE_EXTENSION :=
  { LearningCores := learned,
    ResMapTbl :=
      { NumActiveCores := 4,
        pCoreTbl := [{ SubQueue := 1, CplQueue := 1 }, { CoreNum := 1, SubQueue := 2, CplQueue := 2 },
                     { CoreNum := 2, SubQueue := 3, CplQueue := 3 },
                     { CoreNum := 3, SubQueue := 4, CplQueue := 4 }] } }

/-- A platform with two NUMA nodes that translates every address to itself,
grants every pool request and hands out contiguous buffers at distinct
addresses above 1 MiB, none of them page aligned. -/
def plainPlatform : Platform :=
  { HighestNodeNumber := 1,
    NodeAffinity := fun n => if n = 0 then some { Mask := 12, Group := 0 }
                             else if n = 1 then some { Mask := 3, Group := 0 } else none,
    MSIInfo := fun _ => none,
    PhysicalAddress := fun a => a,
    AllocatePool := fun _ => true,
    AllocateContiguous := fun i => 1048576 * (i + 1) + 16 }

/-- A device extension of one active core whose IO queue 1 has been given
four entries and its two buffers by NVMeAllocQueues, and has been created in
the controller. -/
def freshQueueDevice : NVME_DEVICE_EXTENSION :=
  { PRPListSize := 256,
    ResMapTbl := { NumActiveCores := 1 },
    QueueInfo :=
      { NumIoQEntriesAllocated := 4,
        NumSubIoQCreated := 1,
        pSubQueueInfo := [{}, { pQueueAlloc := 1048592, pPRPListAlloc := 2097168,
                                NumPRPListOnePage := 16 }],
        pCplQueueInfo := [{}, {}] } }

/-- A device extension of one active core with room for the admin queue and
one IO queue, whose PRP lists are 384 bytes long (48 entries of 8 bytes, a
maximum transfer of 192 KiB). -/
def wideListDevice : NVME_DEVICE_EXTENSION :=
  { PRPListSize := 384,
    ResMapTbl := { NumActiveCores := 1 },
    QueueInfo := { pSubQueueInfo := [{}, {}], pCplQueueInfo := [{}, {}] } }

/-- A platform with one NUMA node of four cores (group 0, mask 0b1111) on
which every allocation succeeds. -/
def fourCorePlatform : Platform :=
  { HighestNodeNumber := 0,
    NodeAffinity := fun n => if n = 0 then some { Mask := 15, Group := 0 } else none,
    MSIInfo := fun _ => none,
    PhysicalAddress := fun a => a,
    AllocatePool := fun _ => true,
    AllocateContiguous := fun i => 1048576 * (i + 1) }

/-- A device extension before topology discovery, with room for the admin
queue and four IO queues, PRP lists of 256 bytes and IO queues of 64 entries. -/
def blankDevice : NVME_DEVICE_EXTENSION :=
  { PRPListSize := 256,
    InitInfo := { IoQEntries := 64 },
    QueueInfo := { pSubQueueInfo := List.replicate 5 {}, pCplQueueInfo := List.replicate 5 {} } }

/-- The submission entry of Set Features, Number of Queues. -/
def numberOfQueuesCmd : NVMe_COMMAND := { OPC := ADMIN_SET_FEATURES, CDW10 := NUMBER_OF_QUEUES }

/-- The state reached from `blankDevice` on platform `pf` by NVMeEnumNumaCores,
a successful completion of Set Features (Number of Queues) with the completion
double word `DW0`, and NVMeAllocIoQueues: the return value of
NVMeAllocIoQueues and the device extension. -/
def allocatedFrom (pf : Platform) (DW0 : Nat) : Bool × NVME_DEVICE_EXTENSION :=
  let e := NVMeEnumNumaCores pf 0 blankDevice
  let s := NVMeSetFeaturesCompletion e.2.1 numberOfQueuesCmd { DW0 := DW0, SC := 0 }
  let a := NVMeAllocIoQueues pf 56 0 s
  (a.1, a.2.1)

/-- A platform with two NUMA nodes in group 0, node 0 holding the cores 2 and
3 (mask 0b1100) and node 1 the cores 0 and 1 (mask 0b0011), on which the
third contiguous allocation fails and every other allocation succeeds. -/
def scarcePlatform : Platform :=
  { HighestNodeNumber := 1,
    NodeAffinity := fun n => if n = 0 then some { Mask := 12, Group := 0 }
                             else if n = 1 then some { Mask := 3, Group := 0 } else none,
    MSIInfo := fun _ => none,
    PhysicalAddress := fun a => a,
    AllocatePool := fun _ => true,
    AllocateContiguous := fun i => if i = 2 then 0 else 1048576 * (i + 1) }

/-- A resource mapping state of 256 active cores and 257 granted messages. -/
def manyCoreDevice : NVME_DEVICE_EXTENSION :=
  { ResMapTbl :=
      { InterruptType := INT_TYPE_MSIX, NumMsiMsgGranted := 257, NumActiveCores := 256,
        pCoreTbl := (List.range 256).map (fun c =>
          { CoreNum := c, SubQueue := c + 1, CplQueue := c + 1 }),
        pMsiMsgTbl := (List.range 257).map (fun m => { MsgID := m, Addr := 4096 + 16 * m }) } }

/-- A platform that grants the message ids 0 .. granted - 1, every message
with its own address, and refuses the others. -/
def msiPlatform (granted : Nat) : Platform :=
  { HighestNodeNumber := 0,
    NodeAffinity := fun _ => none,
    MSIInfo := fun m => if m < granted then
        some { MessageId := m, MessageAddress := 4276092928 + 16 * m, MessageData := m }
      else none,
    PhysicalAddress := fun a => a,
    AllocatePool := fun _ => true,
    AllocateContiguous := fun _ => 0 }

/-- A device extension of four active cores with its message table of five
zeroed entries. -/
def fourCoreMsiDevice : NVME_DEVICE_EXTENSION :=
  { ResMapTbl := { NumActiveCores := 4, pMsiMsgTbl := List.replicate 5 {} } }

/-- A platform with one NUMA node of two cores (group 0, mask 0b11) on which
every allocation succeeds. -/
def twoCorePlatform : Platform :=
  { HighestNodeNumber := 0,
    NodeAffinity := fun n => if n = 0 then some { Mask := 3, Group := 0 } else none,
    MSIInfo := fun _ => none,
    PhysicalAddress := fun a => a,
    AllocatePool := fun _ => true,
    AllocateContiguous := fun i => 1048576 * (i + 1) }

/-- A device extension waiting for the completion of Identify Controller, with
no IO queue allocated yet. -/
def identifyCtrlDevice : NVME_DEVICE_EXTENSION :=
  { DriverState := { NextDriverState := NVMeWaitOnIdentifyCtrl },
    ResMapTbl := { NumActiveCores := 4 } }

/-- A device extension of four cores in the learning phase, one core learned. -/
def learningDevice : NVME_DEVICE_EXTENSION :=
  { DriverState := { NextDriverState := NVMeWaitOnLearnMapping },
    LearningCores := 1,
    ResMapTbl := { NumActiveCores := 4 } }

/-- A device extension of four cores waiting for the creation of its last
submission queue, `learned` being its learning counter. -/
def lastQueueDevice (learned : Nat) : NVME_DEVICE_EXTENSION :=
  { DriverState := { NextDriverState := NVMeWaitOnIoSQ },
    LearningCores := learned,
    ResMapTbl := { NumActiveCores := 4 },
    QueueInfo := { NumSubIoQAllocated := 4, NumCplIoQAllocated := 4,
                   NumCplIoQCreated := 4, NumSubIoQCreated := 3 } }

/-- A device extension in the set features phase with one namespace
identified and none examined, whose scratch buffer holds the range entry
`e`; its namespace table has two entries, the first one just identified. -/
def rangeDevice (e : LBA_RANGE_TYPE_ENTRY) : NVME_DEVICE_EXTENSION :=
  { DriverState := { NextDriverState := NVMeWaitOnSetFeatures,
                     InterruptCoalescingSet := true,
                     IdentifyNamespaceFetched := 1,
                     CurrentNsid := 1,
                     pDataBuffer := e },
    controllerIdentifyData := { NN := 2 },
    pLunExtensionTable := [{ namespaceId := 1, NSZE := 1024 }, {}] }

/-- The Get Features command for the LBA range type of namespace 1 with
`NUM` in CDW11. -/
def getLbaRangeCmd (NUM : Nat) : NVMe_COMMAND :=
  { OPC := ADMIN_GET_FEATURES, NSID := 1, CDW10 := LBA_RANGE_TYPE, CDW11 := NUM }

/-- A device extension whose controller allows four outstanding asynchronous
event requests (UAERL = 3), `issued` of them issued. -/
def aerDevice (issued : Nat) : NVME_DEVICE_EXTENSION :=
  { DriverState := { NextDriverState := NVMeWaitOnAER, NumAERsIssued := issued },
    controllerIdentifyData := { NN := 1, UAERL := 3 } }

/-- A platform that grants the first `n` pool requests and refuses the later
ones. -/
def poolPlatform (n : Nat) : Platform :=
  { HighestNodeNumber := 0,
    NodeAffinity := fun _ => none,
    MSIInfo := fun _ => none,
    PhysicalAddress := fun a => a,
    AllocatePool := fun i => decide (i < n),
    AllocateContiguous := fun _ => 0 }

/-- An admin queue that takes every command handed to it and leaves the
device extension as it is. -/
def acceptCmd (pAE : NVME_DEVICE_EXTENSION) : Bool × NVME_DEVICE_EXTENSION := (true, pAE)

/-- A device extension of one active core whose IO queue 1 has been given 128
entries and a queue allocation that is not page aligned. -/
def layoutDevice : NVME_DEVICE_EXTENSION :=
  { PRPListSize := 256,
    ResMapTbl := { NumActiveCores := 1 },
    QueueInfo :=
      { NumIoQEntriesAllocated := 128,
        pSubQueueInfo := [{}, { pQueueAlloc := 1048592, pPRPListAlloc := 2097168,
                                NumPRPListOnePage := 16 }],
        pCplQueueInfo := [{}, {}] } }

/-- Bounds of the tunables and a marker of a missing key, for the examples. -/
def sampleLimits : REGISTRY_LIMITS :=
  { REGISTRY_KEY_NOT_FOUND := 4294967295,
    MIN_NAMESPACES := 1, MAX_NAMESPACES := 16,
    MIN_TX_SIZE := 4096, MAX_TX_SIZE := 1048576,
    MIN_AD_QUEUE_ENTRIES := 64, MAX_AD_QUEUE_ENTRIES := 4096,
    MIN_IO_QUEUE_ENTRIES := 64, MAX_IO_QUEUE_ENTRIES := 4096,
    MIN_INT_COALESCING_TIME := 0, MAX_INT_COALESCING_TIME := 255,
    MIN_INT_COALESCING_ENTRY := 0, MAX_INT_COALESCING_ENTRY := 255 }

/-- A registry that holds Namespaces = 8 and IoQEntries = 1024, fails the
read of MaxTXSize, holds AdQEntries = 5 (below its range), answers the
missing-key marker for IntCoalescingTime and a zero length for
IntCoalescingEntries. -/
def sampleRegistry : Registry :=
  { AllocateRegistryBuffer := fun n => (true, n),
    RegistryRead := fun key _ =>
      match key with
      | NAMESPACES => { Ret := true, Data := 8, Len := 4 }
      | MAXTXSIZE => { Ret := false, Data := 0, Len := 4 }
      | ADQUEUEENTRY => { Ret := true, Data := 5, Len := 4 }
      | IOQUEUEENTRY => { Ret := true, Data := 1024, Len := 4 }
      | INTCOALESCINGTIME => { Ret := true, Data := 4294967295, Len := 4 }
      | INTCOALESCINGENTRY => { Ret := true, Data := 3, Len := 0 } }

/-- A device extension that holds the defaults of the tunables. -/
def defaultsDevice : NVME_DEVICE_EXTENSION :=
  { InitInfo := { Namespaces := 4, MaxTxSize := 131072, AdQEntries := 128, IoQEntries := 256,
                  IntCoalescingTime := 80, IntCoalescingEntry := 16 } }

/-- A device extension with mapped controller registers and a poll budget of
three reads (with a stall of 100 microseconds), whose IO queue 1 has one
command in flight. -/
def busyDevice : NVME_DEVICE_EXTENSION :=
  { oneQueueDevice with
    pCtrlRegister := 4026531840,
    uSecCrtlTimeout := 300,
    ResMapTbl := { NumActiveCores := 1 } }

/-- A device extension with mapped controller registers, a poll budget of
three reads (with a stall of 100 microseconds), no command in flight, and
buffers for the scratch data, the admin queue and one IO queue. -/
def idleDevice : NVME_DEVICE_EXTENSION :=
  { pCtrlRegister := 4026531840,
    uSecCrtlTimeout := 300,
    ResMapTbl := { NumActiveCores := 1 },
    Pointers := { pDataBuffer := 8192, pSubQueueInfo := 12288, pCplQueueInfo := 16384 },
    QueueInfo :=
      { pSubQueueInfo :=
          [ { pQueueAlloc := 1048576, QueueAllocSize := 21504,
              pPRPListAlloc := 2097152, PRPListAllocSize := 36864 },
            { pQueueAlloc := 3145728, QueueAllocSize := 21504,
              pPRPListAlloc := 4194304, PRPListAllocSize := 36864,
              CmdEntries := [{}, {}] } ],
        pCplQueueInfo := [{}, {}] } }

/-- A controller that is enabled for the NVM command set, clears RDY at once
and never reports the shutdown as complete: CSTS reads 0. -/
def stuckController : Controller :=
  { ReadRegisterUlong := fun _ reg =>
      match reg with
      | CTRL_REGISTER.CC => 4587521
      | CTRL_REGISTER.CSTS => 0 }

/-- A controller that clears RDY at once and reports the shutdown as complete
(SHST = 2) from the fifth register read of a run on. -/
def promptController : Controller :=
  { ReadRegisterUlong := fun i reg =>
      match reg with
      | CTRL_REGISTER.CC => 4587521
      | CTRL_REGISTER.CSTS => if i < 4 then 4 else 8 }
/-! ## Concrete inputs of the later evaluations -/

/-- A device extension of four cores waiting for the creation of its third
completion queue. -/
def creatingDevice : NVME_DEVICE_EXTENSION :=
  { DriverState := { NextDriverState := NVMeWaitOnIoCQ },
    ResMapTbl := { NumActiveCores := 4 },
    QueueInfo := { NumSubIoQAllocated := 4, NumCplIoQAllocated := 4, NumCplIoQCreated := 2 } }

/-- A device extension of four cores that has learned its mapping and is
deleting its queues: the submission queues are deleted, two completion
queues are still created, with head pointers and phase tags in use. -/
def reSetupDevice : NVME_DEVICE_EXTENSION :=
  { DriverState := { NextDriverState := NVMeWaitOnReSetupQueues },
    LearningCores := 4,
    ResMapTbl := { NumActiveCores := 4 },
    QueueInfo :=
      { NumSubIoQAllocated := 4, NumCplIoQAllocated := 4, NumCplIoQCreated := 2,
        pCplQueueInfo :=
          [ { CplQEntries := 128, CplQHeadPtr := 9, CurPhaseTag := 1 },
            { CplQueueID := 1, CplQEntries := 64, CplQHeadPtr := 5, CurPhaseTag := 1 },
            { CplQueueID := 2, CplQEntries := 64, CplQHeadPtr := 7, CurPhaseTag := 1 },
            { CplQueueID := 3, CplQEntries := 64 },
            { CplQueueID := 4, CplQEntries := 64 } ] } }

/-- The submission entry of Delete IO Completion Queue for the queue `QID`. -/
def deleteCplCmd (QID : Nat) : NVMe_COMMAND :=
  { OPC := ADMIN_DELETE_IO_COMPLETION_QUEUE, CDW10 := QID }

/-- A resource mapping state of 300 active cores and 301 granted messages,
core c paired with queue c + 1. -/
def wideCoreDevice : NVME_DEVICE_EXTENSION :=
  { ResMapTbl :=
      { InterruptType := INT_TYPE_MSIX, NumMsiMsgGranted := 301, NumActiveCores := 300,
        pCoreTbl := (List.range 300).map (fun c =>
          { CoreNum := c, SubQueue := c + 1, CplQueue := c + 1 }),
        pMsiMsgTbl := (List.range 301).map (fun m => { MsgID := m, Addr := 4096 + 16 * m }) } }

/-- A device extension after NVMeEnumMsiMessages has classified two granted
messages on four cores, with the buffers of the admin queue and four IO
queues of 64 entries in place; every completion queue structure still names
message 3. -/
def sharedMsiDevice : NVME_DEVICE_EXTENSION :=
  { ResMapTbl := { InterruptType := INT_TYPE_MSI, NumMsiMsgGranted := 2, NumActiveCores := 4,
                   pMsiMsgTbl := List.replicate 5 {} },
    QueueInfo :=
      { NumIoQEntriesAllocated := 64, NumAdQEntriesAllocated := 128,
        pSubQueueInfo := (List.range 5).map (fun q =>
          { SubQEntries := 64, pSubQStart := 1048576 * (q + 1) }),
        pCplQueueInfo := List.replicate 5 { MsiMsgID := 3 } } }

/-- A device extension of one active core whose single IO queue pair has been
allocated (as many IO queues as cores), outside the crash dump path; the
Shared flags of the structures of queue 1 hold `stale`. -/
def pairedQueueDevice (stale : Bool) : NVME_DEVICE_EXTENSION :=
  { PRPListSize := 256,
    ResMapTbl := { NumActiveCores := 1 },
    QueueInfo :=
      { NumIoQEntriesAllocated := 64,
        NumSubIoQAllocated := 1, NumCplIoQAllocated := 1,
        pSubQueueInfo := [{}, { pQueueAlloc := 1048592, pPRPListAlloc := 2097168,
                                NumPRPListOnePage := 16, Shared := stale }],
        pCplQueueInfo := [{}, { Shared := stale }] } }

/-- A device extension of one active core with room for the admin queue and
one IO queue, whose PRP lists are 256 bytes long (32 entries of 8 bytes, a
maximum transfer of 128 KiB), so that 16 lists fill a page. -/
def narrowListDevice : NVME_DEVICE_EXTENSION :=
  { PRPListSize := 256,
    ResMapTbl := { NumActiveCores := 1 },
    QueueInfo := { pSubQueueInfo := [{}, {}], pCplQueueInfo := [{}, {}] } }

/-- A platform with two NUMA nodes in two processor groups of 36 processors
each (72 logical processors, more than one group holds): node 0 is group 0
and node 1 is group 1, both with the affinity mask 0xFFFFFFFFF. -/
def twoGroupPlatform : Platform :=
  { HighestNodeNumber := 1,
    NodeAffinity := fun n => if n = 0 then some { Mask := 68719476735, Group := 0 }
                             else if n = 1 then some { Mask := 68719476735, Group := 1 } else none,
    MSIInfo := fun _ => none,
    PhysicalAddress := fun a => a,
    AllocatePool := fun _ => true,
    AllocateContiguous := fun i => 1048576 * (i + 1) }

/-! ## Theorems -/

set_option maxRecDepth 200000

/-! ### Auxiliary facts about the table accessors -/

theorem load_store_same {α : Type} (d : α) (tbl : List α) (i : Nat) (f : α → α)
    (h : i < tbl.length) : load d (store d tbl i f) i = f (load d tbl i) := by
  simp [load, store, List.getD_eq_getElem?_getD, List.getElem?_set, h]

theorem load_store_other {α : Type} (d : α) (tbl : List α) (i j : Nat) (f : α → α)
    (h : i ≠ j) : load d (store d tbl i f) j = load d tbl j := by
  simp [load, store, List.getD_eq_getElem?_getD, List.getElem?_set, h]

theorem length_store {α : Type} (d : α) (tbl : List α) (i : Nat) (f : α → α) :
    (store d tbl i f).length = tbl.length := by
  simp [store]

theorem subQ_setSubQ_same (pAE : NVME_DEVICE_EXTENSION) (Q : Nat)
    (f : SUB_QUEUE_INFO → SUB_QUEUE_INFO) (h : Q < pAE.QueueInfo.pSubQueueInfo.length) :
    subQ (setSubQ pAE Q f) Q = f (subQ pAE Q) := by
  simp only [subQ, setSubQ]
  exact load_store_same _ _ _ _ h

theorem subQ_setSubQ_other (pAE : NVME_DEVICE_EXTENSION) (Q q : Nat)
    (f : SUB_QUEUE_INFO → SUB_QUEUE_INFO) (h : Q ≠ q) :
    subQ (setSubQ pAE Q f) q = subQ pAE q := by
  simp only [subQ, setSubQ]
  exact load_store_other _ _ _ _ _ h

/-! ### C1: completion harvest -/

/-- C1. NVMeGetCplEntry, on a completion queue with CplQueueID ≤
NumCplIoQCreated, a non-null output buffer and CplQHeadPtr < CplQEntries
(CplQEntries being a 16-bit count): when the phase bit of the entry at the
head differs from CurPhaseTag it returns STOR_STATUS_SUCCESS, hands back the
address of the entry at the old head, moves the head to old head + 1, or to 0
when old head + 1 = CplQEntries, and inverts CurPhaseTag exactly in that wrap
case; when the phase bit equals CurPhaseTag it returns
STOR_STATUS_UNSUCCESSFUL, stores nothing and leaves the queue structure (head,
phase tag, completion counter) unchanged. -/
theorem NVMeGetCplEntry_contract (pAE : NVME_DEVICE_EXTENSION) (pCQI : CPL_QUEUE_INFO)
    (pCplEntry : Nat)
    (hID : pCQI.CplQueueID ≤ pAE.QueueInfo.NumCplIoQCreated)
    (hBuf : pCplEntry ≠ 0)
    (hHead : pCQI.CplQHeadPtr < pCQI.CplQEntries)
    (hEnt : pCQI.CplQEntries < 65536) :
    ((load {} pCQI.Ring pCQI.CplQHeadPtr).P ≠ pCQI.CurPhaseTag →
      (NVMeGetCplEntry pAE pCQI pCplEntry).1 = STOR_STATUS_SUCCESS ∧
      (NVMeGetCplEntry pAE pCQI pCplEntry).2.1 =
        some (pCQI.pCplQStart + pCQI.CplQHeadPtr * sizeof_NVMe_COMPLETION_QUEUE_ENTRY) ∧
      (NVMeGetCplEntry pAE pCQI pCplEntry).2.2.CplQHeadPtr =
        (if pCQI.CplQHeadPtr + 1 = pCQI.CplQEntries then 0 else pCQI.CplQHeadPtr + 1) ∧
      (NVMeGetCplEntry pAE pCQI pCplEntry).2.2.CurPhaseTag =
        (if pCQI.CplQHeadPtr + 1 = pCQI.CplQEntries then lnot pCQI.CurPhaseTag
         else pCQI.CurPhaseTag) ∧
      lnot pCQI.CurPhaseTag ≠ pCQI.CurPhaseTag) ∧
    ((load {} pCQI.Ring pCQI.CplQHeadPtr).P = pCQI.CurPhaseTag →
      (NVMeGetCplEntry pAE pCQI pCplEntry).1 = STOR_STATUS_UNSUCCESSFUL ∧
      (NVMeGetCplEntry pAE pCQI pCplEntry).2.1 = none ∧
      (NVMeGetCplEntry pAE pCQI pCplEntry).2.2 = pCQI ∧
      (NVMeGetCplEntry pAE pCQI pCplEntry).2.2.CplQHeadPtr = pCQI.CplQHeadPtr ∧
      (NVMeGetCplEntry pAE pCQI pCplEntry).2.2.CurPhaseTag = pCQI.CurPhaseTag ∧
      (NVMeGetCplEntry pAE pCQI pCplEntry).2.2.Completions = pCQI.Completions) := by
  have hguard : ¬ (pCQI.CplQueueID > pAE.QueueInfo.NumCplIoQCreated ∨ pCplEntry = 0) := by
    rintro (h | h)
    · omega
    · exact hBuf h
  have hwrap : USHORT (pCQI.CplQHeadPtr + 1) = pCQI.CplQHeadPtr + 1 := by
    unfold USHORT; omega
  constructor
  · intro hP
    have hP' : pCQI.CurPhaseTag ≠ (load {} pCQI.Ring pCQI.CplQHeadPtr).P := fun h => hP h.symm
    have hl : lnot pCQI.CurPhaseTag ≠ pCQI.CurPhaseTag := by
      unfold lnot; split <;> omega
    have hE : USHORT pCQI.CplQEntries = pCQI.CplQEntries := by
      unfold USHORT; omega
    by_cases hw : pCQI.CplQHeadPtr + 1 = pCQI.CplQEntries
    · simp [NVMeGetCplEntry, hguard, hP', hw, hE, hl]
    · simp [NVMeGetCplEntry, hguard, hP', hwrap, hw, hl]
  · intro hP
    simp [NVMeGetCplEntry, hguard, hP.symm]


/-- Witness of C1: with one completion queue created, the queue
`cplQueueAtLast` meets the hypotheses, and the new entry at its head is
harvested with a wrap of the head and a flip of the phase tag. -/
theorem NVMeGetCplEntry_contract_witness :
    (NVMeGetCplEntry { QueueInfo := { NumCplIoQCreated := 1 } } cplQueueAtLast 4096).1
        = STOR_STATUS_SUCCESS ∧
      (NVMeGetCplEntry { QueueInfo := { NumCplIoQCreated := 1 } } cplQueueAtLast 4096).2.1
        = some 8208 ∧
      (NVMeGetCplEntry { QueueInfo := { NumCplIoQCreated := 1 } } cplQueueAtLast 4096).2.2.CplQHeadPtr
        = 0 ∧
      (NVMeGetCplEntry { QueueInfo := { NumCplIoQCreated := 1 } } cplQueueAtLast 4096).2.2.CurPhaseTag
        = 1 := by
  have h := (NVMeGetCplEntry_contract { QueueInfo := { NumCplIoQCreated := 1 } } cplQueueAtLast 4096
    (by decide) (by decide) (by decide) (by decide)).1 (by decide)
  exact ⟨h.1, h.2.1, h.2.2.1, h.2.2.2.1⟩

/-! ### C2: acquisition of a command slot -/

theorem NVMeGetCmdEntry_invalid (pAE : NVME_DEVICE_EXTENSION) (QueueID Context pCmdInfo : Nat)
    (h : QueueID > pAE.QueueInfo.NumSubIoQCreated ∨ pCmdInfo = 0) :
    NVMeGetCmdEntry pAE QueueID Context pCmdInfo = (STOR_STATUS_INVALID_PARAMETER, none, pAE) := by
  simp [NVMeGetCmdEntry, h]

theorem NVMeGetCmdEntry_empty (pAE : NVME_DEVICE_EXTENSION) (QueueID Context pCmdInfo : Nat)
    (hg : ¬ (QueueID > pAE.QueueInfo.NumSubIoQCreated ∨ pCmdInfo = 0))
    (hE : (subQ pAE QueueID).FreeQList = []) :
    NVMeGetCmdEntry pAE QueueID Context pCmdInfo
      = (STOR_STATUS_INSUFFICIENT_RESOURCES, none, pAE) := by
  simp [NVMeGetCmdEntry, hg, hE, RemoveHeadList]

theorem NVMeGetCmdEntry_cons (pAE : NVME_DEVICE_EXTENSION) (QueueID Context pCmdInfo : Nat)
    (e : Nat) (rest : List Nat)
    (hg : ¬ (QueueID > pAE.QueueInfo.NumSubIoQCreated ∨ pCmdInfo = 0))
    (hL : (subQ pAE QueueID).FreeQList = e :: rest) :
    NVMeGetCmdEntry pAE QueueID Context pCmdInfo
      = (STOR_STATUS_SUCCESS, some e,
          setSubQ pAE QueueID (fun q =>
            { q with FreeQList := rest,
                     CmdEntries := store {} q.CmdEntries e
                       (fun c => { c with Context := Context, Pending := true }) })) := by
  simp [NVMeGetCmdEntry, hg, hL, RemoveHeadList]

/-- C2. NVMeGetCmdEntry with QueueID ≤ NumSubIoQCreated and a non-null
pCmdInfo: when the free list of the queue is empty it returns
STOR_STATUS_INSUFFICIENT_RESOURCES, stores nothing and leaves the device
extension (free list and every command slot) unchanged; when the free list is
`e :: rest` (the queue structure and the slot `e` being inside their tables)
it returns STOR_STATUS_SUCCESS, hands out slot `e`, leaves `rest` as the free
list, stores Context in slot `e` and sets its Pending to TRUE, and changes no
other slot and no other queue.  With QueueID > NumSubIoQCreated or a null
pCmdInfo it returns STOR_STATUS_INVALID_PARAMETER and changes nothing. -/
theorem NVMeGetCmdEntry_contract (pAE : NVME_DEVICE_EXTENSION) (QueueID Context pCmdInfo : Nat) :
    (QueueID ≤ pAE.QueueInfo.NumSubIoQCreated → pCmdInfo ≠ 0 →
      ((subQ pAE QueueID).FreeQList = [] →
        NVMeGetCmdEntry pAE QueueID Context pCmdInfo
          = (STOR_STATUS_INSUFFICIENT_RESOURCES, none, pAE)) ∧
      (∀ e rest, (subQ pAE QueueID).FreeQList = e :: rest →
        QueueID < pAE.QueueInfo.pSubQueueInfo.length →
        e < (subQ pAE QueueID).CmdEntries.length →
        (NVMeGetCmdEntry pAE QueueID Context pCmdInfo).1 = STOR_STATUS_SUCCESS ∧
        (NVMeGetCmdEntry pAE QueueID Context pCmdInfo).2.1 = some e ∧
        (subQ (NVMeGetCmdEntry pAE QueueID Context pCmdInfo).2.2 QueueID).FreeQList = rest ∧
        load {} (subQ (NVMeGetCmdEntry pAE QueueID Context pCmdInfo).2.2 QueueID).CmdEntries e
          = { load {} (subQ pAE QueueID).CmdEntries e with Context := Context, Pending := true } ∧
        (∀ i, i ≠ e →
          load {} (subQ (NVMeGetCmdEntry pAE QueueID Context pCmdInfo).2.2 QueueID).CmdEntries i
            = load {} (subQ pAE QueueID).CmdEntries i) ∧
        (∀ q, q ≠ QueueID →
          subQ (NVMeGetCmdEntry pAE QueueID Context pCmdInfo).2.2 q = subQ pAE q))) ∧
    (QueueID > pAE.QueueInfo.NumSubIoQCreated ∨ pCmdInfo = 0 →
      NVMeGetCmdEntry pAE QueueID Context pCmdInfo
        = (STOR_STATUS_INVALID_PARAMETER, none, pAE)) := by
  refine ⟨fun hID hBuf => ?_, fun h => ?_⟩
  · have hguard : ¬ (QueueID > pAE.QueueInfo.NumSubIoQCreated ∨ pCmdInfo = 0) := by
      rintro (h | h)
      · omega
      · exact hBuf h
    refine ⟨fun hE => NVMeGetCmdEntry_empty pAE QueueID Context pCmdInfo hguard hE,
      fun e rest hL hQ he => ?_⟩
    · rw [NVMeGetCmdEntry_cons pAE QueueID Context pCmdInfo e rest hguard hL]
      refine ⟨rfl, rfl, ?_, ?_, ?_, ?_⟩
      · rw [subQ_setSubQ_same _ _ _ hQ]
      · rw [subQ_setSubQ_same _ _ _ hQ]
        dsimp only
        rw [load_store_same _ _ _ _ he]
      · intro i hi
        rw [subQ_setSubQ_same _ _ _ hQ]
        dsimp only
        exact load_store_other _ _ _ _ _ (Ne.symm hi)
      · intro q hq
        exact subQ_setSubQ_other _ _ _ _ (Ne.symm hq)
  · exact NVMeGetCmdEntry_invalid pAE QueueID Context pCmdInfo h


/-- Witness of C2: on `oneQueueDevice` the acquisition from queue 1 hands out
slot 1, leaves slot 2 on the free list and marks slot 1 pending with the
context 9. -/
theorem NVMeGetCmdEntry_contract_witness :
    (NVMeGetCmdEntry oneQueueDevice 1 9 4096).1 = STOR_STATUS_SUCCESS ∧
    (NVMeGetCmdEntry oneQueueDevice 1 9 4096).2.1 = some 1 ∧
    (subQ (NVMeGetCmdEntry oneQueueDevice 1 9 4096).2.2 1).FreeQList = [2] ∧
    load {} (subQ (NVMeGetCmdEntry oneQueueDevice 1 9 4096).2.2 1).CmdEntries 1
      = { Pending := true, Context := 9, CmdInfo := { CmdID := 1 } } := by
  have h := ((NVMeGetCmdEntry_contract oneQueueDevice 1 9 4096).1 (by decide) (by decide)).2
    1 [2] (by decide) (by decide) (by decide)
  exact ⟨h.1, h.2.1, h.2.2.1, h.2.2.2.1⟩

/-! ### C7: core to queue lookup -/

/-- C7. NVMeMapCore2Queue for a core number below NumActiveCores returns
STOR_STATUS_SUCCESS; while LearningCores < NumActiveCores both outputs
receive LearningCores + 1 (as the 16-bit value the outputs hold, which is
LearningCores + 1 itself whenever that fits 16 bits), and once LearningCores =
NumActiveCores they receive the SubQueue and CplQueue stored in the core
table entry.  For a core number ≥ NumActiveCores it returns
STOR_STATUS_UNSUCCESSFUL and writes neither output. -/
theorem NVMeMapCore2Queue_contract (pAE : NVME_DEVICE_EXTENSION) (Number : Nat) :
    (Number < pAE.ResMapTbl.NumActiveCores →
      (pAE.LearningCores < pAE.ResMapTbl.NumActiveCores →
        (NVMeMapCore2Queue pAE Number).1 = STOR_STATUS_SUCCESS ∧
        (NVMeMapCore2Queue pAE Number).2
          = some (USHORT (pAE.LearningCores + 1), USHORT (pAE.LearningCores + 1)) ∧
        (pAE.LearningCores + 1 < 65536 →
          (NVMeMapCore2Queue pAE Number).2
            = some (pAE.LearningCores + 1, pAE.LearningCores + 1))) ∧
      (pAE.LearningCores = pAE.ResMapTbl.NumActiveCores →
        NVMeMapCore2Queue pAE Number
          = (STOR_STATUS_SUCCESS, some ((coreT pAE Number).SubQueue, (coreT pAE Number).CplQueue)))) ∧
    (Number ≥ pAE.ResMapTbl.NumActiveCores →
      NVMeMapCore2Queue pAE Number = (STOR_STATUS_UNSUCCESSFUL, none)) := by
  refine ⟨fun hN => ⟨fun hL => ?_, fun hL => ?_⟩, fun hN => ?_⟩
  · have h1 : ¬ (Number ≥ pAE.ResMapTbl.NumActiveCores) := by omega
    have h2 : pAE.LearningCores ≠ pAE.ResMapTbl.NumActiveCores := by omega
    have h3 : USHORT (USHORT pAE.LearningCores + 1) = USHORT (pAE.LearningCores + 1) := by
      unfold USHORT; omega
    refine ⟨by simp [NVMeMapCore2Queue, h1, h2], by simp [NVMeMapCore2Queue, h1, h2, h3], ?_⟩
    intro hfit
    have h4 : USHORT (pAE.LearningCores + 1) = pAE.LearningCores + 1 := by
      unfold USHORT; omega
    simp [NVMeMapCore2Queue, h1, h2, h3, h4]
  · have h1 : ¬ (Number ≥ pAE.ResMapTbl.NumActiveCores) := by omega
    simp [NVMeMapCore2Queue, h1, hL]
  · simp [NVMeMapCore2Queue, hN]


/-- Witness of C7: during learning (two cores learned) core 2 is sent to
queue pair 3 = LearningCores + 1. -/
theorem NVMeMapCore2Queue_contract_witness :
    (NVMeMapCore2Queue (fourCoreDevice 2) 2).1 = STOR_STATUS_SUCCESS ∧
    (NVMeMapCore2Queue (fourCoreDevice 2) 2).2 = some (3, 3) := by
  have h := ((NVMeMapCore2Queue_contract (fourCoreDevice 2) 2).1 (by decide)).1 (by decide)
  exact ⟨h.1, h.2.2 (by decide)⟩

/-! ### C3: free list and pending slots -/

theorem store_cons_zero {α : Type} (d a : α) (t : List α) (f : α → α) :
    store d (a :: t) 0 f = f a :: t := by
  simp [store]

theorem store_cons_succ {α : Type} (d a : α) (t : List α) (k : Nat) (f : α → α) :
    store d (a :: t) (k + 1) f = a :: store d t k f := by
  simp [store]

theorem load_cons_zero {α : Type} (d a : α) (t : List α) : load d (a :: t) 0 = a := by
  simp [load]

theorem load_cons_succ {α : Type} (d a : α) (t : List α) (k : Nat) :
    load d (a :: t) (k + 1) = load d t k := by
  simp [load]

/-- Marking a slot that was not pending raises the number of pending slots
by one. -/
theorem countP_store_pending (l : List CMD_ENTRY) (e Context : Nat) (he : e < l.length)
    (hp : (load {} l e).Pending = false) :
    (store {} l e (fun c => { c with Context := Context, Pending := true })).countP
        (fun c => c.Pending)
      = l.countP (fun c => c.Pending) + 1 := by
  induction l generalizing e with
  | nil => simp at he
  | cons a t ih =>
    cases e with
    | zero =>
      rw [load_cons_zero] at hp
      rw [store_cons_zero]
      simp [List.countP_cons, hp]
    | succ k =>
      rw [load_cons_succ] at hp
      rw [store_cons_succ, List.countP_cons, List.countP_cons]
      have hk : k < t.length := by simpa using he
      rw [ih k hk hp]
      omega

/-- One call of NVMeGetCmdEntry keeps the table of queues at its length. -/
theorem NVMeGetCmdEntry_length (pAE : NVME_DEVICE_EXTENSION) (QueueID Context pCmdInfo : Nat) :
    (NVMeGetCmdEntry pAE QueueID Context pCmdInfo).2.2.QueueInfo.pSubQueueInfo.length
      = pAE.QueueInfo.pSubQueueInfo.length := by
  unfold NVMeGetCmdEntry
  split
  · rfl
  · dsimp only
    cases hL : (subQ pAE QueueID).FreeQList with
    | nil => simp [RemoveHeadList]
    | cons e rest => simp [RemoveHeadList, setSubQ, length_store]

/-- One call of NVMeGetCmdEntry, on any queue and with any arguments, keeps
the invariant of queue `Q`. -/
theorem NVMeGetCmdEntry_inv (pAE : NVME_DEVICE_EXTENSION) (Q QueueID Context pCmdInfo : Nat)
    (hQ : Q < pAE.QueueInfo.pSubQueueInfo.length) (hI : QueueInv (subQ pAE Q)) :
    QueueInv (subQ (NVMeGetCmdEntry pAE QueueID Context pCmdInfo).2.2 Q) := by
  by_cases hg : QueueID > pAE.QueueInfo.NumSubIoQCreated ∨ pCmdInfo = 0
  · rw [NVMeGetCmdEntry_invalid pAE QueueID Context pCmdInfo hg]
    exact hI
  · cases hL : (subQ pAE QueueID).FreeQList with
    | nil =>
      rw [NVMeGetCmdEntry_empty pAE QueueID Context pCmdInfo hg hL]
      exact hI
    | cons e rest =>
      rw [NVMeGetCmdEntry_cons pAE QueueID Context pCmdInfo e rest hg hL]
      by_cases hq : QueueID = Q
      · subst hq
        rw [subQ_setSubQ_same _ _ _ hQ]
        obtain ⟨hlen, hnd, hfree, hsum⟩ := hI
        rw [hL] at hnd hfree
        have he := hfree e (List.mem_cons_self e rest)
        have hnd' := List.nodup_cons.mp hnd
        refine ⟨?_, ?_, ?_, ?_⟩
        · dsimp only
          rw [length_store]
          exact hlen
        · exact hnd'.2
        · intro x hx
          dsimp only
          have hxe : x ≠ e := fun h => hnd'.1 (h ▸ hx)
          have hx' := hfree x (List.mem_cons_of_mem e hx)
          rw [length_store, load_store_other _ _ _ _ _ (Ne.symm hxe)]
          exact hx'
        · unfold freeSlots pendingSlots at *
          dsimp only
          rw [countP_store_pending _ _ _ he.1 he.2]
          rw [hL] at hsum
          simp only [List.length_cons] at hsum
          omega
      · rw [subQ_setSubQ_other _ _ _ _ hq]
        exact hI

/-- A sequence of calls of NVMeGetCmdEntry keeps the invariant of queue `Q`. -/
theorem runGetCmdEntry_inv (calls : List (Nat × Nat × Nat)) (pAE : NVME_DEVICE_EXTENSION) (Q : Nat)
    (hQ : Q < pAE.QueueInfo.pSubQueueInfo.length) (hI : QueueInv (subQ pAE Q)) :
    QueueInv (subQ (runGetCmdEntry pAE calls) Q) := by
  induction calls generalizing pAE with
  | nil => exact hI
  | cons c rest ih =>
    unfold runGetCmdEntry
    apply ih
    · rw [NVMeGetCmdEntry_length]
      exact hQ
    · exact NVMeGetCmdEntry_inv pAE Q c.1 c.2.1 c.2.2 hQ hI

/-- A store whose update keeps the Pending flag of an entry keeps the Pending
flag of every slot. -/
theorem load_store_pending (l : List CMD_ENTRY) (e i : Nat) (f : CMD_ENTRY → CMD_ENTRY)
    (hf : ∀ c, (f c).Pending = c.Pending) :
    (load {} (store {} l e f) i).Pending = (load {} l i).Pending := by
  by_cases hie : e = i
  · subst hie
    by_cases he : e < l.length
    · rw [load_store_same _ _ _ _ he, hf]
    · have : store {} l e f = l := by
        unfold store
        exact List.set_eq_of_length_le (by omega)
      rw [this]
  · rw [load_store_other _ _ _ _ _ hie]

/-- Effect of the loop of NVMeInitFreeQ over the slots `l` on the free list,
the entry count and the command entries. -/
theorem NVMeInitFreeQ_fold (pf : Platform) (pAE : NVME_DEVICE_EXTENSION) (l : List Nat)
    (st : SUB_QUEUE_INFO × Nat) :
    (l.foldl (NVMeInitFreeQ.body pf pAE) st).1.FreeQList = st.1.FreeQList ++ l ∧
    (l.foldl (NVMeInitFreeQ.body pf pAE) st).1.SubQEntries = st.1.SubQEntries ∧
    (l.foldl (NVMeInitFreeQ.body pf pAE) st).1.CmdEntries.length = st.1.CmdEntries.length ∧
    (∀ i, (load {} (l.foldl (NVMeInitFreeQ.body pf pAE) st).1.CmdEntries i).Pending
            = (load {} st.1.CmdEntries i).Pending) := by
  induction l generalizing st with
  | nil => simp
  | cons e rest ih =>
    rw [List.foldl_cons]
    obtain ⟨h1, h2, h3, h4⟩ := ih (NVMeInitFreeQ.body pf pAE st e)
    refine ⟨?_, ?_, ?_, ?_⟩
    · rw [h1]
      simp [NVMeInitFreeQ.body, InsertTailList]
    · rw [h2]
      simp [NVMeInitFreeQ.body]
    · rw [h3]
      simp [NVMeInitFreeQ.body, length_store]
    · intro i
      rw [h4 i]
      simp only [NVMeInitFreeQ.body]
      exact load_store_pending _ _ _ _ (fun c => rfl)

/-- A list of command entries none of which is pending counts no pending
slot. -/
theorem countP_pending_zero (l : List CMD_ENTRY)
    (h : ∀ i, (load {} l i).Pending = false) : l.countP (fun c => c.Pending) = 0 := by
  induction l with
  | nil => rfl
  | cons a t ih =>
    have h0 := h 0
    rw [load_cons_zero] at h0
    have ht : ∀ i, (load {} t i).Pending = false := by
      intro i
      have := h (i + 1)
      rwa [load_cons_succ] at this
    simp [List.countP_cons, h0, ih ht]

theorem load_replicate_zero (n i : Nat) :
    load ({} : CMD_ENTRY) (List.replicate n {}) i = {} := by
  unfold load
  rw [List.getD_eq_getElem?_getD]
  by_cases h : i < n
  · simp [List.getElem?_replicate, h]
  · simp [List.getElem?_replicate, h]

/-- NVMeInitFreeQ on a queue with an empty free list and SubQEntries zeroed
command entries establishes the queue invariant, with the free list 0, 1, ..,
SubQEntries - 1. -/
theorem NVMeInitFreeQ_inv (pf : Platform) (pAE : NVME_DEVICE_EXTENSION) (q : SUB_QUEUE_INFO)
    (hF : q.FreeQList = []) (hC : q.CmdEntries = List.replicate q.SubQEntries {}) :
    (NVMeInitFreeQ pf q pAE).FreeQList = List.range q.SubQEntries ∧
    (NVMeInitFreeQ pf q pAE).SubQEntries = q.SubQEntries ∧
    QueueInv (NVMeInitFreeQ pf q pAE) := by
  obtain ⟨h1, h2, h3, h4⟩ :=
    NVMeInitFreeQ_fold pf pAE (List.range q.SubQEntries) (q, q.pPRPListStart)
  have hfree : (NVMeInitFreeQ pf q pAE).FreeQList = List.range q.SubQEntries := by
    unfold NVMeInitFreeQ
    rw [h1]
    simp [hF]
  have hlen : (NVMeInitFreeQ pf q pAE).CmdEntries.length = q.SubQEntries := by
    unfold NVMeInitFreeQ
    rw [h3]
    simp only
    rw [hC, List.length_replicate]
  have hpend : ∀ i, (load {} (NVMeInitFreeQ pf q pAE).CmdEntries i).Pending = false := by
    intro i
    unfold NVMeInitFreeQ
    rw [h4 i]
    simp only
    rw [hC, load_replicate_zero]
  have hsub : (NVMeInitFreeQ pf q pAE).SubQEntries = q.SubQEntries := h2
  refine ⟨hfree, hsub, ?_, ?_, ?_, ?_⟩
  · rw [hlen, hsub]
  · rw [hfree]
    exact List.nodup_range _
  · intro e he
    rw [hfree, List.mem_range] at he
    exact ⟨by rw [hlen]; exact he, hpend e⟩
  · unfold freeSlots pendingSlots
    rw [countP_pending_zero _ hpend, hfree, hsub]
    simp

theorem setSubQ_length (pAE : NVME_DEVICE_EXTENSION) (Q : Nat)
    (f : SUB_QUEUE_INFO → SUB_QUEUE_INFO) :
    (setSubQ pAE Q f).QueueInfo.pSubQueueInfo.length = pAE.QueueInfo.pSubQueueInfo.length := by
  simp [setSubQ, length_store]

theorem setCplQ_length (pAE : NVME_DEVICE_EXTENSION) (Q : Nat)
    (f : CPL_QUEUE_INFO → CPL_QUEUE_INFO) :
    (setCplQ pAE Q f).QueueInfo.pSubQueueInfo.length = pAE.QueueInfo.pSubQueueInfo.length := by
  simp [setCplQ]

theorem setSubQ_ResMapTbl (pAE : NVME_DEVICE_EXTENSION) (Q : Nat)
    (f : SUB_QUEUE_INFO → SUB_QUEUE_INFO) : (setSubQ pAE Q f).ResMapTbl = pAE.ResMapTbl := rfl

theorem setCplQ_ResMapTbl (pAE : NVME_DEVICE_EXTENSION) (Q : Nat)
    (f : CPL_QUEUE_INFO → CPL_QUEUE_INFO) : (setCplQ pAE Q f).ResMapTbl = pAE.ResMapTbl := rfl

/-- NVMeInitSubQueue keeps the table of submission queues at its length and
the resource mapping table, and on success leaves queue `Q` with an empty
free list. -/
theorem NVMeInitSubQueue_facts (pf : Platform) (pAE : NVME_DEVICE_EXTENSION) (Q : Nat)
    (hQ : Q < pAE.QueueInfo.pSubQueueInfo.length) :
    (NVMeInitSubQueue pf pAE Q).2.QueueInfo.pSubQueueInfo.length
      = pAE.QueueInfo.pSubQueueInfo.length ∧
    (NVMeInitSubQueue pf pAE Q).2.ResMapTbl = pAE.ResMapTbl ∧
    ((NVMeInitSubQueue pf pAE Q).1 = STOR_STATUS_SUCCESS →
      Q ≤ pAE.ResMapTbl.NumActiveCores ∧
      (subQ (NVMeInitSubQueue pf pAE Q).2 Q).FreeQList = []) := by
  have hr : (NVMeInitSubQueue.ring pf pAE Q).QueueInfo.pSubQueueInfo.length
      = pAE.QueueInfo.pSubQueueInfo.length := by
    unfold NVMeInitSubQueue.ring
    dsimp only
    rw [setCplQ_length, setSubQ_length]
  have hp : (NVMeInitSubQueue.prp pf (NVMeInitSubQueue.ring pf pAE Q) Q).QueueInfo.pSubQueueInfo.length
      = pAE.QueueInfo.pSubQueueInfo.length := by
    unfold NVMeInitSubQueue.prp
    rw [setSubQ_length, hr]
  unfold NVMeInitSubQueue
  by_cases hg : Q > pAE.ResMapTbl.NumActiveCores
  · rw [if_pos hg]
    exact ⟨rfl, rfl, fun h => by cases h⟩
  · rw [if_neg hg]
    dsimp only
    by_cases h1 : (subQ (NVMeInitSubQueue.ring pf pAE Q) Q).SubQStart = 0
    · rw [if_pos h1]
      exact ⟨hr, rfl, fun h => by cases h⟩
    · rw [if_neg h1]
      by_cases h2 : (subQ (NVMeInitSubQueue.prp pf (NVMeInitSubQueue.ring pf pAE Q) Q) Q).PRPListStart = 0
      · rw [if_pos h2]
        exact ⟨hp, rfl, fun h => by cases h⟩
      · rw [if_neg h2]
        refine ⟨?_, rfl, fun _ => ⟨by omega, ?_⟩⟩
        · dsimp only
          rw [setSubQ_length, hp]
        · dsimp only
          rw [subQ_setSubQ_same _ _ _ (by rw [hp]; exact hQ)]

/-- After NVMeInitSubQueue has succeeded on queue `Q`, NVMeInitCmdEntries
succeeds and leaves the queue with the free list 0, 1, .., SubQEntries - 1
and with the queue invariant. -/
theorem initQueue_inv (pf : Platform) (pAE : NVME_DEVICE_EXTENSION) (Q : Nat)
    (hQ : Q < pAE.QueueInfo.pSubQueueInfo.length)
    (h1 : (NVMeInitSubQueue pf pAE Q).1 = STOR_STATUS_SUCCESS) :
    (NVMeInitCmdEntries pf (NVMeInitSubQueue pf pAE Q).2 Q).1 = STOR_STATUS_SUCCESS ∧
    (initQueue pf pAE Q).QueueInfo.pSubQueueInfo.length = pAE.QueueInfo.pSubQueueInfo.length ∧
    (subQ (initQueue pf pAE Q) Q).FreeQList = List.range (subQ (initQueue pf pAE Q) Q).SubQEntries ∧
    QueueInv (subQ (initQueue pf pAE Q) Q) := by
  obtain ⟨hlen, hres, hs⟩ := NVMeInitSubQueue_facts pf pAE Q hQ
  obtain ⟨hle, hfree⟩ := hs h1
  have hg : ¬ (Q > (NVMeInitSubQueue pf pAE Q).2.ResMapTbl.NumActiveCores) := by
    rw [hres]
    omega
  have hQ1 : Q < (NVMeInitSubQueue pf pAE Q).2.QueueInfo.pSubQueueInfo.length := by
    rw [hlen]
    exact hQ
  unfold initQueue
  generalize NVMeInitSubQueue pf pAE Q = r at *
  obtain ⟨st, pAE1⟩ := r
  dsimp only at *
  have hQ2 : Q < (NVMeInitCmdEntries.clear pAE1 Q).QueueInfo.pSubQueueInfo.length := by
    unfold NVMeInitCmdEntries.clear
    rw [setSubQ_length]
    exact hQ1
  have hc : subQ (NVMeInitCmdEntries.clear pAE1 Q) Q =
      { subQ pAE1 Q with
        pCmdEntry := (cplQ pAE1 Q).pCplQStart
          + (subQ pAE1 Q).SubQEntries * sizeof_NVMe_COMPLETION_QUEUE_ENTRY,
        CmdEntries := List.replicate (subQ pAE1 Q).SubQEntries {} } := by
    unfold NVMeInitCmdEntries.clear
    rw [subQ_setSubQ_same _ _ _ hQ1]
  simp only [NVMeInitCmdEntries, hg, if_false]
  refine ⟨trivial, ?_, ?_⟩
  · rw [setSubQ_length]
    unfold NVMeInitCmdEntries.clear
    rw [setSubQ_length]
    exact hlen
  · rw [subQ_setSubQ_same _ _ _ hQ2]
    have h := NVMeInitFreeQ_inv pf (NVMeInitCmdEntries.clear pAE1 Q)
      (subQ (NVMeInitCmdEntries.clear pAE1 Q) Q)
      (by rw [hc]; exact hfree) (by rw [hc])
    exact ⟨by rw [h.1, h.2.1], h.2.2⟩

/-- C3. After NVMeInitSubQueue and NVMeInitCmdEntries have initialised
submission queue `Q` (a queue inside the table of queues) and after any
sequence of calls of NVMeGetCmdEntry, whatever their arguments: the number of
slots on the free list of `Q` plus the number of its slots marked Pending is
SubQEntries, no slot occurs twice on the free list, and no slot on the free
list is marked Pending. -/
theorem freeList_pending_invariant (pf : Platform) (pAE : NVME_DEVICE_EXTENSION) (Q : Nat)
    (calls : List (Nat × Nat × Nat))
    (hQ : Q < pAE.QueueInfo.pSubQueueInfo.length)
    (hSub : (NVMeInitSubQueue pf pAE Q).1 = STOR_STATUS_SUCCESS)
    (hCmd : (NVMeInitCmdEntries pf (NVMeInitSubQueue pf pAE Q).2 Q).1 = STOR_STATUS_SUCCESS) :
    freeSlots (subQ (runGetCmdEntry (initQueue pf pAE Q) calls) Q)
        + pendingSlots (subQ (runGetCmdEntry (initQueue pf pAE Q) calls) Q)
      = (subQ (runGetCmdEntry (initQueue pf pAE Q) calls) Q).SubQEntries ∧
    (subQ (runGetCmdEntry (initQueue pf pAE Q) calls) Q).FreeQList.Nodup ∧
    (∀ e ∈ (subQ (runGetCmdEntry (initQueue pf pAE Q) calls) Q).FreeQList,
      (load {} (subQ (runGetCmdEntry (initQueue pf pAE Q) calls) Q).CmdEntries e).Pending
        = false) := by
  have _ := hCmd
  obtain ⟨_, hlen, _, hinv⟩ := initQueue_inv pf pAE Q hQ hSub
  have h := runGetCmdEntry_inv calls (initQueue pf pAE Q) Q (by rw [hlen]; exact hQ) hinv
  exact ⟨h.2.2.2, h.2.1, fun e he => (h.2.2.1 e he).2⟩

/-- Witness of C3: queue 1 of `freshQueueDevice`, initialised and then asked
for a command slot three times (once with a null buffer), has two free and
two pending slots of its four. -/
theorem freeList_pending_invariant_witness :
    (NVMeInitSubQueue plainPlatform freshQueueDevice 1).1 = STOR_STATUS_SUCCESS ∧
    freeSlots (subQ (runGetCmdEntry (initQueue plainPlatform freshQueueDevice 1)
        [(1, 7, 4096), (1, 8, 0), (1, 9, 4096)]) 1) = 2 ∧
    freeSlots (subQ (runGetCmdEntry (initQueue plainPlatform freshQueueDevice 1)
        [(1, 7, 4096), (1, 8, 0), (1, 9, 4096)]) 1)
      + pendingSlots (subQ (runGetCmdEntry (initQueue plainPlatform freshQueueDevice 1)
        [(1, 7, 4096), (1, 8, 0), (1, 9, 4096)]) 1) = 4 := by
  have h := freeList_pending_invariant plainPlatform freshQueueDevice 1
    [(1, 7, 4096), (1, 8, 0), (1, 9, 4096)] (by decide) (by decide) (by decide)
  refine ⟨by decide, by decide, ?_⟩
  rw [h.1]
  decide

/-! ### C4: PRP lists and page boundaries -/

/-- C4, evaluation at the failing input.  With PRP lists of 384 bytes, for
which NVMeAllocQueues computes NumPRPListOnePage = 10, the queue built by
NVMeAllocQueues, NVMeInitSubQueue, NVMeInitCplQueue and NVMeInitCmdEntries has
a page-aligned pPRPListStart; NVMeInitFreeQ gives slot 0 the list at
pPRPListStart + 384 and slot 9 the list at pPRPListStart + 3840, and the 384
bytes of the latter cross the page boundary at pPRPListStart + 4096. -/
theorem prpList_crosses_page :
    (buildQueue plainPlatform 56 0 wideListDevice 1 64 0).1
      = [STOR_STATUS_SUCCESS, STOR_STATUS_SUCCESS, STOR_STATUS_SUCCESS, STOR_STATUS_SUCCESS] ∧
    (subQ (buildQueue plainPlatform 56 0 wideListDevice 1 64 0).2 1).NumPRPListOnePage = 10 ∧
    (subQ (buildQueue plainPlatform 56 0 wideListDevice 1 64 0).2 1).pPRPListStart % PAGE_SIZE = 0 ∧
    (load {} (subQ (buildQueue plainPlatform 56 0 wideListDevice 1 64 0).2 1).CmdEntries 0
      ).CmdInfo.pPRPList
      = (subQ (buildQueue plainPlatform 56 0 wideListDevice 1 64 0).2 1).pPRPListStart + 384 ∧
    (load {} (subQ (buildQueue plainPlatform 56 0 wideListDevice 1 64 0).2 1).CmdEntries 9
      ).CmdInfo.pPRPList
      = (subQ (buildQueue plainPlatform 56 0 wideListDevice 1 64 0).2 1).pPRPListStart + 3840 ∧
    withinOnePage
      (load {} (subQ (buildQueue plainPlatform 56 0 wideListDevice 1 64 0).2 1).CmdEntries 9
        ).CmdInfo.pPRPList 384 = false := by
  decide

/-- The first slot gets the list one list size behind the start of the
pool. -/
theorem prpListGood_first (start S N : Nat) (hN : 0 < N) : prpListGood start S N 0 (start + S) := by
  refine ⟨0, 0, by simp, hN, ?_⟩
  simp

/-- The address of the list of slot `e + 1`, as the loop of NVMeInitFreeQ
computes it from the address of the list of slot `e`, follows the closed
form. -/
theorem prpListGood_next (start S N e a : Nat) (hS : 0 < S) (hdiv : N * S = PAGE_SIZE)
    (hstart : start % PAGE_SIZE = 0) (h : prpListGood start S N e a) :
    prpListGood start S N (e + 1)
      (if e + 1 ≠ 0 ∧ (e + 1) % N = 0 then PAGE_ALIGN_BUF_PTR (a + S) else a + S) := by
  obtain ⟨q, r, he, hr, ha⟩ := h
  have hSle : S ≤ PAGE_SIZE := by
    rw [← hdiv]
    exact Nat.le_mul_of_pos_left S (by omega)
  unfold PAGE_SIZE at hdiv hstart hSle
  by_cases hr1 : r + 1 < N
  · have hmod : (e + 1) % N = r + 1 := by
      rw [he, Nat.add_assoc, Nat.mul_add_mod]
      exact Nat.mod_eq_of_lt hr1
    have hcond : ¬ (e + 1 ≠ 0 ∧ (e + 1) % N = 0) := by
      rw [hmod]
      omega
    rw [if_neg hcond]
    refine ⟨q, r + 1, by omega, hr1, ?_⟩
    have hm : (r + 1 + 1) * S = (r + 1) * S + S := Nat.succ_mul (r + 1) S
    have hm2 : (r + 1) * S = r * S + S := Nat.succ_mul r S
    by_cases hq : q = 0
    · rw [if_pos hq] at ha
      rw [if_pos hq, ha, hm]
      omega
    · rw [if_neg hq] at ha
      rw [if_neg hq, ha, hm2]
      omega
  · have hrN : r + 1 = N := by omega
    have hmod : (e + 1) % N = 0 := by
      have : e + 1 = N * (q + 1) := by rw [he, Nat.mul_add, Nat.mul_one]; omega
      rw [this]
      exact Nat.mul_mod_right N (q + 1)
    rw [if_pos ⟨by omega, hmod⟩]
    refine ⟨q + 1, 0, by rw [he, Nat.mul_add, Nat.mul_one]; omega, by omega, ?_⟩
    rw [if_neg (by omega)]
    have hm2 : (r + 1) * S = r * S + S := Nat.succ_mul r S
    rw [hrN, hdiv] at hm2
    unfold PAGE_ALIGN_BUF_PTR PAGE_SIZE
    by_cases hq : q = 0
    · rw [if_pos hq] at ha
      rw [hrN, hdiv] at ha
      subst hq
      rw [ha]
      split <;> omega
    · rw [if_neg hq] at ha
      unfold PAGE_SIZE at ha
      rw [ha]
      split <;> omega

/-- A list at an address of the closed form lies within one page. -/
theorem prpListGood_within (start S N e a : Nat) (hS : 0 < S) (hdiv : N * S = PAGE_SIZE)
    (hstart : start % PAGE_SIZE = 0) (h : prpListGood start S N e a) :
    withinOnePage a S = true := by
  obtain ⟨q, r, _, hr, ha⟩ := h
  have hSle : S ≤ PAGE_SIZE := by
    rw [← hdiv]
    exact Nat.le_mul_of_pos_left S (by omega)
  have hm2 : (r + 1) * S = r * S + S := Nat.succ_mul r S
  have hle : (r + 1) * S ≤ N * S := Nat.mul_le_mul_right S (by omega)
  unfold withinOnePage
  unfold PAGE_SIZE at *
  rw [beq_iff_eq]
  by_cases hq : q = 0
  · rw [if_pos hq] at ha
    by_cases hr1 : r + 1 = N
    · rw [hr1, hdiv] at ha
      omega
    · have hle2 : (r + 1 + 1) * S ≤ N * S := Nat.mul_le_mul_right S (by omega)
      have hm3 : (r + 1 + 1) * S = (r + 1) * S + S := Nat.succ_mul (r + 1) S
      omega
  · rw [if_neg hq] at ha
    omega

/-- The loop of NVMeInitFreeQ over the slots 0 .. m - 1, for a list size that
divides the page size and a page-aligned pool: every slot visited has its
list at an address of the closed form, and so has CurPRPList. -/
theorem NVMeInitFreeQ_prpList (pf : Platform) (pAE : NVME_DEVICE_EXTENSION) (pSQI : SUB_QUEUE_INFO)
    (hS : 0 < pAE.PRPListSize)
    (hdiv : pSQI.NumPRPListOnePage * pAE.PRPListSize = PAGE_SIZE)
    (hstart : pSQI.pPRPListStart % PAGE_SIZE = 0) (m : Nat) (hm : m ≤ pSQI.CmdEntries.length) :
    ((List.range m).foldl (NVMeInitFreeQ.body pf pAE) (pSQI, pSQI.pPRPListStart)).1.NumPRPListOnePage
      = pSQI.NumPRPListOnePage ∧
    ((List.range m).foldl (NVMeInitFreeQ.body pf pAE) (pSQI, pSQI.pPRPListStart)).1.CmdEntries.length
      = pSQI.CmdEntries.length ∧
    (m = 0 →
      ((List.range m).foldl (NVMeInitFreeQ.body pf pAE) (pSQI, pSQI.pPRPListStart)).2
        = pSQI.pPRPListStart) ∧
    (0 < m → prpListGood pSQI.pPRPListStart pAE.PRPListSize pSQI.NumPRPListOnePage (m - 1)
      ((List.range m).foldl (NVMeInitFreeQ.body pf pAE) (pSQI, pSQI.pPRPListStart)).2) ∧
    (∀ j, j < m →
      prpListGood pSQI.pPRPListStart pAE.PRPListSize pSQI.NumPRPListOnePage j
        (load {} ((List.range m).foldl (NVMeInitFreeQ.body pf pAE)
          (pSQI, pSQI.pPRPListStart)).1.CmdEntries j).CmdInfo.pPRPList) := by
  have hN : 0 < pSQI.NumPRPListOnePage := by
    rcases Nat.eq_zero_or_pos pSQI.NumPRPListOnePage with h | h
    · rw [h, Nat.zero_mul] at hdiv
      unfold PAGE_SIZE at hdiv
      omega
    · exact h
  induction m with
  | zero =>
    refine ⟨rfl, rfl, fun _ => rfl, fun h => by omega, fun j hj => by omega⟩
  | succ m ih =>
    obtain ⟨i1, i2, i3, i4, i5⟩ := ih (by omega)
    rw [List.range_succ, List.foldl_append]
    generalize (List.range m).foldl (NVMeInitFreeQ.body pf pAE) (pSQI, pSQI.pPRPListStart) = st at *
    simp only [List.foldl_cons, List.foldl_nil]
    have hlen : m < st.1.CmdEntries.length := by omega
    have hcur : prpListGood pSQI.pPRPListStart pAE.PRPListSize pSQI.NumPRPListOnePage m
        (NVMeInitFreeQ.body pf pAE st m).2 := by
      unfold NVMeInitFreeQ.body
      dsimp only
      rw [i1]
      by_cases hm0 : m = 0
      · subst hm0
        rw [i3 rfl, if_neg (by simp)]
        exact prpListGood_first _ _ _ hN
      · have h := prpListGood_next _ _ _ (m - 1) _ hS hdiv hstart (i4 (by omega))
        have hm1 : m - 1 + 1 = m := by omega
        rw [hm1] at h
        exact h
    refine ⟨?_, ?_, fun h => by omega, fun _ => ?_, fun j hj => ?_⟩
    · rw [← i1]
      rfl
    · rw [← i2]
      simp [NVMeInitFreeQ.body, length_store]
    · simpa using hcur
    · by_cases hjm : j = m
      · subst hjm
        have : (load {} (NVMeInitFreeQ.body pf pAE st j).1.CmdEntries j).CmdInfo.pPRPList
            = (NVMeInitFreeQ.body pf pAE st j).2 := by
          simp only [NVMeInitFreeQ.body]
          rw [load_store_same _ _ _ _ hlen]
        rw [this]
        exact hcur
      · have : load {} (NVMeInitFreeQ.body pf pAE st m).1.CmdEntries j
            = load {} st.1.CmdEntries j := by
          simp only [NVMeInitFreeQ.body]
          exact load_store_other _ _ _ _ _ (Ne.symm hjm)
        rw [this]
        exact i5 j (by omega)

/-- The PRP lists that NVMeInitFreeQ assigns when PRPListSize divides the page
size: on a queue with SubQEntries command entries, NumPRPListOnePage =
PAGE_SIZE / PRPListSize and a page-aligned pPRPListStart, the list of every
slot i < SubQEntries lies within one page. -/
theorem prpList_within_page_of_dvd (pf : Platform) (pAE : NVME_DEVICE_EXTENSION)
    (pSQI : SUB_QUEUE_INFO)
    (hS : 0 < pAE.PRPListSize)
    (hdvd : PAGE_SIZE % pAE.PRPListSize = 0)
    (hN : pSQI.NumPRPListOnePage = PAGE_SIZE / pAE.PRPListSize)
    (hstart : pSQI.pPRPListStart % PAGE_SIZE = 0)
    (hlen : pSQI.CmdEntries.length = pSQI.SubQEntries) :
    ∀ i, i < pSQI.SubQEntries →
      withinOnePage (load {} (NVMeInitFreeQ pf pSQI pAE).CmdEntries i).CmdInfo.pPRPList
        pAE.PRPListSize = true := by
  have hdiv : pSQI.NumPRPListOnePage * pAE.PRPListSize = PAGE_SIZE := by
    rw [hN]
    exact Nat.div_mul_cancel (Nat.dvd_of_mod_eq_zero hdvd)
  intro i hi
  have h := (NVMeInitFreeQ_prpList pf pAE pSQI hS hdiv hstart pSQI.SubQEntries
    (by rw [hlen])).2.2.2.2 i hi
  exact prpListGood_within _ _ _ _ _ hS hdiv hstart h

/-! ### C5: order of the queue counters -/

/-- C5, evaluation at the failing input.  On four cores, after a successful
completion of Set Features (Number of Queues) whose double word 0x00000003
grants four submission queues and one completion queue, NVMeAllocIoQueues
returns TRUE with four queue pairs allocated: NumSubIoQAllocated = 4 is within
the grant of 4, but NumCplIoQAllocated = 4 exceeds NumCplIoQAllocFromAdapter =
1. -/
theorem cplAllocated_exceeds_grant :
    (allocatedFrom fourCorePlatform 3).1 = true ∧
    (allocatedFrom fourCorePlatform 3).2.QueueInfo.NumSubIoQAllocFromAdapter = 4 ∧
    (allocatedFrom fourCorePlatform 3).2.QueueInfo.NumCplIoQAllocFromAdapter = 1 ∧
    (allocatedFrom fourCorePlatform 3).2.QueueInfo.NumSubIoQAllocated = 4 ∧
    (allocatedFrom fourCorePlatform 3).2.QueueInfo.NumCplIoQAllocated = 4 ∧
    ¬ ((allocatedFrom fourCorePlatform 3).2.QueueInfo.NumCplIoQAllocated
        ≤ (allocatedFrom fourCorePlatform 3).2.QueueInfo.NumCplIoQAllocFromAdapter) := by
  decide

/-! ### C6: classification of the granted messages -/

theorem NVMeEnumMsiMessages_record_spec (pRMT : RES_MAPPING_TBL) (MsgID : Nat)
    (MII : MESSAGE_INTERRUPT_INFORMATION) :
    (NVMeEnumMsiMessages.record pRMT MsgID MII).InterruptType = pRMT.InterruptType ∧
    (NVMeEnumMsiMessages.record pRMT MsgID MII).NumActiveCores = pRMT.NumActiveCores ∧
    (NVMeEnumMsiMessages.record pRMT MsgID MII).pMsiMsgTbl.length = pRMT.pMsiMsgTbl.length := by
  unfold NVMeEnumMsiMessages.record
  dsimp only
  split
  · refine ⟨rfl, rfl, ?_⟩
    dsimp only
    exact length_store _ _ _ _
  · exact ⟨rfl, rfl, rfl⟩

/-- The probing loop of NVMeEnumMsiMessages started at `MsgID` with `left`
iterations to go: it leaves at the first refused id, or at `MsgID + left`;
the interrupt type becomes INTx exactly when id 0 is refused. -/
theorem NVMeEnumMsiMessages_loop_spec (pf : Platform) (left : Nat) :
    ∀ (MsgID : Nat) (pRMT : RES_MAPPING_TBL),
      MsgID ≤ (NVMeEnumMsiMessages.loop pf left MsgID pRMT).1 ∧
      (NVMeEnumMsiMessages.loop pf left MsgID pRMT).1 ≤ MsgID + left ∧
      (∀ m, MsgID ≤ m → m < (NVMeEnumMsiMessages.loop pf left MsgID pRMT).1 →
        pf.MSIInfo m ≠ none) ∧
      ((NVMeEnumMsiMessages.loop pf left MsgID pRMT).1 < MsgID + left →
        pf.MSIInfo (NVMeEnumMsiMessages.loop pf left MsgID pRMT).1 = none) ∧
      ((NVMeEnumMsiMessages.loop pf left MsgID pRMT).1 < MsgID + left →
        (NVMeEnumMsiMessages.loop pf left MsgID pRMT).1 = 0 →
        (NVMeEnumMsiMessages.loop pf left MsgID pRMT).2.InterruptType = INT_TYPE_INTX) ∧
      ((NVMeEnumMsiMessages.loop pf left MsgID pRMT).1 ≠ 0 →
        (NVMeEnumMsiMessages.loop pf left MsgID pRMT).2.InterruptType = pRMT.InterruptType) ∧
      (NVMeEnumMsiMessages.loop pf left MsgID pRMT).2.NumActiveCores = pRMT.NumActiveCores ∧
      (NVMeEnumMsiMessages.loop pf left MsgID pRMT).2.pMsiMsgTbl.length
        = pRMT.pMsiMsgTbl.length := by
  induction left with
  | zero =>
    intro MsgID pRMT
    unfold NVMeEnumMsiMessages.loop
    refine ⟨le_refl _, by omega, ?_, ?_, ?_, fun _ => rfl, rfl, rfl⟩
    · intro m h1 h2
      omega
    · intro h
      omega
    · intro h
      omega
  | succ n ih =>
    intro MsgID pRMT
    unfold NVMeEnumMsiMessages.loop
    cases hI : pf.MSIInfo MsgID with
    | none =>
      dsimp only
      refine ⟨le_refl _, by omega, ?_, fun _ => hI, ?_, ?_, ?_, ?_⟩
      · intro m h1 h2
        omega
      · intro _ h0
        rw [if_pos h0]
      · intro h0
        rw [if_neg h0]
      · split <;> rfl
      · split <;> rfl
    | some MII =>
      dsimp only
      obtain ⟨h1, h2, h3, h4, _, h6, h7, h8⟩ := ih (MsgID + 1)
        (NVMeEnumMsiMessages.record pRMT MsgID MII)
      obtain ⟨r1, r2, r3⟩ := NVMeEnumMsiMessages_record_spec pRMT MsgID MII
      refine ⟨by omega, by omega, ?_, ?_, ?_, ?_, ?_, ?_⟩
      · intro m hm1 hm2
        by_cases hm : m = MsgID
        · rw [hm, hI]
          simp
        · exact h3 m (by omega) hm2
      · intro hlt
        exact h4 (by omega)
      · intro _ h0
        omega
      · intro _
        rw [h6 (by omega), r1]
      · rw [h7, r2]
      · rw [h8, r3]

theorem markShared_spec (pRMT : RES_MAPPING_TBL) (h : 0 < pRMT.pMsiMsgTbl.length) :
    (markShared pRMT).InterruptType = pRMT.InterruptType ∧
    (markShared pRMT).NumMsiMsgGranted = pRMT.NumMsiMsgGranted ∧
    (load {} (markShared pRMT).pMsiMsgTbl 0).Shared = true := by
  refine ⟨rfl, rfl, ?_⟩
  simp only [markShared]
  rw [load_store_same _ _ _ _ h]

/-- The classification of NVMeEnumMsiMessages by the number of granted
messages, on a message table that has its entry 0. -/
theorem NVMeEnumMsiMessages_classify_spec (t : RES_MAPPING_TBL) (h : 0 < t.pMsiMsgTbl.length) :
    (NVMeEnumMsiMessages.classify t).NumMsiMsgGranted = t.NumMsiMsgGranted ∧
    (t.NumMsiMsgGranted = 0 →
      (NVMeEnumMsiMessages.classify t).InterruptType = t.InterruptType ∧
      (load {} (NVMeEnumMsiMessages.classify t).pMsiMsgTbl 0).Shared = true) ∧
    (t.NumMsiMsgGranted = 1 →
      (NVMeEnumMsiMessages.classify t).InterruptType = INT_TYPE_MSI ∧
      (load {} (NVMeEnumMsiMessages.classify t).pMsiMsgTbl 0).Shared = true) ∧
    (1 < t.NumMsiMsgGranted → t.NumMsiMsgGranted > t.NumActiveCores →
      (NVMeEnumMsiMessages.classify t).pMsiMsgTbl = t.pMsiMsgTbl ∧
      ((load {} t.pMsiMsgTbl 1).Addr = (load {} t.pMsiMsgTbl 0).Addr →
        (NVMeEnumMsiMessages.classify t).InterruptType = INT_TYPE_MSI) ∧
      ((load {} t.pMsiMsgTbl 1).Addr ≠ (load {} t.pMsiMsgTbl 0).Addr →
        (NVMeEnumMsiMessages.classify t).InterruptType = t.InterruptType)) ∧
    (1 < t.NumMsiMsgGranted → t.NumMsiMsgGranted ≤ t.NumActiveCores →
      (NVMeEnumMsiMessages.classify t).InterruptType = INT_TYPE_MSI ∧
      (load {} (NVMeEnumMsiMessages.classify t).pMsiMsgTbl 0).Shared = true) := by
  have hm1 := markShared_spec t h
  have hm2 := markShared_spec { t with InterruptType := INT_TYPE_MSI } h
  refine ⟨?_, ?_, ?_, ?_, ?_⟩
  · unfold NVMeEnumMsiMessages.classify
    split
    · split
      · split <;> rfl
      · exact hm2.2.1
    · split
      · exact hm2.2.1
      · exact hm1.2.1
  · intro h0
    unfold NVMeEnumMsiMessages.classify
    rw [if_neg (by omega), if_neg (by omega)]
    exact ⟨hm1.1, hm1.2.2⟩
  · intro h1
    unfold NVMeEnumMsiMessages.classify
    rw [if_neg (by omega), if_pos h1]
    exact ⟨hm2.1, hm2.2.2⟩
  · intro h1 hc
    unfold NVMeEnumMsiMessages.classify
    rw [if_pos h1, if_pos hc]
    refine ⟨by split <;> rfl, fun ha => by rw [if_pos ha], fun ha => by rw [if_neg ha]⟩
  · intro h1 hc
    unfold NVMeEnumMsiMessages.classify
    rw [if_pos h1, if_neg (by omega)]
    exact ⟨hm2.1, hm2.2.2⟩

/-- C6. NVMeEnumMsiMessages, on a message table of NumActiveCores + 1 entries,
sets NumMsiMsgGranted to the first message id in 0 .. NumActiveCores that the
platform refuses, and to NumActiveCores + 1 when it refuses none.  With 0
granted the interrupt type is INTx and vector 0 is marked shared; with exactly
1 it is MSI and vector 0 is marked shared; with more than NumActiveCores (on a
machine with at least one core) it is MSI when the addresses of the vectors 0
and 1 are equal and MSI-X when they differ; with more than 1 and at most
NumActiveCores, in particular fewer than NumActiveCores, it is MSI and vector 0
is marked shared. -/
theorem NVMeEnumMsiMessages_classifies (pf : Platform) (pAE : NVME_DEVICE_EXTENSION)
    (hTbl : pAE.ResMapTbl.pMsiMsgTbl.length = pAE.ResMapTbl.NumActiveCores + 1) :
    (NVMeEnumMsiMessages pf pAE).2.ResMapTbl.NumMsiMsgGranted
      ≤ pAE.ResMapTbl.NumActiveCores + 1 ∧
    (∀ m, m < (NVMeEnumMsiMessages pf pAE).2.ResMapTbl.NumMsiMsgGranted → pf.MSIInfo m ≠ none) ∧
    ((NVMeEnumMsiMessages pf pAE).2.ResMapTbl.NumMsiMsgGranted ≤ pAE.ResMapTbl.NumActiveCores →
      pf.MSIInfo (NVMeEnumMsiMessages pf pAE).2.ResMapTbl.NumMsiMsgGranted = none) ∧
    ((NVMeEnumMsiMessages pf pAE).2.ResMapTbl.NumMsiMsgGranted = 0 →
      (NVMeEnumMsiMessages pf pAE).2.ResMapTbl.InterruptType = INT_TYPE_INTX ∧
      (load {} (NVMeEnumMsiMessages pf pAE).2.ResMapTbl.pMsiMsgTbl 0).Shared = true) ∧
    ((NVMeEnumMsiMessages pf pAE).2.ResMapTbl.NumMsiMsgGranted = 1 →
      (NVMeEnumMsiMessages pf pAE).2.ResMapTbl.InterruptType = INT_TYPE_MSI ∧
      (load {} (NVMeEnumMsiMessages pf pAE).2.ResMapTbl.pMsiMsgTbl 0).Shared = true) ∧
    (0 < pAE.ResMapTbl.NumActiveCores →
      (NVMeEnumMsiMessages pf pAE).2.ResMapTbl.NumMsiMsgGranted > pAE.ResMapTbl.NumActiveCores →
      ((load {} (NVMeEnumMsiMessages pf pAE).2.ResMapTbl.pMsiMsgTbl 1).Addr
          = (load {} (NVMeEnumMsiMessages pf pAE).2.ResMapTbl.pMsiMsgTbl 0).Addr →
        (NVMeEnumMsiMessages pf pAE).2.ResMapTbl.InterruptType = INT_TYPE_MSI) ∧
      ((load {} (NVMeEnumMsiMessages pf pAE).2.ResMapTbl.pMsiMsgTbl 1).Addr
          ≠ (load {} (NVMeEnumMsiMessages pf pAE).2.ResMapTbl.pMsiMsgTbl 0).Addr →
        (NVMeEnumMsiMessages pf pAE).2.ResMapTbl.InterruptType = INT_TYPE_MSIX)) ∧
    (1 < (NVMeEnumMsiMessages pf pAE).2.ResMapTbl.NumMsiMsgGranted →
      (NVMeEnumMsiMessages pf pAE).2.ResMapTbl.NumMsiMsgGranted ≤ pAE.ResMapTbl.NumActiveCores →
      (NVMeEnumMsiMessages pf pAE).2.ResMapTbl.InterruptType = INT_TYPE_MSI ∧
      (load {} (NVMeEnumMsiMessages pf pAE).2.ResMapTbl.pMsiMsgTbl 0).Shared = true) := by
  obtain ⟨_, h2, h3, h4, h5, h6, h7, h8⟩ := NVMeEnumMsiMessages_loop_spec pf
    (pAE.ResMapTbl.NumActiveCores + 1) 0 { pAE.ResMapTbl with InterruptType := INT_TYPE_MSIX }
  have hres : (NVMeEnumMsiMessages pf pAE).2.ResMapTbl
      = NVMeEnumMsiMessages.classify
          { (NVMeEnumMsiMessages.loop pf (pAE.ResMapTbl.NumActiveCores + 1) 0
              { pAE.ResMapTbl with InterruptType := INT_TYPE_MSIX }).2 with
            NumMsiMsgGranted := (NVMeEnumMsiMessages.loop pf (pAE.ResMapTbl.NumActiveCores + 1) 0
              { pAE.ResMapTbl with InterruptType := INT_TYPE_MSIX }).1 } := rfl
  rw [hres]
  generalize NVMeEnumMsiMessages.loop pf (pAE.ResMapTbl.NumActiveCores + 1) 0
    { pAE.ResMapTbl with InterruptType := INT_TYPE_MSIX } = r at *
  obtain ⟨g, t⟩ := r
  simp only [Nat.zero_add] at h2 h3 h4 h5 h6 h7 h8
  have hlen : 0 < ({ t with NumMsiMsgGranted := g } : RES_MAPPING_TBL).pMsiMsgTbl.length := by
    show 0 < t.pMsiMsgTbl.length
    rw [h8, hTbl]
    omega
  obtain ⟨c1, c2, c3, c4, c5⟩ :=
    NVMeEnumMsiMessages_classify_spec { t with NumMsiMsgGranted := g } hlen
  simp only at c1 c2 c3 c4 c5
  rw [c1]
  refine ⟨h2, fun m hm => h3 m (Nat.zero_le m) hm, fun hle => h4 (by omega), ?_, c3, ?_, ?_⟩
  · intro h0
    refine ⟨?_, (c2 h0).2⟩
    rw [(c2 h0).1]
    exact h5 (by omega) h0
  · intro hc hgt
    obtain ⟨e1, e2, e3⟩ := c4 (by omega) (by rw [h7]; exact hgt)
    rw [e1]
    refine ⟨e2, fun hne => ?_⟩
    rw [e3 hne]
    exact h6 (by omega)
  · intro h1 hle
    exact c5 h1 (by rw [h7]; exact hle)

/-- Witness of C6: on four cores, with the platform granting the message ids
0 .. 4 at distinct addresses, the message table has its five entries, five
messages count as granted and the interrupt type is MSI-X. -/
theorem NVMeEnumMsiMessages_classifies_witness :
    (NVMeEnumMsiMessages (msiPlatform 8) fourCoreMsiDevice).2.ResMapTbl.NumMsiMsgGranted = 5 ∧
    (NVMeEnumMsiMessages (msiPlatform 8) fourCoreMsiDevice).2.ResMapTbl.InterruptType
      = INT_TYPE_MSIX := by
  have h := NVMeEnumMsiMessages_classifies (msiPlatform 8) fourCoreMsiDevice (by decide)
  exact ⟨by decide, (h.2.2.2.2.2.1 (by decide) (by decide)).2 (by decide)⟩

/-! ### C8: initial mapping of messages to cores -/

/-- With 256 active cores the loop of NVMeMsiMapCores never leaves: its 8-bit
counter stays below 256. -/
theorem NVMeMsiMapCores_loop_diverges (fuel : Nat) :
    ∀ (Core : Nat) (pRMT : RES_MAPPING_TBL), Core < 256 → pRMT.NumActiveCores = 256 →
      NVMeMsiMapCores.loop fuel Core pRMT = none := by
  induction fuel with
  | zero => intro Core pRMT _ _; rfl
  | succ n ih =>
    intro Core pRMT hC hN
    unfold NVMeMsiMapCores.loop
    rw [if_pos (by omega)]
    apply ih
    · unfold UCHAR
      omega
    · simpa [NVMeMsiMapCores.body] using hN

/-- C8, evaluation at the failing input.  With 256 active cores and 257
granted messages NVMeMsiMapCores does not return, however many evaluations of
its loop condition are allowed: after core 255 the 8-bit counter Core wraps to
0, which is again below NumActiveCores. -/
theorem NVMeMsiMapCores_no_return :
    manyCoreDevice.ResMapTbl.NumMsiMsgGranted > manyCoreDevice.ResMapTbl.NumActiveCores ∧
    ∀ fuel, NVMeMsiMapCores fuel manyCoreDevice = none := by
  refine ⟨by decide, fun fuel => ?_⟩
  have h : ¬ (manyCoreDevice.ResMapTbl.NumMsiMsgGranted ≤ manyCoreDevice.ResMapTbl.NumActiveCores) := by
    decide
  unfold NVMeMsiMapCores
  rw [if_neg h, NVMeMsiMapCores_loop_diverges fuel 0 _ (by decide) rfl]
  rfl

/-- One iteration of the loop of NVMeMsiMapCores keeps `MsiMapInv`. -/
theorem NVMeMsiMapCores_body_inv (t0 t : RES_MAPPING_TBL) (c : Nat)
    (hc : c < t0.NumActiveCores)
    (hCT : t0.pCoreTbl.length = t0.NumActiveCores)
    (hMT : ∀ j, j < t0.NumActiveCores → (load {} t0.pCoreTbl j).CplQueue < t0.pMsiMsgTbl.length)
    (hI : MsiMapInv t0 c t) : MsiMapInv t0 (c + 1) (NVMeMsiMapCores.body t c) := by
  obtain ⟨i1, i2, i3, i4, i5, i6, i7⟩ := hI
  have hcl : c < t.pCoreTbl.length := by rw [i2, hCT]; exact hc
  have hql : (load {} t.pCoreTbl c).CplQueue < t.pMsiMsgTbl.length := by
    rw [i4 c, i3]
    exact hMT c hc
  unfold NVMeMsiMapCores.body
  refine ⟨i1, ?_, ?_, ?_, ?_, ?_, ?_⟩
  · dsimp only
    rw [length_store, i2]
  · dsimp only
    rw [length_store, i3]
  · intro j
    dsimp only
    by_cases hj : c = j
    · subst hj
      rw [load_store_same _ _ _ _ hcl]
      exact i4 c
    · rw [load_store_other _ _ _ _ _ hj]
      exact i4 j
  · intro j hj
    dsimp only
    by_cases hjc : c = j
    · subst hjc
      rw [load_store_same _ _ _ _ hcl]
      exact i4 c
    · rw [load_store_other _ _ _ _ _ hjc]
      exact i5 j (by omega)
  · intro j hj
    dsimp only
    by_cases hq : (load {} t.pCoreTbl c).CplQueue = (load {} t0.pCoreTbl j).CplQueue
    · rw [← hq, load_store_same _ _ _ _ hql]
    · rw [load_store_other _ _ _ _ _ hq]
      have hjc : j ≠ c := by
        intro h
        subst h
        exact hq (i4 j)
      exact i6 j (by omega)
  · intro j hj hd
    dsimp only
    by_cases hjc : j = c
    · subst hjc
      rw [← i4 j, load_store_same _ _ _ _ hql]
    · have hq : (load {} t.pCoreTbl c).CplQueue ≠ (load {} t0.pCoreTbl j).CplQueue := by
        rw [i4 c]
        exact hd c hc (Ne.symm hjc)
      rw [load_store_other _ _ _ _ _ hq]
      exact i7 j (by omega) hd

/-- With at most 255 active cores the loop of NVMeMsiMapCores, started at a
core `c` with enough fuel, returns and establishes `MsiMapInv` for all
cores. -/
theorem NVMeMsiMapCores_loop_returns (t0 : RES_MAPPING_TBL)
    (hN : t0.NumActiveCores ≤ 255)
    (hCT : t0.pCoreTbl.length = t0.NumActiveCores)
    (hMT : ∀ j, j < t0.NumActiveCores → (load {} t0.pCoreTbl j).CplQueue < t0.pMsiMsgTbl.length)
    (m : Nat) :
    ∀ (c fuel : Nat) (t : RES_MAPPING_TBL), c + m = t0.NumActiveCores → m < fuel →
      MsiMapInv t0 c t →
      ∃ t1, NVMeMsiMapCores.loop fuel c t = some t1 ∧ MsiMapInv t0 t0.NumActiveCores t1 := by
  induction m with
  | zero =>
    intro c fuel t hcm hf hI
    obtain ⟨f, rfl⟩ : ∃ f, fuel = f + 1 := ⟨fuel - 1, by omega⟩
    refine ⟨t, ?_, ?_⟩
    · unfold NVMeMsiMapCores.loop
      rw [if_neg (by rw [hI.1]; omega)]
    · have : c = t0.NumActiveCores := by omega
      rw [← this]
      exact hI
  | succ m ih =>
    intro c fuel t hcm hf hI
    obtain ⟨f, rfl⟩ : ∃ f, fuel = f + 1 := ⟨fuel - 1, by omega⟩
    have hU : UCHAR (c + 1) = c + 1 := by unfold UCHAR; omega
    unfold NVMeMsiMapCores.loop
    rw [if_pos (by rw [hI.1]; omega), hU]
    exact ih (c + 1) f _ (by omega) (by omega)
      (NVMeMsiMapCores_body_inv t0 t c (by omega) hCT hMT hI)

/-- The mapping of NVMeMsiMapCores for at most 255 active cores (the range in
which its 8-bit loop counter reaches NumActiveCores), on a core table of
NumActiveCores entries whose queue ids index the message table: with more
messages granted than cores the routine returns, whatever fuel above
NumActiveCores it is given; every core c < NumActiveCores has MsiMsgID set to
its CplQueue, the message entry of that id has CplQueueNum set to it and, when
no other core has the same CplQueue, CoreNum set to c.  With no more messages
granted than cores the device extension is returned unchanged. -/
theorem NVMeMsiMapCores_maps (pAE : NVME_DEVICE_EXTENSION) (fuel : Nat)
    (hN : pAE.ResMapTbl.NumActiveCores ≤ 255)
    (hF : pAE.ResMapTbl.NumActiveCores < fuel)
    (hCT : pAE.ResMapTbl.pCoreTbl.length = pAE.ResMapTbl.NumActiveCores)
    (hMT : ∀ j, j < pAE.ResMapTbl.NumActiveCores →
      (coreT pAE j).CplQueue < pAE.ResMapTbl.pMsiMsgTbl.length) :
    (pAE.ResMapTbl.NumMsiMsgGranted ≤ pAE.ResMapTbl.NumActiveCores →
      NVMeMsiMapCores fuel pAE = some pAE) ∧
    (pAE.ResMapTbl.NumMsiMsgGranted > pAE.ResMapTbl.NumActiveCores →
      ∃ pAE1, NVMeMsiMapCores fuel pAE = some pAE1 ∧
        ∀ c, c < pAE.ResMapTbl.NumActiveCores →
          (coreT pAE1 c).MsiMsgID = (coreT pAE c).CplQueue ∧
          (coreT pAE1 c).CplQueue = (coreT pAE c).CplQueue ∧
          (load {} pAE1.ResMapTbl.pMsiMsgTbl (coreT pAE c).CplQueue).CplQueueNum
            = (coreT pAE c).CplQueue ∧
          ((∀ i, i < pAE.ResMapTbl.NumActiveCores → i ≠ c →
              (coreT pAE i).CplQueue ≠ (coreT pAE c).CplQueue) →
            (load {} pAE1.ResMapTbl.pMsiMsgTbl (coreT pAE c).CplQueue).CoreNum = c)) := by
  refine ⟨fun h => ?_, fun h => ?_⟩
  · unfold NVMeMsiMapCores
    rw [if_pos h]
  · have hI0 : MsiMapInv pAE.ResMapTbl 0 pAE.ResMapTbl :=
      ⟨rfl, rfl, rfl, fun _ => rfl, fun j hj => by omega, fun j hj => by omega,
        fun j hj => by omega⟩
    obtain ⟨t1, h1, hI⟩ := NVMeMsiMapCores_loop_returns pAE.ResMapTbl hN hCT hMT
      pAE.ResMapTbl.NumActiveCores 0 fuel pAE.ResMapTbl (by omega) hF hI0
    refine ⟨{ pAE with ResMapTbl := t1 }, ?_, ?_⟩
    · unfold NVMeMsiMapCores
      rw [if_neg (by omega), h1]
      rfl
    · obtain ⟨_, _, _, i4, i5, i6, i7⟩ := hI
      intro c hc
      exact ⟨i5 c hc, i4 c, i6 c hc, fun hd => i7 c hc hd⟩

/-! ### C9: every core has a queue pair -/

/-- C9, evaluation at the failing input.  Node 0 holds the cores 2 and 3,
node 1 the cores 0 and 1, the adapter grants four queue pairs, the buffers of
queue 1 are allocated and the first buffer of queue 2 is refused.
NVMeEnumNumaCores returns TRUE with four active cores; NVMeAllocIoQueues falls
back to one queue pair and returns TRUE; its fall-back loop starts at core 1,
so the cores 1, 2 and 3 are mapped to queue pair 1 and core 0 is left with
SubQueue = 0 and CplQueue = 0. -/
theorem core_without_queue :
    (NVMeEnumNumaCores scarcePlatform 0 blankDevice).1 = true ∧
    (NVMeEnumNumaCores scarcePlatform 0 blankDevice).2.1.ResMapTbl.NumActiveCores = 4 ∧
    (allocatedFrom scarcePlatform 196611).1 = true ∧
    (allocatedFrom scarcePlatform 196611).2.QueueInfo.NumSubIoQAllocated = 1 ∧
    (allocatedFrom scarcePlatform 196611).2.ResMapTbl.pCoreTbl.length = 4 ∧
    (coreT (allocatedFrom scarcePlatform 196611).2 0).CoreNum = 0 ∧
    (coreT (allocatedFrom scarcePlatform 196611).2 0).NumaNode = 1 ∧
    (coreT (allocatedFrom scarcePlatform 196611).2 0).SubQueue = 0 ∧
    (coreT (allocatedFrom scarcePlatform 196611).2 0).CplQueue = 0 ∧
    (coreT (allocatedFrom scarcePlatform 196611).2 1).SubQueue = 1 ∧
    (coreT (allocatedFrom scarcePlatform 196611).2 2).SubQueue = 1 ∧
    (coreT (allocatedFrom scarcePlatform 196611).2 3).SubQueue = 1 := by
  decide

/-! ### C10: round robin over the granted queue pairs -/

theorem coreT_setCore_same (pAE : NVME_DEVICE_EXTENSION) (c : Nat) (f : CORE_TBL → CORE_TBL)
    (h : c < pAE.ResMapTbl.pCoreTbl.length) :
    coreT (setCore pAE c f) c = f (coreT pAE c) := by
  simp only [coreT, setCore]
  exact load_store_same _ _ _ _ h

theorem coreT_setCore_other (pAE : NVME_DEVICE_EXTENSION) (c j : Nat) (f : CORE_TBL → CORE_TBL)
    (h : c ≠ j) : coreT (setCore pAE c f) j = coreT pAE j := by
  simp only [coreT, setCore]
  exact load_store_other _ _ _ _ _ h

theorem setCore_frame (pAE : NVME_DEVICE_EXTENSION) (c : Nat) (f : CORE_TBL → CORE_TBL) :
    (setCore pAE c f).QueueInfo = pAE.QueueInfo ∧
    (setCore pAE c f).ResMapTbl.NumActiveCores = pAE.ResMapTbl.NumActiveCores ∧
    (setCore pAE c f).ResMapTbl.pCoreTbl.length = pAE.ResMapTbl.pCoreTbl.length ∧
    (setCore pAE c f).ResMapTbl.pNumaNodeTbl = pAE.ResMapTbl.pNumaNodeTbl ∧
    (setCore pAE c f).ResMapTbl.NumNumaNodes = pAE.ResMapTbl.NumNumaNodes := by
  refine ⟨rfl, rfl, ?_, rfl, rfl⟩
  simp only [setCore]
  exact length_store _ _ _ _

/-- When the platform refuses no contiguous allocation, NVMeAllocQueues
succeeds for every queue id up to NumActiveCores and touches only the queue
structure and the entry counts. -/
theorem NVMeAllocQueues_success (pf : Platform) (szCmdEntry calls : Nat)
    (pAE : NVME_DEVICE_EXTENSION) (QueueID QEntries NumaNode : Nat)
    (hQ : QueueID ≤ pAE.ResMapTbl.NumActiveCores) (hMem : ∀ i, pf.AllocateContiguous i ≠ 0) :
    (NVMeAllocQueues pf szCmdEntry calls pAE QueueID QEntries NumaNode).1 = STOR_STATUS_SUCCESS ∧
    (NVMeAllocQueues pf szCmdEntry calls pAE QueueID QEntries NumaNode).2.1.ResMapTbl
      = pAE.ResMapTbl ∧
    (NVMeAllocQueues pf szCmdEntry calls pAE QueueID QEntries NumaNode).2.1.QueueInfo.NumSubIoQAllocated
      = pAE.QueueInfo.NumSubIoQAllocated ∧
    (NVMeAllocQueues pf szCmdEntry calls pAE QueueID QEntries NumaNode).2.1.QueueInfo.NumCplIoQAllocated
      = pAE.QueueInfo.NumCplIoQAllocated ∧
    (NVMeAllocQueues pf szCmdEntry calls pAE QueueID QEntries NumaNode).2.1.QueueInfo.NumSubIoQAllocFromAdapter
      = pAE.QueueInfo.NumSubIoQAllocFromAdapter := by
  have hg : ¬ (QueueID > pAE.ResMapTbl.NumActiveCores) := by omega
  unfold NVMeAllocQueues
  rw [if_neg hg]
  simp only [NVMeAllocateMem, hMem, if_false]
  refine ⟨trivial, ?_, ?_, ?_, ?_⟩
  · split <;> rfl
  · split <;> rfl
  · split <;> rfl
  · split <;> rfl

/-- Bit `c` of the mask with the bits 0 .. n - 1 set, as NVMeAllocIoQueues
tests it. -/
theorem lowMask_bit (n c : Nat) :
    ((2 ^ n - 1) >>> c) &&& 1 = if c < n then 1 else 0 := by
  have h := Nat.testBit_two_pow_sub_one n c
  rw [Nat.testBit_to_div_mod] at h
  rw [Nat.and_one_is_mod, Nat.shiftRight_eq_div_pow]
  by_cases hc : c < n
  · rw [if_pos hc]
    simpa [hc] using h
  · rw [if_neg hc]
    have h2 : ¬ ((2 ^ n - 1) / 2 ^ c % 2 = 1) := by simpa [hc] using h
    omega

theorem succ_mod_cases (m k : Nat) (hk : 1 ≤ k) :
    (m + 1) % k = if m % k + 1 = k then 0 else m % k + 1 := by
  have hlt : m % k < k := Nat.mod_lt _ (by omega)
  rw [Nat.add_mod]
  by_cases h1 : k = 1
  · subst h1
    simp [Nat.mod_one]
  · have h1k : 1 % k = 1 := Nat.mod_eq_of_lt (by omega)
    rw [h1k]
    by_cases h : m % k + 1 = k
    · rw [if_pos h, h, Nat.mod_self]
    · rw [if_neg h]
      exact Nat.mod_eq_of_lt (by omega)

/-- The queue id of core `c` in the round robin: one more than `c mod k`. -/
theorem nextQueue_round_robin (pAE : NVME_DEVICE_EXTENSION) (k c q : Nat)
    (hk1 : 1 ≤ k) (hk2 : k < 65536)
    (hG : pAE.QueueInfo.NumSubIoQAllocFromAdapter = k)
    (hq : q = if c = 0 then 0 else (c - 1) % k + 1) :
    NVMeAllocIoQueues.nextQueue pAE q = c % k + 1 := by
  have hU : USHORT k = k := by unfold USHORT; omega
  unfold NVMeAllocIoQueues.nextQueue
  rw [hG, hU]
  by_cases hc : c = 0
  · subst hc
    rw [if_pos rfl] at hq
    subst hq
    rw [if_neg (by omega)]
    simp
  · rw [if_neg hc] at hq
    have hs := succ_mod_cases (c - 1) k hk1
    have hc1 : c - 1 + 1 = c := by omega
    rw [hc1] at hs
    have hlt : (c - 1) % k < k := Nat.mod_lt _ (by omega)
    by_cases h : (c - 1) % k + 1 = k
    · rw [if_pos h] at hs
      rw [if_pos (by omega), hs]
    · rw [if_neg h] at hs
      rw [if_neg (by omega), hs, hq]

/-- One iteration of the inner loop of NVMeAllocIoQueues on a core of the
mask keeps the round robin invariant and goes on to the next core. -/
theorem NVMeAllocIoQueues_core_step (pf : Platform) (szCmdEntry Node : Nat) (pNNT : NUMA_NODE_TBL)
    (n k c : Nat) (st : NVME_DEVICE_EXTENSION × Nat × Nat)
    (hk1 : 1 ≤ k) (hk2 : k < 65536) (hc : c < n)
    (hMask : pNNT.GroupAffinity.Mask = 2 ^ n - 1)
    (hMem : ∀ i, pf.AllocateContiguous i ≠ 0)
    (hI : RoundRobinInv n k c st) :
    ∃ st1, NVMeAllocIoQueues.core pf szCmdEntry Node pNNT st c = Flow.next st1 ∧
      RoundRobinInv n k (c + 1) st1 := by
  obtain ⟨iN, iL, iG, iS, iC, iQ, iT⟩ := hI
  have hbit : ¬ (((pNNT.GroupAffinity.Mask >>> c) &&& 1) = 0) := by
    rw [hMask, lowMask_bit, if_pos hc]
    decide
  have hq := nextQueue_round_robin st.1 k c st.2.2 hk1 hk2 iG iQ
  have hmodlt : c % k < k := Nat.mod_lt _ (by omega)
  have hqn : (if c + 1 = 0 then 0 else (c + 1 - 1) % k + 1) = c % k + 1 := by
    rw [if_neg (by omega)]
    simp
  unfold NVMeAllocIoQueues.core
  dsimp only
  rw [if_neg hbit, hq]
  by_cases hck : c < k
  · have hmod : c % k = c := Nat.mod_eq_of_lt hck
    have hlt : st.1.QueueInfo.NumSubIoQAllocated < c % k + 1 := by
      rw [iS, hmod]
      omega
    rw [if_pos hlt]
    obtain ⟨a1, a2, a3, a4, a5⟩ := NVMeAllocQueues_success pf szCmdEntry st.2.1 st.1 (c % k + 1)
      st.1.InitInfo.IoQEntries (USHORT Node) (by rw [iN, hmod]; omega) hMem
    rw [if_pos a1]
    refine ⟨_, rfl, ?_⟩
    generalize NVMeAllocQueues pf szCmdEntry st.2.1 st.1 (c % k + 1) st.1.InitInfo.IoQEntries
      (USHORT Node) = r at *
    obtain ⟨f1, f2, f3, f4, f5⟩ := setCore_frame (NVMeAllocIoQueues.counted r.2.1) c
      (fun c1 => { c1 with SubQueue := c % k + 1, CplQueue := c % k + 1 })
    have hlenr : c < (NVMeAllocIoQueues.counted r.2.1).ResMapTbl.pCoreTbl.length := by
      show c < r.2.1.ResMapTbl.pCoreTbl.length
      rw [a2, iL]
      exact hc
    refine ⟨?_, ?_, ?_, ?_, ?_, ?_, ?_⟩
    · show (setCore (NVMeAllocIoQueues.counted r.2.1) c _).ResMapTbl.NumActiveCores = n
      rw [f2]
      show r.2.1.ResMapTbl.NumActiveCores = n
      rw [a2, iN]
    · show (setCore (NVMeAllocIoQueues.counted r.2.1) c _).ResMapTbl.pCoreTbl.length = n
      rw [f3]
      show r.2.1.ResMapTbl.pCoreTbl.length = n
      rw [a2, iL]
    · show (setCore (NVMeAllocIoQueues.counted r.2.1) c _).QueueInfo.NumSubIoQAllocFromAdapter = k
      rw [f1]
      show r.2.1.QueueInfo.NumSubIoQAllocFromAdapter = k
      rw [a5, iG]
    · show (setCore (NVMeAllocIoQueues.counted r.2.1) c _).QueueInfo.NumSubIoQAllocated = _
      rw [f1]
      show r.2.1.QueueInfo.NumCplIoQAllocated + 1 = _
      rw [a4, iC]
      omega
    · show (setCore (NVMeAllocIoQueues.counted r.2.1) c _).QueueInfo.NumCplIoQAllocated = _
      rw [f1]
      show r.2.1.QueueInfo.NumCplIoQAllocated + 1 = _
      rw [a4, iC]
      omega
    · exact hqn.symm
    · intro j hj
      by_cases hjc : j = c
      · subst hjc
        show (coreT (setCore (NVMeAllocIoQueues.counted r.2.1) j _) j).SubQueue = _ ∧
          (coreT (setCore (NVMeAllocIoQueues.counted r.2.1) j _) j).CplQueue = _
        rw [coreT_setCore_same _ _ _ hlenr]
        exact ⟨rfl, rfl⟩
      · show (coreT (setCore (NVMeAllocIoQueues.counted r.2.1) c _) j).SubQueue = _ ∧
          (coreT (setCore (NVMeAllocIoQueues.counted r.2.1) c _) j).CplQueue = _
        rw [coreT_setCore_other _ _ _ _ (Ne.symm hjc)]
        have hcj : coreT (NVMeAllocIoQueues.counted r.2.1) j = coreT st.1 j := by
          show load {} r.2.1.ResMapTbl.pCoreTbl j = load {} st.1.ResMapTbl.pCoreTbl j
          rw [a2]
        rw [hcj]
        exact iT j (by omega)
  · have hnlt : ¬ (st.1.QueueInfo.NumSubIoQAllocated < c % k + 1) := by
      rw [iS]
      omega
    rw [if_neg hnlt]
    refine ⟨_, rfl, ?_⟩
    obtain ⟨f1, f2, f3, f4, f5⟩ := setCore_frame st.1 c
      (fun c1 => { c1 with SubQueue := c % k + 1, CplQueue := c % k + 1 })
    refine ⟨?_, ?_, ?_, ?_, ?_, ?_, ?_⟩
    · show (setCore st.1 c _).ResMapTbl.NumActiveCores = n
      rw [f2, iN]
    · show (setCore st.1 c _).ResMapTbl.pCoreTbl.length = n
      rw [f3, iL]
    · show (setCore st.1 c _).QueueInfo.NumSubIoQAllocFromAdapter = k
      rw [f1, iG]
    · show (setCore st.1 c _).QueueInfo.NumSubIoQAllocated = _
      rw [f1, iS]
      omega
    · show (setCore st.1 c _).QueueInfo.NumCplIoQAllocated = _
      rw [f1, iC]
      omega
    · exact hqn.symm
    · intro j hj
      by_cases hjc : j = c
      · subst hjc
        show (coreT (setCore st.1 j _) j).SubQueue = _ ∧ (coreT (setCore st.1 j _) j).CplQueue = _
        rw [coreT_setCore_same _ _ _ (by rw [iL]; exact hc)]
        exact ⟨rfl, rfl⟩
      · show (coreT (setCore st.1 c _) j).SubQueue = _ ∧ (coreT (setCore st.1 c _) j).CplQueue = _
        rw [coreT_setCore_other _ _ _ _ (Ne.symm hjc)]
        exact iT j (by omega)

/-- The inner loop of NVMeAllocIoQueues over the cores c .. c + m - 1 of the
mask keeps the round robin invariant and returns from no iteration. -/
theorem NVMeAllocIoQueues_cores (pf : Platform) (szCmdEntry Node : Nat) (pNNT : NUMA_NODE_TBL)
    (n k : Nat) (hk1 : 1 ≤ k) (hk2 : k < 65536)
    (hMask : pNNT.GroupAffinity.Mask = 2 ^ n - 1)
    (hMem : ∀ i, pf.AllocateContiguous i ≠ 0) (m : Nat) :
    ∀ (c : Nat) (st : NVME_DEVICE_EXTENSION × Nat × Nat), c + m ≤ n → RoundRobinInv n k c st →
      ∃ st1, forLoop (NVMeAllocIoQueues.core pf szCmdEntry Node pNNT) (List.range' c m) st
          = Flow.next st1 ∧ RoundRobinInv n k (c + m) st1 := by
  induction m with
  | zero =>
    intro c st _ hI
    exact ⟨st, rfl, hI⟩
  | succ m ih =>
    intro c st hle hI
    obtain ⟨st1, h1, hI1⟩ := NVMeAllocIoQueues_core_step pf szCmdEntry Node pNNT n k c st hk1 hk2
      (by omega) hMask hMem hI
    obtain ⟨st2, h2, hI2⟩ := ih (c + 1) st1 (by omega) hI1
    refine ⟨st2, ?_, ?_⟩
    · rw [List.range'_succ]
      unfold forLoop
      rw [h1]
      exact h2
    · have : c + (m + 1) = c + 1 + m := by omega
      rw [this]
      exact hI2

/-- C10, as amended.  On a single NUMA node in group 0 whose mask has the
bits 0 .. n - 1 set (n ≤ 64, FirstCoreNum = 0, LastCoreNum = n - 1, a core
table of n entries), with an adapter grant NumSubIoQAllocFromAdapter = k, 1 ≤
k ≤ 65535, a PRP list size between 1 and PAGE_SIZE and a platform that refuses
no contiguous allocation, NVMeAllocIoQueues returns TRUE, gives every core c <
n the queue pair SubQueue = CplQueue = (c mod k) + 1 and ends with
NumSubIoQAllocated = NumCplIoQAllocated = min(n, k). -/
theorem NVMeAllocIoQueues_round_robin (pf : Platform) (szCmdEntry calls : Nat)
    (pAE : NVME_DEVICE_EXTENSION) (n k : Nat)
    (hn : n ≤ 64) (hk1 : 1 ≤ k) (hk2 : k < 65536)
    (hNodes : pAE.ResMapTbl.NumNumaNodes = 1)
    (hMask : (load {} pAE.ResMapTbl.pNumaNodeTbl 0).GroupAffinity.Mask = 2 ^ n - 1)
    (hGroup : (load {} pAE.ResMapTbl.pNumaNodeTbl 0).GroupAffinity.Group = 0)
    (hFirst : (load {} pAE.ResMapTbl.pNumaNodeTbl 0).FirstCoreNum = 0)
    (hLast : (load {} pAE.ResMapTbl.pNumaNodeTbl 0).LastCoreNum = n - 1)
    (hCores : pAE.ResMapTbl.NumActiveCores = n)
    (hTbl : pAE.ResMapTbl.pCoreTbl.length = n)
    (hGrant : pAE.QueueInfo.NumSubIoQAllocFromAdapter = k)
    (hPrp : 0 < pAE.PRPListSize ∧ pAE.PRPListSize ≤ PAGE_SIZE)
    (hMem : ∀ i, pf.AllocateContiguous i ≠ 0) :
    (NVMeAllocIoQueues pf szCmdEntry calls pAE).1 = true ∧
    (∀ c, c < n →
      (coreT (NVMeAllocIoQueues pf szCmdEntry calls pAE).2.1 c).SubQueue = c % k + 1 ∧
      (coreT (NVMeAllocIoQueues pf szCmdEntry calls pAE).2.1 c).CplQueue = c % k + 1) ∧
    (NVMeAllocIoQueues pf szCmdEntry calls pAE).2.1.QueueInfo.NumSubIoQAllocated = min n k ∧
    (NVMeAllocIoQueues pf szCmdEntry calls pAE).2.1.QueueInfo.NumCplIoQAllocated = min n k := by
  have _ := hn
  have _ := hGroup
  have _ := hPrp
  have hI0 : RoundRobinInv n k 0
      ({ pAE with QueueInfo :=
          { pAE.QueueInfo with NumSubIoQAllocated := 0, NumCplIoQAllocated := 0 } }, calls, 0) := by
    refine ⟨hCores, hTbl, hGrant, ?_, ?_, rfl, ?_⟩
    · show 0 = min 0 k
      omega
    · show 0 = min 0 k
      omega
    · intro j hj
      omega
  have hloop : ∃ st1, forLoop (NVMeAllocIoQueues.core pf szCmdEntry 0
        (load {} pAE.ResMapTbl.pNumaNodeTbl 0))
        (List.range' (load {} pAE.ResMapTbl.pNumaNodeTbl 0).FirstCoreNum
          ((load {} pAE.ResMapTbl.pNumaNodeTbl 0).LastCoreNum + 1
            - (load {} pAE.ResMapTbl.pNumaNodeTbl 0).FirstCoreNum))
        ({ pAE with QueueInfo :=
            { pAE.QueueInfo with NumSubIoQAllocated := 0, NumCplIoQAllocated := 0 } }, calls, 0)
        = Flow.next st1 ∧ RoundRobinInv n k n st1 := by
    rw [hFirst, hLast]
    by_cases hz : n = 0
    · subst hz
      refine ⟨_, ?_, hI0⟩
      have hb : ((load {} pAE.ResMapTbl.pNumaNodeTbl 0).GroupAffinity.Mask >>> 0) &&& 1 = 0 := by
        rw [hMask]
        rfl
      show forLoop _ [0] _ = _
      unfold forLoop NVMeAllocIoQueues.core
      dsimp only
      rw [if_pos hb]
      rfl
    · have hr : n - 1 + 1 - 0 = n := by omega
      rw [hr]
      have h := NVMeAllocIoQueues_cores pf szCmdEntry 0 (load {} pAE.ResMapTbl.pNumaNodeTbl 0)
        n k hk1 hk2 hMask hMem n 0 _ (by omega) hI0
      simpa using h
  obtain ⟨st1, hl, hI⟩ := hloop
  have hres : NVMeAllocIoQueues pf szCmdEntry calls pAE = (true, st1.1, st1.2.1) := by
    unfold NVMeAllocIoQueues
    dsimp only
    rw [hNodes]
    show (match forLoop (NVMeAllocIoQueues.node pf szCmdEntry) [0] _ with
      | Flow.ret r => r
      | Flow.next s => (true, s.1, s.2)) = _
    unfold forLoop NVMeAllocIoQueues.node
    dsimp only
    rw [hl]
    rfl
  rw [hres]
  obtain ⟨_, _, _, iS, iC, _, iT⟩ := hI
  exact ⟨rfl, iT, iS, iC⟩

/-- Witness of C10: the single node of four cores of `fourCorePlatform`, as
NVMeEnumNumaCores records it, with a grant of one queue pair (completion
double word 0): one pair is allocated and every core uses queue 1. -/
theorem NVMeAllocIoQueues_round_robin_witness :
    (allocatedFrom fourCorePlatform 0).1 = true ∧
    (∀ c, c < 4 → (coreT (allocatedFrom fourCorePlatform 0).2 c).SubQueue = 1 ∧
      (coreT (allocatedFrom fourCorePlatform 0).2 c).CplQueue = 1) ∧
    (allocatedFrom fourCorePlatform 0).2.QueueInfo.NumSubIoQAllocated = 1 ∧
    (allocatedFrom fourCorePlatform 0).2.QueueInfo.NumCplIoQAllocated = 1 := by
  have h := NVMeAllocIoQueues_round_robin fourCorePlatform 56 0
    (NVMeSetFeaturesCompletion (NVMeEnumNumaCores fourCorePlatform 0 blankDevice).2.1
      numberOfQueuesCmd { DW0 := 0, SC := 0 }) 4 1
    (by decide) (by decide) (by decide) (by decide) (by decide) (by decide) (by decide)
    (by decide) (by decide) (by decide) (by decide) (by decide)
    (fun i => by simp [fourCorePlatform])
  refine ⟨h.1, fun c hc => ?_, h.2.2.1, h.2.2.2⟩
  have hc1 := h.2.1 c hc
  simp only [Nat.mod_one] at hc1
  exact hc1

/-- Counterexample to C10 as stated.  On a single node of two cores, with
every allocation succeeding and the grant NumSubIoQAllocFromAdapter = 65536
(completion double word 0x0000FFFF), the grant is compared as the 16-bit value
0, so both cores get queue pair 1 and one pair is allocated, where the claim
has (1 mod 65536) + 1 = 2 for core 1 and min(2, 65536) = 2 pairs. -/
theorem round_robin_fails_for_grant_65536 :
    (allocatedFrom twoCorePlatform 65535).1 = true ∧
    (allocatedFrom twoCorePlatform 65535).2.QueueInfo.NumSubIoQAllocFromAdapter = 65536 ∧
    (coreT (allocatedFrom twoCorePlatform 65535).2 1).SubQueue = 1 ∧
    (coreT (allocatedFrom twoCorePlatform 65535).2 1).SubQueue ≠ 1 % 65536 + 1 ∧
    (allocatedFrom twoCorePlatform 65535).2.QueueInfo.NumSubIoQAllocated = 1 ∧
    (allocatedFrom twoCorePlatform 65535).2.QueueInfo.NumSubIoQAllocated ≠ min 2 65536 := by
  decide

/-! ## Completion callback of the start state machine -/

/-- The bit `k` is set in every mask into which `1 <<< k` has been OR-ed. -/
theorem testBit_or_one_shiftLeft (x k : Nat) : (x ||| 1 <<< k).testBit k = true := by
  rw [Nat.testBit_or, Nat.one_shiftLeft, Nat.testBit_two_pow_self, Bool.or_true]

/-- A completion entry fails the success test exactly when SC or SCT is not zero. -/
theorem cplSucceeded_eq_false (cpl : NVMe_COMPLETION_QUEUE_ENTRY) :
    cplSucceeded cpl = false ↔ (cpl.SC ≠ 0 ∨ cpl.SCT ≠ 0) := by
  unfold cplSucceeded
  by_cases h1 : cpl.SC = 0 <;> by_cases h2 : cpl.SCT = 0 <;> simp [h1, h2]

/-- NVMeDriverFatalError touches the error mask and the next state only; the
queue set, the mapping table and the learning counter stay. -/
theorem NVMeDriverFatalError_frame (pAE : NVME_DEVICE_EXTENSION) (m : Nat) :
    (NVMeDriverFatalError pAE m).QueueInfo = pAE.QueueInfo ∧
    (NVMeDriverFatalError pAE m).ResMapTbl = pAE.ResMapTbl ∧
    (NVMeDriverFatalError pAE m).LearningCores = pAE.LearningCores ∧
    (NVMeDriverFatalError pAE m).DriverState.NextDriverState = NVMeStateFailed ∧
    (NVMeDriverFatalError pAE m).DriverState.DriverErrorStatus
      = pAE.DriverState.DriverErrorStatus ||| m := by
  simp [NVMeDriverFatalError]

/-- C11: in state NVMeWaitOnIdentifyCtrl, for a completion entry with SC ≠ 0,
NVMeInitCallback reports the fatal error with the mask
`1 << START_STATE_IDENTIFY_CTRL_FAILURE`, so that bit is set in the error
status, the next state is the failed leaf and not NVMeWaitOnIdentifyNS, and
the queue set with its allocation counters is unchanged. -/
theorem NVMeInitCallback_identifyCtrl_failure (pAE : NVME_DEVICE_EXTENSION)
    (pNVMeCmd : NVMe_COMMAND) (pCplEntry : NVMe_COMPLETION_QUEUE_ENTRY)
    (hstate : pAE.DriverState.NextDriverState = NVMeWaitOnIdentifyCtrl)
    (hsc : pCplEntry.SC ≠ 0) :
    (NVMeInitCallback pAE pNVMeCmd pCplEntry).1 = true ∧
    (NVMeInitCallback pAE pNVMeCmd pCplEntry).2
      = NVMeCallArbiter (NVMeDriverFatalError pAE (1 <<< START_STATE_IDENTIFY_CTRL_FAILURE)) ∧
    (NVMeInitCallback pAE pNVMeCmd pCplEntry).2.DriverState.DriverErrorStatus.testBit
      START_STATE_IDENTIFY_CTRL_FAILURE = true ∧
    (NVMeInitCallback pAE pNVMeCmd pCplEntry).2.DriverState.NextDriverState = NVMeStateFailed ∧
    (NVMeInitCallback pAE pNVMeCmd pCplEntry).2.DriverState.NextDriverState
      ≠ NVMeWaitOnIdentifyNS ∧
    (NVMeInitCallback pAE pNVMeCmd pCplEntry).2.QueueInfo.NumSubIoQAllocated
      = pAE.QueueInfo.NumSubIoQAllocated ∧
    (NVMeInitCallback pAE pNVMeCmd pCplEntry).2.QueueInfo.NumCplIoQAllocated
      = pAE.QueueInfo.NumCplIoQAllocated ∧
    (NVMeInitCallback pAE pNVMeCmd pCplEntry).2.QueueInfo.NumIoQEntriesAllocated
      = pAE.QueueInfo.NumIoQEntriesAllocated ∧
    (NVMeInitCallback pAE pNVMeCmd pCplEntry).2.QueueInfo = pAE.QueueInfo := by
  have hfail : cplSucceeded pCplEntry = false :=
    (cplSucceeded_eq_false pCplEntry).2 (Or.inl hsc)
  have hres : (NVMeInitCallback pAE pNVMeCmd pCplEntry).2
      = NVMeDriverFatalError pAE (1 <<< START_STATE_IDENTIFY_CTRL_FAILURE) := by
    simp [NVMeInitCallback, NVMeCallArbiter, NVMeInitCallback.dispatch, hstate,
      NVMeInitCallback.identifyCtrl, hfail]
  obtain ⟨hq, _, _, hn, he⟩ :=
    NVMeDriverFatalError_frame pAE (1 <<< START_STATE_IDENTIFY_CTRL_FAILURE)
  refine ⟨rfl, ?_, ?_, ?_, ?_, ?_, ?_, ?_, ?_⟩
  · rw [hres]; rfl
  · rw [hres, he]; exact testBit_or_one_shiftLeft _ _
  · rw [hres, hn]
  · rw [hres, hn]; decide
  · rw [hres, hq]
  · rw [hres, hq]
  · rw [hres, hq]
  · rw [hres, hq]

/-- Witness of C11: Identify Controller completes with SC = 2 on a device
extension that waits for it. -/
theorem NVMeInitCallback_identifyCtrl_failure_witness :
    (NVMeInitCallback identifyCtrlDevice {} { SC := 2 }).2.DriverState.NextDriverState
      = NVMeStateFailed ∧
    (NVMeInitCallback identifyCtrlDevice {} { SC := 2 }).2.DriverState.DriverErrorStatus.testBit
      START_STATE_IDENTIFY_CTRL_FAILURE = true ∧
    (NVMeInitCallback identifyCtrlDevice {} { SC := 2 }).2.QueueInfo
      = identifyCtrlDevice.QueueInfo := by
  have h := NVMeInitCallback_identifyCtrl_failure identifyCtrlDevice {} { SC := 2 }
    (by decide) (by decide)
  exact ⟨h.2.2.2.1, h.2.2.1, h.2.2.2.2.2.2.2.2⟩

/-- C12: in state NVMeWaitOnLearnMapping, for a completion entry that reports
a failure (SC or SCT not zero), NVMeInitCallback raises no fatal error (the
error status is as before and the next state is not the failed leaf), sets
LearningCores to NumActiveCores and sets the next state to NVMeStartComplete;
nothing else of the device extension changes. -/
theorem NVMeInitCallback_learnMapping_failure (pAE : NVME_DEVICE_EXTENSION)
    (pNVMeCmd : NVMe_COMMAND) (pCplEntry : NVMe_COMPLETION_QUEUE_ENTRY)
    (hstate : pAE.DriverState.NextDriverState = NVMeWaitOnLearnMapping)
    (hfail : pCplEntry.SC ≠ 0 ∨ pCplEntry.SCT ≠ 0) :
    (NVMeInitCallback pAE pNVMeCmd pCplEntry).2.DriverState.DriverErrorStatus
      = pAE.DriverState.DriverErrorStatus ∧
    (NVMeInitCallback pAE pNVMeCmd pCplEntry).2.DriverState.NextDriverState ≠ NVMeStateFailed ∧
    (NVMeInitCallback pAE pNVMeCmd pCplEntry).2.LearningCores = pAE.ResMapTbl.NumActiveCores ∧
    (NVMeInitCallback pAE pNVMeCmd pCplEntry).2.ResMapTbl.NumActiveCores
      = pAE.ResMapTbl.NumActiveCores ∧
    (NVMeInitCallback pAE pNVMeCmd pCplEntry).2.DriverState.NextDriverState = NVMeStartComplete ∧
    (NVMeInitCallback pAE pNVMeCmd pCplEntry).2
      = { pAE with
          LearningCores := pAE.ResMapTbl.NumActiveCores,
          DriverState := { pAE.DriverState with NextDriverState := NVMeStartComplete } } := by
  have hf : cplSucceeded pCplEntry = false := (cplSucceeded_eq_false pCplEntry).2 hfail
  have hres : (NVMeInitCallback pAE pNVMeCmd pCplEntry).2
      = { pAE with
          LearningCores := pAE.ResMapTbl.NumActiveCores,
          DriverState := { pAE.DriverState with NextDriverState := NVMeStartComplete } } := by
    simp [NVMeInitCallback, NVMeCallArbiter, NVMeInitCallback.dispatch, hstate,
      NVMeInitCallback.learnMapping, hf]
  rw [hres]
  exact ⟨rfl, by simp, rfl, rfl, rfl, rfl⟩

/-- Witness of C12: the learning probe of a device extension of four cores
completes with SCT = 1. -/
theorem NVMeInitCallback_learnMapping_failure_witness :
    (NVMeInitCallback learningDevice {} { SCT := 1 }).2.LearningCores = 4 ∧
    (NVMeInitCallback learningDevice {} { SCT := 1 }).2.DriverState.NextDriverState
      = NVMeStartComplete ∧
    (NVMeInitCallback learningDevice {} { SCT := 1 }).2.DriverState.DriverErrorStatus = 0 := by
  have h := NVMeInitCallback_learnMapping_failure learningDevice {} { SCT := 1 }
    (by decide) (by decide)
  exact ⟨h.2.2.1, h.2.2.2.2.1, h.1⟩

/-- A property of both branches of a conditional holds of the conditional. -/
theorem ite_pred {α : Type} (P : α → Prop) (c : Prop) [Decidable c] (a b : α)
    (ha : P a) (hb : P b) : P (if c then a else b) := by
  split <;> assumption

/-- The LBA range branch of NVMeSetFeaturesCompletion ends in one of three
states of the identify and set features phase. -/
theorem NVMeSetFeaturesCompletion_lbaRange_next (pAE : NVME_DEVICE_EXTENSION)
    (pNVMeCmd : NVMe_COMMAND) :
    (NVMeSetFeaturesCompletion.lbaRange pAE pNVMeCmd).DriverState.NextDriverState
        = NVMeWaitOnSetupQueues ∨
      (NVMeSetFeaturesCompletion.lbaRange pAE pNVMeCmd).DriverState.NextDriverState
        = NVMeWaitOnSetFeatures ∨
      (NVMeSetFeaturesCompletion.lbaRange pAE pNVMeCmd).DriverState.NextDriverState
        = NVMeWaitOnIdentifyNS := by
  unfold NVMeSetFeaturesCompletion.lbaRange
  apply ite_pred (fun s : NVME_DEVICE_EXTENSION =>
    s.DriverState.NextDriverState = NVMeWaitOnSetupQueues ∨
    s.DriverState.NextDriverState = NVMeWaitOnSetFeatures ∨
    s.DriverState.NextDriverState = NVMeWaitOnIdentifyNS)
  · exact Or.inl rfl
  · apply ite_pred (fun s : NVME_DEVICE_EXTENSION =>
      s.DriverState.NextDriverState = NVMeWaitOnSetupQueues ∨
      s.DriverState.NextDriverState = NVMeWaitOnSetFeatures ∨
      s.DriverState.NextDriverState = NVMeWaitOnIdentifyNS)
    · exact Or.inr (Or.inl rfl)
    · exact Or.inr (Or.inr rfl)

/-- NVMeSetFeaturesCompletion never sets the next state to NVMeStartComplete. -/
theorem NVMeSetFeaturesCompletion_not_complete (pAE : NVME_DEVICE_EXTENSION)
    (pNVMeCmd : NVMe_COMMAND) (pCplEntry : NVMe_COMPLETION_QUEUE_ENTRY)
    (h : pAE.DriverState.NextDriverState ≠ NVMeStartComplete) :
    (NVMeSetFeaturesCompletion pAE pNVMeCmd pCplEntry).DriverState.NextDriverState
      ≠ NVMeStartComplete := by
  have hfatal : ∀ m, (NVMeDriverFatalError pAE m).DriverState.NextDriverState
      ≠ NVMeStartComplete := by
    intro m
    rw [(NVMeDriverFatalError_frame pAE m).2.2.2.1]
    simp
  unfold NVMeSetFeaturesCompletion
  apply ite_pred (fun s : NVME_DEVICE_EXTENSION =>
    s.DriverState.NextDriverState ≠ NVMeStartComplete)
  · apply ite_pred (fun s : NVME_DEVICE_EXTENSION =>
      s.DriverState.NextDriverState ≠ NVMeStartComplete)
    · exact hfatal _
    · simp
  · apply ite_pred (fun s : NVME_DEVICE_EXTENSION =>
      s.DriverState.NextDriverState ≠ NVMeStartComplete)
    · apply ite_pred (fun s : NVME_DEVICE_EXTENSION =>
        s.DriverState.NextDriverState ≠ NVMeStartComplete)
      · exact hfatal _
      · simp
    · apply ite_pred (fun s : NVME_DEVICE_EXTENSION =>
        s.DriverState.NextDriverState ≠ NVMeStartComplete)
      · apply ite_pred (fun s : NVME_DEVICE_EXTENSION =>
          s.DriverState.NextDriverState ≠ NVMeStartComplete)
        · exact hfatal _
        · rcases NVMeSetFeaturesCompletion_lbaRange_next pAE pNVMeCmd with h1 | h1 | h1 <;>
            rw [h1] <;> simp
      · exact h

/-- NVMeDeleteQueueCallback always returns TRUE. -/
theorem NVMeDeleteQueueCallback_true (pAE : NVME_DEVICE_EXTENSION) (pNVMeCmd : NVMe_COMMAND)
    (pCplEntry : NVMe_COMPLETION_QUEUE_ENTRY) :
    (NVMeDeleteQueueCallback pAE pNVMeCmd pCplEntry).1 = true := by
  unfold NVMeDeleteQueueCallback
  dsimp only
  split_ifs <;> rfl

/-- In state NVMeWaitOnReSetupQueues the callback decides the next state by
the number of created completion queues that NVMeDeleteQueueCallback leaves:
NVMeWaitOnIoCQ at zero, NVMeWaitOnReSetupQueues otherwise; it is never
NVMeStartComplete. -/
theorem NVMeInitCallback_reSetupQueues_next (pAE : NVME_DEVICE_EXTENSION)
    (pNVMeCmd : NVMe_COMMAND) (pCplEntry : NVMe_COMPLETION_QUEUE_ENTRY) :
    (NVMeInitCallback.reSetupQueues pAE pNVMeCmd pCplEntry).DriverState.NextDriverState
      = (if 0 = (NVMeDeleteQueueCallback pAE pNVMeCmd pCplEntry).2.QueueInfo.NumCplIoQCreated
         then NVMeWaitOnIoCQ else NVMeWaitOnReSetupQueues) ∧
    (NVMeInitCallback.reSetupQueues pAE pNVMeCmd pCplEntry).DriverState.NextDriverState
      ≠ NVMeStartComplete := by
  have h : (NVMeInitCallback.reSetupQueues pAE pNVMeCmd pCplEntry).DriverState.NextDriverState
      = (if 0 = (NVMeDeleteQueueCallback pAE pNVMeCmd pCplEntry).2.QueueInfo.NumCplIoQCreated
         then NVMeWaitOnIoCQ else NVMeWaitOnReSetupQueues) := by
    unfold NVMeInitCallback.reSetupQueues
    dsimp only
    rw [if_pos (NVMeDeleteQueueCallback_true pAE pNVMeCmd pCplEntry)]
  refine ⟨h, ?_⟩
  rw [h]
  split_ifs <;> simp

/-- C13 (as amended): for every pre-state with LearningCores ≤ NumActiveCores
and every completion entry, whenever NVMeInitCallback sets the next state to
NVMeStartComplete, LearningCores = NumActiveCores holds in the resulting
state. -/
theorem NVMeInitCallback_complete_learned (pAE : NVME_DEVICE_EXTENSION)
    (pNVMeCmd : NVMe_COMMAND) (pCplEntry : NVMe_COMPLETION_QUEUE_ENTRY)
    (hle : pAE.LearningCores ≤ pAE.ResMapTbl.NumActiveCores)
    (hdone : (NVMeInitCallback pAE pNVMeCmd pCplEntry).2.DriverState.NextDriverState
      = NVMeStartComplete) :
    (NVMeInitCallback pAE pNVMeCmd pCplEntry).2.LearningCores
      = (NVMeInitCallback pAE pNVMeCmd pCplEntry).2.ResMapTbl.NumActiveCores := by
  cases hs : pAE.DriverState.NextDriverState
  all_goals
    simp only [NVMeInitCallback, NVMeCallArbiter, NVMeInitCallback.dispatch, hs] at hdone ⊢
  case NVMeWaitOnSetFeatures =>
    exact absurd hdone (NVMeSetFeaturesCompletion_not_complete _ _ _ (by rw [hs]; simp))
  case NVMeWaitOnIoSQ =>
    unfold NVMeInitCallback.ioSQ at hdone ⊢
    by_cases hc : cplSucceeded pCplEntry = true
    · rw [if_pos hc] at hdone ⊢
      dsimp only at hdone ⊢
      by_cases hq : pAE.QueueInfo.NumSubIoQAllocated = ULONG (pAE.QueueInfo.NumSubIoQCreated + 1)
      · rw [if_pos hq] at hdone
        by_cases hl : pAE.LearningCores < pAE.ResMapTbl.NumActiveCores
        · rw [if_pos hl] at hdone
          exact absurd hdone (by simp)
        · omega
      · rw [if_neg hq] at hdone
        exact absurd hdone (by simp)
    · rw [if_neg hc] at hdone
      rw [(NVMeDriverFatalError_frame pAE _).2.2.2.1] at hdone
      exact absurd hdone (by simp)
  case NVMeWaitOnLearnMapping =>
    unfold NVMeInitCallback.learnMapping at hdone ⊢
    by_cases hc : cplSucceeded pCplEntry = true
    · rw [if_pos hc] at hdone
      dsimp only at hdone
      by_cases hl : pAE.LearningCores < pAE.ResMapTbl.NumActiveCores
      · rw [if_pos hl] at hdone
        exact absurd hdone (by simp)
      · rw [if_neg hl] at hdone
        exact absurd hdone (by simp)
    · rw [if_neg hc]
  case NVMeWaitOnReSetupQueues =>
    exact absurd hdone (NVMeInitCallback_reSetupQueues_next pAE pNVMeCmd pCplEntry).2
  all_goals
    first
    | exact DRIVER_STATE.noConfusion hdone
    | (simp only [NVMeInitCallback.identifyCtrl, NVMeInitCallback.identifyNS,
        NVMeInitCallback.aer, NVMeInitCallback.ioCQ, NVMeDriverFatalError] at hdone
       split_ifs at hdone)

/-- Witness of C13: the last Create IO Submission Queue completes on a device
extension of four cores whose learning counter is 4. -/
theorem NVMeInitCallback_complete_learned_witness :
    (NVMeInitCallback (lastQueueDevice 4) {} {}).2.DriverState.NextDriverState
      = NVMeStartComplete ∧
    (NVMeInitCallback (lastQueueDevice 4) {} {}).2.LearningCores
      = (NVMeInitCallback (lastQueueDevice 4) {} {}).2.ResMapTbl.NumActiveCores :=
  ⟨by decide, NVMeInitCallback_complete_learned (lastQueueDevice 4) {} {} (by decide) (by decide)⟩

/-- C13 as stated fails: from a pre-state whose learning counter is above the
number of active cores (5 against 4), the completion of the last Create IO
Submission Queue sets the next state to NVMeStartComplete while LearningCores
differs from NumActiveCores. -/
theorem complete_with_learning_counter_above_cores :
    (NVMeInitCallback (lastQueueDevice 5) {} {}).2.DriverState.NextDriverState
      = NVMeStartComplete ∧
    (NVMeInitCallback (lastQueueDevice 5) {} {}).2.LearningCores = 5 ∧
    (NVMeInitCallback (lastQueueDevice 5) {} {}).2.ResMapTbl.NumActiveCores = 4 ∧
    ¬ ((NVMeInitCallback (lastQueueDevice 5) {} {}).2.LearningCores
      = (NVMeInitCallback (lastQueueDevice 5) {} {}).2.ResMapTbl.NumActiveCores) := by
  decide

/-! ## Examination of the LBA range of a namespace -/

/-- A store of the zeroed entry reads back as the zeroed entry, inside the
table and outside of it. -/
theorem load_store_const {α : Type} (d : α) (tbl : List α) (i : Nat) :
    load d (store d tbl i (fun _ => d)) i = d := by
  by_cases h : i < tbl.length
  · rw [load_store_same d tbl i _ h]
  · simp [load, store, List.getD_eq_getElem?_getD, List.getElem?_set, h]

/-- The LBA range branch of NVMeSetFeaturesCompletion for a Get Features
command: the namespace table, the count of examined ranges and the count of
visible namespaces it leaves. -/
theorem NVMeSetFeaturesCompletion_lbaRange_get (pAE : NVME_DEVICE_EXTENSION)
    (pNVMeCmd : NVMe_COMMAND) (hopc : pNVMeCmd.OPC = ADMIN_GET_FEATURES) :
    (NVMeSetFeaturesCompletion.lbaRange pAE pNVMeCmd).DriverState.TtlLbaRangeExamined
      = pAE.DriverState.TtlLbaRangeExamined + 1 ∧
    (pNVMeCmd.CDW11 % 64 = 0 ∧ pAE.DriverState.pDataBuffer.Hidden = 0 →
      (NVMeSetFeaturesCompletion.lbaRange pAE pNVMeCmd).pLunExtensionTable
        = store {} (store {} pAE.pLunExtensionTable pAE.DriverState.VisibleNamespacesExamined
            (fun l => { l with ReadOnly :=
              if pAE.DriverState.pDataBuffer.Overwriteable ≠ 0 then false else true }))
            pAE.DriverState.VisibleNamespacesExamined
            (fun l => { l with slotStatus := LUN_SLOT_STATUS.ONLINE }) ∧
      (NVMeSetFeaturesCompletion.lbaRange pAE pNVMeCmd).DriverState.VisibleNamespacesExamined
        = pAE.DriverState.VisibleNamespacesExamined + 1) ∧
    (pAE.DriverState.pDataBuffer.Hidden ≠ 0 ∨ pNVMeCmd.CDW11 % 64 ≠ 0 →
      load {} (NVMeSetFeaturesCompletion.lbaRange pAE pNVMeCmd).pLunExtensionTable
          pAE.DriverState.VisibleNamespacesExamined = {} ∧
      (NVMeSetFeaturesCompletion.lbaRange pAE pNVMeCmd).DriverState.VisibleNamespacesExamined
        = pAE.DriverState.VisibleNamespacesExamined) := by
  unfold NVMeSetFeaturesCompletion.lbaRange
  simp only [hopc, if_true]
  by_cases hnum : pNVMeCmd.CDW11 % 64 = 0
  · by_cases hhid : pAE.DriverState.pDataBuffer.Hidden = 0
    · simp only [hnum, hhid, if_true, ne_eq, not_true_eq_false, if_false]
      refine ⟨?_, ?_, ?_⟩
      · split_ifs <;> rfl
      · intro _
        constructor <;> (split_ifs <;> rfl)
      · intro h
        rcases h with h | h <;> exact h.elim
    · simp only [hnum, hhid, if_true, ne_eq, not_false_eq_true, if_false, reduceCtorEq]
      refine ⟨?_, ?_, ?_⟩
      · split_ifs <;> rfl
      · intro h
        exact h.2.elim
      · intro _
        constructor
        · split_ifs <;> exact load_store_const _ _ _
        · split_ifs <;> rfl
  · simp only [hnum, if_false, reduceCtorEq]
    refine ⟨?_, ?_, ?_⟩
    · split_ifs <;> rfl
    · intro h
      exact h.1.elim
    · intro _
      constructor
      · split_ifs <;> exact load_store_const _ _ _
      · split_ifs <;> rfl

/-- C14: NVMeSetFeaturesCompletion for a Get Features (LBA Range Type)
completion with status code 0 and TtlLbaRangeExamined below
IdentifyNamespaceFetched increments TtlLbaRangeExamined by one.  If NUM is 0
and the first range entry is not hidden, the namespace entry at index
VisibleNamespacesExamined becomes ONLINE with ReadOnly FALSE when
Overwriteable is set and TRUE otherwise (its other fields stay), and
VisibleNamespacesExamined is incremented by one.  If the entry is hidden or
NUM is above 0, that namespace entry is all zero and
VisibleNamespacesExamined is unchanged. -/
theorem NVMeSetFeaturesCompletion_lba_range (pAE : NVME_DEVICE_EXTENSION)
    (pNVMeCmd : NVMe_COMMAND) (pCplEntry : NVMe_COMPLETION_QUEUE_ENTRY)
    (hopc : pNVMeCmd.OPC = ADMIN_GET_FEATURES)
    (hfid : pNVMeCmd.CDW10 % 256 = LBA_RANGE_TYPE)
    (hsc : pCplEntry.SC = 0)
    (hlt : pAE.DriverState.TtlLbaRangeExamined < pAE.DriverState.IdentifyNamespaceFetched)
    (hlun : pAE.DriverState.VisibleNamespacesExamined < pAE.pLunExtensionTable.length) :
    (NVMeSetFeaturesCompletion pAE pNVMeCmd pCplEntry).DriverState.TtlLbaRangeExamined
      = pAE.DriverState.TtlLbaRangeExamined + 1 ∧
    (pNVMeCmd.CDW11 % 64 = 0 ∧ pAE.DriverState.pDataBuffer.Hidden = 0 →
      load {} (NVMeSetFeaturesCompletion pAE pNVMeCmd pCplEntry).pLunExtensionTable
          pAE.DriverState.VisibleNamespacesExamined
        = { load {} pAE.pLunExtensionTable pAE.DriverState.VisibleNamespacesExamined with
            slotStatus := LUN_SLOT_STATUS.ONLINE,
            ReadOnly := if pAE.DriverState.pDataBuffer.Overwriteable ≠ 0 then false else true } ∧
      (NVMeSetFeaturesCompletion pAE pNVMeCmd pCplEntry).DriverState.VisibleNamespacesExamined
        = pAE.DriverState.VisibleNamespacesExamined + 1) ∧
    (pAE.DriverState.pDataBuffer.Hidden ≠ 0 ∨ pNVMeCmd.CDW11 % 64 ≠ 0 →
      load {} (NVMeSetFeaturesCompletion pAE pNVMeCmd pCplEntry).pLunExtensionTable
          pAE.DriverState.VisibleNamespacesExamined = {} ∧
      (NVMeSetFeaturesCompletion pAE pNVMeCmd pCplEntry).DriverState.VisibleNamespacesExamined
        = pAE.DriverState.VisibleNamespacesExamined) := by
  have hres : NVMeSetFeaturesCompletion pAE pNVMeCmd pCplEntry
      = NVMeSetFeaturesCompletion.lbaRange pAE pNVMeCmd := by
    unfold NVMeSetFeaturesCompletion
    have hne : ¬ pNVMeCmd.OPC = ADMIN_SET_FEATURES := by rw [hopc]; decide
    simp only [hne, false_and, and_false, if_false, hfid, hlt, and_self, if_true, hsc, ne_eq,
      not_true_eq_false]
  rw [hres]
  obtain ⟨h1, h2, h3⟩ := NVMeSetFeaturesCompletion_lbaRange_get pAE pNVMeCmd hopc
  refine ⟨h1, ?_, h3⟩
  intro hv
  obtain ⟨ht, hn⟩ := h2 hv
  refine ⟨?_, hn⟩
  rw [ht, load_store_same _ _ _ _ (by rw [length_store]; exact hlun),
    load_store_same _ _ _ _ hlun]

/-- Witness of C14: Get Features returns one range (NUM = 0) that is
overwriteable and not hidden for the first namespace. -/
theorem NVMeSetFeaturesCompletion_lba_range_witness :
    (NVMeSetFeaturesCompletion (rangeDevice { Overwriteable := 1 }) (getLbaRangeCmd 0)
      {}).DriverState.TtlLbaRangeExamined = 1 ∧
    load {} (NVMeSetFeaturesCompletion (rangeDevice { Overwriteable := 1 }) (getLbaRangeCmd 0)
      {}).pLunExtensionTable 0
      = { namespaceId := 1, NSZE := 1024, slotStatus := LUN_SLOT_STATUS.ONLINE,
          ReadOnly := false } ∧
    (NVMeSetFeaturesCompletion (rangeDevice { Overwriteable := 1 }) (getLbaRangeCmd 0)
      {}).DriverState.VisibleNamespacesExamined = 1 := by
  have h := NVMeSetFeaturesCompletion_lba_range (rangeDevice { Overwriteable := 1 })
    (getLbaRangeCmd 0) {} (by decide) (by decide) (by decide) (by decide) (by decide)
  exact ⟨h.1, (h.2.1 (by decide)).1, (h.2.1 (by decide)).2⟩

/-! ## Asynchronous event requests -/

/-- The loop of NVMeIssueAERs started with `n` commands to issue and CmdIssued
= `c`, where `c + n` fits the 8-bit counter and the submission of a command
leaves the count of issued requests alone: it returns between `c` and `c + n`
and has added to NumAERsIssued what it added to CmdIssued. -/
theorem NVMeIssueAERs_loop_spec (pf : Platform)
    (ProcessIo : NVME_DEVICE_EXTENSION → Bool × NVME_DEVICE_EXTENSION) (szSrbExt : Nat)
    (hP : ∀ s, (ProcessIo s).2.DriverState.NumAERsIssued = s.DriverState.NumAERsIssued) :
    ∀ (n : Nat) (pAE : NVME_DEVICE_EXTENSION) (pool c : Nat), c + n ≤ 255 →
      c ≤ (NVMeIssueAERs.loop pf ProcessIo szSrbExt n (pAE, pool, c)).1 ∧
      (NVMeIssueAERs.loop pf ProcessIo szSrbExt n (pAE, pool, c)).1 ≤ c + n ∧
      (NVMeIssueAERs.loop pf ProcessIo szSrbExt n (pAE, pool, c)).2.1.DriverState.NumAERsIssued
        + c = pAE.DriverState.NumAERsIssued
          + (NVMeIssueAERs.loop pf ProcessIo szSrbExt n (pAE, pool, c)).1 := by
  intro n
  induction n with
  | zero =>
    intro pAE pool c _
    simp [NVMeIssueAERs.loop]
  | succ n ih =>
    intro pAE pool c hc
    unfold NVMeIssueAERs.loop
    dsimp only
    by_cases ha : (NVMeAllocatePool pf pool szSrbExt).1 = false
    · rw [if_pos ha]
      exact ⟨Nat.le_refl _, by omega, rfl⟩
    · rw [if_neg ha]
      by_cases hp : (ProcessIo pAE).1 = false
      · rw [if_pos hp]
        refine ⟨Nat.le_refl _, by omega, ?_⟩
        dsimp only
        rw [hP pAE]
      · rw [if_neg hp]
        have hu : UCHAR (c + 1) = c + 1 := by
          unfold UCHAR
          omega
        rw [hu]
        obtain ⟨h1, h2, h3⟩ := ih (NVMeIssueAERs.counted (ProcessIo pAE).2)
          (NVMeAllocatePool pf pool szSrbExt).2 (c + 1) (by omega)
        refine ⟨by omega, by omega, ?_⟩
        have h4 := hP pAE
        have h5 : (NVMeIssueAERs.counted (ProcessIo pAE).2).DriverState.NumAERsIssued
            = (ProcessIo pAE).2.DriverState.NumAERsIssued + 1 := rfl
        omega

/-- Supporting fact for C18: when the requested count and the count of issued
requests add up to at most 255, so that their sum fits the 8-bit variable
NumCmdToIssue, NVMeIssueAERs issues at most min(NumCmds, UAERL + 1 -
NumAERsIssued) commands, returns the amount by which NumAERsIssued grew and
leaves NumAERsIssued at most UAERL + 1. -/
theorem NVMeIssueAERs_within_limit (pf : Platform)
    (ProcessIo : NVME_DEVICE_EXTENSION → Bool × NVME_DEVICE_EXTENSION) (szSrbExt pool : Nat)
    (pAE : NVME_DEVICE_EXTENSION) (NumCmds : Nat)
    (hP : ∀ s, (ProcessIo s).2.DriverState.NumAERsIssued = s.DriverState.NumAERsIssued)
    (hfit : NumCmds + pAE.DriverState.NumAERsIssued ≤ 255)
    (hissued : pAE.DriverState.NumAERsIssued ≤ pAE.controllerIdentifyData.UAERL + 1) :
    (NVMeIssueAERs pf ProcessIo szSrbExt pool pAE NumCmds).1
      ≤ min NumCmds (pAE.controllerIdentifyData.UAERL + 1 - pAE.DriverState.NumAERsIssued) ∧
    (NVMeIssueAERs pf ProcessIo szSrbExt pool pAE NumCmds).2.1.DriverState.NumAERsIssued
      = pAE.DriverState.NumAERsIssued + (NVMeIssueAERs pf ProcessIo szSrbExt pool pAE NumCmds).1 ∧
    (NVMeIssueAERs pf ProcessIo szSrbExt pool pAE NumCmds).2.1.DriverState.NumAERsIssued
      ≤ pAE.controllerIdentifyData.UAERL + 1 := by
  have hN : UCHAR NumCmds = NumCmds := by unfold UCHAR; omega
  have hS : UCHAR (NumCmds + pAE.DriverState.NumAERsIssued)
      = NumCmds + pAE.DriverState.NumAERsIssued := by unfold UCHAR; omega
  unfold NVMeIssueAERs
  simp only [hN, hS]
  by_cases hgt : NumCmds + pAE.DriverState.NumAERsIssued > pAE.controllerIdentifyData.UAERL + 1
  · rw [if_pos hgt]
    have hD : UCHAR (pAE.controllerIdentifyData.UAERL + 1
        + (256 - pAE.DriverState.NumAERsIssued % 256))
        = pAE.controllerIdentifyData.UAERL + 1 - pAE.DriverState.NumAERsIssued := by
      unfold UCHAR
      omega
    rw [hD]
    by_cases hz : pAE.controllerIdentifyData.UAERL + 1 - pAE.DriverState.NumAERsIssued = 0
    · rw [if_pos hz]
      dsimp only
      omega
    · rw [if_neg hz]
      obtain ⟨_, h2, h3⟩ := NVMeIssueAERs_loop_spec pf ProcessIo szSrbExt hP
        (pAE.controllerIdentifyData.UAERL + 1 - pAE.DriverState.NumAERsIssued) pAE pool 0
        (by omega)
      omega
  · rw [if_neg hgt]
    by_cases hz : NumCmds = 0
    · rw [if_pos hz]
      dsimp only
      omega
    · rw [if_neg hz]
      obtain ⟨_, h2, h3⟩ := NVMeIssueAERs_loop_spec pf ProcessIo szSrbExt hP NumCmds pAE pool 0
        (by omega)
      omega

/-- C18 at the failing input: with UAERL = 3 and four requests already issued
(the limit), a request for 252 more makes the 8-bit sum 252 + 4 wrap to 0, so
the limit test passes and NVMeIssueAERs issues all 252 commands when every
allocation and submission succeeds, and still issues one when only the first
allocation succeeds; NumAERsIssued ends at 256, respectively 5, above UAERL
+ 1 = 4, where the claim allows min(252, 4 - 4) = 0 commands. -/
theorem NVMeIssueAERs_exceeds_limit :
    (aerDevice 4).DriverState.NumAERsIssued ≤ (aerDevice 4).controllerIdentifyData.UAERL + 1 ∧
    min 252 ((aerDevice 4).controllerIdentifyData.UAERL + 1
      - (aerDevice 4).DriverState.NumAERsIssued) = 0 ∧
    (NVMeIssueAERs (poolPlatform 252) acceptCmd 4096 0 (aerDevice 4) 252).1 = 252 ∧
    (NVMeIssueAERs (poolPlatform 252) acceptCmd 4096 0 (aerDevice 4)
      252).2.1.DriverState.NumAERsIssued = 256 ∧
    (NVMeIssueAERs (poolPlatform 1) acceptCmd 4096 0 (aerDevice 4) 252).1 = 1 ∧
    (NVMeIssueAERs (poolPlatform 1) acceptCmd 4096 0 (aerDevice 4)
      252).2.1.DriverState.NumAERsIssued = 5 := by
  decide

/-! ## Rounding of the entry count and layout of the queue memory -/

/-- Masking a 32-bit value with `~63` clears its low six bits. -/
theorem and_page_mask (x : Nat) (hx : x < 4294967296) :
    x &&& (4294967295 - 63) = x / 64 * 64 := by
  have hm : (4294967295 - 63 : Nat) = (2 ^ 26 - 1) <<< 6 := by decide
  have hr : x / 64 * 64 = (x >>> 6) <<< 6 := by
    rw [Nat.shiftRight_eq_div_pow, Nat.shiftLeft_eq]
  rw [hm, hr]
  apply Nat.eq_of_testBit_eq
  intro i
  rw [Nat.testBit_and, Nat.testBit_shiftLeft, Nat.testBit_shiftLeft, Nat.testBit_two_pow_sub_one,
    Nat.testBit_shiftRight]
  by_cases h6 : 6 ≤ i
  · have e : 6 + (i - 6) = i := by omega
    rw [e]
    by_cases h32 : i < 32
    · have : i - 6 < 26 := by omega
      simp [h6, this]
    · have hb : x.testBit i = false := by
        apply Nat.testBit_eq_false_of_lt
        calc x < 2 ^ 32 := hx
          _ ≤ 2 ^ i := Nat.pow_le_pow_right (by decide) (by omega)
      simp [hb]
  · simp [h6]

/-- The value of `leastMultiple 64 n` is a multiple of 64, is not below `n`,
and no multiple of 64 from `n` on is smaller. -/
theorem leastMultiple_spec (n : Nat) :
    leastMultiple 64 n % 64 = 0 ∧ n ≤ leastMultiple 64 n ∧
    ∀ m, m % 64 = 0 → n ≤ m → leastMultiple 64 n ≤ m := by
  unfold leastMultiple
  refine ⟨by omega, by omega, ?_⟩
  intro m hm hn
  omega

/-- The rounding of NVMeAllocQueues, in 32-bit arithmetic, yields the least
multiple of 64 from QEntries on as long as QEntries + 64 fits 32 bits. -/
theorem NVMeAllocQueues_round (QEntries : Nat) (h : QEntries + 64 < 4294967296) :
    (if QEntries % (PAGE_SIZE / sizeof_NVMe_COMMAND) ≠ 0 then
        ULONG (QEntries + PAGE_SIZE / sizeof_NVMe_COMMAND)
          &&& (4294967295 - (PAGE_SIZE / sizeof_NVMe_COMMAND - 1))
      else QEntries) = leastMultiple 64 QEntries := by
  have e : PAGE_SIZE / sizeof_NVMe_COMMAND = 64 := by decide
  rw [e]
  have hu : ULONG (QEntries + 64) = QEntries + 64 := by unfold ULONG; omega
  rw [hu, and_page_mask _ h]
  unfold leastMultiple
  split_ifs with h0
  · omega
  · omega

/-- C19 (as amended): for every requested entry count QEntries up to 65472 and
every valid QueueID, NVMeAllocQueues sizes the queue with the least multiple
of 64 that is not below QEntries and, when both allocations succeed, records
exactly that rounded count in NumIoQEntriesAllocated (QueueID ≠ 0) or
NumAdQEntriesAllocated (QueueID = 0); the recorded count is a multiple of 64,
is not smaller than the requested one and is the least such multiple. -/
theorem NVMeAllocQueues_rounds_up (pf : Platform) (szCmdEntry calls : Nat)
    (pAE : NVME_DEVICE_EXTENSION) (QueueID QEntries NumaNode : Nat)
    (hQ : QueueID ≤ pAE.ResMapTbl.NumActiveCores)
    (hin : QueueID < pAE.QueueInfo.pSubQueueInfo.length)
    (hE : QEntries ≤ 65472)
    (h1 : pf.AllocateContiguous calls ≠ 0)
    (h2 : pf.AllocateContiguous (calls + 1) ≠ 0) :
    (NVMeAllocQueues pf szCmdEntry calls pAE QueueID QEntries NumaNode).1 = STOR_STATUS_SUCCESS ∧
    (subQ (NVMeAllocQueues pf szCmdEntry calls pAE QueueID QEntries NumaNode).2.1
        QueueID).QueueAllocSize
      = ULONG (ULONG (leastMultiple 64 QEntries
          * (sizeof_NVMe_COMMAND + sizeof_NVMe_COMPLETION_QUEUE_ENTRY + szCmdEntry)) + PAGE_SIZE) ∧
    (QueueID ≠ 0 →
      (NVMeAllocQueues pf szCmdEntry calls pAE QueueID QEntries
        NumaNode).2.1.QueueInfo.NumIoQEntriesAllocated = leastMultiple 64 QEntries) ∧
    (QueueID = 0 →
      (NVMeAllocQueues pf szCmdEntry calls pAE QueueID QEntries
        NumaNode).2.1.QueueInfo.NumAdQEntriesAllocated = leastMultiple 64 QEntries) ∧
    leastMultiple 64 QEntries % 64 = 0 ∧
    QEntries ≤ leastMultiple 64 QEntries ∧
    (∀ m, m % 64 = 0 → QEntries ≤ m → leastMultiple 64 QEntries ≤ m) := by
  have hg : ¬ (QueueID > pAE.ResMapTbl.NumActiveCores) := by omega
  obtain ⟨hs1, hs2, hs3⟩ := leastMultiple_spec QEntries
  have hR : leastMultiple 64 QEntries ≤ 65472 := hs3 65472 (by decide) hE
  have hU : USHORT (leastMultiple 64 QEntries) = leastMultiple 64 QEntries := by
    unfold USHORT
    omega
  unfold NVMeAllocQueues
  rw [if_neg hg]
  dsimp only
  rw [NVMeAllocQueues_round QEntries (by omega)]
  simp only [NVMeAllocateMem, h1, h2, if_false, hU]
  refine ⟨trivial, ?_, ?_, ?_, hs1, hs2, hs3⟩
  · split_ifs <;>
      simp [subQ, setSubQ, load_store_same, length_store, hin]
  · intro h0
    rw [if_pos h0]
  · intro h0
    rw [if_neg (by simpa using h0)]

/-- Witness of C19: a request for 100 entries on queue 1 is rounded and
recorded as 128. -/
theorem NVMeAllocQueues_rounds_up_witness :
    (NVMeAllocQueues plainPlatform 56 0 wideListDevice 1 100 0).1 = STOR_STATUS_SUCCESS ∧
    (NVMeAllocQueues plainPlatform 56 0 wideListDevice 1 100
      0).2.1.QueueInfo.NumIoQEntriesAllocated = leastMultiple 64 100 ∧
    leastMultiple 64 100 = 128 := by
  have h := NVMeAllocQueues_rounds_up plainPlatform 56 0 wideListDevice 1 100 0
    (by decide) (by decide) (by decide) (by decide) (by decide)
  exact ⟨h.1, h.2.2.1 (by decide), by decide⟩

/-- C19 as stated fails: a request for 65536 entries on a valid queue succeeds
and is sized with 65536 entries, the least multiple of 64 from 65536 on, but
the count recorded in NumIoQEntriesAllocated is 65536 truncated to 16 bits,
that is 0, which is smaller than the requested count. -/
theorem NVMeAllocQueues_records_zero_for_65536 :
    (NVMeAllocQueues plainPlatform 56 0 wideListDevice 1 65536 0).1 = STOR_STATUS_SUCCESS ∧
    leastMultiple 64 65536 = 65536 ∧
    (subQ (NVMeAllocQueues plainPlatform 56 0 wideListDevice 1 65536 0).2.1 1).QueueAllocSize
      = 65536 * (64 + 16 + 56) + 4096 ∧
    (NVMeAllocQueues plainPlatform 56 0 wideListDevice 1 65536
      0).2.1.QueueInfo.NumIoQEntriesAllocated = 0 ∧
    ¬ (65536 ≤ (NVMeAllocQueues plainPlatform 56 0 wideListDevice 1 65536
      0).2.1.QueueInfo.NumIoQEntriesAllocated) := by
  decide

/-- PAGE_ALIGN_BUF_PTR yields the first page boundary from `p` on. -/
theorem PAGE_ALIGN_BUF_PTR_spec (p : Nat) :
    p ≤ PAGE_ALIGN_BUF_PTR p ∧ PAGE_ALIGN_BUF_PTR p < p + PAGE_SIZE ∧
    PAGE_ALIGN_BUF_PTR p % PAGE_SIZE = 0 := by
  unfold PAGE_ALIGN_BUF_PTR PAGE_SIZE
  split_ifs with h
  · omega
  · omega

/-- PAGE_ALIGN_BUF_PTR keeps an address that is on a page boundary. -/
theorem PAGE_ALIGN_BUF_PTR_aligned (p : Nat) (h : p % PAGE_SIZE = 0) :
    PAGE_ALIGN_BUF_PTR p = p := by
  unfold PAGE_ALIGN_BUF_PTR
  rw [if_pos h]

/-- A load of the completion queue structure that was just updated. -/
theorem cplQ_setCplQ_same (pAE : NVME_DEVICE_EXTENSION) (Q : Nat)
    (f : CPL_QUEUE_INFO → CPL_QUEUE_INFO) (h : Q < pAE.QueueInfo.pCplQueueInfo.length) :
    cplQ (setCplQ pAE Q f) Q = f (cplQ pAE Q) := by
  unfold cplQ setCplQ
  exact load_store_same _ _ _ _ h

/-- An update of a completion queue structure leaves the submission queue
structures as they are. -/
theorem subQ_setCplQ (pAE : NVME_DEVICE_EXTENSION) (Q q : Nat)
    (f : CPL_QUEUE_INFO → CPL_QUEUE_INFO) : subQ (setCplQ pAE Q f) q = subQ pAE q := rfl

/-- An update of a submission queue structure leaves the completion queue
structures as they are. -/
theorem cplQ_setSubQ (pAE : NVME_DEVICE_EXTENSION) (Q q : Nat)
    (f : SUB_QUEUE_INFO → SUB_QUEUE_INFO) : cplQ (setSubQ pAE Q f) q = cplQ pAE q := rfl

/-- The loop of NVMeInitFreeQ leaves the addresses of the queue memory and the
entry count of the queue structure as they are. -/
theorem NVMeInitFreeQ_fold_layout (pf : Platform) (pAE : NVME_DEVICE_EXTENSION) (l : List Nat)
    (st : SUB_QUEUE_INFO × Nat) :
    (l.foldl (NVMeInitFreeQ.body pf pAE) st).1.pSubQStart = st.1.pSubQStart ∧
    (l.foldl (NVMeInitFreeQ.body pf pAE) st).1.pCmdEntry = st.1.pCmdEntry ∧
    (l.foldl (NVMeInitFreeQ.body pf pAE) st).1.pQueueAlloc = st.1.pQueueAlloc := by
  induction l generalizing st with
  | nil => simp
  | cons e rest ih =>
    rw [List.foldl_cons]
    obtain ⟨h1, h2, h3⟩ := ih (NVMeInitFreeQ.body pf pAE st e)
    rw [h1, h2, h3]
    simp [NVMeInitFreeQ.body]

/-- The first part of NVMeInitSubQueue places the ring at the first page
boundary of the queue allocation and sets the entry count from the count of
allocated entries. -/
theorem NVMeInitSubQueue_ring_layout (pf : Platform) (pAE : NVME_DEVICE_EXTENSION) (Q : Nat)
    (hin : Q < pAE.QueueInfo.pSubQueueInfo.length) :
    (subQ (NVMeInitSubQueue.ring pf pAE Q) Q).pSubQStart
      = PAGE_ALIGN_BUF_PTR (subQ pAE Q).pQueueAlloc ∧
    (subQ (NVMeInitSubQueue.ring pf pAE Q) Q).SubQEntries
      = (if Q ≠ 0 then pAE.QueueInfo.NumIoQEntriesAllocated
         else pAE.QueueInfo.NumAdQEntriesAllocated) ∧
    (NVMeInitSubQueue.ring pf pAE Q).QueueInfo.pSubQueueInfo.length
      = pAE.QueueInfo.pSubQueueInfo.length ∧
    (NVMeInitSubQueue.ring pf pAE Q).QueueInfo.pCplQueueInfo.length
      = pAE.QueueInfo.pCplQueueInfo.length ∧
    (NVMeInitSubQueue.ring pf pAE Q).ResMapTbl = pAE.ResMapTbl := by
  unfold NVMeInitSubQueue.ring
  dsimp only
  rw [subQ_setCplQ, subQ_setSubQ_same _ _ _ hin, setCplQ_length]
  refine ⟨rfl, rfl, ?_, ?_, rfl⟩
  · rw [setSubQ_length]
  · simp [setCplQ, setSubQ, length_store]

/-- NVMeInitSubQueue, whatever its status for a valid queue id, leaves the
ring of queue `Q` at the first page boundary of the queue allocation with
the allocated count of entries. -/
theorem NVMeInitSubQueue_layout (pf : Platform) (pAE : NVME_DEVICE_EXTENSION) (Q : Nat)
    (hQ : Q ≤ pAE.ResMapTbl.NumActiveCores)
    (hin : Q < pAE.QueueInfo.pSubQueueInfo.length) :
    (subQ (NVMeInitSubQueue pf pAE Q).2 Q).pSubQStart
      = PAGE_ALIGN_BUF_PTR (subQ pAE Q).pQueueAlloc ∧
    (subQ (NVMeInitSubQueue pf pAE Q).2 Q).SubQEntries
      = (if Q ≠ 0 then pAE.QueueInfo.NumIoQEntriesAllocated
         else pAE.QueueInfo.NumAdQEntriesAllocated) ∧
    (NVMeInitSubQueue pf pAE Q).2.QueueInfo.pSubQueueInfo.length
      = pAE.QueueInfo.pSubQueueInfo.length ∧
    (NVMeInitSubQueue pf pAE Q).2.QueueInfo.pCplQueueInfo.length
      = pAE.QueueInfo.pCplQueueInfo.length ∧
    (NVMeInitSubQueue pf pAE Q).2.ResMapTbl = pAE.ResMapTbl := by
  obtain ⟨r1, r2, r3, r4, r5⟩ := NVMeInitSubQueue_ring_layout pf pAE Q hin
  have hg : ¬ (Q > pAE.ResMapTbl.NumActiveCores) := by omega
  have p1 : (subQ (NVMeInitSubQueue.prp pf (NVMeInitSubQueue.ring pf pAE Q) Q) Q)
      = { (subQ (NVMeInitSubQueue.ring pf pAE Q) Q) with
          pPRPListStart := PAGE_ALIGN_BUF_PTR (subQ (NVMeInitSubQueue.ring pf pAE Q) Q).pPRPListAlloc,
          PRPListStart := NVMeGetPhysAddr pf
            (PAGE_ALIGN_BUF_PTR (subQ (NVMeInitSubQueue.ring pf pAE Q) Q).pPRPListAlloc) } := by
    unfold NVMeInitSubQueue.prp
    rw [subQ_setSubQ_same _ _ _ (by rw [r3]; exact hin)]
  have p3 : (NVMeInitSubQueue.prp pf (NVMeInitSubQueue.ring pf pAE Q) Q).QueueInfo.pSubQueueInfo.length
      = pAE.QueueInfo.pSubQueueInfo.length := by
    unfold NVMeInitSubQueue.prp
    rw [setSubQ_length, r3]
  have q1 : (subQ (NVMeInitSubQueue.prp pf (NVMeInitSubQueue.ring pf pAE Q) Q) Q).pSubQStart
      = PAGE_ALIGN_BUF_PTR (subQ pAE Q).pQueueAlloc := by rw [p1]; exact r1
  have q2 : (subQ (NVMeInitSubQueue.prp pf (NVMeInitSubQueue.ring pf pAE Q) Q) Q).SubQEntries
      = (if Q ≠ 0 then pAE.QueueInfo.NumIoQEntriesAllocated
         else pAE.QueueInfo.NumAdQEntriesAllocated) := by rw [p1]; exact r2
  have q4 : (NVMeInitSubQueue.prp pf (NVMeInitSubQueue.ring pf pAE Q) Q).QueueInfo.pCplQueueInfo.length
      = pAE.QueueInfo.pCplQueueInfo.length := r4
  have q5 : (NVMeInitSubQueue.prp pf (NVMeInitSubQueue.ring pf pAE Q) Q).ResMapTbl
      = pAE.ResMapTbl := r5
  unfold NVMeInitSubQueue
  rw [if_neg hg]
  dsimp only
  by_cases h1 : (subQ (NVMeInitSubQueue.ring pf pAE Q) Q).SubQStart = 0
  · rw [if_pos h1]
    exact ⟨r1, r2, r3, r4, r5⟩
  · rw [if_neg h1]
    by_cases h2 : (subQ (NVMeInitSubQueue.prp pf (NVMeInitSubQueue.ring pf pAE Q) Q) Q).PRPListStart = 0
    · rw [if_pos h2]
      exact ⟨q1, q2, p3, q4, q5⟩
    · rw [if_neg h2]
      dsimp only
      rw [subQ_setSubQ_same _ _ _ (by rw [p3]; exact hin), setSubQ_length]
      exact ⟨q1, q2, p3, q4, q5⟩

/-- NVMeInitCplQueue, whatever its status for a valid queue id, places the
completion ring of queue `Q` at the first page boundary behind the
submission ring and leaves the submission queue structures as they are. -/
theorem NVMeInitCplQueue_layout (pf : Platform) (pAE : NVME_DEVICE_EXTENSION) (Q : Nat)
    (hQ : Q ≤ pAE.ResMapTbl.NumActiveCores)
    (hin : Q < pAE.QueueInfo.pCplQueueInfo.length) :
    (cplQ (NVMeInitCplQueue pf pAE Q).2 Q).pCplQStart
      = PAGE_ALIGN_BUF_PTR ((subQ pAE Q).pSubQStart
          + ULONG ((subQ pAE Q).SubQEntries * sizeof_NVMe_COMMAND)) ∧
    (cplQ (NVMeInitCplQueue pf pAE Q).2 Q).CplQEntries = (subQ pAE Q).SubQEntries ∧
    (NVMeInitCplQueue pf pAE Q).2.QueueInfo.pSubQueueInfo = pAE.QueueInfo.pSubQueueInfo ∧
    (NVMeInitCplQueue pf pAE Q).2.ResMapTbl = pAE.ResMapTbl := by
  have hg : ¬ (Q > pAE.ResMapTbl.NumActiveCores) := by omega
  unfold NVMeInitCplQueue
  dsimp only
  rw [if_neg hg]
  simp only [apply_ite Prod.snd, ite_self]
  refine ⟨?_, ?_, rfl, rfl⟩ <;> rw [cplQ_setCplQ_same _ _ _ hin]

/-- NVMeInitCmdEntries for a valid queue id places the command entries of
queue `Q` right behind the completion ring and leaves the ring addresses and
the entry count as they are. -/
theorem NVMeInitCmdEntries_layout (pf : Platform) (pAE : NVME_DEVICE_EXTENSION) (Q : Nat)
    (hQ : Q ≤ pAE.ResMapTbl.NumActiveCores)
    (hin : Q < pAE.QueueInfo.pSubQueueInfo.length) :
    (subQ (NVMeInitCmdEntries pf pAE Q).2 Q).pCmdEntry
      = (cplQ pAE Q).pCplQStart
          + (subQ pAE Q).SubQEntries * sizeof_NVMe_COMPLETION_QUEUE_ENTRY ∧
    (subQ (NVMeInitCmdEntries pf pAE Q).2 Q).pSubQStart = (subQ pAE Q).pSubQStart ∧
    (subQ (NVMeInitCmdEntries pf pAE Q).2 Q).SubQEntries = (subQ pAE Q).SubQEntries ∧
    (NVMeInitCmdEntries pf pAE Q).2.QueueInfo.pCplQueueInfo = pAE.QueueInfo.pCplQueueInfo := by
  have hg : ¬ (Q > pAE.ResMapTbl.NumActiveCores) := by omega
  have hc : (NVMeInitCmdEntries.clear pAE Q).QueueInfo.pSubQueueInfo.length
      = pAE.QueueInfo.pSubQueueInfo.length := by
    unfold NVMeInitCmdEntries.clear
    dsimp only
    rw [setSubQ_length]
  have hs : subQ (NVMeInitCmdEntries.clear pAE Q) Q
      = { (subQ pAE Q) with
          pCmdEntry := (cplQ pAE Q).pCplQStart
            + (subQ pAE Q).SubQEntries * sizeof_NVMe_COMPLETION_QUEUE_ENTRY,
          CmdEntries := List.replicate (subQ pAE Q).SubQEntries {} } := by
    unfold NVMeInitCmdEntries.clear
    dsimp only
    rw [subQ_setSubQ_same _ _ _ hin]
  unfold NVMeInitCmdEntries
  rw [if_neg hg]
  dsimp only
  rw [subQ_setSubQ_same _ _ _ (by rw [hc]; exact hin)]
  unfold NVMeInitFreeQ
  obtain ⟨f1, f2, _⟩ := NVMeInitFreeQ_fold_layout pf (NVMeInitCmdEntries.clear pAE Q)
    (List.range (subQ (NVMeInitCmdEntries.clear pAE Q) Q).SubQEntries)
    (subQ (NVMeInitCmdEntries.clear pAE Q) Q, (subQ (NVMeInitCmdEntries.clear pAE Q) Q).pPRPListStart)
  obtain ⟨_, g2, _, _⟩ := NVMeInitFreeQ_fold pf (NVMeInitCmdEntries.clear pAE Q)
    (List.range (subQ (NVMeInitCmdEntries.clear pAE Q) Q).SubQEntries)
    (subQ (NVMeInitCmdEntries.clear pAE Q) Q, (subQ (NVMeInitCmdEntries.clear pAE Q) Q).pPRPListStart)
  rw [f1, f2, g2, hs]
  exact ⟨rfl, rfl, rfl, rfl⟩

/-- C20: for every base address of the queue allocation and every entry
count E that is a multiple of 64 (and a 16-bit count), the layout computed by
NVMeInitSubQueue, NVMeInitCplQueue and NVMeInitCmdEntries places the
submission ring of 64 E bytes at the first page boundary of the allocation,
the completion ring of 16 E bytes page aligned immediately behind it and
the command entries of E * sizeof(CMD_ENTRY) bytes immediately behind the
completion ring; the three regions are pairwise disjoint and lie inside the
allocated region of E * (64 + 16 + sizeof(CMD_ENTRY)) + PAGE_SIZE bytes. -/
theorem queue_memory_layout (pf : Platform) (szCmdEntry : Nat) (pAE : NVME_DEVICE_EXTENSION)
    (Q E : Nat)
    (hQ : Q ≤ pAE.ResMapTbl.NumActiveCores)
    (hsub : Q < pAE.QueueInfo.pSubQueueInfo.length)
    (hcpl : Q < pAE.QueueInfo.pCplQueueInfo.length)
    (hE : (if Q ≠ 0 then pAE.QueueInfo.NumIoQEntriesAllocated
           else pAE.QueueInfo.NumAdQEntriesAllocated) = E)
    (h64 : E % 64 = 0) (h16 : E < 65536) :
    (subQ (layoutQueue pf pAE Q) Q).pSubQStart = PAGE_ALIGN_BUF_PTR (subQ pAE Q).pQueueAlloc ∧
    (subQ (layoutQueue pf pAE Q) Q).pSubQStart % PAGE_SIZE = 0 ∧
    (cplQ (layoutQueue pf pAE Q) Q).pCplQStart
      = (subQ (layoutQueue pf pAE Q) Q).pSubQStart + E * sizeof_NVMe_COMMAND ∧
    (cplQ (layoutQueue pf pAE Q) Q).pCplQStart % PAGE_SIZE = 0 ∧
    (subQ (layoutQueue pf pAE Q) Q).pCmdEntry
      = (cplQ (layoutQueue pf pAE Q) Q).pCplQStart + E * sizeof_NVMe_COMPLETION_QUEUE_ENTRY ∧
    rangesDisjoint (subQ (layoutQueue pf pAE Q) Q).pSubQStart (E * sizeof_NVMe_COMMAND)
      (cplQ (layoutQueue pf pAE Q) Q).pCplQStart (E * sizeof_NVMe_COMPLETION_QUEUE_ENTRY) ∧
    rangesDisjoint (subQ (layoutQueue pf pAE Q) Q).pSubQStart (E * sizeof_NVMe_COMMAND)
      (subQ (layoutQueue pf pAE Q) Q).pCmdEntry (E * szCmdEntry) ∧
    rangesDisjoint (cplQ (layoutQueue pf pAE Q) Q).pCplQStart
      (E * sizeof_NVMe_COMPLETION_QUEUE_ENTRY)
      (subQ (layoutQueue pf pAE Q) Q).pCmdEntry (E * szCmdEntry) ∧
    rangeInside (subQ (layoutQueue pf pAE Q) Q).pSubQStart (E * sizeof_NVMe_COMMAND)
      (subQ pAE Q).pQueueAlloc
      (E * (sizeof_NVMe_COMMAND + sizeof_NVMe_COMPLETION_QUEUE_ENTRY + szCmdEntry) + PAGE_SIZE) ∧
    rangeInside (cplQ (layoutQueue pf pAE Q) Q).pCplQStart
      (E * sizeof_NVMe_COMPLETION_QUEUE_ENTRY) (subQ pAE Q).pQueueAlloc
      (E * (sizeof_NVMe_COMMAND + sizeof_NVMe_COMPLETION_QUEUE_ENTRY + szCmdEntry) + PAGE_SIZE) ∧
    rangeInside (subQ (layoutQueue pf pAE Q) Q).pCmdEntry (E * szCmdEntry)
      (subQ pAE Q).pQueueAlloc
      (E * (sizeof_NVMe_COMMAND + sizeof_NVMe_COMPLETION_QUEUE_ENTRY + szCmdEntry)
        + PAGE_SIZE) := by
  obtain ⟨a1, a2, a3, a4, a5⟩ := NVMeInitSubQueue_layout pf pAE Q hQ hsub
  obtain ⟨b1, b2, b3, b4⟩ := NVMeInitCplQueue_layout pf (NVMeInitSubQueue pf pAE Q).2 Q
    (by rw [a5]; exact hQ) (by rw [a4]; exact hcpl)
  have bs : subQ (NVMeInitCplQueue pf (NVMeInitSubQueue pf pAE Q).2 Q).2 Q
      = subQ (NVMeInitSubQueue pf pAE Q).2 Q := by
    unfold subQ
    rw [b3]
  obtain ⟨c1, c2, c3, c4⟩ := NVMeInitCmdEntries_layout pf
    (NVMeInitCplQueue pf (NVMeInitSubQueue pf pAE Q).2 Q).2 Q
    (by rw [b4, a5]; exact hQ) (by rw [b3, a3]; exact hsub)
  have cc : cplQ (layoutQueue pf pAE Q) Q
      = cplQ (NVMeInitCplQueue pf (NVMeInitSubQueue pf pAE Q).2 Q).2 Q := by
    unfold layoutQueue cplQ
    rw [c4]
  obtain ⟨g1, g2, g3⟩ := PAGE_ALIGN_BUF_PTR_spec (subQ pAE Q).pQueueAlloc
  have hSQ : (subQ (layoutQueue pf pAE Q) Q).pSubQStart
      = PAGE_ALIGN_BUF_PTR (subQ pAE Q).pQueueAlloc := by
    unfold layoutQueue
    rw [c2, bs, a1]
  have hU : ULONG (E * sizeof_NVMe_COMMAND) = E * sizeof_NVMe_COMMAND := by
    unfold ULONG sizeof_NVMe_COMMAND
    omega
  have hal : (PAGE_ALIGN_BUF_PTR (subQ pAE Q).pQueueAlloc + E * sizeof_NVMe_COMMAND) % PAGE_SIZE
      = 0 := by
    unfold PAGE_SIZE sizeof_NVMe_COMMAND at *
    omega
  have hCQ : (cplQ (layoutQueue pf pAE Q) Q).pCplQStart
      = PAGE_ALIGN_BUF_PTR (subQ pAE Q).pQueueAlloc + E * sizeof_NVMe_COMMAND := by
    rw [cc, b1, a1, a2, hE, hU, PAGE_ALIGN_BUF_PTR_aligned _ hal]
  have hCmd : (subQ (layoutQueue pf pAE Q) Q).pCmdEntry
      = PAGE_ALIGN_BUF_PTR (subQ pAE Q).pQueueAlloc + E * sizeof_NVMe_COMMAND
        + E * sizeof_NVMe_COMPLETION_QUEUE_ENTRY := by
    unfold layoutQueue
    rw [c1, bs, a2, hE, b1, a1, a2, hE, hU, PAGE_ALIGN_BUF_PTR_aligned _ hal]
  rw [hSQ, hCQ, hCmd]
  have hmul : E * (sizeof_NVMe_COMMAND + sizeof_NVMe_COMPLETION_QUEUE_ENTRY + szCmdEntry)
      = E * sizeof_NVMe_COMMAND + E * sizeof_NVMe_COMPLETION_QUEUE_ENTRY + E * szCmdEntry := by
    rw [Nat.mul_add, Nat.mul_add]
  rw [hmul]
  unfold rangesDisjoint rangeInside
  refine ⟨rfl, g3, rfl, hal, rfl, ?_, ?_, ?_, ?_, ?_, ?_⟩
  · intro x; omega
  · intro x; omega
  · intro x; omega
  · omega
  · omega
  · omega

/-- Witness of C20: queue 1 of 128 entries with its allocation at 1048592,
which is not page aligned. -/
theorem queue_memory_layout_witness :
    (NVMeInitSubQueue plainPlatform layoutDevice 1).1 = STOR_STATUS_SUCCESS ∧
    (subQ (layoutQueue plainPlatform layoutDevice 1) 1).pSubQStart = 1052672 ∧
    (cplQ (layoutQueue plainPlatform layoutDevice 1) 1).pCplQStart = 1052672 + 128 * 64 ∧
    (subQ (layoutQueue plainPlatform layoutDevice 1) 1).pCmdEntry
      = 1052672 + 128 * 64 + 128 * 16 ∧
    rangeInside (subQ (layoutQueue plainPlatform layoutDevice 1) 1).pCmdEntry (128 * 56)
      1048592 (128 * (64 + 16 + 56) + 4096) := by
  have h := queue_memory_layout plainPlatform 56 layoutDevice 1 128
    (by decide) (by decide) (by decide) (by decide) (by decide) (by decide)
  refine ⟨by decide, ?_, ?_, ?_, h.2.2.2.2.2.2.2.2.2.2⟩
  · rw [h.1]; decide
  · rw [h.2.2.1, h.1]; decide
  · rw [h.2.2.2.2.1, h.2.2.1, h.1]; decide

/-! ## Tunables from the registry -/

/-- NVMeReadRegistry returns the buffer read as a ULONG and the length left by
the platform read, and returns TRUE exactly when the platform read succeeded
with a length that is not zero and the value is not REGISTRY_KEY_NOT_FOUND. -/
theorem NVMeReadRegistry_spec (reg : Registry) (lim : REGISTRY_LIMITS) (key : REGISTRY_KEY)
    (Len : Nat) :
    (NVMeReadRegistry reg lim key Len).2.1 = ULONG (reg.RegistryRead key Len).Data ∧
    (NVMeReadRegistry reg lim key Len).2.2 = lenAfter reg key Len ∧
    ((NVMeReadRegistry reg lim key Len).1 = true ↔
      ((reg.RegistryRead key Len).Ret = true ∧ ULONG (reg.RegistryRead key Len).Len ≠ 0 ∧
        ULONG (reg.RegistryRead key Len).Data ≠ lim.REGISTRY_KEY_NOT_FOUND)) := by
  unfold NVMeReadRegistry lenAfter
  dsimp only
  by_cases h1 : (reg.RegistryRead key Len).Ret = false ∨ ULONG (reg.RegistryRead key Len).Len = 0
  · rw [if_pos h1]
    refine ⟨rfl, rfl, ?_⟩
    constructor
    · intro h
      cases h
    · intro h
      rcases h1 with h1 | h1
      · rw [h1] at h
        cases h.1
      · exact absurd h1 h.2.1
  · rw [if_neg h1]
    by_cases h2 : ULONG (reg.RegistryRead key Len).Data = lim.REGISTRY_KEY_NOT_FOUND
    · rw [if_pos h2]
      refine ⟨rfl, rfl, ?_⟩
      constructor
      · intro h
        cases h
      · intro h
        exact absurd h2 h.2.2
    · rw [if_neg h2]
      refine ⟨rfl, rfl, ?_⟩
      constructor
      · intro _
        refine ⟨?_, ?_, h2⟩
        · cases hr : (reg.RegistryRead key Len).Ret
          · exact absurd (Or.inl hr) h1
          · rfl
        · intro h0
          exact h1 (Or.inr h0)
      · intro _
        rfl

/-- The range check on a value read as LONG agrees with the range check on
the unsigned value when the upper bound is a positive LONG. -/
theorem RANGE_CHK_LONG (v min max : Nat) (hv : v < 4294967296) (hmax : max < 2147483648) :
    RANGE_CHK (LONG v) min max = RANGE_CHK v min max := by
  unfold RANGE_CHK LONG ULONG
  by_cases h : v < 2147483648
  · have : v % 4294967296 = v := Nat.mod_eq_of_lt hv
    rw [this, if_pos h]
  · have : v % 4294967296 = v := Nat.mod_eq_of_lt hv
    rw [this, if_neg h]
    have h1 : ¬ ((min : Int) ≤ (v : Int) - 4294967296 ∧ (v : Int) - 4294967296 ≤ (max : Int)) := by
      omega
    have h2 : ¬ ((min : Int) ≤ (v : Int) ∧ (v : Int) ≤ (max : Int)) := by
      omega
    rw [decide_eq_false h1, decide_eq_false h2]

/-- The range check on non-negative numbers. -/
theorem RANGE_CHK_nat (v min max : Nat) :
    (RANGE_CHK v min max = true) ↔ (min ≤ v ∧ v ≤ max) := by
  unfold RANGE_CHK
  simp

/-- With the registry buffer allocated, the test that NVMeFetchRegistry makes
for a tunable that it checks as ULONG is the acceptance condition of the
specification. -/
theorem accepted_iff_unsigned (reg : Registry) (lim : REGISTRY_LIMITS) (key : REGISTRY_KEY)
    (halloc : (reg.AllocateRegistryBuffer 4).1 = true) :
    ((NVMeReadRegistry reg lim key (lenBefore reg key)).1 = true ∧
      RANGE_CHK (valueRead reg key) (minOf lim key) (maxOf lim key) = true)
    ↔ accepted reg lim key = true := by
  rw [(NVMeReadRegistry_spec reg lim key (lenBefore reg key)).2.2, RANGE_CHK_nat]
  unfold accepted valueRead answerOf
  simp only [halloc, Bool.true_and, Bool.and_eq_true, decide_eq_true_eq]
  tauto

/-- The same for a tunable that NVMeFetchRegistry checks as LONG, when its
upper bound is a positive LONG. -/
theorem accepted_iff_signed (reg : Registry) (lim : REGISTRY_LIMITS) (key : REGISTRY_KEY)
    (halloc : (reg.AllocateRegistryBuffer 4).1 = true) (hmax : maxOf lim key < 2147483648) :
    ((NVMeReadRegistry reg lim key (lenBefore reg key)).1 = true ∧
      RANGE_CHK (LONG (valueRead reg key)) (minOf lim key) (maxOf lim key) = true)
    ↔ accepted reg lim key = true := by
  have hv : valueRead reg key < 4294967296 := by
    unfold valueRead ULONG
    omega
  rw [RANGE_CHK_LONG _ _ _ hv hmax]
  exact accepted_iff_unsigned reg lim key halloc

/-- C17: after NVMeFetchRegistry each of the six tunables (Namespaces,
MaxTxSize, AdQEntries, IoQEntries, IntCoalescingTime, IntCoalescingEntry)
holds the value read when the read of its key is accepted, that is when the
platform read succeeds with a length that is not zero, the value is not
REGISTRY_KEY_NOT_FOUND and it lies within the bounds of the tunable; in every
other case the field keeps the value it had before the call.  Each field
depends on the read of its own key only, and nothing but InitInfo changes in
the device extension.  The bounds of the two tunables that the code checks as
LONG are taken to be positive LONG values. -/
theorem NVMeFetchRegistry_tunables (reg : Registry) (lim : REGISTRY_LIMITS)
    (pAE : NVME_DEVICE_EXTENSION)
    (hT : lim.MAX_INT_COALESCING_TIME < 2147483648)
    (hE : lim.MAX_INT_COALESCING_ENTRY < 2147483648) :
    (NVMeFetchRegistry reg lim pAE).2.InitInfo.Namespaces
      = (if accepted reg lim NAMESPACES = true then valueRead reg NAMESPACES
         else pAE.InitInfo.Namespaces) ∧
    (NVMeFetchRegistry reg lim pAE).2.InitInfo.MaxTxSize
      = (if accepted reg lim MAXTXSIZE = true then valueRead reg MAXTXSIZE
         else pAE.InitInfo.MaxTxSize) ∧
    (NVMeFetchRegistry reg lim pAE).2.InitInfo.AdQEntries
      = (if accepted reg lim ADQUEUEENTRY = true then valueRead reg ADQUEUEENTRY
         else pAE.InitInfo.AdQEntries) ∧
    (NVMeFetchRegistry reg lim pAE).2.InitInfo.IoQEntries
      = (if accepted reg lim IOQUEUEENTRY = true then valueRead reg IOQUEUEENTRY
         else pAE.InitInfo.IoQEntries) ∧
    (NVMeFetchRegistry reg lim pAE).2.InitInfo.IntCoalescingTime
      = (if accepted reg lim INTCOALESCINGTIME = true then valueRead reg INTCOALESCINGTIME
         else pAE.InitInfo.IntCoalescingTime) ∧
    (NVMeFetchRegistry reg lim pAE).2.InitInfo.IntCoalescingEntry
      = (if accepted reg lim INTCOALESCINGENTRY = true then valueRead reg INTCOALESCINGENTRY
         else pAE.InitInfo.IntCoalescingEntry) ∧
    (NVMeFetchRegistry reg lim pAE).2
      = { pAE with InitInfo := (NVMeFetchRegistry reg lim pAE).2.InitInfo } ∧
    (NVMeFetchRegistry reg lim pAE).1 = (reg.AllocateRegistryBuffer 4).1 := by
  by_cases halloc : (reg.AllocateRegistryBuffer 4).1 = true
  · have e2 : (NVMeReadRegistry reg lim NAMESPACES (lenBefore reg NAMESPACES)).2.2
        = lenBefore reg MAXTXSIZE :=
      (NVMeReadRegistry_spec reg lim NAMESPACES (lenBefore reg NAMESPACES)).2.1
    have e3 : (NVMeReadRegistry reg lim MAXTXSIZE (lenBefore reg MAXTXSIZE)).2.2
        = lenBefore reg ADQUEUEENTRY :=
      (NVMeReadRegistry_spec reg lim MAXTXSIZE (lenBefore reg MAXTXSIZE)).2.1
    have e4 : (NVMeReadRegistry reg lim ADQUEUEENTRY (lenBefore reg ADQUEUEENTRY)).2.2
        = lenBefore reg IOQUEUEENTRY :=
      (NVMeReadRegistry_spec reg lim ADQUEUEENTRY (lenBefore reg ADQUEUEENTRY)).2.1
    have e5 : (NVMeReadRegistry reg lim IOQUEUEENTRY (lenBefore reg IOQUEUEENTRY)).2.2
        = lenBefore reg INTCOALESCINGTIME :=
      (NVMeReadRegistry_spec reg lim IOQUEUEENTRY (lenBefore reg IOQUEUEENTRY)).2.1
    have e6 : (NVMeReadRegistry reg lim INTCOALESCINGTIME (lenBefore reg INTCOALESCINGTIME)).2.2
        = lenBefore reg INTCOALESCINGENTRY :=
      (NVMeReadRegistry_spec reg lim INTCOALESCINGTIME (lenBefore reg INTCOALESCINGTIME)).2.1
    have v : ∀ key, (NVMeReadRegistry reg lim key (lenBefore reg key)).2.1 = valueRead reg key :=
      fun key => (NVMeReadRegistry_spec reg lim key (lenBefore reg key)).1
    have c1 := accepted_iff_unsigned reg lim NAMESPACES halloc
    have c2 := accepted_iff_unsigned reg lim MAXTXSIZE halloc
    have c3 := accepted_iff_unsigned reg lim ADQUEUEENTRY halloc
    have c4 := accepted_iff_unsigned reg lim IOQUEUEENTRY halloc
    have c5 := accepted_iff_signed reg lim INTCOALESCINGTIME halloc hT
    have c6 := accepted_iff_signed reg lim INTCOALESCINGENTRY halloc hE
    simp only [minOf, maxOf] at c1 c2 c3 c4 c5 c6
    have hna : ¬ ((reg.AllocateRegistryBuffer 4).1 = false) := by simp [halloc]
    unfold NVMeFetchRegistry
    dsimp only
    rw [if_neg hna]
    rw [show ULONG (reg.AllocateRegistryBuffer 4).2 = lenBefore reg NAMESPACES from rfl]
    simp only [e2, e3, e4, e5, e6, v, c1, c2, c3, c4, c5, c6]
    simp only [apply_ite INIT_INFO.Namespaces, apply_ite INIT_INFO.MaxTxSize,
      apply_ite INIT_INFO.AdQEntries, apply_ite INIT_INFO.IoQEntries,
      apply_ite INIT_INFO.IntCoalescingTime, apply_ite INIT_INFO.IntCoalescingEntry, ite_self]
    refine ⟨?_, ?_, ?_, ?_, ?_, ?_, ?_, ?_⟩ <;> first | trivial | rfl | exact halloc.symm
  · have hf : (reg.AllocateRegistryBuffer 4).1 = false := by simpa using halloc
    have hacc : ∀ key, ¬ (accepted reg lim key = true) := by
      intro key
      unfold accepted
      simp [hf]
    unfold NVMeFetchRegistry
    dsimp only
    rw [if_pos hf]
    simp only [hacc, if_false]
    refine ⟨?_, ?_, ?_, ?_, ?_, ?_, ?_, ?_⟩ <;> first | trivial | rfl | exact hf.symm

/-- Witness of C17: a registry with two acceptable values, a failed read, a
value out of range, a missing key and a zero length. -/
theorem NVMeFetchRegistry_tunables_witness :
    (NVMeFetchRegistry sampleRegistry sampleLimits defaultsDevice).1 = true ∧
    (NVMeFetchRegistry sampleRegistry sampleLimits defaultsDevice).2.InitInfo
      = { Namespaces := 8, MaxTxSize := 131072, AdQEntries := 128, IoQEntries := 1024,
          IntCoalescingTime := 80, IntCoalescingEntry := 16 } ∧
    (NVMeFetchRegistry sampleRegistry sampleLimits defaultsDevice).2.InitInfo.IoQEntries
      = (if accepted sampleRegistry sampleLimits IOQUEUEENTRY = true
         then valueRead sampleRegistry IOQUEUEENTRY else defaultsDevice.InitInfo.IoQEntries) :=
  ⟨by decide, by decide,
    (NVMeFetchRegistry_tunables sampleRegistry sampleLimits defaultsDevice
      (by decide) (by decide)).2.2.2.1⟩
/-! ## Orderly shutdown -/

/-- C15: whenever NVMeDetectPendingCmds reports a pending command,
NVMeNormalShutdown returns FALSE with an empty run: no controller register
is read or written, no buffer is released, and the device extension, with
every command slot and the driver state, is as before. -/
theorem NVMeNormalShutdown_refuses_pending (DBG : Bool) (MAX_STATE_STALL_us : Nat)
    (ctl : Controller) (fuel : Nat) (pAE : NVME_DEVICE_EXTENSION)
    (hpending : NVMeDetectPendingCmds pAE = true) :
    ∃ r, NVMeNormalShutdown DBG MAX_STATE_STALL_us ctl fuel pAE = some r ∧
      r.1 = false ∧
      r.2.2 = [] ∧
      r.2.2.any isRegisterAccess = false ∧
      r.2.2.any isFree = false ∧
      r.2.1 = pAE ∧
      r.2.1.QueueInfo.pSubQueueInfo = pAE.QueueInfo.pSubQueueInfo ∧
      r.2.1.DriverState = pAE.DriverState := by
  refine ⟨(false, pAE, []), ?_, rfl, rfl, rfl, rfl, rfl, rfl, rfl⟩
  unfold NVMeNormalShutdown
  dsimp only
  rw [if_pos hpending]

/-- Witness of C15: a device extension with one command in flight. -/
theorem NVMeNormalShutdown_refuses_pending_witness :
    NVMeDetectPendingCmds busyDevice = true ∧
    ∃ r, NVMeNormalShutdown false 100 stuckController 8 busyDevice = some r ∧
      r.1 = false ∧
      r.2.2 = [] ∧
      r.2.2.any isRegisterAccess = false ∧
      r.2.2.any isFree = false ∧
      r.2.1 = busyDevice ∧
      r.2.1.QueueInfo.pSubQueueInfo = busyDevice.QueueInfo.pSubQueueInfo ∧
      r.2.1.DriverState = busyDevice.DriverState :=
  ⟨by decide, NVMeNormalShutdown_refuses_pending false 100 stuckController 8 busyDevice
    (by decide)⟩

/-- A register read adds one read and no release to the log. -/
theorem StorPortReadRegisterUlong_log (ctl : Controller) (log : List HW_EVENT)
    (reg : CTRL_REGISTER) :
    (StorPortReadRegisterUlong ctl log reg).2.countP isRead = log.countP isRead + 1 ∧
    (StorPortReadRegisterUlong ctl log reg).2.filter isFree = log.filter isFree ∧
    (StorPortReadRegisterUlong ctl log reg).1
      = ULONG (ctl.ReadRegisterUlong (log.countP isRead) reg) := by
  unfold StorPortReadRegisterUlong
  simp [isRead, isFree]

/-- The first poll loop of NVMeNormalShutdown releases nothing. -/
theorem NVMeNormalShutdown_waitRDY_frees (ctl : Controller) (us : Nat) :
    ∀ (n : Nat) (log : List HW_EVENT),
      (NVMeNormalShutdown.waitRDY ctl us n log).filter isFree = log.filter isFree := by
  intro n
  induction n with
  | zero =>
    intro log
    rfl
  | succ n ih =>
    intro log
    unfold NVMeNormalShutdown.waitRDY
    split
    · exact (StorPortReadRegisterUlong_log ctl log CTRL_REGISTER.CSTS).2.1
    · rw [ih, List.filter_append, (StorPortReadRegisterUlong_log ctl log CTRL_REGISTER.CSTS).2.1]
      simp [isFree]

/-- The second poll loop of NVMeNormalShutdown releases nothing, and it
reports SHST = 2 exactly when one of its `n` reads of CSTS, the register
reads number `reads`, `reads + 1`, .. of the run, shows SHST = 2. -/
theorem NVMeNormalShutdown_waitSHST_spec (ctl : Controller) (us : Nat) :
    ∀ (n : Nat) (log : List HW_EVENT),
      (NVMeNormalShutdown.waitSHST ctl us n log).2.filter isFree = log.filter isFree ∧
      ((NVMeNormalShutdown.waitSHST ctl us n log).1 = true ↔
        ∃ i, i < n ∧
          CSTS_SHST (ULONG (ctl.ReadRegisterUlong (log.countP isRead + i) CTRL_REGISTER.CSTS))
            = 2) := by
  intro n
  induction n with
  | zero =>
    intro log
    refine ⟨rfl, ?_⟩
    constructor
    · intro h
      cases h
    · rintro ⟨i, hi, _⟩
      omega
  | succ n ih =>
    intro log
    obtain ⟨r1, r2, r3⟩ := StorPortReadRegisterUlong_log ctl log CTRL_REGISTER.CSTS
    unfold NVMeNormalShutdown.waitSHST
    by_cases h : CSTS_SHST (StorPortReadRegisterUlong ctl log CTRL_REGISTER.CSTS).1 = 2
    · rw [if_pos h]
      refine ⟨r2, ?_⟩
      constructor
      · intro _
        refine ⟨0, by omega, ?_⟩
        rw [Nat.add_zero, ← r3]
        exact h
      · intro _
        rfl
    · rw [if_neg h]
      obtain ⟨i1, i2⟩ := ih
        ((StorPortReadRegisterUlong ctl log CTRL_REGISTER.CSTS).2 ++ [HW_EVENT.Stall us])
      have hc : ((StorPortReadRegisterUlong ctl log CTRL_REGISTER.CSTS).2
          ++ [HW_EVENT.Stall us]).countP isRead = log.countP isRead + 1 := by
        rw [List.countP_append, r1]
        simp [isRead]
      refine ⟨?_, ?_⟩
      · rw [i1, List.filter_append, r2]
        simp [isFree]
      · rw [i2, hc]
        constructor
        · rintro ⟨i, hi, hv⟩
          refine ⟨i + 1, by omega, ?_⟩
          rw [← hv]
          congr 3
          omega
        · rintro ⟨i, hi, hv⟩
          cases i with
          | zero =>
            rw [Nat.add_zero, ← r3] at hv
            exact absurd hv h
          | succ j =>
            refine ⟨j, by omega, ?_⟩
            rw [← hv]
            congr 3
            omega

/-- With fewer than 65535 active cores the loop of NVMeFreeBuffers, entered at
queue `q` with `k` queues left and more than `k` units of fuel, ends and has
added the releases of the queues `q` .. NumActiveCores. -/
theorem NVMeFreeBuffers_loop_spec (pAE : NVME_DEVICE_EXTENSION)
    (hcores : pAE.ResMapTbl.NumActiveCores < 65535) :
    ∀ (k q fuel : Nat) (log : List HW_EVENT),
      q + k = pAE.ResMapTbl.NumActiveCores + 1 → k < fuel →
      NVMeFreeBuffers.loop pAE fuel q log
        = some (log ++ ((List.range' q k).map (NVMeFreeBuffers.queue pAE)).flatten) := by
  intro k
  induction k with
  | zero =>
    intro q fuel log hq hf
    cases fuel with
    | zero => omega
    | succ f =>
      unfold NVMeFreeBuffers.loop
      rw [if_neg (by omega)]
      simp
  | succ k ih =>
    intro q fuel log hq hf
    cases fuel with
    | zero => omega
    | succ f =>
      unfold NVMeFreeBuffers.loop
      rw [if_pos (by omega)]
      have hu : USHORT (q + 1) = q + 1 := by
        unfold USHORT
        omega
      rw [hu, ih (q + 1) f _ (by omega) (by omega)]
      simp [List.range'_succ, List.append_assoc]

/-- Every event of NVMeFreeNonContiguousBuffers and of the loop body of
NVMeFreeBuffers is a release. -/
theorem frees_are_frees (pAE : NVME_DEVICE_EXTENSION) :
    (∀ e ∈ NVMeFreeNonContiguousBuffers pAE, isFree e = true) ∧
    (∀ q, ∀ e ∈ NVMeFreeBuffers.queue pAE q, isFree e = true) := by
  constructor
  · intro e he
    unfold NVMeFreeNonContiguousBuffers at he
    simp only [List.mem_append] at he
    rcases he with ((((he | he) | he) | he) | he) | he <;>
      (split at he <;> simp at he
       subst he
       rfl)
  · intro q e he
    unfold NVMeFreeBuffers.queue at he
    simp only [List.mem_append] at he
    rcases he with he | he <;>
      (split at he <;> simp at he
       subst he
       rfl)

/-- The list of all buffers consists of releases only. -/
theorem allBuffers_filter (pAE : NVME_DEVICE_EXTENSION) :
    (allBuffers pAE).filter isFree = allBuffers pAE := by
  rw [List.filter_eq_self]
  intro e he
  obtain ⟨f1, f2⟩ := frees_are_frees pAE
  unfold allBuffers at he
  simp only [List.mem_append] at he
  rcases he with ((he | he) | he) | he
  · split at he <;> simp at he
    subst he
    rfl
  · split at he <;> simp at he
    subst he
    rfl
  · split at he
    · simp only [List.mem_flatten, List.mem_map] at he
      obtain ⟨l, ⟨q, _, hq⟩, hel⟩ := he
      subst hq
      exact f2 q e hel
    · simp at he
  · exact f1 e he

/-- With fewer than 65535 active cores and fuel above NumActiveCores + 1,
NVMeFreeBuffers returns and has added the releases of all buffers that are
not NULL. -/
theorem NVMeFreeBuffers_spec (fuel : Nat) (pAE : NVME_DEVICE_EXTENSION) (log : List HW_EVENT)
    (hcores : pAE.ResMapTbl.NumActiveCores < 65535)
    (hfuel : pAE.ResMapTbl.NumActiveCores + 1 < fuel) :
    NVMeFreeBuffers fuel pAE log = some (log ++ allBuffers pAE) := by
  unfold NVMeFreeBuffers allBuffers
  dsimp only
  by_cases hs : pAE.Pointers.pSubQueueInfo ≠ 0
  · rw [if_pos hs, if_pos hs,
      NVMeFreeBuffers_loop_spec pAE hcores (pAE.ResMapTbl.NumActiveCores + 1) 0 fuel _
        (by omega) hfuel]
    simp [List.range_eq_range', List.append_assoc]
  · rw [if_neg hs, if_neg hs]
    simp [List.append_assoc]

/-- The reset of the adapter and the notification of the shutdown release
nothing. -/
theorem NVMeNormalShutdown_notify_frees (ctl : Controller) (us PollMax : Nat)
    (pAE : NVME_DEVICE_EXTENSION) :
    (NVMeNormalShutdown.notify ctl us PollMax (NVMeResetAdapter ctl pAE []).2.2).filter isFree
      = [] := by
  have h0 : (NVMeResetAdapter ctl pAE []).2.2.filter isFree = [] := by
    unfold NVMeResetAdapter
    split
    · rfl
    · dsimp only
      rw [List.filter_append, (StorPortReadRegisterUlong_log ctl [] CTRL_REGISTER.CC).2.1]
      simp [isFree]
  unfold NVMeNormalShutdown.notify
  dsimp only
  rw [List.filter_append, (StorPortReadRegisterUlong_log ctl _ CTRL_REGISTER.CC).2.1,
    NVMeNormalShutdown_waitRDY_frees, h0]
  simp [isFree]

/-- NVMeResetAdapter keeps everything of the device extension but the next
state. -/
theorem NVMeResetAdapter_frame (ctl : Controller) (pAE : NVME_DEVICE_EXTENSION)
    (log : List HW_EVENT) :
    (NVMeResetAdapter ctl pAE log).2.1.pCtrlRegister = pAE.pCtrlRegister ∧
    (NVMeResetAdapter ctl pAE log).2.1.ResMapTbl = pAE.ResMapTbl ∧
    allBuffers (NVMeResetAdapter ctl pAE log).2.1 = allBuffers pAE := by
  unfold NVMeResetAdapter
  split
  · exact ⟨rfl, rfl, rfl⟩
  · exact ⟨rfl, rfl, rfl⟩

/-- C16 (as amended): when no command is pending, the controller registers
are mapped and there are fewer than 65535 active cores, NVMeNormalShutdown
returns; it returns TRUE exactly when one of the PollMax = uSecCrtlTimeout /
MAX_STATE_STALL_us reads of CSTS after the shutdown notification shows SHST
= 2, or the build has DBG set; when it returns TRUE it has invoked
NVMeFreeBuffers, so that the releases of the run are those of all buffers,
and when it returns FALSE (the poll budget is exhausted in a build without
DBG) it has released no buffer. -/
theorem NVMeNormalShutdown_frees (DBG : Bool) (MAX_STATE_STALL_us : Nat) (ctl : Controller)
    (fuel : Nat) (pAE : NVME_DEVICE_EXTENSION)
    (hpending : NVMeDetectPendingCmds pAE = false)
    (hmapped : pAE.pCtrlRegister ≠ 0)
    (hcores : pAE.ResMapTbl.NumActiveCores < 65535)
    (hfuel : pAE.ResMapTbl.NumActiveCores + 1 < fuel) :
    ∃ r, NVMeNormalShutdown DBG MAX_STATE_STALL_us ctl fuel pAE = some r ∧
      (r.1 = true ↔
        ((∃ i, i < ULONG pAE.uSecCrtlTimeout / MAX_STATE_STALL_us ∧
            CSTS_SHST (ULONG (ctl.ReadRegisterUlong
              ((NVMeNormalShutdown.notify ctl MAX_STATE_STALL_us
                  (ULONG pAE.uSecCrtlTimeout / MAX_STATE_STALL_us)
                  (NVMeResetAdapter ctl pAE []).2.2).countP isRead + i)
              CTRL_REGISTER.CSTS)) = 2)
          ∨ DBG = true)) ∧
      (r.1 = true → r.2.2.filter isFree = allBuffers pAE) ∧
      (r.1 = false → r.2.2.filter isFree = []) := by
  obtain ⟨m1, m2, m3⟩ := NVMeResetAdapter_frame ctl pAE []
  obtain ⟨w1, w2⟩ := NVMeNormalShutdown_waitSHST_spec ctl MAX_STATE_STALL_us
    (ULONG pAE.uSecCrtlTimeout / MAX_STATE_STALL_us)
    (NVMeNormalShutdown.notify ctl MAX_STATE_STALL_us
      (ULONG pAE.uSecCrtlTimeout / MAX_STATE_STALL_us) (NVMeResetAdapter ctl pAE []).2.2)
  rw [NVMeNormalShutdown_notify_frees] at w1
  have hfree : ∀ log, NVMeFreeBuffers fuel (NVMeResetAdapter ctl pAE []).2.1 log
      = some (log ++ allBuffers pAE) := by
    intro log
    rw [NVMeFreeBuffers_spec fuel _ log (by rw [m2]; exact hcores) (by rw [m2]; exact hfuel), m3]
  have hp : ¬ (NVMeDetectPendingCmds pAE = true) := by simp [hpending]
  have hm : ¬ ((NVMeResetAdapter ctl pAE []).2.1.pCtrlRegister = 0) := by rw [m1]; exact hmapped
  unfold NVMeNormalShutdown
  dsimp only
  rw [if_neg hp, if_neg hm]
  by_cases hw : (NVMeNormalShutdown.waitSHST ctl MAX_STATE_STALL_us
      (ULONG pAE.uSecCrtlTimeout / MAX_STATE_STALL_us)
      (NVMeNormalShutdown.notify ctl MAX_STATE_STALL_us
        (ULONG pAE.uSecCrtlTimeout / MAX_STATE_STALL_us)
        (NVMeResetAdapter ctl pAE []).2.2)).1 = true
  · rw [if_pos hw, hfree]
    refine ⟨_, rfl, ?_, ?_, ?_⟩
    · exact ⟨fun _ => Or.inl (w2.1 hw), fun _ => rfl⟩
    · intro _
      dsimp only
      rw [List.filter_append, w1, allBuffers_filter, List.nil_append]
    · intro h
      cases h
  · rw [if_neg hw]
    by_cases hd : DBG = true
    · rw [if_pos hd, hfree]
      refine ⟨_, rfl, ?_, ?_, ?_⟩
      · exact ⟨fun _ => Or.inr hd, fun _ => rfl⟩
      · intro _
        dsimp only
        rw [List.filter_append, w1, allBuffers_filter, List.nil_append]
      · intro h
        cases h
    · rw [if_neg hd]
      refine ⟨_, rfl, ?_, ?_, ?_⟩
      · constructor
        · intro h
          cases h
        · intro h
          rcases h with h | h
          · exact absurd (w2.2 h) hw
          · exact absurd h hd
      · intro h
        cases h
      · intro _
        exact w1

/-- Witness of C16: an idle device extension and a controller that reports
SHST = 2 at the second poll, in a build without DBG. -/
theorem NVMeNormalShutdown_frees_witness :
    NVMeDetectPendingCmds idleDevice = false ∧
    ∃ r, NVMeNormalShutdown false 100 promptController 8 idleDevice = some r ∧
      (r.1 = true ↔
        ((∃ i, i < ULONG idleDevice.uSecCrtlTimeout / 100 ∧
            CSTS_SHST (ULONG (promptController.ReadRegisterUlong
              ((NVMeNormalShutdown.notify promptController 100
                  (ULONG idleDevice.uSecCrtlTimeout / 100)
                  (NVMeResetAdapter promptController idleDevice []).2.2).countP isRead + i)
              CTRL_REGISTER.CSTS)) = 2)
          ∨ false = true)) ∧
      (r.1 = true → r.2.2.filter isFree = allBuffers idleDevice) ∧
      (r.1 = false → r.2.2.filter isFree = []) :=
  ⟨by decide, NVMeNormalShutdown_frees false 100 promptController 8 idleDevice
    (by decide) (by decide) (by decide) (by decide)⟩

/-- C16 as stated fails: in a build without DBG, with no command pending and
the registers mapped, a controller whose CSTS never shows SHST = 2 exhausts
the poll budget of three reads; NVMeNormalShutdown then returns FALSE and
has released none of the seven buffers of the device extension. -/
theorem NVMeNormalShutdown_timeout_keeps_buffers :
    NVMeDetectPendingCmds idleDevice = false ∧
    idleDevice.pCtrlRegister ≠ 0 ∧
    ULONG idleDevice.uSecCrtlTimeout / 100 = 3 ∧
    (NVMeNormalShutdown false 100 stuckController 8 idleDevice).map
        (fun r => (r.1, r.2.2.filter isFree, (r.2.2.filter isRead).length))
      = some (false, [], 6) ∧
    (allBuffers idleDevice).length = 7 := by
  decide

/-! ## Creation and deletion of the IO queues -/

/-- The 32-bit decrement undoes the 32-bit increment. -/
theorem decr_incr (x : Nat) (h : x < 4294967296) : decr (ULONG (x + 1)) = x := by
  unfold decr ULONG
  omega

/-- C25: a successful Create IO Completion Queue completion handled by
NVMeInitCallback in state NVMeWaitOnIoCQ, followed by a successful Delete IO
Completion Queue completion handled by NVMeDeleteQueueCallback, leaves
NumCplIoQCreated at its (32-bit) value before the pair; likewise a successful
Create IO Submission Queue completion in state NVMeWaitOnIoSQ followed by a
successful Delete IO Submission Queue completion leaves NumSubIoQCreated at
its value before the pair. -/
theorem create_delete_restores_created (pAE pBE : NVME_DEVICE_EXTENSION)
    (create delCpl delSub : NVMe_COMMAND) (cpl1 cpl2 : NVMe_COMPLETION_QUEUE_ENTRY)
    (hA : pAE.DriverState.NextDriverState = NVMeWaitOnIoCQ)
    (hB : pBE.DriverState.NextDriverState = NVMeWaitOnIoSQ)
    (hAn : pAE.QueueInfo.NumCplIoQCreated < 4294967296)
    (hBn : pBE.QueueInfo.NumSubIoQCreated < 4294967296)
    (h1 : cpl1.SC = 0 ∧ cpl1.SCT = 0) (h2 : cpl2.SC = 0)
    (hdc : delCpl.OPC = ADMIN_DELETE_IO_COMPLETION_QUEUE)
    (hds : delSub.OPC = ADMIN_DELETE_IO_SUBMISSION_QUEUE) :
    (NVMeDeleteQueueCallback (NVMeInitCallback pAE create cpl1).2 delCpl cpl2).2.QueueInfo.NumCplIoQCreated
      = pAE.QueueInfo.NumCplIoQCreated ∧
    (NVMeDeleteQueueCallback (NVMeInitCallback pBE create cpl1).2 delSub cpl2).2.QueueInfo.NumSubIoQCreated
      = pBE.QueueInfo.NumSubIoQCreated := by
  have hs : cplSucceeded cpl1 = true := by
    unfold cplSucceeded
    simp [h1.1, h1.2]
  have hne : ¬ (delSub.OPC = ADMIN_DELETE_IO_COMPLETION_QUEUE) := by
    rw [hds]
    decide
  constructor
  · unfold NVMeInitCallback NVMeCallArbiter NVMeInitCallback.dispatch
    simp only [hA]
    unfold NVMeInitCallback.ioCQ NVMeDeleteQueueCallback
    simp only [hs, if_true, hdc, h2]
    exact decr_incr _ hAn
  · unfold NVMeInitCallback NVMeCallArbiter NVMeInitCallback.dispatch
    simp only [hB]
    unfold NVMeInitCallback.ioSQ NVMeDeleteQueueCallback
    simp only [hs, if_true, hds, h2, if_neg hne]
    exact decr_incr _ hBn

/-- Witness of C25: the third completion queue of `creatingDevice` and the
fourth submission queue of `lastQueueDevice 4` are created and deleted
again. -/
theorem create_delete_restores_created_witness :
    (NVMeDeleteQueueCallback (NVMeInitCallback creatingDevice {} {}).2 (deleteCplCmd 3) {}).2.QueueInfo.NumCplIoQCreated
      = 2 ∧
    (NVMeDeleteQueueCallback (NVMeInitCallback (lastQueueDevice 4) {} {}).2
        { OPC := ADMIN_DELETE_IO_SUBMISSION_QUEUE, CDW10 := 4 } {}).2.QueueInfo.NumSubIoQCreated
      = 3 :=
  create_delete_restores_created creatingDevice (lastQueueDevice 4) {} (deleteCplCmd 3)
    { OPC := ADMIN_DELETE_IO_SUBMISSION_QUEUE, CDW10 := 4 } {} {}
    (by decide) (by decide) (by decide) (by decide) (by decide) (by decide) (by decide) (by decide)

/-- C26 as stated fails on the code, for every such completion: in state
NVMeWaitOnReSetupQueues, for a Delete IO Completion Queue completion with
SC ≠ 0, NVMeDeleteQueueCallback reports the fatal error (the bit
FATAL_CPLQ_DELETE_FAILURE is recorded) and returns TRUE, and NVMeInitCallback
then overwrites the failed next state: it is NVMeWaitOnIoCQ when no
completion queue is created and NVMeWaitOnReSetupQueues otherwise, never the
failed leaf; the counter of created completion queues is unchanged. -/
theorem NVMeInitCallback_delete_failure_overwritten (pAE : NVME_DEVICE_EXTENSION)
    (pNVMeCmd : NVMe_COMMAND) (pCplEntry : NVMe_COMPLETION_QUEUE_ENTRY)
    (hs : pAE.DriverState.NextDriverState = NVMeWaitOnReSetupQueues)
    (ho : pNVMeCmd.OPC = ADMIN_DELETE_IO_COMPLETION_QUEUE)
    (hsc : pCplEntry.SC ≠ 0) :
    (NVMeInitCallback pAE pNVMeCmd pCplEntry).2.DriverState.DriverErrorStatus.testBit
        FATAL_CPLQ_DELETE_FAILURE = true ∧
    (NVMeInitCallback pAE pNVMeCmd pCplEntry).2.DriverState.NextDriverState
      = (if 0 = pAE.QueueInfo.NumCplIoQCreated then NVMeWaitOnIoCQ
         else NVMeWaitOnReSetupQueues) ∧
    (NVMeInitCallback pAE pNVMeCmd pCplEntry).2.DriverState.NextDriverState ≠ NVMeStateFailed ∧
    (NVMeInitCallback pAE pNVMeCmd pCplEntry).2.QueueInfo.NumCplIoQCreated
      = pAE.QueueInfo.NumCplIoQCreated := by
  have hd : NVMeDeleteQueueCallback pAE pNVMeCmd pCplEntry
      = (true, NVMeDriverFatalError pAE (1 <<< FATAL_CPLQ_DELETE_FAILURE)) := by
    unfold NVMeDeleteQueueCallback
    simp only [ho, if_true, if_neg hsc]
  have hr : (NVMeInitCallback pAE pNVMeCmd pCplEntry).2
      = NVMeInitCallback.reSetupQueues pAE pNVMeCmd pCplEntry := by
    unfold NVMeInitCallback NVMeCallArbiter NVMeInitCallback.dispatch
    simp only [hs]
  have hn := (NVMeInitCallback_reSetupQueues_next pAE pNVMeCmd pCplEntry).1
  rw [hd] at hn
  have hq : (NVMeDriverFatalError pAE (1 <<< FATAL_CPLQ_DELETE_FAILURE)).QueueInfo
      = pAE.QueueInfo := (NVMeDriverFatalError_frame pAE _).1
  simp only [hq] at hn
  rw [hr]
  refine ⟨?_, hn, ?_, ?_⟩
  · unfold NVMeInitCallback.reSetupQueues
    simp only [hd, if_true]
    rw [(NVMeDriverFatalError_frame pAE _).2.2.2.2]
    exact testBit_or_one_shiftLeft _ _
  · rw [hn]
    split_ifs <;> simp
  · unfold NVMeInitCallback.reSetupQueues
    simp only [hd, if_true]
    rw [hq]

/-- Witness of C26: with two completion queues still created, the failed
deletion (SC = 1) leaves the machine in NVMeWaitOnReSetupQueues. -/
theorem NVMeInitCallback_delete_failure_overwritten_witness :
    (NVMeInitCallback reSetupDevice (deleteCplCmd 2) { SC := 1 }).2.DriverState.NextDriverState
      = NVMeWaitOnReSetupQueues ∧
    (NVMeInitCallback reSetupDevice (deleteCplCmd 2) { SC := 1 }).2.DriverState.DriverErrorStatus
      = 256 := by
  have h := NVMeInitCallback_delete_failure_overwritten reSetupDevice (deleteCplCmd 2) { SC := 1 }
    (by decide) (by decide) (by decide)
  exact ⟨h.2.1, by decide⟩

/-! ### C28: deletion of the completion queues, one per round -/

/-- With 1 ≤ n ≤ 65535 created completion queues NVMeDeleteCplQueues issues
Delete IO Completion Queue for the identifier n. -/
theorem NVMeDeleteCplQueues_issues (pAE : NVME_DEVICE_EXTENSION)
    (h1 : 1 ≤ pAE.QueueInfo.NumCplIoQCreated) (h2 : pAE.QueueInfo.NumCplIoQCreated ≤ 65535) :
    NVMeDeleteCplQueues (fun _ => true) pAE
      = (true, some { OPC := ADMIN_DELETE_IO_COMPLETION_QUEUE,
                      CDW10 := pAE.QueueInfo.NumCplIoQCreated }) := by
  have hU : USHORT pAE.QueueInfo.NumCplIoQCreated = pAE.QueueInfo.NumCplIoQCreated := by
    unfold USHORT
    omega
  unfold NVMeDeleteCplQueues
  simp only [hU]
  rw [if_pos (by omega)]
  simp

/-- In state NVMeWaitOnReSetupQueues a round of the deletion is the case
NVMeWaitOnReSetupQueues of the callback on the issued command. -/
theorem deleteCplRound_eq (cpl : NVMe_COMPLETION_QUEUE_ENTRY) (pAE : NVME_DEVICE_EXTENSION)
    (hs : pAE.DriverState.NextDriverState = NVMeWaitOnReSetupQueues)
    (h1 : 1 ≤ pAE.QueueInfo.NumCplIoQCreated) (h2 : pAE.QueueInfo.NumCplIoQCreated ≤ 65535) :
    deleteCplRound cpl pAE
      = NVMeInitCallback.reSetupQueues pAE
          { OPC := ADMIN_DELETE_IO_COMPLETION_QUEUE, CDW10 := pAE.QueueInfo.NumCplIoQCreated }
          cpl := by
  unfold deleteCplRound
  rw [NVMeDeleteCplQueues_issues pAE h1 h2]
  unfold NVMeInitCallback NVMeCallArbiter NVMeInitCallback.dispatch
  simp only [hs]

/-- The case NVMeWaitOnReSetupQueues of the callback keeps what
NVMeDeleteQueueCallback leaves of the queue set. -/
theorem NVMeInitCallback_reSetupQueues_queues (pAE : NVME_DEVICE_EXTENSION)
    (cmd : NVMe_COMMAND) (cpl : NVMe_COMPLETION_QUEUE_ENTRY) :
    (NVMeInitCallback.reSetupQueues pAE cmd cpl).QueueInfo
      = (NVMeDeleteQueueCallback pAE cmd cpl).2.QueueInfo := by
  unfold NVMeInitCallback.reSetupQueues
  dsimp only
  rw [if_pos (NVMeDeleteQueueCallback_true pAE cmd cpl)]

/-- NVMeDeleteQueueCallback on a successful Delete IO Completion Queue
completion: the counter is decremented and head pointer and phase tag of the
queue it named are reset. -/
theorem NVMeDeleteQueueCallback_cpl_success (pAE : NVME_DEVICE_EXTENSION)
    (cmd : NVMe_COMMAND) (cpl : NVMe_COMPLETION_QUEUE_ENTRY)
    (ho : cmd.OPC = ADMIN_DELETE_IO_COMPLETION_QUEUE) (hsc : cpl.SC = 0) :
    (NVMeDeleteQueueCallback pAE cmd cpl).2.QueueInfo.NumCplIoQCreated
      = decr pAE.QueueInfo.NumCplIoQCreated ∧
    (NVMeDeleteQueueCallback pAE cmd cpl).2.QueueInfo.pCplQueueInfo
      = store {} pAE.QueueInfo.pCplQueueInfo pAE.QueueInfo.NumCplIoQCreated
          (fun c => { c with CurPhaseTag := 0, CplQHeadPtr := 0 }) := by
  unfold NVMeDeleteQueueCallback
  dsimp only
  rw [if_pos ho, if_pos hsc]
  exact ⟨rfl, rfl⟩

/-- One round of the deletion in state NVMeWaitOnReSetupQueues with `n`
created completion queues, 1 ≤ n ≤ 65535, and a successful completion:
NVMeDeleteCplQueues issues Delete IO Completion Queue for the identifier n,
the counter becomes n - 1, head pointer and phase tag of queue n are reset,
nothing else in the table of completion queues changes, and the next state is
NVMeWaitOnIoCQ at zero and NVMeWaitOnReSetupQueues otherwise. -/
theorem deleteCplRound_spec (cpl : NVMe_COMPLETION_QUEUE_ENTRY) (pAE : NVME_DEVICE_EXTENSION)
    (hs : pAE.DriverState.NextDriverState = NVMeWaitOnReSetupQueues)
    (hsc : cpl.SC = 0)
    (h1 : 1 ≤ pAE.QueueInfo.NumCplIoQCreated) (h2 : pAE.QueueInfo.NumCplIoQCreated ≤ 65535) :
    NVMeDeleteCplQueues (fun _ => true) pAE
      = (true, some { OPC := ADMIN_DELETE_IO_COMPLETION_QUEUE,
                      CDW10 := pAE.QueueInfo.NumCplIoQCreated }) ∧
    (deleteCplRound cpl pAE).QueueInfo.NumCplIoQCreated = pAE.QueueInfo.NumCplIoQCreated - 1 ∧
    (deleteCplRound cpl pAE).DriverState.NextDriverState
      = (if pAE.QueueInfo.NumCplIoQCreated = 1 then NVMeWaitOnIoCQ
         else NVMeWaitOnReSetupQueues) ∧
    (deleteCplRound cpl pAE).QueueInfo.pCplQueueInfo
      = store {} pAE.QueueInfo.pCplQueueInfo pAE.QueueInfo.NumCplIoQCreated
          (fun c => { c with CurPhaseTag := 0, CplQHeadPtr := 0 }) := by
  have hd : decr pAE.QueueInfo.NumCplIoQCreated = pAE.QueueInfo.NumCplIoQCreated - 1 := by
    unfold decr ULONG
    omega
  have hC := NVMeDeleteQueueCallback_cpl_success pAE
    { OPC := ADMIN_DELETE_IO_COMPLETION_QUEUE, CDW10 := pAE.QueueInfo.NumCplIoQCreated } cpl
    rfl hsc
  refine ⟨NVMeDeleteCplQueues_issues pAE h1 h2, ?_, ?_, ?_⟩
  · rw [deleteCplRound_eq cpl pAE hs h1 h2, NVMeInitCallback_reSetupQueues_queues, hC.1, hd]
  · rw [deleteCplRound_eq cpl pAE hs h1 h2, (NVMeInitCallback_reSetupQueues_next pAE _ cpl).1,
      hC.1, hd]
    by_cases h : pAE.QueueInfo.NumCplIoQCreated = 1
    · rw [if_pos h, if_pos (by omega)]
    · rw [if_neg h, if_neg (by omega)]
  · rw [deleteCplRound_eq cpl pAE hs h1 h2, NVMeInitCallback_reSetupQueues_queues, hC.2]

/-- C28: in state NVMeWaitOnReSetupQueues with n created completion queues,
1 ≤ n ≤ 65535 (queue identifiers are 16 bits wide), all of them in the table
of completion queues, successful Delete IO Completion Queue completions are
handled one per round.  After k ≤ n rounds the counter NumCplIoQCreated is
n - k; the queues n - k + 1 .. n, the highest created identifier of each
round, have head pointer and phase tag 0 and the other queues are as before;
while k < n the next state is NVMeWaitOnReSetupQueues and the next command of
NVMeDeleteCplQueues carries the identifier n - k; after exactly n rounds the
next state is NVMeWaitOnIoCQ and NumCplIoQCreated is 0. -/
theorem deleteCplRounds_reach_IoCQ (cpl : NVMe_COMPLETION_QUEUE_ENTRY) (hsc : cpl.SC = 0)
    (k : Nat) :
    ∀ pAE : NVME_DEVICE_EXTENSION,
      pAE.DriverState.NextDriverState = NVMeWaitOnReSetupQueues →
      1 ≤ pAE.QueueInfo.NumCplIoQCreated → pAE.QueueInfo.NumCplIoQCreated ≤ 65535 →
      pAE.QueueInfo.NumCplIoQCreated < pAE.QueueInfo.pCplQueueInfo.length →
      k ≤ pAE.QueueInfo.NumCplIoQCreated →
      (deleteCplRounds cpl k pAE).QueueInfo.NumCplIoQCreated
        = pAE.QueueInfo.NumCplIoQCreated - k ∧
      (deleteCplRounds cpl k pAE).DriverState.NextDriverState
        = (if k = pAE.QueueInfo.NumCplIoQCreated then NVMeWaitOnIoCQ
           else NVMeWaitOnReSetupQueues) ∧
      (k < pAE.QueueInfo.NumCplIoQCreated →
        NVMeDeleteCplQueues (fun _ => true) (deleteCplRounds cpl k pAE)
          = (true, some { OPC := ADMIN_DELETE_IO_COMPLETION_QUEUE,
                          CDW10 := pAE.QueueInfo.NumCplIoQCreated - k })) ∧
      (∀ q, pAE.QueueInfo.NumCplIoQCreated - k < q → q ≤ pAE.QueueInfo.NumCplIoQCreated →
        cplQ (deleteCplRounds cpl k pAE) q
          = { cplQ pAE q with CurPhaseTag := 0, CplQHeadPtr := 0 }) ∧
      (∀ q, (q ≤ pAE.QueueInfo.NumCplIoQCreated - k ∨ pAE.QueueInfo.NumCplIoQCreated < q) →
        cplQ (deleteCplRounds cpl k pAE) q = cplQ pAE q) := by
  induction k with
  | zero =>
    intro pAE hs h1 h2 _ _
    refine ⟨rfl, ?_, ?_, ?_, ?_⟩
    · rw [if_neg (by omega)]
      exact hs
    · intro _
      exact (deleteCplRound_spec cpl pAE hs hsc h1 h2).1
    · intro q hq1 hq2
      omega
    · intro q _
      rfl
  | succ k ih =>
    intro pAE hs h1 h2 hl hk
    obtain ⟨_, s2, s3, s4⟩ := deleteCplRound_spec cpl pAE hs hsc h1 h2
    have hrec : deleteCplRounds cpl (k + 1) pAE
        = deleteCplRounds cpl k (deleteCplRound cpl pAE) := rfl
    have hsame : cplQ (deleteCplRound cpl pAE) pAE.QueueInfo.NumCplIoQCreated
        = { cplQ pAE pAE.QueueInfo.NumCplIoQCreated with CurPhaseTag := 0, CplQHeadPtr := 0 } := by
      unfold cplQ
      rw [s4, load_store_same _ _ _ _ hl]
    have hother : ∀ q, q ≠ pAE.QueueInfo.NumCplIoQCreated →
        cplQ (deleteCplRound cpl pAE) q = cplQ pAE q := by
      intro q hq
      unfold cplQ
      rw [s4, load_store_other _ _ _ _ _ (Ne.symm hq)]
    by_cases hk0 : k = 0
    · subst hk0
      rw [hrec]
      change _ ∧ _ ∧ _ ∧ _ ∧ _
      simp only [deleteCplRounds]
      refine ⟨by rw [s2], ?_, ?_, ?_, ?_⟩
      · rw [s3]
        by_cases h : pAE.QueueInfo.NumCplIoQCreated = 1
        · rw [if_pos h, if_pos (by omega)]
        · rw [if_neg h, if_neg (by omega)]
      · intro hlt
        have hs1 : (deleteCplRound cpl pAE).DriverState.NextDriverState
            = NVMeWaitOnReSetupQueues := by
          rw [s3, if_neg (by omega)]
        have := (deleteCplRound_spec cpl (deleteCplRound cpl pAE) hs1 hsc
          (by rw [s2]; omega) (by rw [s2]; omega)).1
        rw [this, s2]
      · intro q hq1 hq2
        have : q = pAE.QueueInfo.NumCplIoQCreated := by omega
        rw [this]
        exact hsame
      · intro q hq
        exact hother q (by omega)
    · have hs1 : (deleteCplRound cpl pAE).DriverState.NextDriverState
          = NVMeWaitOnReSetupQueues := by
        rw [s3, if_neg (by omega)]
      have hlen : (deleteCplRound cpl pAE).QueueInfo.pCplQueueInfo.length
          = pAE.QueueInfo.pCplQueueInfo.length := by
        rw [s4, length_store]
      obtain ⟨i1, i2, i3, i4, i5⟩ := ih (deleteCplRound cpl pAE) hs1
        (by rw [s2]; omega) (by rw [s2]; omega) (by rw [s2, hlen]; omega) (by rw [s2]; omega)
      rw [s2] at i1 i2 i3 i4 i5
      rw [hrec]
      refine ⟨by rw [i1]; omega, ?_, ?_, ?_, ?_⟩
      · rw [i2]
        by_cases h : k + 1 = pAE.QueueInfo.NumCplIoQCreated
        · rw [if_pos h, if_pos (by omega)]
        · rw [if_neg h, if_neg (by omega)]
      · intro hlt
        rw [i3 (by omega)]
        have : pAE.QueueInfo.NumCplIoQCreated - 1 - k = pAE.QueueInfo.NumCplIoQCreated - (k + 1) := by
          omega
        rw [this]
      · intro q hq1 hq2
        by_cases hq : q = pAE.QueueInfo.NumCplIoQCreated
        · rw [i5 q (Or.inr (by omega)), hq]
          exact hsame
        · rw [i4 q (by omega) (by omega), hother q hq]
      · intro q hq
        rw [i5 q (by omega), hother q (by omega)]

/-- Witness of C28: the two completion queues of `reSetupDevice` are deleted
in two rounds. -/
theorem deleteCplRounds_reach_IoCQ_witness :
    (deleteCplRounds {} 2 reSetupDevice).QueueInfo.NumCplIoQCreated = 0 ∧
    (deleteCplRounds {} 2 reSetupDevice).DriverState.NextDriverState = NVMeWaitOnIoCQ ∧
    (deleteCplRounds {} 1 reSetupDevice).DriverState.NextDriverState = NVMeWaitOnReSetupQueues ∧
    (cplQ (deleteCplRounds {} 2 reSetupDevice) 1).CplQHeadPtr = 0 ∧
    (cplQ (deleteCplRounds {} 2 reSetupDevice) 2).CurPhaseTag = 0 ∧
    (cplQ (deleteCplRounds {} 2 reSetupDevice) 0).CplQHeadPtr = 9 := by
  have h := deleteCplRounds_reach_IoCQ {} (by decide) 2 reSetupDevice
    (by decide) (by decide) (by decide) (by decide) (by decide)
  refine ⟨h.1, h.2.1, by decide, ?_, ?_, ?_⟩
  · rw [h.2.2.2.1 1 (by decide) (by decide)]
  · rw [h.2.2.2.1 2 (by decide) (by decide)]
  · rw [h.2.2.2.2 0 (Or.inl (by decide))]
    decide

/-! ### C30: termination of NVMeMsiMapCores -/

/-- One iteration of the loop of NVMeMsiMapCores leaves NumActiveCores as it is. -/
theorem NVMeMsiMapCores_body_cores (pRMT : RES_MAPPING_TBL) (Core : Nat) :
    (NVMeMsiMapCores.body pRMT Core).NumActiveCores = pRMT.NumActiveCores := rfl

/-- With 256 or more active cores the loop of NVMeMsiMapCores never leaves:
its 8-bit counter stays below 256. -/
theorem NVMeMsiMapCores_loop_never (fuel : Nat) :
    ∀ (Core : Nat) (pRMT : RES_MAPPING_TBL), Core < 256 → 256 ≤ pRMT.NumActiveCores →
      NVMeMsiMapCores.loop fuel Core pRMT = none := by
  induction fuel with
  | zero => intro Core pRMT _ _; rfl
  | succ n ih =>
    intro Core pRMT hC hN
    unfold NVMeMsiMapCores.loop
    rw [if_pos (by omega)]
    apply ih
    · unfold UCHAR
      omega
    · rw [NVMeMsiMapCores_body_cores]
      exact hN

/-- With at most 255 active cores the loop of NVMeMsiMapCores, started at the
core `c` with `m` cores to go and more fuel than that, returns. -/
theorem NVMeMsiMapCores_loop_some (m : Nat) :
    ∀ (c fuel : Nat) (t : RES_MAPPING_TBL), t.NumActiveCores ≤ 255 →
      c + m = t.NumActiveCores → m < fuel →
      (NVMeMsiMapCores.loop fuel c t).isSome = true := by
  induction m with
  | zero =>
    intro c fuel t _ hcm hf
    obtain ⟨f, rfl⟩ : ∃ f, fuel = f + 1 := ⟨fuel - 1, by omega⟩
    unfold NVMeMsiMapCores.loop
    rw [if_neg (by omega)]
    rfl
  | succ m ih =>
    intro c fuel t hN hcm hf
    obtain ⟨f, rfl⟩ : ∃ f, fuel = f + 1 := ⟨fuel - 1, by omega⟩
    have hU : UCHAR (c + 1) = c + 1 := by unfold UCHAR; omega
    unfold NVMeMsiMapCores.loop
    rw [if_pos (by omega), hU]
    exact ih (c + 1) f _ (by rw [NVMeMsiMapCores_body_cores]; exact hN)
      (by rw [NVMeMsiMapCores_body_cores]; omega) (by omega)

/-- C30 as stated fails on the code: with more messages granted than active
cores, NVMeMsiMapCores returns (given more fuel than NumActiveCores) when
NumActiveCores ≤ 255, and for NumActiveCores ≥ 256 it does not return,
however many evaluations of its loop condition are allowed: the 8-bit counter
Core wraps from 255 to 0 and never reaches NumActiveCores. -/
theorem NVMeMsiMapCores_returns_iff_small (pAE : NVME_DEVICE_EXTENSION)
    (h : pAE.ResMapTbl.NumMsiMsgGranted > pAE.ResMapTbl.NumActiveCores) :
    (pAE.ResMapTbl.NumActiveCores ≤ 255 →
      ∀ fuel, pAE.ResMapTbl.NumActiveCores < fuel → (NVMeMsiMapCores fuel pAE).isSome = true) ∧
    (256 ≤ pAE.ResMapTbl.NumActiveCores → ∀ fuel, NVMeMsiMapCores fuel pAE = none) := by
  have hn : ¬ (pAE.ResMapTbl.NumMsiMsgGranted ≤ pAE.ResMapTbl.NumActiveCores) := by omega
  constructor
  · intro hN fuel hf
    unfold NVMeMsiMapCores
    rw [if_neg hn, Option.isSome_map']
    exact NVMeMsiMapCores_loop_some _ 0 fuel _ hN (by omega) hf
  · intro hN fuel
    unfold NVMeMsiMapCores
    rw [if_neg hn, NVMeMsiMapCores_loop_never fuel 0 _ (by omega) hN]
    rfl

/-- Witness of C30: with 300 active cores and 301 granted messages
NVMeMsiMapCores does not return. -/
theorem NVMeMsiMapCores_returns_iff_small_witness :
    wideCoreDevice.ResMapTbl.NumMsiMsgGranted > wideCoreDevice.ResMapTbl.NumActiveCores ∧
    ∀ fuel, NVMeMsiMapCores fuel wideCoreDevice = none :=
  ⟨by decide, (NVMeMsiMapCores_returns_iff_small wideCoreDevice (by decide)).2 (by decide)⟩

/-! ### C24 and C21: interrupt type, shared flags and message of a completion queue -/

/-- The fields Shared and MsiMsgID that NVMeInitCplQueue leaves in the
structure of queue `Q`, whatever its status for a valid queue id. -/
theorem NVMeInitCplQueue_flags (pf : Platform) (pAE : NVME_DEVICE_EXTENSION) (Q : Nat)
    (hQ : Q ≤ pAE.ResMapTbl.NumActiveCores)
    (hin : Q < pAE.QueueInfo.pCplQueueInfo.length) :
    (cplQ (NVMeInitCplQueue pf pAE Q).2 Q).Shared
      = (if Q = 0 ∨ pAE.QueueInfo.NumCplIoQAllocated < pAE.ResMapTbl.NumActiveCores
            ∨ pAE.ntldrDump = true then true else (cplQ pAE Q).Shared) ∧
    (cplQ (NVMeInitCplQueue pf pAE Q).2 Q).MsiMsgID
      = (if pAE.ResMapTbl.InterruptType = INT_TYPE_MSI
            ∨ pAE.ResMapTbl.InterruptType = INT_TYPE_MSIX then
           if pAE.ResMapTbl.NumMsiMsgGranted ≤ pAE.ResMapTbl.NumActiveCores then 0
           else if Q ≠ 0 then (coreT pAE (Q - 1)).MsiMsgID
           else (cplQ pAE Q).MsiMsgID
         else (cplQ pAE Q).MsiMsgID) := by
  have hg : ¬ (Q > pAE.ResMapTbl.NumActiveCores) := by omega
  unfold NVMeInitCplQueue
  dsimp only
  rw [if_neg hg]
  simp only [apply_ite Prod.snd, ite_self]
  refine ⟨?_, ?_⟩ <;> rw [cplQ_setCplQ_same _ _ _ hin]

/-- With five probes, the ids 0 and 1 granted and the id 2 refused, the
probing loop of NVMeEnumMsiMessages counts two messages. -/
theorem NVMeEnumMsiMessages_loop_two (pf : Platform) (pRMT : RES_MAPPING_TBL)
    (h0 : pf.MSIInfo 0 ≠ none) (h1 : pf.MSIInfo 1 ≠ none) (h2 : pf.MSIInfo 2 = none) :
    (NVMeEnumMsiMessages.loop pf 5 0 pRMT).1 = 2 := by
  obtain ⟨_, _, a3, a4, _, _, _, _⟩ := NVMeEnumMsiMessages_loop_spec pf 5 0 pRMT
  generalize (NVMeEnumMsiMessages.loop pf 5 0 pRMT).1 = g at a3 a4
  have hle : g ≤ 2 := by
    by_contra hgt
    exact a3 2 (by omega) (by omega) h2
  have hn := a4 (by omega)
  have hg0 : g ≠ 0 := fun h => h0 (by rw [← h]; exact hn)
  have hg1 : g ≠ 1 := fun h => h1 (by rw [← h]; exact hn)
  omega

/-- C24 (as amended): NVMeEnumMsiMessages with NumActiveCores = 4, on a
message table of five entries, with the platform granting the message ids 0
and 1 and refusing the id 2, counts two granted messages and yields
InterruptType = MSI (not MSI-X) with message 0 marked shared; NVMeInitCplQueue,
on every device extension with that interrupt type, that count of granted
messages and four active cores, then gives the completion queue of every
valid queue id MsiMsgID = 0. -/
theorem NVMeEnumMsiMessages_two_of_four (pf : Platform) (pAE : NVME_DEVICE_EXTENSION)
    (hN : pAE.ResMapTbl.NumActiveCores = 4)
    (hTbl : pAE.ResMapTbl.pMsiMsgTbl.length = 5)
    (h0 : pf.MSIInfo 0 ≠ none) (h1 : pf.MSIInfo 1 ≠ none) (h2 : pf.MSIInfo 2 = none) :
    (NVMeEnumMsiMessages pf pAE).2.ResMapTbl.NumMsiMsgGranted = 2 ∧
    (NVMeEnumMsiMessages pf pAE).2.ResMapTbl.InterruptType = INT_TYPE_MSI ∧
    (NVMeEnumMsiMessages pf pAE).2.ResMapTbl.NumActiveCores = 4 ∧
    (load {} (NVMeEnumMsiMessages pf pAE).2.ResMapTbl.pMsiMsgTbl 0).Shared = true ∧
    ∀ (pf1 : Platform) (pBE : NVME_DEVICE_EXTENSION) (Q : Nat),
      pBE.ResMapTbl.InterruptType = (NVMeEnumMsiMessages pf pAE).2.ResMapTbl.InterruptType →
      pBE.ResMapTbl.NumMsiMsgGranted
        = (NVMeEnumMsiMessages pf pAE).2.ResMapTbl.NumMsiMsgGranted →
      pBE.ResMapTbl.NumActiveCores = 4 →
      Q < pBE.QueueInfo.pCplQueueInfo.length →
      (NVMeInitCplQueue pf1 pBE Q).1 = STOR_STATUS_SUCCESS →
      (cplQ (NVMeInitCplQueue pf1 pBE Q).2 Q).MsiMsgID = 0 := by
  obtain ⟨_, _, _, _, _, a6, a7, a8⟩ := NVMeEnumMsiMessages_loop_spec pf
    (pAE.ResMapTbl.NumActiveCores + 1) 0 { pAE.ResMapTbl with InterruptType := INT_TYPE_MSIX }
  have hres : (NVMeEnumMsiMessages pf pAE).2.ResMapTbl
      = NVMeEnumMsiMessages.classify
          { (NVMeEnumMsiMessages.loop pf (pAE.ResMapTbl.NumActiveCores + 1) 0
              { pAE.ResMapTbl with InterruptType := INT_TYPE_MSIX }).2 with
            NumMsiMsgGranted := (NVMeEnumMsiMessages.loop pf (pAE.ResMapTbl.NumActiveCores + 1) 0
              { pAE.ResMapTbl with InterruptType := INT_TYPE_MSIX }).1 } := rfl
  have hg := NVMeEnumMsiMessages_loop_two pf
    { pAE.ResMapTbl with InterruptType := INT_TYPE_MSIX } h0 h1 h2
  rw [hN] at a6 a7 a8 hres
  rw [hres]
  generalize NVMeEnumMsiMessages.loop pf (4 + 1) 0
    { pAE.ResMapTbl with InterruptType := INT_TYPE_MSIX } = r at *
  obtain ⟨g, t⟩ := r
  simp only at a6 a7 a8 hg
  subst hg
  have hlen : 0 < ({ t with NumMsiMsgGranted := 2 } : RES_MAPPING_TBL).pMsiMsgTbl.length := by
    show 0 < t.pMsiMsgTbl.length
    rw [a8, hTbl]
    omega
  obtain ⟨c1, _, _, _, c5⟩ :=
    NVMeEnumMsiMessages_classify_spec { t with NumMsiMsgGranted := 2 } hlen
  simp only at c1 c5
  have hc := c5 (by omega) (by rw [a7]; omega)
  have hcores : (NVMeEnumMsiMessages.classify { t with NumMsiMsgGranted := 2 }).NumActiveCores
      = 4 := by
    refine Eq.trans ?_ a7
    unfold NVMeEnumMsiMessages.classify markShared
    dsimp only
    split_ifs <;> rfl
  refine ⟨c1, hc.1, hcores, hc.2, ?_⟩
  intro pf1 pBE Q hT hG hC hin hS
  rw [hc.1] at hT
  rw [c1] at hG
  have hQ : Q ≤ pBE.ResMapTbl.NumActiveCores := by
    by_contra hgt
    unfold NVMeInitCplQueue at hS
    dsimp only at hS
    rw [if_pos (by omega)] at hS
    exact STOR_STATUS.noConfusion hS
  rw [(NVMeInitCplQueue_flags pf1 pBE Q hQ hin).2, if_pos (Or.inl hT), if_pos (by omega)]

/-- C24 as stated fails: on four cores, with the platform granting the
message ids 0 and 1 and refusing the id 2, NVMeEnumMsiMessages counts two
granted messages and the interrupt type it leaves is MSI, not MSI-X. -/
theorem two_of_four_messages_not_MSIX :
    (msiPlatform 2).MSIInfo 2 = none ∧
    (NVMeEnumMsiMessages (msiPlatform 2) fourCoreMsiDevice).2.ResMapTbl.NumMsiMsgGranted = 2 ∧
    (NVMeEnumMsiMessages (msiPlatform 2) fourCoreMsiDevice).2.ResMapTbl.InterruptType
      ≠ INT_TYPE_MSIX := by
  decide

/-- Witness of C24: two of four messages on `msiPlatform 2`, and the
completion queue 3 of `sharedMsiDevice`. -/
theorem NVMeEnumMsiMessages_two_of_four_witness :
    (NVMeEnumMsiMessages (msiPlatform 2) fourCoreMsiDevice).2.ResMapTbl.InterruptType
      = INT_TYPE_MSI ∧
    (NVMeInitCplQueue plainPlatform sharedMsiDevice 3).1 = STOR_STATUS_SUCCESS ∧
    (cplQ sharedMsiDevice 3).MsiMsgID = 3 ∧
    (cplQ (NVMeInitCplQueue plainPlatform sharedMsiDevice 3).2 3).MsiMsgID = 0 := by
  have h := NVMeEnumMsiMessages_two_of_four (msiPlatform 2) fourCoreMsiDevice
    (by decide) (by decide) (by decide) (by decide) (by decide)
  exact ⟨h.2.1, by decide, by decide,
    h.2.2.2.2 plainPlatform sharedMsiDevice 3 (by decide) (by decide) (by decide) (by decide)
      (by decide)⟩

/-- The Shared flag that NVMeInitSubQueue leaves in the structure of queue
`Q`, whatever its status for a valid queue id; the counters of allocated
queues, the crash dump flag and the Shared flag of the completion queue stay. -/
theorem NVMeInitSubQueue_shared (pf : Platform) (pAE : NVME_DEVICE_EXTENSION) (Q : Nat)
    (hQ : Q ≤ pAE.ResMapTbl.NumActiveCores)
    (hin : Q < pAE.QueueInfo.pSubQueueInfo.length) :
    (subQ (NVMeInitSubQueue pf pAE Q).2 Q).Shared
      = (if Q = 0 ∨ pAE.QueueInfo.NumSubIoQAllocated < pAE.ResMapTbl.NumActiveCores
            ∨ pAE.ntldrDump = true then true else (subQ pAE Q).Shared) ∧
    (NVMeInitSubQueue pf pAE Q).2.QueueInfo.NumCplIoQAllocated
      = pAE.QueueInfo.NumCplIoQAllocated ∧
    (NVMeInitSubQueue pf pAE Q).2.ntldrDump = pAE.ntldrDump ∧
    (cplQ (NVMeInitSubQueue pf pAE Q).2 Q).Shared = (cplQ pAE Q).Shared := by
  have hg : ¬ (Q > pAE.ResMapTbl.NumActiveCores) := by omega
  have hl := (NVMeInitSubQueue_ring_layout pf pAE Q hin).2.2.1
  have r1 : (subQ (NVMeInitSubQueue.ring pf pAE Q) Q).Shared
      = (if Q = 0 ∨ pAE.QueueInfo.NumSubIoQAllocated < pAE.ResMapTbl.NumActiveCores
            ∨ pAE.ntldrDump = true then true else (subQ pAE Q).Shared) := by
    unfold NVMeInitSubQueue.ring
    dsimp only
    rw [subQ_setCplQ, subQ_setSubQ_same _ _ _ hin]
  have r2 : (NVMeInitSubQueue.ring pf pAE Q).QueueInfo.NumCplIoQAllocated
      = pAE.QueueInfo.NumCplIoQAllocated := rfl
  have r3 : (NVMeInitSubQueue.ring pf pAE Q).ntldrDump = pAE.ntldrDump := rfl
  have r4 : (cplQ (NVMeInitSubQueue.ring pf pAE Q) Q).Shared = (cplQ pAE Q).Shared := by
    unfold NVMeInitSubQueue.ring
    dsimp only
    by_cases hc : Q < pAE.QueueInfo.pCplQueueInfo.length
    · rw [cplQ_setCplQ_same _ _ _ (by simpa [setSubQ] using hc), cplQ_setSubQ]
    · unfold cplQ setCplQ store load
      simp only [setSubQ]
      rw [List.set_eq_of_length_le (by omega)]
  have p1 : (subQ (NVMeInitSubQueue.prp pf (NVMeInitSubQueue.ring pf pAE Q) Q) Q).Shared
      = (subQ (NVMeInitSubQueue.ring pf pAE Q) Q).Shared := by
    unfold NVMeInitSubQueue.prp
    rw [subQ_setSubQ_same _ _ _ (by rw [hl]; exact hin)]
  have p3 : (NVMeInitSubQueue.prp pf (NVMeInitSubQueue.ring pf pAE Q) Q).QueueInfo.pSubQueueInfo.length
      = pAE.QueueInfo.pSubQueueInfo.length := by
    unfold NVMeInitSubQueue.prp
    rw [setSubQ_length, hl]
  unfold NVMeInitSubQueue
  rw [if_neg hg]
  dsimp only
  by_cases h1 : (subQ (NVMeInitSubQueue.ring pf pAE Q) Q).SubQStart = 0
  · rw [if_pos h1]
    exact ⟨r1, r2, r3, r4⟩
  · rw [if_neg h1]
    by_cases h2 : (subQ (NVMeInitSubQueue.prp pf (NVMeInitSubQueue.ring pf pAE Q) Q) Q).PRPListStart = 0
    · rw [if_pos h2]
      exact ⟨p1.trans r1, r2, r3, r4⟩
    · rw [if_neg h2]
      dsimp only
      rw [subQ_setSubQ_same _ _ _ (by rw [p3]; exact hin)]
      exact ⟨p1.trans r1, r2, r3, r4⟩

/-- C21 (as amended): on a queue `Q` whose Shared flags are FALSE before (the
queue structures come zeroed from the pool), after NVMeInitSubQueue(Q) and
NVMeInitCplQueue(Q) have succeeded the Shared flag of the submission queue is
TRUE if and only if Q = 0, or NumSubIoQAllocated < NumActiveCores, or
ntldrDump is TRUE, and the Shared flag of the completion queue is TRUE if and
only if Q = 0, or NumCplIoQAllocated < NumActiveCores, or ntldrDump is TRUE;
queue 0 is shared after the two calls whatever its flags were before. -/
theorem shared_flag_iff (pf : Platform) (pAE : NVME_DEVICE_EXTENSION) (Q : Nat)
    (hinS : Q < pAE.QueueInfo.pSubQueueInfo.length)
    (hinC : Q < pAE.QueueInfo.pCplQueueInfo.length)
    (h1 : (NVMeInitSubQueue pf pAE Q).1 = STOR_STATUS_SUCCESS)
    (_h2 : (NVMeInitCplQueue pf (NVMeInitSubQueue pf pAE Q).2 Q).1 = STOR_STATUS_SUCCESS) :
    ((subQ pAE Q).Shared = false →
      ((subQ (NVMeInitCplQueue pf (NVMeInitSubQueue pf pAE Q).2 Q).2 Q).Shared = true ↔
        (Q = 0 ∨ pAE.QueueInfo.NumSubIoQAllocated < pAE.ResMapTbl.NumActiveCores
          ∨ pAE.ntldrDump = true))) ∧
    ((cplQ pAE Q).Shared = false →
      ((cplQ (NVMeInitCplQueue pf (NVMeInitSubQueue pf pAE Q).2 Q).2 Q).Shared = true ↔
        (Q = 0 ∨ pAE.QueueInfo.NumCplIoQAllocated < pAE.ResMapTbl.NumActiveCores
          ∨ pAE.ntldrDump = true))) ∧
    (Q = 0 →
      (subQ (NVMeInitCplQueue pf (NVMeInitSubQueue pf pAE Q).2 Q).2 Q).Shared = true ∧
      (cplQ (NVMeInitCplQueue pf (NVMeInitSubQueue pf pAE Q).2 Q).2 Q).Shared = true) := by
  have hQ : Q ≤ pAE.ResMapTbl.NumActiveCores := by
    by_contra hgt
    unfold NVMeInitSubQueue at h1
    rw [if_pos (by omega)] at h1
    exact STOR_STATUS.noConfusion h1
  obtain ⟨s1, s2, s3, s4⟩ := NVMeInitSubQueue_shared pf pAE Q hQ hinS
  obtain ⟨_, _, _, l4, l5⟩ := NVMeInitSubQueue_layout pf pAE Q hQ hinS
  have hQ1 : Q ≤ (NVMeInitSubQueue pf pAE Q).2.ResMapTbl.NumActiveCores := by rw [l5]; exact hQ
  have hin1 : Q < (NVMeInitSubQueue pf pAE Q).2.QueueInfo.pCplQueueInfo.length := by
    rw [l4]; exact hinC
  have c1 := (NVMeInitCplQueue_flags pf (NVMeInitSubQueue pf pAE Q).2 Q hQ1 hin1).1
  have c3 := (NVMeInitCplQueue_layout pf (NVMeInitSubQueue pf pAE Q).2 Q hQ1 hin1).2.2.1
  have hsub : subQ (NVMeInitCplQueue pf (NVMeInitSubQueue pf pAE Q).2 Q).2 Q
      = subQ (NVMeInitSubQueue pf pAE Q).2 Q := by
    unfold subQ
    rw [c3]
  rw [hsub, s1, c1, s2, s3, s4, l5]
  refine ⟨fun h0 => ?_, fun h0 => ?_, fun hz => ?_⟩
  · rw [h0]
    by_cases hc : Q = 0 ∨ pAE.QueueInfo.NumSubIoQAllocated < pAE.ResMapTbl.NumActiveCores
        ∨ pAE.ntldrDump = true
    · rw [if_pos hc]
      exact ⟨fun _ => hc, fun _ => rfl⟩
    · rw [if_neg hc]
      exact ⟨fun h => Bool.noConfusion h, fun h => (hc h).elim⟩
  · rw [h0]
    by_cases hc : Q = 0 ∨ pAE.QueueInfo.NumCplIoQAllocated < pAE.ResMapTbl.NumActiveCores
        ∨ pAE.ntldrDump = true
    · rw [if_pos hc]
      exact ⟨fun _ => hc, fun _ => rfl⟩
    · rw [if_neg hc]
      exact ⟨fun h => Bool.noConfusion h, fun h => (hc h).elim⟩
  · rw [if_pos (Or.inl hz), if_pos (Or.inl hz)]
    exact ⟨rfl, rfl⟩

/-- Witness of C21 (as amended): the queue pair 1 of `pairedQueueDevice false`
is not shared after the two calls. -/
theorem shared_flag_iff_witness :
    (subQ (NVMeInitCplQueue plainPlatform
        (NVMeInitSubQueue plainPlatform (pairedQueueDevice false) 1).2 1).2 1).Shared = false ∧
    (cplQ (NVMeInitCplQueue plainPlatform
        (NVMeInitSubQueue plainPlatform (pairedQueueDevice false) 1).2 1).2 1).Shared = false := by
  have h := shared_flag_iff plainPlatform (pairedQueueDevice false) 1
    (by decide) (by decide) (by decide) (by decide)
  refine ⟨?_, ?_⟩
  · have h1 := (h.1 (by decide)).not.mpr (by decide)
    exact Bool.eq_false_iff.mpr h1
  · have h1 := (h.2.1 (by decide)).not.mpr (by decide)
    exact Bool.eq_false_iff.mpr h1

/-- C21 as stated fails: on `pairedQueueDevice true`, where the Shared flags
of queue 1 are already TRUE, NVMeInitSubQueue(1) and NVMeInitCplQueue(1)
succeed and both flags are still TRUE, although queue 1 is not the admin
queue, as many IO queues are allocated as there are cores and ntldrDump is
FALSE: the two routines set the flag and never clear it. -/
theorem shared_flag_stale :
    (NVMeInitSubQueue plainPlatform (pairedQueueDevice true) 1).1 = STOR_STATUS_SUCCESS ∧
    (NVMeInitCplQueue plainPlatform
      (NVMeInitSubQueue plainPlatform (pairedQueueDevice true) 1).2 1).1 = STOR_STATUS_SUCCESS ∧
    (subQ (NVMeInitCplQueue plainPlatform
      (NVMeInitSubQueue plainPlatform (pairedQueueDevice true) 1).2 1).2 1).Shared = true ∧
    (cplQ (NVMeInitCplQueue plainPlatform
      (NVMeInitSubQueue plainPlatform (pairedQueueDevice true) 1).2 1).2 1).Shared = true ∧
    ¬ ((1 : Nat) = 0 ∨
       (pairedQueueDevice true).QueueInfo.NumSubIoQAllocated
         < (pairedQueueDevice true).ResMapTbl.NumActiveCores ∨
       (pairedQueueDevice true).ntldrDump = true) ∧
    ¬ ((1 : Nat) = 0 ∨
       (pairedQueueDevice true).QueueInfo.NumCplIoQAllocated
         < (pairedQueueDevice true).ResMapTbl.NumActiveCores ∨
       (pairedQueueDevice true).ntldrDump = true) := by
  decide

/-! ### C27: the free list is handed out in the order of the slots -/

/-- The loop of NVMeInitFreeQ over the slots `l` gives every slot of `l` that
exists its own index as CmdID and leaves the other slots as they are. -/
theorem NVMeInitFreeQ_fold_CmdID (pf : Platform) (pAE : NVME_DEVICE_EXTENSION) (l : List Nat) :
    ∀ (st : SUB_QUEUE_INFO × Nat) (i : Nat), i < st.1.CmdEntries.length →
      (i ∈ l → (load {} (l.foldl (NVMeInitFreeQ.body pf pAE) st).1.CmdEntries i).CmdInfo.CmdID
        = i) ∧
      (i ∉ l → load {} (l.foldl (NVMeInitFreeQ.body pf pAE) st).1.CmdEntries i
        = load {} st.1.CmdEntries i) := by
  induction l with
  | nil =>
    intro st i _
    exact ⟨fun h => absurd h (List.not_mem_nil i), fun _ => rfl⟩
  | cons e rest ih =>
    intro st i hi
    rw [List.foldl_cons]
    have hlen : (NVMeInitFreeQ.body pf pAE st e).1.CmdEntries.length = st.1.CmdEntries.length := by
      simp [NVMeInitFreeQ.body, length_store]
    obtain ⟨a1, a2⟩ := ih (NVMeInitFreeQ.body pf pAE st e) i (by rw [hlen]; exact hi)
    have hsame : i = e → (load {} (NVMeInitFreeQ.body pf pAE st e).1.CmdEntries i).CmdInfo.CmdID
        = i := by
      intro h
      subst h
      simp only [NVMeInitFreeQ.body]
      rw [load_store_same _ _ _ _ hi]
    have hother : i ≠ e → load {} (NVMeInitFreeQ.body pf pAE st e).1.CmdEntries i
        = load {} st.1.CmdEntries i := by
      intro h
      simp only [NVMeInitFreeQ.body]
      rw [load_store_other _ _ _ _ _ (Ne.symm h)]
    constructor
    · intro hm
      by_cases hr : i ∈ rest
      · exact a1 hr
      · rw [a2 hr]
        rcases List.mem_cons.mp hm with h | h
        · exact hsame h
        · exact absurd h hr
    · intro hm
      have hr : i ∉ rest := fun h => hm (List.mem_cons_of_mem _ h)
      have he : i ≠ e := fun h => hm (by rw [h]; exact List.mem_cons_self _ _)
      rw [a2 hr, hother he]

/-- NVMeInitSubQueue leaves the counter of created submission queues as it is. -/
theorem NVMeInitSubQueue_created (pf : Platform) (pAE : NVME_DEVICE_EXTENSION) (Q : Nat) :
    (NVMeInitSubQueue pf pAE Q).2.QueueInfo.NumSubIoQCreated
      = pAE.QueueInfo.NumSubIoQCreated := by
  unfold NVMeInitSubQueue
  by_cases hg : Q > pAE.ResMapTbl.NumActiveCores
  · rw [if_pos hg]
  · rw [if_neg hg]
    dsimp only
    split_ifs <;> rfl

/-- NVMeInitCmdEntries leaves the counter of created submission queues as it is. -/
theorem NVMeInitCmdEntries_created (pf : Platform) (pAE : NVME_DEVICE_EXTENSION) (Q : Nat) :
    (NVMeInitCmdEntries pf pAE Q).2.QueueInfo.NumSubIoQCreated
      = pAE.QueueInfo.NumSubIoQCreated := by
  unfold NVMeInitCmdEntries
  by_cases hg : Q > pAE.ResMapTbl.NumActiveCores
  · rw [if_pos hg]
  · rw [if_neg hg]
    rfl

/-- One successful NVMeGetCmdEntry hands out the slot at the head of the free
list, the lowest slot not handed out before. -/
theorem NVMeGetCmdEntry_next (Q n c j : Nat) (s : NVME_DEVICE_EXTENSION)
    (Context pCmdInfo : Nat) (hQ : Q ≤ c) (hp : pCmdInfo ≠ 0) (hj : j < n)
    (hI : HandedOut Q n c j s) :
    (NVMeGetCmdEntry s Q Context pCmdInfo).1 = STOR_STATUS_SUCCESS ∧
    (NVMeGetCmdEntry s Q Context pCmdInfo).2.1 = some j ∧
    HandedOut Q n c (j + 1) (NVMeGetCmdEntry s Q Context pCmdInfo).2.2 := by
  obtain ⟨i1, i2, i3, i4, i5⟩ := hI
  have hL : (subQ s Q).FreeQList = j :: List.range' (j + 1) (n - (j + 1)) := by
    rw [i1]
    have : n - j = (n - (j + 1)) + 1 := by omega
    rw [this, List.range'_succ]
  have hg : ¬ (Q > s.QueueInfo.NumSubIoQCreated ∨ pCmdInfo = 0) := by
    rw [i4]
    intro h
    rcases h with h | h
    · omega
    · exact hp h
  rw [NVMeGetCmdEntry_cons s Q Context pCmdInfo j _ hg hL]
  refine ⟨rfl, rfl, ?_, ?_, ?_, ?_, ?_⟩
  · dsimp only
    rw [subQ_setSubQ_same _ _ _ i5]
  · intro i hi
    dsimp only
    rw [subQ_setSubQ_same _ _ _ i5]
    dsimp only
    by_cases hij : j = i
    · subst hij
      rw [load_store_same _ _ _ _ (by rw [i3]; exact hi)]
      exact i2 j hi
    · rw [load_store_other _ _ _ _ _ hij]
      exact i2 i hi
  · dsimp only
    rw [subQ_setSubQ_same _ _ _ i5]
    dsimp only
    rw [length_store, i3]
  · exact i4
  · dsimp only
    rw [setSubQ_length]
    exact i5

/-- A run of calls of NVMeGetCmdEntry on queue `Q`, one per entry of
`contexts`, hands out the next slots in order. -/
theorem runGetCmdEntry_handedOut (Q n c pCmdInfo : Nat) (hQ : Q ≤ c) (hp : pCmdInfo ≠ 0)
    (contexts : List Nat) :
    ∀ (j : Nat) (s : NVME_DEVICE_EXTENSION), j + contexts.length ≤ n → HandedOut Q n c j s →
      HandedOut Q n c (j + contexts.length)
        (runGetCmdEntry s (contexts.map (fun x => (Q, x, pCmdInfo)))) := by
  induction contexts with
  | nil =>
    intro j s _ hI
    exact hI
  | cons x rest ih =>
    intro j s hle hI
    rw [List.length_cons] at hle
    rw [List.map_cons, runGetCmdEntry, List.length_cons]
    have h := (NVMeGetCmdEntry_next Q n c j s x pCmdInfo hQ hp (by omega) hI).2.2
    have := ih (j + 1) _ (by omega) h
    rw [show j + (rest.length + 1) = j + 1 + rest.length by omega]
    exact this

/-- NVMeInitCmdEntries for a valid queue id inside the table leaves the queue
as NVMeInitFreeQ builds it from its cleared structure. -/
theorem NVMeInitCmdEntries_subQ (pf : Platform) (pAE : NVME_DEVICE_EXTENSION) (Q : Nat)
    (hQ : Q ≤ pAE.ResMapTbl.NumActiveCores)
    (hin : Q < pAE.QueueInfo.pSubQueueInfo.length) :
    subQ (NVMeInitCmdEntries pf pAE Q).2 Q
      = NVMeInitFreeQ pf
          { subQ pAE Q with
            pCmdEntry := (cplQ pAE Q).pCplQStart
              + (subQ pAE Q).SubQEntries * sizeof_NVMe_COMPLETION_QUEUE_ENTRY,
            CmdEntries := List.replicate (subQ pAE Q).SubQEntries {} }
          (NVMeInitCmdEntries.clear pAE Q) := by
  have hg : ¬ (Q > pAE.ResMapTbl.NumActiveCores) := by omega
  have hQ2 : Q < (NVMeInitCmdEntries.clear pAE Q).QueueInfo.pSubQueueInfo.length := by
    unfold NVMeInitCmdEntries.clear
    rw [setSubQ_length]
    exact hin
  have hc : subQ (NVMeInitCmdEntries.clear pAE Q) Q =
      { subQ pAE Q with
        pCmdEntry := (cplQ pAE Q).pCplQStart
          + (subQ pAE Q).SubQEntries * sizeof_NVMe_COMPLETION_QUEUE_ENTRY,
        CmdEntries := List.replicate (subQ pAE Q).SubQEntries {} } := by
    unfold NVMeInitCmdEntries.clear
    rw [subQ_setSubQ_same _ _ _ hin]
  unfold NVMeInitCmdEntries
  rw [if_neg hg]
  dsimp only
  rw [subQ_setSubQ_same _ _ _ hQ2, hc]

/-- NVMeInitFreeQ on a queue with SubQEntries command entries gives every slot
its index as CmdID. -/
theorem NVMeInitFreeQ_CmdID (pf : Platform) (pAE : NVME_DEVICE_EXTENSION) (q : SUB_QUEUE_INFO)
    (hC : q.CmdEntries.length = q.SubQEntries) (i : Nat) (hi : i < q.SubQEntries) :
    (load {} (NVMeInitFreeQ pf q pAE).CmdEntries i).CmdInfo.CmdID = i := by
  unfold NVMeInitFreeQ
  exact (NVMeInitFreeQ_fold_CmdID pf pAE (List.range q.SubQEntries) (q, q.pPRPListStart) i
    (by rw [hC]; exact hi)).1 (List.mem_range.mpr hi)

/-- C27: after NVMeInitSubQueue has succeeded on a queue `Q` inside the table
of queues, NVMeInitCmdEntries succeeds; with n = SubQEntries the free list is
then 0, 1, .., n - 1 (each slot once, in increasing order) and slot i carries
CmdID i.  When `Q` is not above the number of created queues and pCmdInfo is
not NULL, after any k - 1 < n calls of NVMeGetCmdEntry on that queue (their
Context arguments being `contexts`) the k-th call succeeds and returns the
slot k - 1, whose CmdID is k - 1. -/
theorem free_list_first_in_first_out (pf : Platform) (pAE : NVME_DEVICE_EXTENSION)
    (Q pCmdInfo : Nat)
    (hin : Q < pAE.QueueInfo.pSubQueueInfo.length)
    (h1 : (NVMeInitSubQueue pf pAE Q).1 = STOR_STATUS_SUCCESS)
    (hC : Q ≤ pAE.QueueInfo.NumSubIoQCreated) (hp : pCmdInfo ≠ 0) :
    (NVMeInitCmdEntries pf (NVMeInitSubQueue pf pAE Q).2 Q).1 = STOR_STATUS_SUCCESS ∧
    (subQ (initQueue pf pAE Q) Q).FreeQList
      = List.range (subQ (initQueue pf pAE Q) Q).SubQEntries ∧
    (∀ i, i < (subQ (initQueue pf pAE Q) Q).SubQEntries →
      (load {} (subQ (initQueue pf pAE Q) Q).CmdEntries i).CmdInfo.CmdID = i) ∧
    ∀ (contexts : List Nat) (Context : Nat),
      contexts.length < (subQ (initQueue pf pAE Q) Q).SubQEntries →
      (NVMeGetCmdEntry
        (runGetCmdEntry (initQueue pf pAE Q) (contexts.map (fun x => (Q, x, pCmdInfo))))
        Q Context pCmdInfo).1 = STOR_STATUS_SUCCESS ∧
      (NVMeGetCmdEntry
        (runGetCmdEntry (initQueue pf pAE Q) (contexts.map (fun x => (Q, x, pCmdInfo))))
        Q Context pCmdInfo).2.1 = some contexts.length ∧
      (load {} (subQ
        (runGetCmdEntry (initQueue pf pAE Q) (contexts.map (fun x => (Q, x, pCmdInfo)))) Q).CmdEntries
        contexts.length).CmdInfo.CmdID = contexts.length := by
  obtain ⟨f1, f2, f3⟩ := NVMeInitSubQueue_facts pf pAE Q hin
  obtain ⟨v1, v2, v3, v4⟩ := initQueue_inv pf pAE Q hin h1
  have hQ1 : Q ≤ (NVMeInitSubQueue pf pAE Q).2.ResMapTbl.NumActiveCores := by
    rw [f2]
    exact (f3 h1).1
  have hin1 : Q < (NVMeInitSubQueue pf pAE Q).2.QueueInfo.pSubQueueInfo.length := by
    rw [f1]
    exact hin
  have hs := NVMeInitCmdEntries_subQ pf (NVMeInitSubQueue pf pAE Q).2 Q hQ1 hin1
  have hid : ∀ i, i < (subQ (initQueue pf pAE Q) Q).SubQEntries →
      (load {} (subQ (initQueue pf pAE Q) Q).CmdEntries i).CmdInfo.CmdID = i := by
    intro i hi
    have hn : (subQ (initQueue pf pAE Q) Q).SubQEntries
        = (subQ (NVMeInitSubQueue pf pAE Q).2 Q).SubQEntries := by
      unfold initQueue
      rw [hs]
      exact (NVMeInitFreeQ_fold pf _ _ _).2.1
    unfold initQueue
    rw [hs]
    apply NVMeInitFreeQ_CmdID
    · simp
    · rw [← hn]
      exact hi
  have hcr : (initQueue pf pAE Q).QueueInfo.NumSubIoQCreated
      = pAE.QueueInfo.NumSubIoQCreated := by
    unfold initQueue
    rw [NVMeInitCmdEntries_created, NVMeInitSubQueue_created]
  have hI0 : HandedOut Q (subQ (initQueue pf pAE Q) Q).SubQEntries
      pAE.QueueInfo.NumSubIoQCreated 0 (initQueue pf pAE Q) := by
    refine ⟨?_, hid, v4.1, hcr, by rw [v2]; exact hin⟩
    rw [v3, List.range_eq_range', Nat.sub_zero]
  refine ⟨v1, v3, hid, ?_⟩
  intro contexts Context hk
  have hI := runGetCmdEntry_handedOut Q _ _ pCmdInfo hC hp contexts 0 _ (by omega) hI0
  rw [Nat.zero_add] at hI
  have hn := NVMeGetCmdEntry_next Q _ _ contexts.length _ Context pCmdInfo hC hp hk hI
  exact ⟨hn.1, hn.2.1, hI.2.1 _ hk⟩

/-- Witness of C27: queue 1 of `freshQueueDevice` has four slots; its free
list is 0, 1, 2, 3 and the third call of NVMeGetCmdEntry returns slot 2. -/
theorem free_list_first_in_first_out_witness :
    (subQ (initQueue plainPlatform freshQueueDevice 1) 1).FreeQList = [0, 1, 2, 3] ∧
    (NVMeGetCmdEntry
      (runGetCmdEntry (initQueue plainPlatform freshQueueDevice 1) [(1, 10, 4096), (1, 11, 4096)])
      1 12 4096).2.1 = some 2 := by
  have h := free_list_first_in_first_out plainPlatform freshQueueDevice 1 4096
    (by decide) (by decide) (by decide) (by decide)
  exact ⟨by decide, (h.2.2.2 [10, 11] 12 (by decide)).2.1⟩

/-! ### C29: the PRP lists and the region allocated for them -/

/-- C29, evaluation at the failing input.  With PRP lists of 256 bytes (16 to
a page) and a queue of 64 entries, NVMeAllocQueues allocates 64 / 16 + 1 = 5
pages for the lists; the allocator returns the base 2097168, which is not
page aligned, so the region is [2097168, 2117648) and NVMeInitSubQueue sets
pPRPListStart to 2101248.  NVMeInitFreeQ gives slot 0 the list at
pPRPListStart + 256, slot 48 the list at 2117632, of which only the first 16
bytes are inside the region, and slot 63 the list at 2121472, which lies
wholly behind the region. -/
theorem prpList_overruns_allocation :
    (buildQueue plainPlatform 56 0 narrowListDevice 1 64 0).1
      = [STOR_STATUS_SUCCESS, STOR_STATUS_SUCCESS, STOR_STATUS_SUCCESS, STOR_STATUS_SUCCESS] ∧
    PAGE_SIZE % narrowListDevice.PRPListSize = 0 ∧
    (subQ (buildQueue plainPlatform 56 0 narrowListDevice 1 64 0).2 1).SubQEntries = 64 ∧
    (subQ (buildQueue plainPlatform 56 0 narrowListDevice 1 64 0).2 1).NumPRPListOnePage = 16 ∧
    (subQ (buildQueue plainPlatform 56 0 narrowListDevice 1 64 0).2 1).pPRPListAlloc = 2097168 ∧
    (subQ (buildQueue plainPlatform 56 0 narrowListDevice 1 64 0).2 1).PRPListAllocSize
      = (64 / 16 + 1) * PAGE_SIZE ∧
    (subQ (buildQueue plainPlatform 56 0 narrowListDevice 1 64 0).2 1).pPRPListStart = 2101248 ∧
    (load {} (subQ (buildQueue plainPlatform 56 0 narrowListDevice 1 64 0).2 1).CmdEntries 0
      ).CmdInfo.pPRPList = 2101248 + 256 ∧
    (load {} (subQ (buildQueue plainPlatform 56 0 narrowListDevice 1 64 0).2 1).CmdEntries 48
      ).CmdInfo.pPRPList = 2117632 ∧
    (load {} (subQ (buildQueue plainPlatform 56 0 narrowListDevice 1 64 0).2 1).CmdEntries 63
      ).CmdInfo.pPRPList = 2121472 ∧
    ¬ ((load {} (subQ (buildQueue plainPlatform 56 0 narrowListDevice 1 64 0).2 1).CmdEntries 48
          ).CmdInfo.pPRPList + narrowListDevice.PRPListSize
        ≤ (subQ (buildQueue plainPlatform 56 0 narrowListDevice 1 64 0).2 1).pPRPListAlloc
          + (subQ (buildQueue plainPlatform 56 0 narrowListDevice 1 64 0).2 1).PRPListAllocSize) ∧
    (subQ (buildQueue plainPlatform 56 0 narrowListDevice 1 64 0).2 1).pPRPListAlloc
        + (subQ (buildQueue plainPlatform 56 0 narrowListDevice 1 64 0).2 1).PRPListAllocSize
      ≤ (load {} (subQ (buildQueue plainPlatform 56 0 narrowListDevice 1 64 0).2 1).CmdEntries 63
          ).CmdInfo.pPRPList := by
  decide

/-- Two lists at addresses of the closed form, the first of a lower slot, do
not overlap: the first ends before the second starts. -/
theorem prpListGood_ordered (start S N i j a b : Nat) (hdiv : N * S = PAGE_SIZE)
    (hij : i < j) (ha : prpListGood start S N i a) (hb : prpListGood start S N j b) :
    a + S ≤ b := by
  obtain ⟨q1, r1, e1, hr1, ha⟩ := ha
  obtain ⟨q2, r2, e2, hr2, hb⟩ := hb
  unfold PAGE_SIZE at *
  have m1 : (r1 + 1) * S = r1 * S + S := Nat.succ_mul r1 S
  have m2 : (r2 + 1) * S = r2 * S + S := Nat.succ_mul r2 S
  have b1 : (r1 + 1) * S ≤ N * S := Nat.mul_le_mul_right S (by omega)
  have hq : q1 ≤ q2 := by
    by_contra hgt
    have h1 : N * (q2 + 1) ≤ N * q1 := Nat.mul_le_mul_left N (by omega)
    rw [Nat.mul_add, Nat.mul_one] at h1
    omega
  by_cases hqq : q1 = q2
  · subst hqq
    have hr : r1 + 1 ≤ r2 := by omega
    have b2 : (r1 + 1) * S ≤ r2 * S := Nat.mul_le_mul_right S hr
    by_cases h0 : q1 = 0
    · rw [if_pos h0] at ha hb
      omega
    · rw [if_neg h0] at ha hb
      omega
  · have hlt : q1 < q2 := by omega
    rw [if_neg (by omega)] at hb
    by_cases h0 : q1 = 0
    · rw [if_pos h0] at ha
      omega
    · rw [if_neg h0] at ha
      omega

/-- A list at an address of the closed form, of a slot below `n`, lies inside
the pages that NVMeAllocQueues counts for `n` slots plus one, taken from the
page-aligned start of the pool. -/
theorem prpListGood_inside (start S N n i a : Nat) (hS : 0 < S) (hdiv : N * S = PAGE_SIZE)
    (hi : i < n) (ha : prpListGood start S N i a) :
    start ≤ a ∧
    a + S ≤ start + ((if n % N ≠ 0 then n / N + 1 else n / N) + 1) * PAGE_SIZE := by
  obtain ⟨q, r, e, hr, ha⟩ := ha
  have hN : 0 < N := by omega
  have hqn : q + 1 ≤ (if n % N ≠ 0 then n / N + 1 else n / N) := by
    have h1 : q ≤ n / N := by
      rw [Nat.le_div_iff_mul_le hN, Nat.mul_comm]
      omega
    by_cases hm : n % N ≠ 0
    · rw [if_pos hm]
      omega
    · rw [if_neg hm]
      have hm0 : n % N = 0 := by omega
      have h2 : N * (n / N) = n := Nat.mul_div_cancel' (Nat.dvd_of_mod_eq_zero hm0)
      by_contra hle
      have h3 : n / N = q := by omega
      rw [h3] at h2
      omega
  have hpages : (q + 1 + 1) * PAGE_SIZE
      ≤ ((if n % N ≠ 0 then n / N + 1 else n / N) + 1) * PAGE_SIZE :=
    Nat.mul_le_mul_right _ (by omega)
  generalize (if n % N ≠ 0 then n / N + 1 else n / N) = c at hqn hpages ⊢
  unfold PAGE_SIZE at *
  have m1 : (r + 1) * S = r * S + S := Nat.succ_mul r S
  have b1 : (r + 1) * S ≤ N * S := Nat.mul_le_mul_right S (by omega)
  have hSle : S ≤ N * S := Nat.le_mul_of_pos_left S hN
  by_cases h0 : q = 0
  · rw [if_pos h0] at ha
    subst h0
    omega
  · rw [if_neg h0] at ha
    omega

/-- The PRP lists that NVMeInitFreeQ assigns when PRPListSize divides the page
size and the pool starts at a page-aligned address (as it does when the
allocator returns a page-aligned base): on a queue with SubQEntries command
entries and NumPRPListOnePage = PAGE_SIZE / PRPListSize, the list of every slot
i < SubQEntries lies inside the NumPageToAlloc + 1 pages from pPRPListStart,
and the lists of distinct slots do not overlap. -/
theorem prpList_inside_of_aligned (pf : Platform) (pAE : NVME_DEVICE_EXTENSION)
    (pSQI : SUB_QUEUE_INFO)
    (hS : 0 < pAE.PRPListSize)
    (hdvd : PAGE_SIZE % pAE.PRPListSize = 0)
    (hN : pSQI.NumPRPListOnePage = PAGE_SIZE / pAE.PRPListSize)
    (hstart : pSQI.pPRPListStart % PAGE_SIZE = 0)
    (hlen : pSQI.CmdEntries.length = pSQI.SubQEntries) :
    (∀ i, i < pSQI.SubQEntries →
      pSQI.pPRPListStart ≤ (load {} (NVMeInitFreeQ pf pSQI pAE).CmdEntries i).CmdInfo.pPRPList ∧
      (load {} (NVMeInitFreeQ pf pSQI pAE).CmdEntries i).CmdInfo.pPRPList + pAE.PRPListSize
        ≤ pSQI.pPRPListStart
          + ((if pSQI.SubQEntries % pSQI.NumPRPListOnePage ≠ 0
              then pSQI.SubQEntries / pSQI.NumPRPListOnePage + 1
              else pSQI.SubQEntries / pSQI.NumPRPListOnePage) + 1) * PAGE_SIZE) ∧
    (∀ i j, i < j → j < pSQI.SubQEntries →
      (load {} (NVMeInitFreeQ pf pSQI pAE).CmdEntries i).CmdInfo.pPRPList + pAE.PRPListSize
        ≤ (load {} (NVMeInitFreeQ pf pSQI pAE).CmdEntries j).CmdInfo.pPRPList) := by
  have hdiv : pSQI.NumPRPListOnePage * pAE.PRPListSize = PAGE_SIZE := by
    rw [hN]
    exact Nat.div_mul_cancel (Nat.dvd_of_mod_eq_zero hdvd)
  have h := (NVMeInitFreeQ_prpList pf pAE pSQI hS hdiv hstart pSQI.SubQEntries
    (by rw [hlen])).2.2.2.2
  constructor
  · intro i hi
    exact prpListGood_inside _ _ _ _ _ _ hS hdiv hi (h i hi)
  · intro i j hij hj
    exact prpListGood_ordered _ _ _ _ _ _ _ hdiv hij (h i (by omega)) (h j hj)

/-! ### C23: the core table -/

/-- C23, evaluation at the failing input.  On two processor groups of 36
processors each NVMeEnumNumaCores returns TRUE with NumActiveCores = 72 and a
core table of 72 entries.  The processors of node 1 (group 1) have the core
numbers 64 .. 99, and the routine stores their entries at the indices 64 ..
99: the indices 72 .. 99 are outside the table, so no entry of the table has
the CoreNum 99, and the entries 36 .. 63, which no processor has written, all
hold CoreNum 0 like entry 0. -/
theorem core_table_indexed_by_core_number :
    (NVMeEnumNumaCores twoGroupPlatform 0 blankDevice).1 = true ∧
    (NVMeEnumNumaCores twoGroupPlatform 0 blankDevice).2.1.ResMapTbl.NumActiveCores = 72 ∧
    (NVMeEnumNumaCores twoGroupPlatform 0 blankDevice).2.1.ResMapTbl.pCoreTbl.length = 72 ∧
    (load {} (NVMeEnumNumaCores twoGroupPlatform 0 blankDevice).2.1.ResMapTbl.pNumaNodeTbl 1
      ).GroupAffinity.Group = 1 ∧
    (load {} (NVMeEnumNumaCores twoGroupPlatform 0 blankDevice).2.1.ResMapTbl.pNumaNodeTbl 1
      ).FirstCoreNum = 64 ∧
    (load {} (NVMeEnumNumaCores twoGroupPlatform 0 blankDevice).2.1.ResMapTbl.pNumaNodeTbl 1
      ).LastCoreNum = 99 ∧
    (∀ i, i < 72 →
      (coreT (NVMeEnumNumaCores twoGroupPlatform 0 blankDevice).2.1 i).CoreNum ≠ 1 * 64 + 35) ∧
    (coreT (NVMeEnumNumaCores twoGroupPlatform 0 blankDevice).2.1 0).CoreNum = 0 ∧
    (coreT (NVMeEnumNumaCores twoGroupPlatform 0 blankDevice).2.1 36).CoreNum = 0 ∧
    (coreT (NVMeEnumNumaCores twoGroupPlatform 0 blankDevice).2.1 63).CoreNum = 0 := by
  decide

/-! ### C22: number of active processors -/

/-- The count of the set bits below `w + 1` is the lowest bit plus the count of
the set bits below `w` of the half. -/
theorem countP_testBit_succ (w n : Nat) :
    (List.range (w + 1)).countP (fun b => n.testBit b)
      = n % 2 + (List.range w).countP (fun b => (n / 2).testBit b) := by
  rw [List.range_succ_eq_map, List.countP_cons, List.countP_map]
  have h1 : ((fun b => n.testBit b) ∘ Nat.succ) = (fun b => (n / 2).testBit b) := by
    funext b
    simp [Nat.testBit_succ]
  rw [h1, Nat.testBit_zero]
  rcases Nat.mod_two_eq_zero_or_one n with h | h
  · simp [h]
  · simp [h]
    omega

/-- Clearing the lowest set bit, as `Mask & (Mask - 1)` does, lowers the count
of the set bits by one. -/
theorem countP_testBit_clear_lowest (w : Nat) :
    ∀ n, n ≠ 0 → n < 2 ^ w →
      (List.range w).countP (fun b => (n &&& (n - 1)).testBit b) + 1
        = (List.range w).countP (fun b => n.testBit b) := by
  induction w with
  | zero =>
    intro n h0 hlt
    simp at hlt
    omega
  | succ w ih =>
    intro n h0 hlt
    rw [countP_testBit_succ, countP_testBit_succ]
    have hmod : (n &&& (n - 1)) % 2 = 0 := by
      have h := Nat.testBit_zero (n &&& (n - 1))
      rw [Nat.testBit_and, Nat.testBit_zero, Nat.testBit_zero] at h
      rcases Nat.mod_two_eq_zero_or_one (n &&& (n - 1)) with h2 | h2
      · exact h2
      · rw [h2] at h
        simp at h
        omega
    have hdiv : (n &&& (n - 1)) / 2 = (n / 2) &&& ((n - 1) / 2) := by
      apply Nat.eq_of_testBit_eq
      intro i
      rw [← Nat.testBit_succ, Nat.testBit_and, Nat.testBit_and, Nat.testBit_succ,
        Nat.testBit_succ]
    rw [hmod, hdiv]
    rcases Nat.mod_two_eq_zero_or_one n with h | h
    · have hn2 : n / 2 ≠ 0 := by omega
      have hlt2 : n / 2 < 2 ^ w := by
        rw [Nat.pow_succ] at hlt
        omega
      have hd : (n - 1) / 2 = n / 2 - 1 := by omega
      rw [hd, h]
      have := ih (n / 2) hn2 hlt2
      omega
    · have hd : (n - 1) / 2 = n / 2 := by omega
      rw [hd, Nat.and_self, h]
      omega

/-- The loop of NVMeActiveProcessorCount, with fuel for every value the mask
can take, adds the number of set bits of the mask to the count. -/
theorem NVMeActiveProcessorCount_loop_spec (fuel : Nat) :
    ∀ Mask Count, Mask ≤ fuel → Mask < 2 ^ 64 → Count + popcount Mask < 65536 →
      NVMeActiveProcessorCount.loop fuel Mask Count = Count + popcount Mask := by
  induction fuel with
  | zero =>
    intro Mask Count hle _ _
    have : Mask = 0 := by omega
    subst this
    unfold NVMeActiveProcessorCount.loop popcount
    simp
  | succ fuel ih =>
    intro Mask Count hle hlt hc
    unfold NVMeActiveProcessorCount.loop
    by_cases h0 : Mask = 0
    · rw [if_pos h0, h0]
      unfold popcount
      simp
    · rw [if_neg h0]
      have hstep : popcount (Mask &&& (Mask - 1)) + 1 = popcount Mask :=
        countP_testBit_clear_lowest 64 Mask h0 hlt
      have hand : Mask &&& (Mask - 1) ≤ Mask - 1 := Nat.and_le_right
      have hU : USHORT (Count + 1) = Count + 1 := by
        unfold USHORT
        omega
      rw [hU, ih _ _ (by omega) (by omega) (by omega)]
      omega

/-- NVMeActiveProcessorCount returns the number of set bits of every 64-bit
mask. -/
theorem NVMeActiveProcessorCount_spec (Mask : Nat) (h : Mask < 2 ^ 64) :
    NVMeActiveProcessorCount Mask = popcount Mask := by
  have hle : popcount Mask ≤ 64 := by
    unfold popcount
    have := List.countP_le_length (fun b => Mask.testBit b) (l := List.range 64)
    simpa using this
  unfold NVMeActiveProcessorCount
  rw [NVMeActiveProcessorCount_loop_spec Mask Mask 0 (le_refl _) h (by omega), Nat.zero_add]

/-- A loop with early return over two lists in a row. -/
theorem forLoop_append {R S : Type} (body : S → Nat → Flow R S) (l1 l2 : List Nat) :
    ∀ s, forLoop body (l1 ++ l2) s
      = (match forLoop body l1 s with
         | Flow.ret r => Flow.ret r
         | Flow.next s1 => forLoop body l2 s1) := by
  induction l1 with
  | nil => intro s; rfl
  | cons a rest ih =>
    intro s
    rw [List.cons_append, forLoop, forLoop]
    cases body s a with
    | ret r => rfl
    | next s1 => exact ih s1

/-- A property that every step keeps holds after a fold. -/
theorem foldl_keeps {σ α : Type} (f : σ → α → σ) (P : σ → Prop)
    (h : ∀ s a, P s → P (f s a)) (l : List α) : ∀ s, P s → P (l.foldl f s) := by
  induction l with
  | nil => intro s hs; exact hs
  | cons a rest ih => intro s hs; exact ih _ (h s a hs)

/-- A field that the update keeps is the same after a store, at every index. -/
theorem load_store_field {α β : Type} (d : α) (tbl : List α) (i j : Nat) (f : α → α)
    (g : α → β) (hf : ∀ x, g (f x) = g x) :
    g (load d (store d tbl i f) j) = g (load d tbl j) := by
  by_cases hij : i = j
  · subst hij
    by_cases hi : i < tbl.length
    · rw [load_store_same _ _ _ _ hi, hf]
    · have : store d tbl i f = tbl := by
        unfold store
        exact List.set_eq_of_length_le (by omega)
      rw [this]
  · rw [load_store_other _ _ _ _ _ hij]

theorem SameCounts_refl (t : RES_MAPPING_TBL) : SameCounts t t :=
  ⟨rfl, rfl, rfl, fun _ => ⟨rfl, rfl⟩⟩

theorem SameCounts_trans (t t1 t2 : RES_MAPPING_TBL) (h1 : SameCounts t t1)
    (h2 : SameCounts t1 t2) : SameCounts t t2 :=
  ⟨h2.1.trans h1.1, h2.2.1.trans h1.2.1, h2.2.2.1.trans h1.2.2.1,
    fun j => ⟨(h2.2.2.2 j).1.trans (h1.2.2.2 j).1, (h2.2.2.2 j).2.trans (h1.2.2.2 j).2⟩⟩

/-- A store to the node table that keeps NumCores and GroupAffinity keeps the
core counts. -/
theorem SameCounts_store (t : RES_MAPPING_TBL) (i : Nat) (f : NUMA_NODE_TBL → NUMA_NODE_TBL)
    (tbl : List CORE_TBL)
    (h1 : ∀ x, (f x).NumCores = x.NumCores) (h2 : ∀ x, (f x).GroupAffinity = x.GroupAffinity) :
    SameCounts t { t with pCoreTbl := tbl, pNumaNodeTbl := store {} t.pNumaNodeTbl i f } :=
  ⟨rfl, rfl, length_store _ _ _ _, fun _ =>
    ⟨load_store_field _ _ _ _ _ (fun (x : NUMA_NODE_TBL) => x.NumCores) h1,
     load_store_field _ _ _ _ _ (fun (x : NUMA_NODE_TBL) => x.GroupAffinity) h2⟩⟩

/-- One bit of the second loop of NVMeEnumNumaCores keeps the core counts. -/
theorem NVMeEnumNumaCores_bit_counts (Node BaseCoreNum : Nat)
    (st : RES_MAPPING_TBL × Bool × Nat) (Bit : Nat) :
    SameCounts st.1 (NVMeEnumNumaCores.bit Node BaseCoreNum st Bit).1 := by
  unfold NVMeEnumNumaCores.bit
  dsimp only
  split
  · by_cases hF : st.2.1 = false
    · rw [if_pos hF]
      have a := SameCounts_store st.1 Node
        (fun n => { n with FirstCoreNum := USHORT (BaseCoreNum + Bit) }) st.1.pCoreTbl
        (fun _ => rfl) (fun _ => rfl)
      have b := SameCounts_store
        { st.1 with pCoreTbl := st.1.pCoreTbl,
                    pNumaNodeTbl := store {} st.1.pNumaNodeTbl Node
                      (fun n => { n with FirstCoreNum := USHORT (BaseCoreNum + Bit) }) }
        Node (fun n => { n with LastCoreNum := USHORT (BaseCoreNum + Bit) })
        (store {} st.1.pCoreTbl (USHORT (BaseCoreNum + Bit))
          (fun c => { c with CoreNum := USHORT (BaseCoreNum + Bit), NumaNode := USHORT Node,
                             Group := (load {} st.1.pNumaNodeTbl Node).GroupAffinity.Group }))
        (fun _ => rfl) (fun _ => rfl)
      exact SameCounts_trans _ _ _ a b
    · rw [if_neg hF]
      exact SameCounts_store st.1 Node
        (fun n => { n with LastCoreNum := USHORT (BaseCoreNum + Bit) }) _
        (fun _ => rfl) (fun _ => rfl)
  · exact SameCounts_refl _

/-- The bits of one node in the second loop of NVMeEnumNumaCores keep the
core counts. -/
theorem NVMeEnumNumaCores_bits_counts (t : RES_MAPPING_TBL) (Node BaseCoreNum : Nat)
    (l : List Nat) (s : RES_MAPPING_TBL × Bool × Nat) (h : SameCounts t s.1) :
    SameCounts t (l.foldl (NVMeEnumNumaCores.bit Node BaseCoreNum) s).1 := by
  refine foldl_keeps _ (fun (s : RES_MAPPING_TBL × Bool × Nat) => SameCounts t s.1) ?_ _ _ h
  intro s b hs
  exact SameCounts_trans _ _ _ hs (NVMeEnumNumaCores_bit_counts _ _ s b)

/-- One node of the second loop of NVMeEnumNumaCores: the mapping table and
the total that the loop over the bits of the node leaves. -/
theorem NVMeEnumNumaCores_node_eq (st : RES_MAPPING_TBL × Nat) (Node : Nat) :
    ∃ R : RES_MAPPING_TBL × Bool × Nat,
      NVMeEnumNumaCores.node st Node = (R.1, R.2.2) ∧
      R = (List.range MaxNumCoresInGroup).foldl
          (NVMeEnumNumaCores.bit Node
            (USHORT ((load {} st.1.pNumaNodeTbl Node).GroupAffinity.Group * MaxNumCoresInGroup)))
          ({ st.1 with
              pNumaNodeTbl :=
                store {} st.1.pNumaNodeTbl Node
                  (fun n => { n with
                    FirstCoreNum :=
                      USHORT ((load {} st.1.pNumaNodeTbl Node).GroupAffinity.Group
                        * MaxNumCoresInGroup),
                    LastCoreNum :=
                      USHORT ((load {} st.1.pNumaNodeTbl Node).GroupAffinity.Group
                        * MaxNumCoresInGroup) }) }, false, st.2) :=
  ⟨_, rfl, rfl⟩

/-- One node of the second loop of NVMeEnumNumaCores keeps the core counts. -/
theorem NVMeEnumNumaCores_node_counts (st : RES_MAPPING_TBL × Nat) (Node : Nat) :
    SameCounts st.1 (NVMeEnumNumaCores.node st Node).1 := by
  obtain ⟨R, h1, h2⟩ := NVMeEnumNumaCores_node_eq st Node
  rw [h1]
  show SameCounts st.1 R.1
  rw [h2]
  apply NVMeEnumNumaCores_bits_counts
  exact SameCounts_store st.1 Node _ st.1.pCoreTbl (fun _ => rfl) (fun _ => rfl)

/-- The second loop of NVMeEnumNumaCores keeps the core counts. -/
theorem NVMeEnumNumaCores_nodes_counts (l : List Nat) (st : RES_MAPPING_TBL × Nat) :
    SameCounts st.1 (l.foldl NVMeEnumNumaCores.node st).1 := by
  refine foldl_keeps _ (fun (s : RES_MAPPING_TBL × Nat) => SameCounts st.1 s.1) ?_ _ _
    (SameCounts_refl _)
  intro s b hs
  exact SameCounts_trans _ _ _ hs (NVMeEnumNumaCores_node_counts s b)

/-- The first loop of NVMeEnumNumaCores over the nodes 0 .. m - 1 of a node
table that has these entries, when it runs to its end: every node visited has
the affinity the platform reports and the number of set bits of its mask as
NumCores, and NumActiveCores has grown by the sum of these numbers. -/
theorem NVMeEnumNumaCores_count_spec (pf : Platform)
    (hM : ∀ n ga, pf.NodeAffinity n = some ga → ga.Mask < 2 ^ 64) (m : Nat) :
    ∀ t0 t : RES_MAPPING_TBL, m ≤ t0.pNumaNodeTbl.length →
      forLoop (NVMeEnumNumaCores.count pf) (List.range m) t0 = Flow.next t →
      t.NumNumaNodes = t0.NumNumaNodes ∧
      t.pNumaNodeTbl.length = t0.pNumaNodeTbl.length ∧
      (∀ i, i < m →
        pf.NodeAffinity i = some (load {} t.pNumaNodeTbl i).GroupAffinity ∧
        (load {} t.pNumaNodeTbl i).NumCores
          = popcount (load {} t.pNumaNodeTbl i).GroupAffinity.Mask) ∧
      t.NumActiveCores = t0.NumActiveCores
        + ((List.range m).map (fun i => (load {} t.pNumaNodeTbl i).NumCores)).sum := by
  induction m with
  | zero =>
    intro t0 t _ h
    have : t = t0 := by
      simp only [List.range_zero, forLoop] at h
      exact (Flow.next.inj h).symm
    subst this
    exact ⟨rfl, rfl, fun i hi => by omega, by simp⟩
  | succ m ih =>
    intro t0 t hlen h
    rw [List.range_succ, forLoop_append] at h
    cases hfl : forLoop (NVMeEnumNumaCores.count pf) (List.range m) t0 with
    | ret r =>
      rw [hfl] at h
      exact Flow.noConfusion h
    | next t1 =>
      rw [hfl] at h
      obtain ⟨a1, a2, a3, a4⟩ := ih t0 t1 (by omega) hfl
      simp only [forLoop] at h
      cases hA : pf.NodeAffinity m with
      | none =>
        simp only [NVMeEnumNumaCores.count, hA] at h
        exact Flow.noConfusion h
      | some ga =>
        simp only [NVMeEnumNumaCores.count, hA] at h
        have ht := (Flow.next.inj h).symm
        have hm1 : m < t1.pNumaNodeTbl.length := by omega
        have htbl : t.pNumaNodeTbl = store {} t1.pNumaNodeTbl m
            (fun n => { n with NumCores := NVMeActiveProcessorCount ga.Mask,
                               GroupAffinity := ga }) := by
          rw [ht]
        have hcores : t.NumActiveCores
            = t1.NumActiveCores + NVMeActiveProcessorCount ga.Mask := by
          rw [ht]
        have hnodes : t.NumNumaNodes = t1.NumNumaNodes := by
          rw [ht]
        have hsame : load {} t.pNumaNodeTbl m
            = { load {} t1.pNumaNodeTbl m with
                NumCores := NVMeActiveProcessorCount ga.Mask, GroupAffinity := ga } := by
          rw [htbl]
          exact load_store_same _ _ _ _ hm1
        have hother : ∀ i, i ≠ m → load {} t.pNumaNodeTbl i = load {} t1.pNumaNodeTbl i := by
          intro i hi
          rw [htbl]
          exact load_store_other _ _ _ _ _ (Ne.symm hi)
        have hsum : ((List.range m).map (fun i => (load {} t.pNumaNodeTbl i).NumCores))
            = ((List.range m).map (fun i => (load {} t1.pNumaNodeTbl i).NumCores)) := by
          apply List.map_congr_left
          intro i hi
          rw [hother i (by rw [List.mem_range] at hi; omega)]
        refine ⟨hnodes.trans a1, ?_, ?_, ?_⟩
        · rw [htbl, length_store]
          exact a2
        · intro i hi
          by_cases him : i = m
          · subst him
            rw [hsame]
            exact ⟨hA, NVMeActiveProcessorCount_spec ga.Mask (hM i ga hA)⟩
          · rw [hother i him]
            exact a3 i (by omega)
        · have hN : (load {} t.pNumaNodeTbl m).NumCores = NVMeActiveProcessorCount ga.Mask := by
            rw [hsame]
          rw [List.range_succ, List.map_append, List.sum_append, hsum]
          simp only [List.map_cons, List.map_nil, List.sum_cons, List.sum_nil]
          rw [hN, hcores, a4]
          omega

/-- When NVMeEnumNumaCores returns TRUE its first loop has run to its end and
the mapping table it leaves is the one its second loop leaves. -/
theorem NVMeEnumNumaCores_true (pf : Platform) (pool : Nat) (pAE : NVME_DEVICE_EXTENSION)
    (h : (NVMeEnumNumaCores pf pool pAE).1 = true) :
    ∃ (t3 : RES_MAPPING_TBL) (tbl : List CORE_TBL),
      forLoop (NVMeEnumNumaCores.count pf) (List.range (pf.HighestNodeNumber + 1))
        { pAE.ResMapTbl with
          NumNumaNodes := pf.HighestNodeNumber + 1,
          pNumaNodeTbl := List.replicate (pf.HighestNodeNumber + 1) {} } = Flow.next t3 ∧
      (NVMeEnumNumaCores pf pool pAE).2.1.ResMapTbl
        = ((List.range t3.NumNumaNodes).foldl NVMeEnumNumaCores.node
            ({ t3 with pCoreTbl := tbl }, 0)).1 := by
  unfold NVMeEnumNumaCores at h ⊢
  dsimp only at h ⊢
  by_cases ha1 : (NVMeAllocatePool pf pool (pf.HighestNodeNumber + 1)).1 = false
  · rw [if_pos ha1] at h
    exact Bool.noConfusion h
  · rw [if_neg ha1] at h ⊢
    generalize hfl : forLoop (NVMeEnumNumaCores.count pf) _ _ = fl at h ⊢
    cases fl with
    | ret r =>
      exact Bool.noConfusion h
    | next t3 =>
      dsimp only at h ⊢
      by_cases ha2 : (NVMeAllocatePool pf (NVMeAllocatePool pf pool (pf.HighestNodeNumber + 1)).2
          t3.NumActiveCores).1 = false
      · rw [if_pos ha2] at h
        exact Bool.noConfusion h
      · rw [if_neg ha2] at h ⊢
        refine ⟨t3, List.replicate t3.NumActiveCores {}, rfl, ?_⟩
        generalize List.foldl NVMeEnumNumaCores.node _ _ = r at h ⊢
        split_ifs at h ⊢
        rfl

/-- C22: NVMeActiveProcessorCount returns the number of set bits of Mask for
every 64-bit Mask (its loop ends: the embedding gives it fuel for every value
the mask can take and the result does not depend on more).  Consequently,
when NVMeEnumNumaCores starts from NumActiveCores = 0 on a platform whose
affinity masks are 64 bits wide and returns TRUE, every NUMA node has the
affinity the platform reports, NumCores is the number of set bits of its mask,
and NumActiveCores is the sum of NumCores over all nodes. -/
theorem NVMeEnumNumaCores_core_counts (pf : Platform) (pool : Nat) (pAE : NVME_DEVICE_EXTENSION)
    (h0 : pAE.ResMapTbl.NumActiveCores = 0)
    (hM : ∀ n ga, pf.NodeAffinity n = some ga → ga.Mask < 2 ^ 64) :
    (∀ Mask, Mask < 2 ^ 64 → NVMeActiveProcessorCount Mask = popcount Mask) ∧
    ((NVMeEnumNumaCores pf pool pAE).1 = true →
      (NVMeEnumNumaCores pf pool pAE).2.1.ResMapTbl.NumNumaNodes = pf.HighestNodeNumber + 1 ∧
      (∀ Node, Node < pf.HighestNodeNumber + 1 →
        pf.NodeAffinity Node
          = some (load {} (NVMeEnumNumaCores pf pool pAE).2.1.ResMapTbl.pNumaNodeTbl Node
              ).GroupAffinity ∧
        (load {} (NVMeEnumNumaCores pf pool pAE).2.1.ResMapTbl.pNumaNodeTbl Node).NumCores
          = popcount (load {} (NVMeEnumNumaCores pf pool pAE).2.1.ResMapTbl.pNumaNodeTbl Node
              ).GroupAffinity.Mask) ∧
      (NVMeEnumNumaCores pf pool pAE).2.1.ResMapTbl.NumActiveCores
        = ((List.range (pf.HighestNodeNumber + 1)).map (fun Node =>
            (load {} (NVMeEnumNumaCores pf pool pAE).2.1.ResMapTbl.pNumaNodeTbl Node).NumCores)
          ).sum) := by
  refine ⟨NVMeActiveProcessorCount_spec, fun h => ?_⟩
  obtain ⟨t3, tbl, hfl, hres⟩ := NVMeEnumNumaCores_true pf pool pAE h
  obtain ⟨c1, _, c3, c4⟩ := NVMeEnumNumaCores_count_spec pf hM (pf.HighestNodeNumber + 1) _ t3
    (by simp) hfl
  obtain ⟨s1, s2, _, s4⟩ := NVMeEnumNumaCores_nodes_counts (List.range t3.NumNumaNodes)
    ({ t3 with pCoreTbl := tbl }, 0)
  rw [hres]
  generalize (List.foldl NVMeEnumNumaCores.node
    (({ t3 with pCoreTbl := tbl } : RES_MAPPING_TBL), 0) (List.range t3.NumNumaNodes)).1 = t
    at s1 s2 s4
  have e1 : ∀ j, (load {} t.pNumaNodeTbl j).NumCores = (load {} t3.pNumaNodeTbl j).NumCores :=
    fun j => (s4 j).1
  have e2 : ∀ j, (load {} t.pNumaNodeTbl j).GroupAffinity
      = (load {} t3.pNumaNodeTbl j).GroupAffinity := fun j => (s4 j).2
  refine ⟨s2.trans c1, ?_, ?_⟩
  · intro Node hN
    rw [e1, e2]
    exact c3 Node hN
  · simp only [e1]
    rw [s1]
    show t3.NumActiveCores = _
    rw [c4]
    show pAE.ResMapTbl.NumActiveCores + _ = _
    rw [h0, Nat.zero_add]

/-- The affinity masks of `plainPlatform` are 64 bits wide. -/
theorem plainPlatform_masks :
    ∀ n ga, plainPlatform.NodeAffinity n = some ga → ga.Mask < 2 ^ 64 := by
  intro n ga h
  unfold plainPlatform at h
  dsimp only at h
  split_ifs at h <;> cases h <;> decide

/-- Witness of C22: the mask 0b1100 has two set bits, and on `plainPlatform`
(two nodes of two cores each) NumActiveCores is the sum of the two counts. -/
theorem NVMeEnumNumaCores_core_counts_witness :
    NVMeActiveProcessorCount 12 = popcount 12 ∧
    (NVMeEnumNumaCores plainPlatform 0 blankDevice).2.1.ResMapTbl.NumActiveCores
      = ((List.range (plainPlatform.HighestNodeNumber + 1)).map (fun Node =>
          (load {} (NVMeEnumNumaCores plainPlatform 0 blankDevice).2.1.ResMapTbl.pNumaNodeTbl Node
            ).NumCores)).sum :=
  have h := NVMeEnumNumaCores_core_counts plainPlatform 0 blankDevice (by decide)
    plainPlatform_masks
  ⟨h.1 12 (by decide), (h.2 (by decide)).2.2⟩

end NvmeInit
